import Mathlib

/-!
# IPv6 data structures of the 6LoWPAN-ND host (`nd-opt/uip-ds6.c`)

A shallow embedding of the fixed-size tables of `uip-ds6.c` (neighbour cache,
default-router list, prefix list, address lists, registration list, context
table, routing table) and of the functions that operate on them, followed by
theorems about those functions.

Conventions of the embedding.

* A table is a `List` of entries; the number of slots is the length of the
  list and never changes.  A C pointer into a table is the index of the slot,
  a nullable pointer is an `Option Nat` (`none` is `NULL`).
* The file-scope scratch pointers (`locreg`, `locnbr`, `locdefrt`, ...) are
  loop cursors and temporaries; they are local values here.
* The `u8_t` flags `isused`, `isinfinite` and `sending_rs` only ever hold 0 or
  1 and are `Bool`; counters are `Nat` with an explicit `% 256` where the C
  code increments or decrements them.
* The host profile is embedded (`UIP_CONF_ROUTER` is 0).  The context table
  may be empty, which is the build without `CONF_6LOWPAN_ND_6CO`.
* Packet output (`uip_nd6_ns_output`, `uip_nd6_rs_output`) is external to the
  file; a call is recorded by appending a `Packet` to the `output` trace and
  is assumed not to touch the tables.
* Dereferencing a null or dangling pointer is undefined in C.  The embedding
  reads `none` through such a pointer and drops a write through it; theorems
  that depend on such a read or write carry the validity of the pointer as a
  hypothesis.
-/

namespace Ds6

/-! ## Addresses -/

/-- An IPv6 address, the sixteen bytes `u8[0..15]` of `uip_ipaddr_t` in network order. -/
structure uip_ipaddr_t where
  u8 : List Nat
  len_eq : u8.length = 16
  byte_lt : ∀ b ∈ u8, b < 256
  deriving DecidableEq

/-- The unspecified address `::` (also the content of a zeroed slot). -/
def uip_ipaddr_zero : uip_ipaddr_t :=
  ⟨[0, 0, 0, 0, 0, 0, 0, 0, 0, 0, 0, 0, 0, 0, 0, 0], by decide, by decide⟩

instance : Inhabited uip_ipaddr_t := ⟨uip_ipaddr_zero⟩

/-- A link-layer address, an opaque string of bytes (`uip_lladdr_t.addr`). -/
structure uip_lladdr_t where
  addr : List Nat
  deriving DecidableEq, Inhabited

/-- The eight bits of a byte, most significant first. -/
def byte_bits (b : Nat) : List Nat :=
  [b / 128 % 2, b / 64 % 2, b / 32 % 2, b / 16 % 2, b / 8 % 2, b / 4 % 2, b / 2 % 2, b % 2]

/-- The 128 bits of an address, most significant first. -/
def addr_bits (a : uip_ipaddr_t) : List Nat :=
  a.u8.flatMap byte_bits

/-- Modelled from the spec: the macro `uip_ipaddr_prefixcmp` of `net/uip.h`, which is
not in the repository.  The spec (4.1) has it compare the two addresses bitwise on
the full 128 bits truncated to `length` bits. -/
def uip_ipaddr_prefixcmp (addr1 addr2 : uip_ipaddr_t) (length : Nat) : Bool :=
  decide ((addr_bits addr1).take length = (addr_bits addr2).take length)

/-! ## Clock and timers -/

/-- The platform for one invocation: the clock readings, the value drawn by
`random_rand()`, and the constants of `uip-nd6.h` and of the platform, none of which
is defined in the repository. -/
structure Env where
  clock_time : Nat
  clock_seconds : Nat
  random_rand : Nat
  CLOCK_SECOND : Nat
  UIP_LLADDR_LEN : Nat
  UIP_ND6_MAX_UNICAST_SOLICIT : Nat
  UIP_ND6_REGISTRATION_LIFETIME : Nat
  UIP_ND6_MAX_RTR_SOLICITATIONS : Nat
  UIP_ND6_RTR_SOLICITATION_INTERVAL : Nat
  UIP_ND6_MAX_RTR_SOLICITATION_INTERVAL : Nat

/-- Modelled from the spec: `struct timer` of `sys/timer.h` (not in the repository), a
one-shot timer in clock ticks that is polled against the monotonic tick counter. -/
structure timer where
  start : Nat
  interval : Nat
  deriving DecidableEq, Inhabited

/-- Modelled from the spec: `struct stimer` of `sys/stimer.h` (not in the repository), a
one-shot timer in seconds that is polled against the seconds counter. -/
structure stimer where
  start : Nat
  interval : Nat
  deriving DecidableEq, Inhabited

/-- Subtraction of 32-bit unsigned values (`unsigned long` on the targets). -/
def sub32 (a b : Nat) : Nat :=
  (a % 4294967296 + 4294967296 - b % 4294967296) % 4294967296

/-- Modelled from the spec: `timer_set` arms the timer at the current tick. -/
def timer_set (env : Env) (interval : Nat) : timer :=
  { start := env.clock_time, interval := interval }

/-- Modelled from the spec: `timer_restart` re-arms the timer with its interval. -/
def timer_restart (env : Env) (t : timer) : timer :=
  { t with start := env.clock_time }

/-- Modelled from the spec: `timer_reset` moves the start by one interval. -/
def timer_reset (t : timer) : timer :=
  { t with start := t.start + t.interval }

/-- Modelled from the spec: `timer_expired`, true once `interval` ticks have elapsed. -/
def timer_expired (env : Env) (t : timer) : Bool :=
  decide (t.interval ≤ sub32 env.clock_time t.start)

/-- Modelled from the spec: `stimer_set` arms the timer at the current second. -/
def stimer_set (env : Env) (interval : Nat) : stimer :=
  { start := env.clock_seconds, interval := interval }

/-- Modelled from the spec: `stimer_expired`, true once `interval` seconds have
elapsed since `start` (the difference taken in 32-bit unsigned arithmetic). -/
def stimer_expired (env : Env) (t : stimer) : Bool :=
  decide (sub32 env.clock_seconds (t.start + t.interval) < 2147483647)

/-- Modelled from the spec: `stimer_remaining`, the seconds left before expiry
(32-bit unsigned arithmetic). -/
def stimer_remaining (env : Env) (t : stimer) : Nat :=
  sub32 (t.start + t.interval) env.clock_seconds

/-- Modelled from the spec: `stimer_elapsed`, the seconds since the timer was armed. -/
def stimer_elapsed (env : Env) (t : stimer) : Nat :=
  sub32 env.clock_seconds t.start

/-! ## Constants of `uip-ds6.h` -/

def UIP_DS6_LIFETIME_THRESHOLD : Nat := 60
def UIP_DS6_GARBAGE_COLLECTIBLE_REG_LIFETIME : Nat := 20
def UIP_DS6_TENTATIVE_REG_LIFETIME : Nat := 20

def REG_GARBAGE_COLLECTIBLE : Nat := 0
def REG_TENTATIVE : Nat := 1
def REG_REGISTERED : Nat := 2
def REG_TO_BE_UNREGISTERED : Nat := 3

def NBR_INCOMPLETE : Nat := 0
def NBR_REACHABLE : Nat := 1
def NBR_STALE : Nat := 2
def NBR_DELAY : Nat := 3
def NBR_PROBE : Nat := 4

def ADDR_TENTATIVE : Nat := 0
def ADDR_PREFERRED : Nat := 1
def ADDR_DEPRECATED : Nat := 2

def FOUND : Nat := 0
def FREESPACE : Nat := 1
def NOSPACE : Nat := 2

/-- The states of a context (`uip_ds6_context_state_t`). -/
inductive uip_ds6_context_state_t where
  | NOT_IN_USE
  | IN_USE_UNCOMPRESS_ONLY
  | IN_USE_COMPRESS
  | EXPIRED
  deriving DecidableEq, Inhabited

/-! ## Table entries -/

/-- An entry of the neighbour cache. -/
structure uip_ds6_nbr_t where
  isused : Bool
  ipaddr : uip_ipaddr_t
  lladdr : uip_lladdr_t
  reachable : stimer
  last_lookup : Nat
  sendns : stimer
  nscount : Nat
  isrouter : Nat
  state : Nat
  deriving DecidableEq, Inhabited

/-- An entry of the default-router list. -/
structure uip_ds6_defrt_t where
  isused : Bool
  ipaddr : uip_ipaddr_t
  lifetime : stimer
  isinfinite : Bool
  sending_rs : Bool
  rscount : Nat
  registrations : Nat
  deriving DecidableEq, Inhabited

/-- An entry of the prefix list (host build); `defrt` points into the default-router list. -/
structure uip_ds6_prefix_t where
  isused : Bool
  ipaddr : uip_ipaddr_t
  length : Nat
  vlifetime : stimer
  isinfinite : Bool
  defrt : Option Nat
  deriving DecidableEq, Inhabited

/-- A unicast address; `defrt` points into the default-router list. -/
structure uip_ds6_addr_t where
  isused : Bool
  ipaddr : uip_ipaddr_t
  state : Nat
  type : Nat
  isinfinite : Bool
  vlifetime : stimer
  defrt : Option Nat
  deriving DecidableEq, Inhabited

/-- An anycast address. -/
structure uip_ds6_aaddr_t where
  isused : Bool
  ipaddr : uip_ipaddr_t
  deriving DecidableEq, Inhabited

/-- A multicast address. -/
structure uip_ds6_maddr_t where
  isused : Bool
  ipaddr : uip_ipaddr_t
  deriving DecidableEq, Inhabited

/-- A 6LoWPAN-ND registration; `addr` points into the unicast address list and
`defrt` into the default-router list. -/
structure uip_ds6_reg_t where
  isused : Bool
  state : Nat
  addr : Option Nat
  defrt : Option Nat
  reg_lifetime : stimer
  registration_timer : timer
  reg_count : Nat
  deriving DecidableEq, Inhabited

/-- An address context; the field `prefix` of the C structure is `prefix_`. -/
structure uip_ds6_addr_context_t where
  state : uip_ds6_context_state_t
  length : Nat
  context_id : Nat
  prefix_ : uip_ipaddr_t
  vlifetime : stimer
  defrt : Option Nat
  defrt_lifetime : Nat
  deriving DecidableEq, Inhabited

/-- An entry of the routing table (the per-route protocol state block is not used
by this file and is left out). -/
structure uip_ds6_route_t where
  isused : Bool
  ipaddr : uip_ipaddr_t
  length : Nat
  metric : Nat
  nexthop : uip_ipaddr_t
  deriving DecidableEq, Inhabited

/-- The interface structure; `registration_in_progress` points into the registration list. -/
structure uip_ds6_netif_t where
  link_mtu : Nat
  cur_hop_limit : Nat
  base_reachable_time : Nat
  reachable_time : Nat
  retrans_timer : Nat
  registration_in_progress : Option Nat
  addr_list : List uip_ds6_addr_t
  aaddr_list : List uip_ds6_aaddr_t
  maddr_list : List uip_ds6_maddr_t
  deriving DecidableEq, Inhabited

/-- A call of one of the two output primitives.  `ns src dest tgt aro lifetime` is
`uip_nd6_ns_output(src, dest, tgt, aro, lifetime)` and `rs target` is
`uip_nd6_rs_output(target)`; an address argument is `none` for `NULL`. -/
inductive Packet where
  | ns (src dest tgt : Option uip_ipaddr_t) (aro lifetime : Nat)
  | rs (target : Option uip_ipaddr_t)
  deriving DecidableEq

/-- The file-scope variables of `uip-ds6.c` together with the trace of output calls. -/
structure uip_ds6_state where
  uip_ds6_if : uip_ds6_netif_t
  uip_ds6_nbr_cache : List uip_ds6_nbr_t
  uip_ds6_reg_list : List uip_ds6_reg_t
  uip_ds6_addr_context_table : List uip_ds6_addr_context_t
  uip_ds6_defrt_list : List uip_ds6_defrt_t
  uip_ds6_prefix_list : List uip_ds6_prefix_t
  uip_ds6_routing_table : List uip_ds6_route_t
  uip_ds6_timer_rs : timer
  rscount : Nat
  uip_ds6_timer_periodic : timer
  output : List Packet
  deriving DecidableEq

/-- A counted loop `for (i = 0; i < n; i++) body(i)` threading a value through the body. -/
def for_loop {σ : Type} (body : σ → Nat → σ) : Nat → σ → σ
  | 0, init => init
  | k + 1, init => body (for_loop body k init) k

/-! ## The generic scan -/

/-- The loop of `uip_ds6_list_loop` from slot `i` on, `out` being `*out_element`. -/
def uip_ds6_list_loop_from {α : Type} (isused : α → Bool) (ipaddr : α → uip_ipaddr_t)
    (target : uip_ipaddr_t) (ipaddrlen : Nat) : List α → Nat → Option Nat → Nat × Option Nat
  | [], _, out => if out.isSome then (FREESPACE, out) else (NOSPACE, none)
  | element :: rest, i, out =>
    if isused element then
      if uip_ipaddr_prefixcmp (ipaddr element) target ipaddrlen then
        (FOUND, some i)
      else
        uip_ds6_list_loop_from isused ipaddr target ipaddrlen rest (i + 1) out
    else
      uip_ds6_list_loop_from isused ipaddr target ipaddrlen rest (i + 1) (some i)

/-- The scan `uip_ds6_list_loop` over a table whose entries start with the generic
header (`isused`, `ipaddr`): the result code and `*out_element`. -/
def uip_ds6_list_loop {α : Type} (isused : α → Bool) (ipaddr : α → uip_ipaddr_t)
    (list : List α) (target : uip_ipaddr_t) (ipaddrlen : Nat) : Nat × Option Nat :=
  uip_ds6_list_loop_from isused ipaddr target ipaddrlen list 0 none

/-! ## Routing table -/

/-- The loop of `uip_ds6_route_lookup` from slot `i` on, with the running
`longestmatch` and `locrt`. -/
def uip_ds6_route_lookup_from (destipaddr : uip_ipaddr_t) :
    List uip_ds6_route_t → Nat → Nat → Option Nat → Option Nat
  | [], _, _, locrt => locrt
  | locroute :: rest, i, longestmatch, locrt =>
    if locroute.isused && decide (locroute.length ≥ longestmatch)
        && uip_ipaddr_prefixcmp destipaddr locroute.ipaddr locroute.length then
      uip_ds6_route_lookup_from destipaddr rest (i + 1) locroute.length (some i)
    else
      uip_ds6_route_lookup_from destipaddr rest (i + 1) longestmatch locrt

/-- The function `uip_ds6_route_lookup`: the slot of the chosen route, or `none`. -/
def uip_ds6_route_lookup (s : uip_ds6_state) (destipaddr : uip_ipaddr_t) : Option Nat :=
  uip_ds6_route_lookup_from destipaddr s.uip_ds6_routing_table 0 0 none

/-! ## Slot updates -/

/-- A write through a pointer to slot `i`: the entry is replaced by `f` of itself;
nothing happens when `i` is not a slot of the table. -/
def update_slot {α : Type} (l : List α) (i : Nat) (f : α → α) : List α :=
  match l[i]? with
  | some e => l.set i (f e)
  | none => l

/-- The address of the default router a pointer refers to. -/
def defrt_ipaddr (s : uip_ds6_state) (defrt : Option Nat) : Option uip_ipaddr_t :=
  (defrt.bind (fun d => s.uip_ds6_defrt_list[d]?)).map (fun e => e.ipaddr)

/-- The address of the unicast address entry a pointer refers to. -/
def addr_ipaddr (s : uip_ds6_state) (addr : Option Nat) : Option uip_ipaddr_t :=
  (addr.bind (fun a => s.uip_ds6_if.addr_list[a]?)).map (fun e => e.ipaddr)

/-- A call of `uip_nd6_ns_output`. -/
def uip_nd6_ns_output (s : uip_ds6_state) (src dest tgt : Option uip_ipaddr_t)
    (aro lifetime : Nat) : uip_ds6_state :=
  { s with output := s.output ++ [Packet.ns src dest tgt aro lifetime] }

/-- A call of `uip_nd6_rs_output`. -/
def uip_nd6_rs_output (s : uip_ds6_state) (target : Option uip_ipaddr_t) : uip_ds6_state :=
  { s with output := s.output ++ [Packet.rs target] }

/-! ## Neighbour cache: removal and lookup -/

/-- The function `uip_ds6_nbr_rm`. -/
def uip_ds6_nbr_rm (s : uip_ds6_state) (nbr : Option Nat) : uip_ds6_state :=
  match nbr with
  | some n =>
    { s with uip_ds6_nbr_cache :=
        update_slot s.uip_ds6_nbr_cache n (fun e => { e with isused := false }) }
  | none => s

/-- The function `uip_ds6_nbr_lookup`. -/
def uip_ds6_nbr_lookup (s : uip_ds6_state) (ipaddr : uip_ipaddr_t) : Option Nat :=
  let r := uip_ds6_list_loop (fun e => e.isused) (fun e => e.ipaddr) s.uip_ds6_nbr_cache ipaddr 128
  if r.1 = FOUND then r.2 else none

/-! ## Default-router list -/

/-- The function `uip_ds6_defrt_rm`. -/
def uip_ds6_defrt_rm (s : uip_ds6_state) (defrt : Option Nat) : uip_ds6_state :=
  match defrt with
  | some d =>
    { s with uip_ds6_defrt_list :=
        update_slot s.uip_ds6_defrt_list d (fun e => { e with isused := false }) }
  | none => s

/-- The function `uip_ds6_defrt_lookup`. -/
def uip_ds6_defrt_lookup (s : uip_ds6_state) (ipaddr : uip_ipaddr_t) : Option Nat :=
  let r := uip_ds6_list_loop (fun e => e.isused) (fun e => e.ipaddr) s.uip_ds6_defrt_list ipaddr 128
  if r.1 = FOUND then r.2 else none

/-- The loop of `uip_ds6_defrt_choose` from slot `i` on; `locipaddr` is the router
remembered so far.  The result is the slot whose `ipaddr` field the C function
returns a pointer to. -/
def uip_ds6_defrt_choose_from (s : uip_ds6_state) :
    List uip_ds6_defrt_t → Nat → Option Nat → Option Nat
  | [], _, locipaddr => locipaddr
  | locdefrt :: rest, i, locipaddr =>
    if locdefrt.isused then
      match (uip_ds6_nbr_lookup s locdefrt.ipaddr).bind (fun n => s.uip_ds6_nbr_cache[n]?) with
      | some bestnbr =>
        if bestnbr.state ≠ NBR_INCOMPLETE then some i
        else uip_ds6_defrt_choose_from s rest (i + 1) (some i)
      | none => uip_ds6_defrt_choose_from s rest (i + 1) (some i)
    else
      uip_ds6_defrt_choose_from s rest (i + 1) locipaddr

/-- The function `uip_ds6_defrt_choose`. -/
def uip_ds6_defrt_choose (s : uip_ds6_state) : Option Nat :=
  uip_ds6_defrt_choose_from s s.uip_ds6_defrt_list 0 none

/-! ## Registration list -/

/-- The candidate search of `uip_ds6_reg_add` from slot `i` on. -/
def uip_ds6_reg_add_candidate : List uip_ds6_reg_t → Nat → Option Nat → Option Nat
  | [], _, candidate => candidate
  | locreg :: rest, i, candidate =>
    if !locreg.isused then some i
    else if locreg.state = REG_GARBAGE_COLLECTIBLE then
      uip_ds6_reg_add_candidate rest (i + 1) (some i)
    else
      uip_ds6_reg_add_candidate rest (i + 1) candidate

/-- The function `uip_ds6_reg_add`: the new state and the slot of the registration. -/
def uip_ds6_reg_add (env : Env) (s : uip_ds6_state) (addr defrt : Option Nat) (state : Nat) :
    uip_ds6_state × Option Nat :=
  match uip_ds6_reg_add_candidate s.uip_ds6_reg_list 0 none with
  | some candidate =>
    let fill : uip_ds6_reg_t → uip_ds6_reg_t := fun c =>
      { isused := true, addr := addr, defrt := defrt, state := state,
        registration_timer := timer_set env 0, reg_count := 0,
        reg_lifetime :=
          if state = REG_GARBAGE_COLLECTIBLE then
            stimer_set env UIP_DS6_GARBAGE_COLLECTIBLE_REG_LIFETIME
          else if state = REG_TENTATIVE then
            stimer_set env UIP_DS6_TENTATIVE_REG_LIFETIME
          else c.reg_lifetime }
    let s1 := { s with uip_ds6_reg_list := update_slot s.uip_ds6_reg_list candidate fill }
    let s2 :=
      match defrt with
      | some d =>
        { s1 with
          uip_ds6_defrt_list :=
            update_slot s1.uip_ds6_defrt_list d
              (fun e => { e with registrations := (e.registrations + 1) % 256 }) }
      | none => s1
    (s2, some candidate)
  | none => (s, none)

/-- The function `uip_ds6_reg_rm`. -/
def uip_ds6_reg_rm (s : uip_ds6_state) (reg : Nat) : uip_ds6_state :=
  match s.uip_ds6_reg_list[reg]? with
  | some r =>
    let s1 :=
      match r.defrt with
      | some d =>
        { s with
          uip_ds6_defrt_list :=
            update_slot s.uip_ds6_defrt_list d
              (fun e => { e with registrations := (e.registrations + 255) % 256 }) }
      | none => s
    { s1 with uip_ds6_reg_list :=
        update_slot s1.uip_ds6_reg_list reg (fun e => { e with isused := false }) }
  | none => s

/-- The loop of `uip_ds6_reg_lookup`. -/
def uip_ds6_reg_lookup_from (addr defrt : Option Nat) : List uip_ds6_reg_t → Nat → Option Nat
  | [], _ => none
  | reg :: rest, i =>
    if reg.isused && decide (reg.addr = addr) && decide (reg.defrt = defrt) then some i
    else uip_ds6_reg_lookup_from addr defrt rest (i + 1)

/-- The function `uip_ds6_reg_lookup`. -/
def uip_ds6_reg_lookup (s : uip_ds6_state) (addr defrt : Option Nat) : Option Nat :=
  uip_ds6_reg_lookup_from addr defrt s.uip_ds6_reg_list 0

/-- The body of the loop of `uip_ds6_reg_cleanup_defrt`. -/
def uip_ds6_reg_cleanup_defrt_step (defrt : Option Nat) (s : uip_ds6_state) (i : Nat) :
    uip_ds6_state :=
  match s.uip_ds6_reg_list[i]? with
  | some reg => if reg.isused && decide (reg.defrt = defrt) then uip_ds6_reg_rm s i else s
  | none => s

/-- The function `uip_ds6_reg_cleanup_defrt`. -/
def uip_ds6_reg_cleanup_defrt (s : uip_ds6_state) (defrt : Option Nat) : uip_ds6_state :=
  for_loop (uip_ds6_reg_cleanup_defrt_step defrt) s.uip_ds6_reg_list.length s

/-- The body of the loop of `uip_ds6_reg_cleanup_addr`. -/
def uip_ds6_reg_cleanup_addr_step (addr : Option Nat) (s : uip_ds6_state) (i : Nat) :
    uip_ds6_state :=
  match s.uip_ds6_reg_list[i]? with
  | some reg =>
    if reg.isused && decide (reg.addr = addr) then
      if reg.state ≠ REG_REGISTERED then uip_ds6_reg_rm s i
      else
        { s with
          uip_ds6_reg_list :=
            update_slot s.uip_ds6_reg_list i (fun e => { e with state := REG_TO_BE_UNREGISTERED }) }
    else s
  | none => s

/-- The function `uip_ds6_reg_cleanup_addr`. -/
def uip_ds6_reg_cleanup_addr (s : uip_ds6_state) (addr : Option Nat) : uip_ds6_state :=
  for_loop (uip_ds6_reg_cleanup_addr_step addr) s.uip_ds6_reg_list.length s

/-- The function `uip_ds6_get_registrations`. -/
def uip_ds6_get_registrations (s : uip_ds6_state) (defrt : Option Nat) : Nat :=
  match defrt.bind (fun d => s.uip_ds6_defrt_list[d]?) with
  | some e => if e.isused then e.registrations else 0
  | none => 0

/-- The loop of `uip_ds6_is_nbr_garbage_collectible` over the registrations. -/
def uip_ds6_is_nbr_garbage_collectible_from (defrt : Option Nat) : List uip_ds6_reg_t → Nat
  | [] => 1
  | reg :: rest =>
    if reg.isused && decide (reg.defrt = defrt) && decide (reg.state ≠ REG_GARBAGE_COLLECTIBLE)
    then 0
    else uip_ds6_is_nbr_garbage_collectible_from defrt rest

/-- The function `uip_ds6_is_nbr_garbage_collectible`; the argument is the entry the
C pointer refers to (only its `ipaddr` is read). -/
def uip_ds6_is_nbr_garbage_collectible (s : uip_ds6_state) (nbr : uip_ds6_nbr_t) : Nat :=
  uip_ds6_is_nbr_garbage_collectible_from (uip_ds6_defrt_lookup s nbr.ipaddr) s.uip_ds6_reg_list

/-! ## Other removals used by the periodic driver -/

/-- The function `uip_ds6_addr_rm`. -/
def uip_ds6_addr_rm (s : uip_ds6_state) (addr : Option Nat) : uip_ds6_state :=
  match addr with
  | some a =>
    { s with
      uip_ds6_if :=
        { s.uip_ds6_if with
          addr_list :=
            update_slot s.uip_ds6_if.addr_list a (fun e => { e with isused := false }) } }
  | none => s

/-- The function `uip_ds6_prefix_rm`. -/
def uip_ds6_prefix_rm (s : uip_ds6_state) (pfx : Option Nat) : uip_ds6_state :=
  match pfx with
  | some p =>
    { s with uip_ds6_prefix_list :=
        update_slot s.uip_ds6_prefix_list p (fun e => { e with isused := false }) }
  | none => s

/-- The function `uip_ds6_context_rm`. -/
def uip_ds6_context_rm (s : uip_ds6_state) (context : Nat) : uip_ds6_state :=
  { s with
    uip_ds6_addr_context_table :=
      update_slot s.uip_ds6_addr_context_table context
        (fun e => { e with state := uip_ds6_context_state_t.NOT_IN_USE }) }

/-! ## Router solicitation -/

/-- The function `beb_next`.  In C the modulus is written `2<<(c - 1) - 1`, which
parses as `2 << ((c - 1) - 1)`; the result is a `u16_t`.  (For `c < 2` the C shift
count is negative, which is undefined; the subtraction stops at 0 here.) -/
def beb_next (env : Env) (c k trunc : Nat) : Nat :=
  let result := ((env.random_rand % (2 <<< (c - 1 - 1))) * k) % 65536
  if result < trunc then result else trunc

/-- The function `rs_rtx_time`. -/
def rs_rtx_time (env : Env) (rtx_count : Nat) : Nat :=
  if rtx_count < env.UIP_ND6_MAX_RTR_SOLICITATIONS then
    env.UIP_ND6_RTR_SOLICITATION_INTERVAL
  else if rtx_count > 10 then
    env.UIP_ND6_MAX_RTR_SOLICITATION_INTERVAL
  else
    beb_next env rtx_count env.UIP_ND6_RTR_SOLICITATION_INTERVAL
      env.UIP_ND6_MAX_RTR_SOLICITATION_INTERVAL

/-- The search loop of `uip_ds6_send_rs` for a router with `sending_rs` set. -/
def uip_ds6_send_rs_find : List uip_ds6_defrt_t → Nat → Option Nat
  | [], _ => none
  | locdefrt :: rest, i =>
    if locdefrt.isused && locdefrt.sending_rs then some i
    else uip_ds6_send_rs_find rest (i + 1)

/-- The multicast tail of `uip_ds6_send_rs`. -/
def uip_ds6_send_rs_multicast (env : Env) (s : uip_ds6_state) : uip_ds6_state :=
  let s1 := uip_nd6_rs_output s none
  let rscount :=
    if (uip_ds6_defrt_choose s1).isNone then
      (if s1.rscount > 10 then s1.rscount else (s1.rscount + 1) % 256)
    else 0
  { s1 with
    rscount := rscount,
    uip_ds6_timer_rs := timer_set env (rs_rtx_time env rscount * env.CLOCK_SECOND) }

/-- The part of `uip_ds6_send_rs` after the router `locdefrt` has been selected for
a unicast solicitation. -/
def uip_ds6_send_rs_unicast (env : Env) (s : uip_ds6_state) (locdefrt : Nat) : uip_ds6_state :=
  match s.uip_ds6_defrt_list[locdefrt]? with
  | some e =>
    if e.rscount < env.UIP_ND6_MAX_RTR_SOLICITATIONS then
      let s1 := uip_nd6_rs_output s (some e.ipaddr)
      let rscount := if e.rscount > 10 then e.rscount else (e.rscount + 1) % 256
      { s1 with
        uip_ds6_defrt_list :=
          update_slot s1.uip_ds6_defrt_list locdefrt (fun x => { x with rscount := rscount }),
        uip_ds6_timer_rs := timer_set env (rs_rtx_time env rscount * env.CLOCK_SECOND) }
    else
      uip_ds6_send_rs_multicast env
        { s with
          uip_ds6_defrt_list :=
            update_slot s.uip_ds6_defrt_list locdefrt
              (fun x => { x with sending_rs := false, rscount := 0 }),
          rscount := e.rscount }
  | none => s

/-- The function `uip_ds6_send_rs`. -/
def uip_ds6_send_rs (env : Env) (s : uip_ds6_state) (defrt : Option Nat) : uip_ds6_state :=
  if !timer_expired env s.uip_ds6_timer_rs then s
  else
    match defrt.bind (fun d => (s.uip_ds6_defrt_list[d]?).bind
        (fun e => if e.isused then some d else none)) with
    | some d =>
      uip_ds6_send_rs_unicast env
        { s with
          uip_ds6_defrt_list :=
            update_slot s.uip_ds6_defrt_list d (fun x => { x with sending_rs := true }) } d
    | none =>
      match uip_ds6_send_rs_find s.uip_ds6_defrt_list 0 with
      | some d => uip_ds6_send_rs_unicast env s d
      | none => uip_ds6_send_rs_multicast env s

/-! ## Neighbour cache: insertion -/

/-- The eviction search of `uip_ds6_nbr_add` from slot `i` on, with the running
`oldest` and `oldest_time`. -/
def uip_ds6_nbr_add_oldest_from (s : uip_ds6_state) :
    List uip_ds6_nbr_t → Nat → Option Nat → Nat → Option Nat
  | [], _, oldest, _ => oldest
  | n :: rest, i, oldest, oldest_time =>
    if n.isused && decide (n.last_lookup < oldest_time)
        && decide (uip_ds6_is_nbr_garbage_collectible s n ≠ 0) then
      uip_ds6_nbr_add_oldest_from s rest (i + 1) (some i) n.last_lookup
    else
      uip_ds6_nbr_add_oldest_from s rest (i + 1) oldest oldest_time

/-- The eviction search of `uip_ds6_nbr_add`, started with `oldest_time = clock_time()`. -/
def uip_ds6_nbr_add_oldest (env : Env) (s : uip_ds6_state) : Option Nat :=
  uip_ds6_nbr_add_oldest_from s s.uip_ds6_nbr_cache 0 none env.clock_time

/-- The entry written by `uip_ds6_nbr_add` into a free slot. -/
def uip_ds6_nbr_add_entry (env : Env) (ipaddr : uip_ipaddr_t) (lladdr : Option uip_lladdr_t)
    (isrouter state : Nat) : uip_ds6_nbr_t :=
  { isused := true,
    ipaddr := ipaddr,
    lladdr :=
      match lladdr with
      | some l => l
      | none => { addr := List.replicate env.UIP_LLADDR_LEN 0 },
    isrouter := isrouter,
    state := state,
    reachable := stimer_set env 0,
    sendns := stimer_set env 0,
    nscount := 0,
    last_lookup := env.clock_time }

/-- The function `uip_ds6_nbr_add`.  The C function calls itself after an eviction;
the first argument bounds the depth of that recursion, and the result is `none` only
when the bound is exhausted.  Otherwise it is the new state and the returned slot. -/
def uip_ds6_nbr_add : Nat → Env → uip_ds6_state → uip_ipaddr_t → Option uip_lladdr_t →
    Nat → Nat → Option (uip_ds6_state × Option Nat)
  | 0, _, _, _, _, _, _ => none
  | fuel + 1, env, s, ipaddr, lladdr, isrouter, state =>
    let r := uip_ds6_list_loop (fun e => e.isused) (fun e => e.ipaddr)
      s.uip_ds6_nbr_cache ipaddr 128
    if r.1 = FREESPACE then
      match r.2 with
      | some locnbr =>
        some ({ s with
                uip_ds6_nbr_cache :=
                  update_slot s.uip_ds6_nbr_cache locnbr
                    (fun _ => uip_ds6_nbr_add_entry env ipaddr lladdr isrouter state) },
              some locnbr)
      | none => some (s, none)
    else if r.1 = NOSPACE then
      match uip_ds6_nbr_add_oldest env s with
      | some oldest =>
        let s1 := uip_ds6_nbr_rm s (some oldest)
        let locdefrt := (s1.uip_ds6_nbr_cache[oldest]?).bind
          (fun o => uip_ds6_defrt_lookup s1 o.ipaddr)
        let s2 := uip_ds6_defrt_rm s1 locdefrt
        let s3 := uip_ds6_reg_cleanup_defrt s2 locdefrt
        uip_ds6_nbr_add fuel env s3 ipaddr lladdr isrouter state
      | none => some (s, none)
    else some (s, none)

/-! ## The periodic driver -/

/-- The local variables of `uip_ds6_periodic` (with the statics `min_lifetime` and
`min_defrt`, which it initialises on entry) together with the tables. -/
structure periodic_vars where
  st : uip_ds6_state
  allow_output : Bool
  min_lifetime : Nat
  min_defrt : Option Nat

/-- The NUD-failure branch of the loop of `uip_ds6_periodic` over the registrations,
for the registration `locreg` of slot `i`: the registration, the neighbour with the
router's address, the router and the router's registrations are removed, a router
solicitation is requested and `registration_in_progress` is cleared. -/
def uip_ds6_periodic_reg_nud (env : Env) (s : uip_ds6_state) (i : Nat)
    (locreg : uip_ds6_reg_t) : uip_ds6_state :=
  let s1 := uip_ds6_reg_rm s i
  let locnbr := (defrt_ipaddr s1 locreg.defrt).bind (uip_ds6_nbr_lookup s1)
  let s2 := uip_ds6_nbr_rm s1 locnbr
  let s3 := uip_ds6_defrt_rm s2 locreg.defrt
  let s4 := uip_ds6_reg_cleanup_defrt s3 locreg.defrt
  let s5 := uip_ds6_send_rs env s4 none
  { s5 with uip_ds6_if := { s5.uip_ds6_if with registration_in_progress := none } }

/-- The body of the loop of `uip_ds6_periodic` over the registrations. -/
def uip_ds6_periodic_reg (env : Env) (v : periodic_vars) (i : Nat) : periodic_vars :=
  match v.st.uip_ds6_reg_list[i]? with
  | none => v
  | some locreg =>
    if locreg.isused then
      if stimer_expired env locreg.reg_lifetime then
        { v with st := uip_ds6_reg_rm v.st i }
      else if v.allow_output then
        if v.st.uip_ds6_if.registration_in_progress.isSome then
          if decide (v.st.uip_ds6_if.registration_in_progress = some i)
              && timer_expired env locreg.registration_timer then
            if locreg.reg_count ≥ env.UIP_ND6_MAX_UNICAST_SOLICIT then
              { v with st := uip_ds6_periodic_reg_nud env v.st i locreg, allow_output := false }
            else
              let s1 : uip_ds6_state :=
                { v.st with
                  uip_ds6_reg_list :=
                    update_slot v.st.uip_ds6_reg_list i
                      (fun r => { r with
                                  reg_count := (r.reg_count + 1) % 256,
                                  registration_timer := timer_restart env r.registration_timer }) }
              { v with
                st := uip_nd6_ns_output s1 (addr_ipaddr s1 locreg.addr)
                        (defrt_ipaddr s1 locreg.defrt) (defrt_ipaddr s1 locreg.defrt) 1
                        env.UIP_ND6_REGISTRATION_LIFETIME,
                allow_output := false }
          else v
        else
          if decide (locreg.state = REG_GARBAGE_COLLECTIBLE)
              || decide (locreg.state = REG_TO_BE_UNREGISTERED)
              || (decide (locreg.state = REG_REGISTERED)
                  && decide (stimer_remaining env locreg.reg_lifetime
                              < stimer_elapsed env locreg.reg_lifetime)) then
            let s1 : uip_ds6_state :=
              { v.st with
                uip_ds6_if := { v.st.uip_ds6_if with registration_in_progress := some i },
                uip_ds6_reg_list :=
                  update_slot v.st.uip_ds6_reg_list i
                    (fun r => { r with
                                reg_count := (r.reg_count + 1) % 256,
                                registration_timer :=
                                  timer_set env
                                    ((v.st.uip_ds6_if.retrans_timer / 1000) * env.CLOCK_SECOND) }) }
            { v with
              st := uip_nd6_ns_output s1 (addr_ipaddr s1 locreg.addr)
                      (defrt_ipaddr s1 locreg.defrt) (defrt_ipaddr s1 locreg.defrt) 1
                      (if locreg.state = REG_TO_BE_UNREGISTERED then 0
                       else env.UIP_ND6_REGISTRATION_LIFETIME),
              allow_output := false }
          else v
      else v
    else v

/-- The body of the loop of `uip_ds6_periodic` over the unicast addresses. -/
def uip_ds6_periodic_addr (env : Env) (v : periodic_vars) (i : Nat) : periodic_vars :=
  match v.st.uip_ds6_if.addr_list[i]? with
  | none => v
  | some locaddr =>
    if locaddr.isused then
      if !locaddr.isinfinite && stimer_expired env locaddr.vlifetime then
        { v with st := uip_ds6_addr_rm v.st (some i) }
      else if v.allow_output then
        if stimer_remaining env locaddr.vlifetime < v.min_lifetime then
          { v with
            min_lifetime := stimer_remaining env locaddr.vlifetime,
            min_defrt := locaddr.defrt }
        else v
      else v
    else v

/-- The body of the loop of `uip_ds6_periodic` over the default routers. -/
def uip_ds6_periodic_defrt (env : Env) (v : periodic_vars) (i : Nat) : periodic_vars :=
  match v.st.uip_ds6_defrt_list[i]? with
  | none => v
  | some locdefrt =>
    if locdefrt.isused && !locdefrt.isinfinite then
      if stimer_expired env locdefrt.lifetime then
        { v with st := uip_ds6_defrt_rm v.st (some i) }
      else if v.allow_output then
        if stimer_remaining env locdefrt.lifetime < v.min_lifetime then
          { v with
            min_lifetime := stimer_remaining env locdefrt.lifetime,
            min_defrt := some i }
        else v
      else v
    else v

/-- The processing of the default routers in `uip_ds6_periodic`. -/
def uip_ds6_periodic_defrts (env : Env) (v : periodic_vars) : periodic_vars :=
  if (uip_ds6_defrt_choose v.st).isNone then
    if v.allow_output then
      { v with st := uip_ds6_send_rs env v.st none, allow_output := false }
    else v
  else
    for_loop (uip_ds6_periodic_defrt env) v.st.uip_ds6_defrt_list.length v

/-- The body of the loop of `uip_ds6_periodic` over the prefixes (host build). -/
def uip_ds6_periodic_prefixes (env : Env) (v : periodic_vars) (i : Nat) : periodic_vars :=
  match v.st.uip_ds6_prefix_list[i]? with
  | none => v
  | some locpfx =>
    if locpfx.isused && !locpfx.isinfinite then
      if stimer_expired env locpfx.vlifetime then
        { v with st := uip_ds6_prefix_rm v.st (some i) }
      else if v.allow_output then
        if stimer_remaining env locpfx.vlifetime < v.min_lifetime then
          { v with
            min_lifetime := stimer_remaining env locpfx.vlifetime,
            min_defrt := locpfx.defrt }
        else v
      else v
    else v

/-- The body of the loop of `uip_ds6_periodic` over the contexts. -/
def uip_ds6_periodic_context (env : Env) (v : periodic_vars) (i : Nat) : periodic_vars :=
  match v.st.uip_ds6_addr_context_table[i]? with
  | none => v
  | some loccontext =>
    if loccontext.state ≠ uip_ds6_context_state_t.NOT_IN_USE then
      if stimer_expired env loccontext.vlifetime then
        if loccontext.state ≠ uip_ds6_context_state_t.EXPIRED then
          { v with
            st := { v.st with
                    uip_ds6_addr_context_table :=
                      update_slot v.st.uip_ds6_addr_context_table i
                        (fun c => { c with
                                    state := uip_ds6_context_state_t.IN_USE_UNCOMPRESS_ONLY,
                                    vlifetime := stimer_set env (2 * c.defrt_lifetime) }) } }
        else
          { v with st := uip_ds6_context_rm v.st i }
      else if v.allow_output then
        if stimer_remaining env loccontext.vlifetime < v.min_lifetime then
          { v with
            min_lifetime := stimer_remaining env loccontext.vlifetime,
            min_defrt := loccontext.defrt }
        else v
      else v
    else v

/-- The proactive router solicitation of `uip_ds6_periodic`. -/
def uip_ds6_periodic_rs (env : Env) (v : periodic_vars) : periodic_vars :=
  if v.allow_output && decide (v.min_lifetime < UIP_DS6_LIFETIME_THRESHOLD) then
    { v with st := uip_ds6_send_rs env v.st v.min_defrt, allow_output := false }
  else v

/-- The body of the loop of `uip_ds6_periodic` over the neighbours (host build: no
`NBR_INCOMPLETE` case; the `NEIGHBOR_STATE_CHANGED` hook is empty). -/
def uip_ds6_periodic_nbr (env : Env) (v : periodic_vars) (i : Nat) : periodic_vars :=
  match v.st.uip_ds6_nbr_cache[i]? with
  | none => v
  | some locnbr =>
    if locnbr.isused then
      if locnbr.state = NBR_REACHABLE then
        if stimer_expired env locnbr.reachable then
          { v with
            st := { v.st with
                    uip_ds6_nbr_cache :=
                      update_slot v.st.uip_ds6_nbr_cache i
                        (fun n => { n with state := NBR_STALE }) } }
        else v
      else if locnbr.state = NBR_DELAY then
        if v.allow_output then
          if stimer_expired env locnbr.reachable then
            let s1 : uip_ds6_state :=
              { v.st with
                uip_ds6_nbr_cache :=
                  update_slot v.st.uip_ds6_nbr_cache i
                    (fun n => { n with state := NBR_PROBE, nscount := 1 }) }
            let s2 := uip_nd6_ns_output s1 none (some locnbr.ipaddr) (some locnbr.ipaddr) 0 0
            { v with
              st := { s2 with
                      uip_ds6_nbr_cache :=
                        update_slot s2.uip_ds6_nbr_cache i
                          (fun n => { n with
                                      sendns := stimer_set env (s2.uip_ds6_if.retrans_timer / 1000) }) },
              allow_output := false }
          else v
        else v
      else if locnbr.state = NBR_PROBE then
        if v.allow_output then
          if locnbr.nscount ≥ env.UIP_ND6_MAX_UNICAST_SOLICIT then
            let locdefrt := uip_ds6_defrt_lookup v.st locnbr.ipaddr
            let s1 := if locdefrt.isSome then uip_ds6_defrt_rm v.st locdefrt else v.st
            { v with st := uip_ds6_nbr_rm s1 (some i) }
          else if stimer_expired env locnbr.sendns then
            let s1 : uip_ds6_state :=
              { v.st with
                uip_ds6_nbr_cache :=
                  update_slot v.st.uip_ds6_nbr_cache i
                    (fun n => { n with nscount := (n.nscount + 1) % 256 }) }
            let s2 := uip_nd6_ns_output s1 none (some locnbr.ipaddr) (some locnbr.ipaddr) 0 0
            { v with
              st := { s2 with
                      uip_ds6_nbr_cache :=
                        update_slot s2.uip_ds6_nbr_cache i
                          (fun n => { n with
                                      sendns := stimer_set env (s2.uip_ds6_if.retrans_timer / 1000) }) },
              allow_output := false }
          else v
        else v
      else v
    else v

/-- The state of `uip_ds6_periodic` after the loop over the registrations. -/
def uip_ds6_periodic_regs (env : Env) (s : uip_ds6_state) : periodic_vars :=
  for_loop (uip_ds6_periodic_reg env) s.uip_ds6_reg_list.length
    { st := s, allow_output := true, min_lifetime := 4294967295, min_defrt := none }

/-- Everything `uip_ds6_periodic` does after the loop over the registrations, up to
the loop over the neighbours. -/
def uip_ds6_periodic_rest (env : Env) (v1 : periodic_vars) : periodic_vars :=
  let v2 := for_loop (uip_ds6_periodic_addr env) v1.st.uip_ds6_if.addr_list.length v1
  let v3 := uip_ds6_periodic_defrts env v2
  let v4 := for_loop (uip_ds6_periodic_prefixes env) v3.st.uip_ds6_prefix_list.length v3
  let v5 := for_loop (uip_ds6_periodic_context env) v4.st.uip_ds6_addr_context_table.length v4
  let v6 := uip_ds6_periodic_rs env v5
  for_loop (uip_ds6_periodic_nbr env) v6.st.uip_ds6_nbr_cache.length v6

/-- The function `uip_ds6_periodic` (host build). -/
def uip_ds6_periodic (env : Env) (s : uip_ds6_state) : uip_ds6_state :=
  let v := uip_ds6_periodic_rest env (uip_ds6_periodic_regs env s)
  { v.st with uip_ds6_timer_periodic := timer_reset v.st.uip_ds6_timer_periodic }


/-! ## Insertion into the exact-match tables, and the routing table -/

/-- Modelled from the spec: the macro `uip_is_addr_link_local` of `net/uip.h`, which is
not in the repository.  The spec has the link-local prefix as `fe80::/10`. -/
def uip_is_addr_link_local (a : uip_ipaddr_t) : Bool :=
  decide ((addr_bits a).take 10 = [1, 1, 1, 1, 1, 1, 1, 0, 1, 0])

/-- Modelled from the spec: the macro `uip_ipaddr_cmp` of `net/uip.h`, which is not in
the repository: the two addresses are equal on all 128 bits. -/
def uip_ipaddr_cmp (addr1 addr2 : uip_ipaddr_t) : Bool :=
  decide (addr1 = addr2)

/-- The function `uip_ds6_defrt_add`: the new state and the returned slot. -/
def uip_ds6_defrt_add (env : Env) (s : uip_ds6_state) (ipaddr : uip_ipaddr_t)
    (interval : Nat) : uip_ds6_state × Option Nat :=
  let r := uip_ds6_list_loop (fun e => e.isused) (fun e => e.ipaddr)
    s.uip_ds6_defrt_list ipaddr 128
  if r.1 = FREESPACE then
    match r.2 with
    | some locdefrt =>
      ({ s with
         uip_ds6_defrt_list :=
           update_slot s.uip_ds6_defrt_list locdefrt
             (fun e =>
               { e with
                 isused := true, sending_rs := false, rscount := 0, ipaddr := ipaddr,
                 lifetime := if interval ≠ 0 then stimer_set env interval else e.lifetime,
                 isinfinite := decide (interval = 0) }) },
       some locdefrt)
    | none => (s, none)
  else (s, none)

/-- The function `uip_ds6_addr_add` (host build: no solicited-node group is joined). -/
def uip_ds6_addr_add (env : Env) (s : uip_ds6_state) (ipaddr : uip_ipaddr_t)
    (vlifetime type : Nat) : uip_ds6_state × Option Nat :=
  let r := uip_ds6_list_loop (fun e => e.isused) (fun e => e.ipaddr)
    s.uip_ds6_if.addr_list ipaddr 128
  if r.1 = FREESPACE then
    match r.2 with
    | some locaddr =>
      ({ s with
         uip_ds6_if :=
           { s.uip_ds6_if with
             addr_list :=
               update_slot s.uip_ds6_if.addr_list locaddr
                 (fun e =>
                   { e with
                     isused := true, ipaddr := ipaddr,
                     state := if uip_is_addr_link_local ipaddr then ADDR_PREFERRED
                              else ADDR_TENTATIVE,
                     type := type,
                     isinfinite := decide (vlifetime = 0),
                     vlifetime := if vlifetime = 0 then e.vlifetime
                                  else stimer_set env vlifetime }) } },
       some locaddr)
    | none => (s, none)
  else (s, none)

/-- The function `uip_ds6_addr_lookup`. -/
def uip_ds6_addr_lookup (s : uip_ds6_state) (ipaddr : uip_ipaddr_t) : Option Nat :=
  let r := uip_ds6_list_loop (fun e => e.isused) (fun e => e.ipaddr)
    s.uip_ds6_if.addr_list ipaddr 128
  if r.1 = FOUND then r.2 else none

/-- The function `uip_ds6_maddr_add`. -/
def uip_ds6_maddr_add (s : uip_ds6_state) (ipaddr : uip_ipaddr_t) :
    uip_ds6_state × Option Nat :=
  let r := uip_ds6_list_loop (fun e => e.isused) (fun e => e.ipaddr)
    s.uip_ds6_if.maddr_list ipaddr 128
  if r.1 = FREESPACE then
    match r.2 with
    | some locmaddr =>
      ({ s with
         uip_ds6_if :=
           { s.uip_ds6_if with
             maddr_list :=
               update_slot s.uip_ds6_if.maddr_list locmaddr
                 (fun e => { e with isused := true, ipaddr := ipaddr }) } },
       some locmaddr)
    | none => (s, none)
  else (s, none)

/-- The function `uip_ds6_maddr_rm`. -/
def uip_ds6_maddr_rm (s : uip_ds6_state) (maddr : Option Nat) : uip_ds6_state :=
  match maddr with
  | some m =>
    { s with
      uip_ds6_if :=
        { s.uip_ds6_if with
          maddr_list :=
            update_slot s.uip_ds6_if.maddr_list m (fun e => { e with isused := false }) } }
  | none => s

/-- The function `uip_ds6_maddr_lookup`. -/
def uip_ds6_maddr_lookup (s : uip_ds6_state) (ipaddr : uip_ipaddr_t) : Option Nat :=
  let r := uip_ds6_list_loop (fun e => e.isused) (fun e => e.ipaddr)
    s.uip_ds6_if.maddr_list ipaddr 128
  if r.1 = FOUND then r.2 else none

/-- The function `uip_ds6_route_add`: the new state and the returned `locroute`, which
is whatever the scan left in its out element (the route found, the slot filled, or
null). -/
def uip_ds6_route_add (s : uip_ds6_state) (ipaddr : uip_ipaddr_t) (length : Nat)
    (nexthop : uip_ipaddr_t) (metric : Nat) : uip_ds6_state × Option Nat :=
  let r := uip_ds6_list_loop (fun e => e.isused) (fun e => e.ipaddr)
    s.uip_ds6_routing_table ipaddr length
  if r.1 = FREESPACE then
    match r.2 with
    | some locroute =>
      ({ s with
         uip_ds6_routing_table :=
           update_slot s.uip_ds6_routing_table locroute
             (fun e =>
               { e with
                 isused := true, ipaddr := ipaddr, length := length, nexthop := nexthop,
                 metric := metric }) },
       some locroute)
    | none => (s, none)
  else (s, r.2)

/-- The function `uip_ds6_route_rm`. -/
def uip_ds6_route_rm (s : uip_ds6_state) (route : Nat) : uip_ds6_state :=
  { s with
    uip_ds6_routing_table :=
      update_slot s.uip_ds6_routing_table route (fun e => { e with isused := false }) }

/-- The body of the loop of `uip_ds6_route_rm_by_nexthop`. -/
def uip_ds6_route_rm_by_nexthop_step (nexthop : uip_ipaddr_t) (s : uip_ds6_state) (i : Nat) :
    uip_ds6_state :=
  match s.uip_ds6_routing_table[i]? with
  | some locroute =>
    if locroute.isused && uip_ipaddr_cmp locroute.nexthop nexthop then
      { s with
        uip_ds6_routing_table :=
          update_slot s.uip_ds6_routing_table i (fun e => { e with isused := false }) }
    else s
  | none => s

/-- The function `uip_ds6_route_rm_by_nexthop`. -/
def uip_ds6_route_rm_by_nexthop (s : uip_ds6_state) (nexthop : uip_ipaddr_t) : uip_ds6_state :=
  for_loop (uip_ds6_route_rm_by_nexthop_step nexthop) s.uip_ds6_routing_table.length s


/-! ## Router choice by registrations -/

/-- The loop of `uip_ds6_defrt_choose_min_reg` from slot `i` on, with the running `min`
and `min_defrt`. -/
def uip_ds6_defrt_choose_min_reg_from (s : uip_ds6_state) (addr : Option Nat) :
    List uip_ds6_defrt_t → Nat → Nat → Option Nat → Option Nat
  | [], _, _, min_defrt => min_defrt
  | locdefrt :: rest, i, min, min_defrt =>
    if locdefrt.isused then
      if (uip_ds6_reg_lookup s addr (some i)).isNone then
        if min_defrt.isNone
            || (min_defrt.isSome && decide (uip_ds6_get_registrations s (some i) < min)) then
          if uip_ds6_get_registrations s (some i) = 0 then some i
          else
            uip_ds6_defrt_choose_min_reg_from s addr rest (i + 1)
              (uip_ds6_get_registrations s (some i)) (some i)
        else uip_ds6_defrt_choose_min_reg_from s addr rest (i + 1) min min_defrt
      else uip_ds6_defrt_choose_min_reg_from s addr rest (i + 1) min min_defrt
    else uip_ds6_defrt_choose_min_reg_from s addr rest (i + 1) min min_defrt

/-- The function `uip_ds6_defrt_choose_min_reg`. -/
def uip_ds6_defrt_choose_min_reg (s : uip_ds6_state) (addr : Option Nat) : Option Nat :=
  uip_ds6_defrt_choose_min_reg_from s addr s.uip_ds6_defrt_list 0 0 none

/-! ## Address contexts -/

/-- The 6LoWPAN context option of a router advertisement (`uip_nd6_opt_6co` of
`uip-nd6.h`, which is not in the repository): the fields `uip_ds6_context_add` reads.
The field `prefix` of the C structure is `prefix_`; `lifetime` is in network byte
order. -/
structure uip_nd6_opt_6co where
  preflen : Nat
  res1_c_cid : Nat
  lifetime : Nat
  prefix_ : uip_ipaddr_t
  deriving DecidableEq

/-- The constants of `uip-nd6.h` and the byte-order conversion of `uip.h` that
`uip_ds6_context_add` uses, none of which is defined in the repository: the mask of the
context id and the compression flag within `res1_c_cid`, and `uip_ntohs`. -/
structure uip_nd6_6co_conf where
  UIP_ND6_RA_CID : Nat
  UIP_ND6_RA_FLAG_COMPRESSION : Nat
  uip_ntohs : Nat → Nat

/-- The function `uip_ds6_context_add`: the new state and the returned slot.  The slot
is `context_option->res1_c_cid & UIP_ND6_RA_CID`. -/
def uip_ds6_context_add (env : Env) (k : uip_nd6_6co_conf) (s : uip_ds6_state)
    (context_option : uip_nd6_opt_6co) (defrt_lifetime : Nat) : uip_ds6_state × Option Nat :=
  let context := context_option.res1_c_cid &&& k.UIP_ND6_RA_CID
  match s.uip_ds6_addr_context_table[context]? with
  | some c =>
    if c.state ≠ uip_ds6_context_state_t.NOT_IN_USE then (s, none)
    else
      ({ s with
         uip_ds6_addr_context_table :=
           update_slot s.uip_ds6_addr_context_table context
             (fun c =>
               { c with
                 length := context_option.preflen,
                 context_id := context_option.res1_c_cid &&& k.UIP_ND6_RA_CID,
                 prefix_ := context_option.prefix_,
                 state :=
                   if context_option.res1_c_cid &&& k.UIP_ND6_RA_FLAG_COMPRESSION ≠ 0 then
                     uip_ds6_context_state_t.IN_USE_COMPRESS
                   else uip_ds6_context_state_t.IN_USE_UNCOMPRESS_ONLY,
                 vlifetime := stimer_set env (k.uip_ntohs context_option.lifetime),
                 defrt_lifetime := if defrt_lifetime < 0x7FFF then defrt_lifetime else 0x7FFF }) },
       some context)
  | none => (s, none)

/-- The function `uip_ds6_context_lookup_by_id`. -/
def uip_ds6_context_lookup_by_id (s : uip_ds6_state) (context_id : Nat) : Option Nat :=
  match s.uip_ds6_addr_context_table[context_id]? with
  | some c => if c.state ≠ uip_ds6_context_state_t.NOT_IN_USE then some context_id else none
  | none => none

/-- The loop of `uip_ds6_context_lookup_by_prefix` from slot `i` on. -/
def uip_ds6_context_lookup_by_prefix_from (a : uip_ipaddr_t) :
    List uip_ds6_addr_context_t → Nat → Option Nat
  | [], _ => none
  | context :: rest, i =>
    if context.state ≠ uip_ds6_context_state_t.NOT_IN_USE then
      if uip_ipaddr_prefixcmp a context.prefix_ context.length then some i
      else uip_ds6_context_lookup_by_prefix_from a rest (i + 1)
    else uip_ds6_context_lookup_by_prefix_from a rest (i + 1)

/-- The function `uip_ds6_context_lookup_by_prefix`; the argument `prefix` of the C
function is `a`. -/
def uip_ds6_context_lookup_by_prefix (s : uip_ds6_state) (a : uip_ipaddr_t) : Option Nat :=
  uip_ds6_context_lookup_by_prefix_from a s.uip_ds6_addr_context_table 0

/-! ## Source address selection and interface identifiers -/

/-- The inner loop of `get_match_length`: `n` is the number of rounds left (`8 - k`),
`x_or` and `len` are `u8_t`. -/
def get_match_length_bits : Nat → Nat → Nat → Nat
  | 0, _, len => len
  | n + 1, x_or, len =>
    if x_or &&& 0x80 = 0 then get_match_length_bits n ((x_or <<< 1) % 256) ((len + 1) % 256)
    else len

/-- The outer loop of `get_match_length` over the bytes that are left. -/
def get_match_length_from : List Nat → List Nat → Nat → Nat
  | s :: srest, d :: drest, len =>
    if s = d then get_match_length_from srest drest ((len + 8) % 256)
    else get_match_length_bits 8 (s ^^^ d) len
  | _, _, len => len

/-- The function `get_match_length`. -/
def get_match_length (src dst : uip_ipaddr_t) : Nat :=
  get_match_length_from src.u8 dst.u8 0

/-- The number of leading positions on which two lists agree (the words of the
documentation: the number of bits in common, counted from the most significant). -/
def agree_length : List Nat → List Nat → Nat
  | x :: xs, y :: ys => if x = y then agree_length xs ys + 1 else 0
  | _, _ => 0

/-- Modelled from the spec: the macro `uip_is_addr_mcast` of `net/uip.h`, which is not
in the repository: the address is in `ff00::/8`. -/
def uip_is_addr_mcast (a : uip_ipaddr_t) : Bool :=
  decide ((addr_bits a).take 8 = [1, 1, 1, 1, 1, 1, 1, 1])

/-- The loop of `uip_ds6_get_link_local`; `state` is a `signed char`, -1 for any. -/
def uip_ds6_get_link_local_from (state : Int) : List uip_ds6_addr_t → Nat → Option Nat
  | [], _ => none
  | locaddr :: rest, i =>
    if locaddr.isused && (decide (state = -1) || decide ((locaddr.state : Int) = state))
        && uip_is_addr_link_local locaddr.ipaddr then some i
    else uip_ds6_get_link_local_from state rest (i + 1)

/-- The function `uip_ds6_get_link_local`. -/
def uip_ds6_get_link_local (s : uip_ds6_state) (state : Int) : Option Nat :=
  uip_ds6_get_link_local_from state s.uip_ds6_if.addr_list 0

/-- The loop of `uip_ds6_select_src` from slot `i` on, with the running `best` and
`matchaddr`. -/
def uip_ds6_select_src_from (dst : uip_ipaddr_t) :
    List uip_ds6_addr_t → Nat → Nat → Option Nat → Option Nat
  | [], _, _, matchaddr => matchaddr
  | locaddr :: rest, i, best, matchaddr =>
    if locaddr.isused && decide (locaddr.state = ADDR_PREFERRED)
        && !uip_is_addr_link_local locaddr.ipaddr then
      if get_match_length dst locaddr.ipaddr ≥ best then
        uip_ds6_select_src_from dst rest (i + 1) (get_match_length dst locaddr.ipaddr) (some i)
      else uip_ds6_select_src_from dst rest (i + 1) best matchaddr
    else uip_ds6_select_src_from dst rest (i + 1) best matchaddr

/-- The function `uip_ds6_select_src`: the address written to `src`. -/
def uip_ds6_select_src (s : uip_ds6_state) (dst : uip_ipaddr_t) : uip_ipaddr_t :=
  let matchaddr :=
    if !uip_is_addr_link_local dst && !uip_is_addr_mcast dst then
      uip_ds6_select_src_from dst s.uip_ds6_if.addr_list 0 0 none
    else uip_ds6_get_link_local s (ADDR_PREFERRED : Nat)
  match matchaddr.bind (fun a => s.uip_ds6_if.addr_list[a]?) with
  | none => uip_ipaddr_zero
  | some e => e.ipaddr

/-- Byte `i` of a link-layer address, a `u8_t` (0 beyond the bytes given). -/
def lladdr_byte (lladdr : uip_lladdr_t) (i : Nat) : Nat :=
  lladdr.addr.getD i 0 % 256

/-- The function `uip_ds6_set_addr_iid`: the address that `ipaddr` holds afterwards.
The C code is compiled for `UIP_LLADDR_LEN == 8` or for `UIP_LLADDR_LEN == 6` and does
not build otherwise; every value other than 8 is read as 6 here. -/
def uip_ds6_set_addr_iid (env : Env) (ipaddr : uip_ipaddr_t) (lladdr : uip_lladdr_t) :
    uip_ipaddr_t :=
  if env.UIP_LLADDR_LEN = 8 then
    { u8 := ipaddr.u8.take 8 ++
        [lladdr_byte lladdr 0 ^^^ 0x02, lladdr_byte lladdr 1, lladdr_byte lladdr 2,
         lladdr_byte lladdr 3, lladdr_byte lladdr 4, lladdr_byte lladdr 5,
         lladdr_byte lladdr 6, lladdr_byte lladdr 7],
      len_eq := by simp [ipaddr.len_eq],
      byte_lt := by
        intro b hb
        rcases List.mem_append.mp hb with h | h
        · exact ipaddr.byte_lt b (List.mem_of_mem_take h)
        · have hx : lladdr_byte lladdr 0 ^^^ 0x02 < 256 :=
            Nat.xor_lt_two_pow (n := 8) (Nat.mod_lt _ (by decide)) (by decide)
          have hm : ∀ i, lladdr_byte lladdr i < 256 := fun i => Nat.mod_lt _ (by decide)
          simp only [List.mem_cons, List.mem_singleton, List.not_mem_nil, or_false] at h
          rcases h with h | h | h | h | h | h | h | h <;> subst h <;>
            first | exact hx | exact hm _ }
  else
    { u8 := ipaddr.u8.take 8 ++
        [lladdr_byte lladdr 0 ^^^ 0x02, lladdr_byte lladdr 1, lladdr_byte lladdr 2,
         0xff, 0xfe, lladdr_byte lladdr 3, lladdr_byte lladdr 4, lladdr_byte lladdr 5],
      len_eq := by simp [ipaddr.len_eq],
      byte_lt := by
        intro b hb
        rcases List.mem_append.mp hb with h | h
        · exact ipaddr.byte_lt b (List.mem_of_mem_take h)
        · have hx : lladdr_byte lladdr 0 ^^^ 0x02 < 256 :=
            Nat.xor_lt_two_pow (n := 8) (Nat.mod_lt _ (by decide)) (by decide)
          have hm : ∀ i, lladdr_byte lladdr i < 256 := fun i => Nat.mod_lt _ (by decide)
          simp only [List.mem_cons, List.mem_singleton, List.not_mem_nil, or_false] at h
          rcases h with h | h | h | h | h | h | h | h <;> subst h <;>
            first | exact hx | exact hm _ | decide }


/-! ## Initialisation -/

def ADDR_AUTOCONF : Nat := 1

/-- What `uip_ds6_init` reads besides the clock: the user parts `_NBU` of the table
sizes of `uip-ds6.h` (the system parts `_NBS` are fixed there), the number of context
slots, the constants and the two macros of `uip-nd6.h` and `uipopt.h`, none of which is
defined in the repository, the link-layer address `uip_lladdr` of the node, the content
of the file-scope scratch address `loc_fipaddr` on entry, and the three values drawn by
`random_rand()`: `rand_hi` and `rand_lo` in `uip_ds6_compute_reachable_time`, `rand_rs`
for the RS timer. -/
structure uip_ds6_conf where
  UIP_DS6_NBR_NBU : Nat
  UIP_DS6_DEFRT_NBU : Nat
  UIP_DS6_PREFIX_NBU : Nat
  UIP_DS6_ROUTE_NBU : Nat
  UIP_DS6_ADDR_NBU : Nat
  UIP_DS6_MADDR_NBU : Nat
  UIP_DS6_AADDR_NBU : Nat
  SICSLOWPAN_CONF_MAX_ADDR_CONTEXTS : Nat
  UIP_LINK_MTU : Nat
  UIP_TTL : Nat
  UIP_ND6_REACHABLE_TIME : Nat
  UIP_ND6_RETRANS_TIMER : Nat
  UIP_DEFAULT_PREFIX_LEN : Nat
  UIP_ND6_MAX_RTR_SOLICITATION_DELAY : Nat
  UIP_ND6_MIN_RANDOM_FACTOR : Nat → Nat
  UIP_ND6_MAX_RANDOM_FACTOR : Nat → Nat
  uip_lladdr : uip_lladdr_t
  loc_fipaddr : uip_ipaddr_t
  rand_hi : Nat
  rand_lo : Nat
  rand_rs : Nat

/-- The table sizes of `uip-ds6.h` for a host: `_NB` is `_NBS + _NBU`. -/
def UIP_DS6_NBR_NB (k : uip_ds6_conf) : Nat := 0 + k.UIP_DS6_NBR_NBU

def UIP_DS6_DEFRT_NB (k : uip_ds6_conf) : Nat := 0 + k.UIP_DS6_DEFRT_NBU

def UIP_DS6_PREFIX_NB (k : uip_ds6_conf) : Nat := 1 + k.UIP_DS6_PREFIX_NBU

def UIP_DS6_ROUTE_NB (k : uip_ds6_conf) : Nat := 0 + k.UIP_DS6_ROUTE_NBU

def UIP_DS6_ADDR_NB (k : uip_ds6_conf) : Nat := 1 + k.UIP_DS6_ADDR_NBU

def UIP_DS6_MADDR_NB (k : uip_ds6_conf) : Nat := 1 + k.UIP_DS6_MADDR_NBU

def UIP_DS6_AADDR_NB (k : uip_ds6_conf) : Nat := 0 + k.UIP_DS6_AADDR_NBU

/-- The size of the registration list, `UIP_DS6_REGS_PER_ADDR * UIP_DS6_ADDR_NB` with
`UIP_DS6_REGS_PER_ADDR` defined as `UIP_DS6_DEFRT_NB`.  The size macros are sums written
without parentheses, so the product expands to
`DEFRT_NBS + DEFRT_NBU * ADDR_NBS + ADDR_NBU`. -/
def UIP_DS6_REG_LIST_SIZE (k : uip_ds6_conf) : Nat :=
  0 + k.UIP_DS6_DEFRT_NBU * 1 + k.UIP_DS6_ADDR_NBU

/-- The function `uip_ds6_compute_reachable_time`, a `u32_t`; `rand_hi` is the draw that
is shifted, `rand_lo` the other one, each cast to `u16_t`, and their sum is taken in an
`int` of 32 bits.  (Where the two factors coincide the C expression divides by zero;
the remainder is then the dividend here.) -/
def uip_ds6_compute_reachable_time (k : uip_ds6_conf) (s : uip_ds6_state) : Nat :=
  (k.UIP_ND6_MIN_RANDOM_FACTOR s.uip_ds6_if.base_reachable_time % 4294967296 +
    ((k.rand_hi <<< 8) % 65536 + k.rand_lo % 65536) %
      sub32 (k.UIP_ND6_MAX_RANDOM_FACTOR s.uip_ds6_if.base_reachable_time)
        (k.UIP_ND6_MIN_RANDOM_FACTOR s.uip_ds6_if.base_reachable_time)) % 4294967296

/-- Modelled from the spec: the macro `uip_create_linklocal_prefix` of `net/uip.h`,
which is not in the repository: it writes `fe80:0:0:0` into the first 64 bits of the
address and leaves the interface identifier as it is. -/
def uip_create_linklocal_prefix (a : uip_ipaddr_t) : uip_ipaddr_t :=
  { u8 := [0xfe, 0x80, 0, 0, 0, 0, 0, 0] ++ a.u8.drop 8,
    len_eq := by simp [a.len_eq],
    byte_lt := by
      intro b hb
      rcases List.mem_append.mp hb with h | h
      · have hk : ∀ x ∈ [0xfe, 0x80, 0, 0, 0, 0, 0, 0], x < 256 := by decide
        exact hk b h
      · exact a.byte_lt b (List.mem_of_mem_drop h) }

/-- Modelled from the spec: the macro `uip_create_linklocal_allnodes_mcast` of
`net/uip.h`, which is not in the repository: it writes the all-nodes group `ff02::1`. -/
def uip_create_linklocal_allnodes_mcast : uip_ipaddr_t :=
  ⟨[0xff, 0x02, 0, 0, 0, 0, 0, 0, 0, 0, 0, 0, 0, 0, 0, 1], by decide, by decide⟩

/-- The function `uip_ds6_prefix_add` of the host build, which returns `NULL` on every
path: the new state. -/
def uip_ds6_prefix_add (env : Env) (s : uip_ds6_state) (ipaddr : uip_ipaddr_t)
    (ipaddrlen interval : Nat) : uip_ds6_state :=
  let r := uip_ds6_list_loop (fun e => e.isused) (fun e => e.ipaddr)
    s.uip_ds6_prefix_list ipaddr ipaddrlen
  if r.1 = FREESPACE then
    match r.2 with
    | some locprefix =>
      { s with
        uip_ds6_prefix_list :=
          update_slot s.uip_ds6_prefix_list locprefix
            (fun e =>
              { e with
                isused := true, ipaddr := ipaddr, length := ipaddrlen,
                vlifetime := if interval ≠ 0 then stimer_set env interval else e.vlifetime,
                isinfinite := decide (interval = 0) }) }
    | none => s
  else s

/-- The first part of `uip_ds6_init`: every table and the interface structure are
zeroed (`default` is the zeroed entry). -/
def uip_ds6_init_tables (k : uip_ds6_conf) (s : uip_ds6_state) : uip_ds6_state :=
  { s with
    uip_ds6_nbr_cache := List.replicate (UIP_DS6_NBR_NB k) default,
    uip_ds6_reg_list := List.replicate (UIP_DS6_REG_LIST_SIZE k) default,
    uip_ds6_addr_context_table :=
      List.replicate k.SICSLOWPAN_CONF_MAX_ADDR_CONTEXTS default,
    uip_ds6_defrt_list := List.replicate (UIP_DS6_DEFRT_NB k) default,
    uip_ds6_prefix_list := List.replicate (UIP_DS6_PREFIX_NB k) default,
    uip_ds6_if :=
      { link_mtu := 0, cur_hop_limit := 0, base_reachable_time := 0, reachable_time := 0,
        retrans_timer := 0, registration_in_progress := none,
        addr_list := List.replicate (UIP_DS6_ADDR_NB k) default,
        aaddr_list := List.replicate (UIP_DS6_AADDR_NB k) default,
        maddr_list := List.replicate (UIP_DS6_MADDR_NB k) default },
    uip_ds6_routing_table := List.replicate (UIP_DS6_ROUTE_NB k) default }

/-- The second part of `uip_ds6_init`: the interface parameters are set. -/
def uip_ds6_init_netif (k : uip_ds6_conf) (s0 : uip_ds6_state) : uip_ds6_state :=
  let s1 : uip_ds6_state :=
    { s0 with
      uip_ds6_if :=
        { s0.uip_ds6_if with
          link_mtu := k.UIP_LINK_MTU, cur_hop_limit := k.UIP_TTL,
          base_reachable_time := k.UIP_ND6_REACHABLE_TIME } }
  { s1 with
    uip_ds6_if :=
      { s1.uip_ds6_if with
        reachable_time := uip_ds6_compute_reachable_time k s1,
        retrans_timer := k.UIP_ND6_RETRANS_TIMER } }

/-- The function `uip_ds6_init` (host build).  After the two parts above, the link-local
prefix, the link-local address and the all-nodes group are created and the two timers
are armed; `rscount` is not written, and nothing is sent. -/
def uip_ds6_init (env : Env) (k : uip_ds6_conf) (s : uip_ds6_state) : uip_ds6_state :=
  let s2 := uip_ds6_init_netif k (uip_ds6_init_tables k s)
  let loc1 := uip_create_linklocal_prefix k.loc_fipaddr
  let s3 := uip_ds6_prefix_add env s2 loc1 k.UIP_DEFAULT_PREFIX_LEN 0
  let loc2 := uip_ds6_set_addr_iid env loc1 k.uip_lladdr
  let s4 := (uip_ds6_addr_add env s3 loc2 0 ADDR_AUTOCONF).1
  let s5 := (uip_ds6_maddr_add s4 uip_create_linklocal_allnodes_mcast).1
  { s5 with
    uip_ds6_timer_rs :=
      timer_set env (k.rand_rs % (k.UIP_ND6_MAX_RTR_SOLICITATION_DELAY * env.CLOCK_SECOND)),
    uip_ds6_timer_periodic := timer_set env (env.CLOCK_SECOND / 10) }

/-! ## Intermediate states of `uip_ds6_nbr_add` and of the driver -/

/-- The state in which `uip_ds6_nbr_add` calls itself after it has chosen to evict slot
`oldest`: the neighbour is removed, then the default router with its address, then the
registrations with that router. -/
def uip_ds6_nbr_add_evict_state (s : uip_ds6_state) (oldest : Nat) : uip_ds6_state :=
  let s1 := uip_ds6_nbr_rm s (some oldest)
  let locdefrt := (s1.uip_ds6_nbr_cache[oldest]?).bind
    (fun o => uip_ds6_defrt_lookup s1 o.ipaddr)
  let s2 := uip_ds6_defrt_rm s1 locdefrt
  uip_ds6_reg_cleanup_defrt s2 locdefrt

/-- The variables of `uip_ds6_periodic` when the loop over the neighbours begins. -/
def uip_ds6_periodic_before_nbr (env : Env) (s : uip_ds6_state) : periodic_vars :=
  let v1 := uip_ds6_periodic_regs env s
  let v2 := for_loop (uip_ds6_periodic_addr env) v1.st.uip_ds6_if.addr_list.length v1
  let v3 := uip_ds6_periodic_defrts env v2
  let v4 := for_loop (uip_ds6_periodic_prefixes env) v3.st.uip_ds6_prefix_list.length v3
  let v5 := for_loop (uip_ds6_periodic_context env) v4.st.uip_ds6_addr_context_table.length v4
  uip_ds6_periodic_rs env v5

/-- The variables of `uip_ds6_periodic` when the loop over the neighbours reaches slot
`i`. -/
def uip_ds6_periodic_at_nbr (env : Env) (s : uip_ds6_state) (i : Nat) : periodic_vars :=
  for_loop (uip_ds6_periodic_nbr env) i (uip_ds6_periodic_before_nbr env s)

/-! ## Predicates on states used in the statements -/

/-- A pointer refers to a default router that is in use. -/
def defrt_in_use (s : uip_ds6_state) (defrt : Option Nat) : Bool :=
  match defrt.bind (fun d => s.uip_ds6_defrt_list[d]?) with
  | some e => e.isused
  | none => false

/-- A pointer refers to a unicast address that is in use. -/
def addr_in_use (s : uip_ds6_state) (addr : Option Nat) : Bool :=
  match addr.bind (fun a => s.uip_ds6_if.addr_list[a]?) with
  | some e => e.isused
  | none => false

/-- Every in-use registration refers to an in-use default router. -/
def reg_routers_in_use (s : uip_ds6_state) : Prop :=
  ∀ R ∈ s.uip_ds6_reg_list, R.isused = true → defrt_in_use s R.defrt = true

/-- Every in-use registration refers to an in-use unicast address. -/
def reg_addrs_in_use (s : uip_ds6_state) : Prop :=
  ∀ R ∈ s.uip_ds6_reg_list, R.isused = true → addr_in_use s R.addr = true

/-- The in-use default routers have pairwise distinct addresses. -/
def defrt_addrs_distinct (s : uip_ds6_state) : Prop :=
  List.Pairwise (fun (X Y : uip_ds6_defrt_t) =>
    X.isused = true → Y.isused = true → X.ipaddr ≠ Y.ipaddr) s.uip_ds6_defrt_list

/-- The in-use neighbour cache entries have pairwise distinct addresses. -/
def nbr_addrs_distinct (s : uip_ds6_state) : Prop :=
  List.Pairwise (fun (X Y : uip_ds6_nbr_t) =>
    X.isused = true → Y.isused = true → X.ipaddr ≠ Y.ipaddr) s.uip_ds6_nbr_cache

instance (s : uip_ds6_state) : Decidable (reg_routers_in_use s) :=
  inferInstanceAs (Decidable (∀ R ∈ s.uip_ds6_reg_list, R.isused = true →
    defrt_in_use s R.defrt = true))

instance (s : uip_ds6_state) : Decidable (reg_addrs_in_use s) :=
  inferInstanceAs (Decidable (∀ R ∈ s.uip_ds6_reg_list, R.isused = true →
    addr_in_use s R.addr = true))

instance (s : uip_ds6_state) : Decidable (defrt_addrs_distinct s) :=
  inferInstanceAs (Decidable (List.Pairwise (fun (X Y : uip_ds6_defrt_t) =>
    X.isused = true → Y.isused = true → X.ipaddr ≠ Y.ipaddr) s.uip_ds6_defrt_list))

instance (s : uip_ds6_state) : Decidable (nbr_addrs_distinct s) :=
  inferInstanceAs (Decidable (List.Pairwise (fun (X Y : uip_ds6_nbr_t) =>
    X.isused = true → Y.isused = true → X.ipaddr ≠ Y.ipaddr) s.uip_ds6_nbr_cache))

/-- The number of in-use registrations whose router pointer is `defrt`. -/
def reg_count_for (s : uip_ds6_state) (defrt : Nat) : Nat :=
  (s.uip_ds6_reg_list.filter (fun R => R.isused && decide (R.defrt = some defrt))).length

/-- The registration-count invariant: the counter of every default router equals the
number of in-use registrations with that router. -/
def registrations_counted (s : uip_ds6_state) : Prop :=
  ∀ p ∈ s.uip_ds6_defrt_list.enum, p.2.registrations = reg_count_for s p.1

instance (s : uip_ds6_state) : Decidable (registrations_counted s) :=
  inferInstanceAs (Decidable (∀ p ∈ s.uip_ds6_defrt_list.enum,
    p.2.registrations = reg_count_for s p.1))

/-- A default-router entry with its registration counter masked: what the lookups,
the router choice and the solicitation logic read of it. -/
def defrt_key (e : uip_ds6_defrt_t) : uip_ds6_defrt_t :=
  { e with registrations := 0 }

/-- The output budget of one invocation of the driver, `o` being the trace on entry:
while `allow_output` is set nothing has been emitted, and at most one packet has been
emitted in all. -/
def output_budget (o : List Packet) (v : periodic_vars) : Prop :=
  (v.allow_output = true → v.st.output = o) ∧
  (v.st.output = o ∨ ∃ p, v.st.output = o ++ [p])

/-- The table `l'` has the slots of `l`, and every entry in use in `l'` was in use in
`l` in the same slot with the same key: nothing was added or re-keyed. -/
def table_shrinks {α κ : Type} (used : α → Bool) (key : α → κ) (l l' : List α) : Prop :=
  l'.length = l.length ∧
  ∀ (j : Nat) (e' : α), l'[j]? = some e' → used e' = true →
    ∃ e, l[j]? = some e ∧ used e = true ∧ key e = key e'

/-- The state `s'` arises from `s` without any output, without touching
`registration_in_progress`, and without adding or re-keying a registration (key: its
router), a default router or a neighbour (key: the address). -/
def shrinks (s s' : uip_ds6_state) : Prop :=
  s'.output = s.output ∧
  s'.uip_ds6_if.registration_in_progress = s.uip_ds6_if.registration_in_progress ∧
  table_shrinks (fun (R : uip_ds6_reg_t) => R.isused) (fun R => R.defrt)
    s.uip_ds6_reg_list s'.uip_ds6_reg_list ∧
  table_shrinks (fun (X : uip_ds6_defrt_t) => X.isused) (fun X => X.ipaddr)
    s.uip_ds6_defrt_list s'.uip_ds6_defrt_list ∧
  table_shrinks (fun (N : uip_ds6_nbr_t) => N.isused) (fun N => N.ipaddr)
    s.uip_ds6_nbr_cache s'.uip_ds6_nbr_cache

/-- What holds of the driver's variables `v` while the loop over the registrations of
a tick started in `s` has not yet reached slot `i`, the registration in progress: no
output yet, and nothing changed but the in-use flags of other registrations and the
registration counters of the routers. -/
def reg_loop_pre (s : uip_ds6_state) (i : Nat) (v : periodic_vars) : Prop :=
  v.allow_output = true ∧
  v.st.uip_ds6_if = s.uip_ds6_if ∧
  v.st.uip_ds6_nbr_cache = s.uip_ds6_nbr_cache ∧
  v.st.output = s.output ∧
  v.st.uip_ds6_timer_rs = s.uip_ds6_timer_rs ∧
  v.st.uip_ds6_defrt_list.map defrt_key = s.uip_ds6_defrt_list.map defrt_key ∧
  v.st.uip_ds6_reg_list[i]? = s.uip_ds6_reg_list[i]? ∧
  v.st.uip_ds6_reg_list.length = s.uip_ds6_reg_list.length

/-- The outcome of a registration NUD failure for registration slot `i`, router slot
`d` and router address `a`: no registration in progress, the registration and the
router not in use, no in-use neighbour with the address, no in-use registration with
the router. -/
def nud_post (i d : Nat) (a : uip_ipaddr_t) (s' : uip_ds6_state) : Prop :=
  s'.uip_ds6_if.registration_in_progress = none ∧
  (s'.uip_ds6_reg_list[i]?).map (fun R => R.isused) = some false ∧
  (s'.uip_ds6_defrt_list[d]?).map (fun X => X.isused) = some false ∧
  (∀ N ∈ s'.uip_ds6_nbr_cache, N.isused = true → N.ipaddr ≠ a) ∧
  (∀ R ∈ s'.uip_ds6_reg_list, R.isused = true → R.defrt ≠ some d)

/-- A step of the driver emits nothing and leaves `allow_output` cleared whenever it is
entered with `allow_output` cleared. -/
def quiet_step (f : periodic_vars → periodic_vars) : Prop :=
  ∀ v, v.allow_output = false → (f v).allow_output = false ∧ (f v).st.output = v.st.output


/-- The in-use unicast addresses are pairwise distinct. -/
def addr_addrs_distinct (s : uip_ds6_state) : Prop :=
  List.Pairwise (fun (X Y : uip_ds6_addr_t) =>
    X.isused = true → Y.isused = true → X.ipaddr ≠ Y.ipaddr) s.uip_ds6_if.addr_list

/-- The in-use multicast addresses are pairwise distinct. -/
def maddr_addrs_distinct (s : uip_ds6_state) : Prop :=
  List.Pairwise (fun (X Y : uip_ds6_maddr_t) =>
    X.isused = true → Y.isused = true → X.ipaddr ≠ Y.ipaddr) s.uip_ds6_if.maddr_list

instance (s : uip_ds6_state) : Decidable (addr_addrs_distinct s) :=
  inferInstanceAs (Decidable (List.Pairwise (fun (X Y : uip_ds6_addr_t) =>
    X.isused = true → Y.isused = true → X.ipaddr ≠ Y.ipaddr) s.uip_ds6_if.addr_list))

instance (s : uip_ds6_state) : Decidable (maddr_addrs_distinct s) :=
  inferInstanceAs (Decidable (List.Pairwise (fun (X Y : uip_ds6_maddr_t) =>
    X.isused = true → Y.isused = true → X.ipaddr ≠ Y.ipaddr) s.uip_ds6_if.maddr_list))

/-- The test `uip_ds6_defrt_choose` makes on a router: the neighbour cache lookup of
its address returns an entry, and the state of that entry is not `NBR_INCOMPLETE`. -/
def defrt_reachable (s : uip_ds6_state) (X : uip_ds6_defrt_t) : Bool :=
  match (uip_ds6_nbr_lookup s X.ipaddr).bind (fun n => s.uip_ds6_nbr_cache[n]?) with
  | some bestnbr => decide (bestnbr.state ≠ NBR_INCOMPLETE)
  | none => false


/-! ## Sample values used by the closed statements below -/

/-- A platform with the usual values of the constants (`CLOCK_SECOND` 128, three
unicast solicitations, three router solicitations, a 10 s solicitation interval
capped at 60 s), read at tick 12800, second 100. -/
def sample_env : Env :=
  { clock_time := 12800,
    clock_seconds := 100,
    random_rand := 7,
    CLOCK_SECOND := 128,
    UIP_LLADDR_LEN := 8,
    UIP_ND6_MAX_UNICAST_SOLICIT := 3,
    UIP_ND6_REGISTRATION_LIFETIME := 60,
    UIP_ND6_MAX_RTR_SOLICITATIONS := 3,
    UIP_ND6_RTR_SOLICITATION_INTERVAL := 10,
    UIP_ND6_MAX_RTR_SOLICITATION_INTERVAL := 60 }

/-- The state with every table empty (no slot at all). -/
def empty_state : uip_ds6_state :=
  { uip_ds6_if :=
      { link_mtu := 1280, cur_hop_limit := 64, base_reachable_time := 30000,
        reachable_time := 30000, retrans_timer := 1000, registration_in_progress := none,
        addr_list := [], aaddr_list := [], maddr_list := [] },
    uip_ds6_nbr_cache := [],
    uip_ds6_reg_list := [],
    uip_ds6_addr_context_table := [],
    uip_ds6_defrt_list := [],
    uip_ds6_prefix_list := [],
    uip_ds6_routing_table := [],
    uip_ds6_timer_rs := { start := 0, interval := 0 },
    rscount := 0,
    uip_ds6_timer_periodic := { start := 0, interval := 12 },
    output := [] }

/-- The address `2001:db8::`. -/
def addr_2001_db8 : uip_ipaddr_t :=
  ⟨[0x20, 0x01, 0x0d, 0xb8, 0, 0, 0, 0, 0, 0, 0, 0, 0, 0, 0, 0], by decide, by decide⟩

/-- The address `2001:db8:1::`. -/
def addr_2001_db8_1 : uip_ipaddr_t :=
  ⟨[0x20, 0x01, 0x0d, 0xb8, 0, 1, 0, 0, 0, 0, 0, 0, 0, 0, 0, 0], by decide, by decide⟩

/-- The address `2001:db8:1::42`. -/
def addr_2001_db8_1_42 : uip_ipaddr_t :=
  ⟨[0x20, 0x01, 0x0d, 0xb8, 0, 1, 0, 0, 0, 0, 0, 0, 0, 0, 0, 0x42], by decide, by decide⟩

/-- The address `fe80::a`. -/
def addr_fe80_a : uip_ipaddr_t :=
  ⟨[0xfe, 0x80, 0, 0, 0, 0, 0, 0, 0, 0, 0, 0, 0, 0, 0, 0x0a], by decide, by decide⟩

/-- The address `fe80::b`. -/
def addr_fe80_b : uip_ipaddr_t :=
  ⟨[0xfe, 0x80, 0, 0, 0, 0, 0, 0, 0, 0, 0, 0, 0, 0, 0, 0x0b], by decide, by decide⟩

/-- A routing table of four slots holding `2001:db8::/32 -> fe80::a` in slot 0 and
`2001:db8:1::/48 -> fe80::b` in slot 1. -/
def routes_example : uip_ds6_state :=
  { empty_state with
    uip_ds6_routing_table :=
      [ { isused := true, ipaddr := addr_2001_db8, length := 32, metric := 1,
          nexthop := addr_fe80_a },
        { isused := true, ipaddr := addr_2001_db8_1, length := 48, metric := 1,
          nexthop := addr_fe80_b },
        default,
        default ] }

/-- The address `fe80::c`. -/
def addr_fe80_c : uip_ipaddr_t :=
  ⟨[0xfe, 0x80, 0, 0, 0, 0, 0, 0, 0, 0, 0, 0, 0, 0, 0, 0x0c], by decide, by decide⟩

/-- The address `fe80::d`. -/
def addr_fe80_d : uip_ipaddr_t :=
  ⟨[0xfe, 0x80, 0, 0, 0, 0, 0, 0, 0, 0, 0, 0, 0, 0, 0, 0x0d], by decide, by decide⟩

/-- The address `fe80::e`. -/
def addr_fe80_e : uip_ipaddr_t :=
  ⟨[0xfe, 0x80, 0, 0, 0, 0, 0, 0, 0, 0, 0, 0, 0, 0, 0, 0x0e], by decide, by decide⟩

/-- The link-local address `fe80::ff:fe00:1` of the host. -/
def addr_host_ll : uip_ipaddr_t :=
  ⟨[0xfe, 0x80, 0, 0, 0, 0, 0, 0, 0, 0, 0, 0xff, 0xfe, 0, 0, 1], by decide, by decide⟩

/-- An in-use neighbour entry with the given address, time of last lookup and state
(timers armed at second 90 for 30 s). -/
def sample_nbr (a : uip_ipaddr_t) (last_lookup state : Nat) : uip_ds6_nbr_t :=
  { isused := true, ipaddr := a, lladdr := { addr := [2, 0, 0, 0, 0, 0, 0, 9] },
    reachable := { start := 90, interval := 30 }, last_lookup := last_lookup,
    sendns := { start := 90, interval := 30 }, nscount := 0, isrouter := 1, state := state }

/-- An in-use default router with the given address and registration counter, its
lifetime armed at second `start` for `interval` seconds. -/
def sample_defrt (a : uip_ipaddr_t) (start interval registrations : Nat) : uip_ds6_defrt_t :=
  { isused := true, ipaddr := a, lifetime := { start := start, interval := interval },
    isinfinite := false, sending_rs := false, rscount := 0, registrations := registrations }

/-- An in-use registration of address slot `addr` with router slot `defrt`, its lifetime
armed at second `start` for `interval` seconds and its retransmit timer armed at tick
`tstart` for `tinterval` ticks. -/
def sample_reg (addr defrt state start interval tstart tinterval reg_count : Nat) :
    uip_ds6_reg_t :=
  { isused := true, state := state, addr := some addr, defrt := some defrt,
    reg_lifetime := { start := start, interval := interval },
    registration_timer := { start := tstart, interval := tinterval }, reg_count := reg_count }

/-- The unicast addresses of the samples: the link-local address (slot 0) and the
global address `2001:db8:1::42` (slot 1), both with infinite lifetime; slot 2 is free. -/
def sample_addr_list : List uip_ds6_addr_t :=
  [ { isused := true, ipaddr := addr_host_ll, state := ADDR_PREFERRED, type := 1,
      isinfinite := true, vlifetime := default, defrt := none },
    { isused := true, ipaddr := addr_2001_db8_1_42, state := ADDR_PREFERRED, type := 1,
      isinfinite := true, vlifetime := default, defrt := some 0 },
    default ]

/-- A host with routers `fe80::a` and `fe80::c`, the global address registered with the
first (`REG_REGISTERED`) and a garbage-collectible registration with the second, and a
full neighbour cache `fe80::a, fe80::c, fe80::d, fe80::e` last looked up at ticks 100,
50, 70 and 200. -/
def nbr_old_example : uip_ds6_state :=
  { empty_state with
    uip_ds6_if := { empty_state.uip_ds6_if with addr_list := sample_addr_list },
    uip_ds6_nbr_cache :=
      [ sample_nbr addr_fe80_a 100 NBR_REACHABLE, sample_nbr addr_fe80_c 50 NBR_STALE,
        sample_nbr addr_fe80_d 70 NBR_STALE, sample_nbr addr_fe80_e 200 NBR_STALE ],
    uip_ds6_defrt_list := [ sample_defrt addr_fe80_a 90 1800 1, sample_defrt addr_fe80_c 90 1800 1 ],
    uip_ds6_reg_list :=
      [ sample_reg 1 0 REG_REGISTERED 90 600 11520 128 0,
        sample_reg 1 1 REG_GARBAGE_COLLECTIBLE 90 20 11520 128 0,
        default, default ] }

/-- As `nbr_old_example`, but the neighbour cache has just the two routers and both
registrations are `REG_REGISTERED`: no neighbour is garbage-collectible. -/
def nbr_pinned_example : uip_ds6_state :=
  { nbr_old_example with
    uip_ds6_nbr_cache :=
      [ sample_nbr addr_fe80_a 100 NBR_REACHABLE, sample_nbr addr_fe80_c 50 NBR_STALE ],
    uip_ds6_reg_list :=
      [ sample_reg 1 0 REG_REGISTERED 90 600 11520 128 0,
        sample_reg 1 1 REG_REGISTERED 90 600 11520 128 0,
        default, default ] }

/-- A full neighbour cache of four entries that were all added at the current tick
(12800) of `sample_env`; there is no registration, so every entry is
garbage-collectible. -/
def nbr_fresh_example : uip_ds6_state :=
  { empty_state with
    uip_ds6_nbr_cache :=
      [ sample_nbr addr_fe80_a 12800 NBR_STALE, sample_nbr addr_fe80_c 12800 NBR_STALE,
        sample_nbr addr_fe80_d 12800 NBR_STALE, sample_nbr addr_fe80_e 12800 NBR_STALE ],
    uip_ds6_defrt_list := [default, default],
    uip_ds6_reg_list := [default, default, default, default] }

/-- A one-slot neighbour cache holding `fe80::a`, and a default-router list in which
both slots are in use with the address `fe80::a`. -/
def defrt_dup_example : uip_ds6_state :=
  { empty_state with
    uip_ds6_nbr_cache := [ sample_nbr addr_fe80_a 100 NBR_STALE ],
    uip_ds6_defrt_list := [ sample_defrt addr_fe80_a 90 1800 0, sample_defrt addr_fe80_a 90 1800 0 ],
    uip_ds6_reg_list := [default, default, default, default] }

/-- The address `2001:db8::1`. -/
def addr_2001_db8_0_1 : uip_ipaddr_t :=
  ⟨[0x20, 0x01, 0x0d, 0xb8, 0, 0, 0, 0, 0, 0, 0, 0, 0, 0, 0, 1], by decide, by decide⟩

/-- Three unicast addresses in use: the link-local address (slot 0) and the global
addresses `2001:db8:1::42` (slot 1) and `2001:db8::1` (slot 2). -/
def sample_addr_list_full : List uip_ds6_addr_t :=
  [ { isused := true, ipaddr := addr_host_ll, state := ADDR_PREFERRED, type := 1,
      isinfinite := true, vlifetime := default, defrt := none },
    { isused := true, ipaddr := addr_2001_db8_1_42, state := ADDR_PREFERRED, type := 1,
      isinfinite := true, vlifetime := default, defrt := some 0 },
    { isused := true, ipaddr := addr_2001_db8_0_1, state := ADDR_PREFERRED, type := 1,
      isinfinite := true, vlifetime := default, defrt := some 1 } ]

/-- A full registration list: address 1 registered with router 0, a
garbage-collectible registration of address 1 with router 1, and addresses 2 and 0
registered with router 1.  The counters of the routers (1 and 3) equal the numbers of
their in-use registrations. -/
def reg_full_example : uip_ds6_state :=
  { empty_state with
    uip_ds6_if := { empty_state.uip_ds6_if with addr_list := sample_addr_list_full },
    uip_ds6_nbr_cache :=
      [ sample_nbr addr_fe80_a 100 NBR_REACHABLE, sample_nbr addr_fe80_c 50 NBR_REACHABLE,
        default, default ],
    uip_ds6_defrt_list := [ sample_defrt addr_fe80_a 90 1800 1, sample_defrt addr_fe80_c 90 1800 3 ],
    uip_ds6_reg_list :=
      [ sample_reg 1 0 REG_REGISTERED 90 600 11520 128 0,
        sample_reg 1 1 REG_GARBAGE_COLLECTIBLE 90 20 11520 128 0,
        sample_reg 2 1 REG_REGISTERED 90 600 11520 128 0,
        sample_reg 0 1 REG_REGISTERED 90 600 11520 128 0 ] }

/-- A host at second 100 whose default router `fe80::a` (slot 0) was armed at second 40
for 50 s, so that its lifetime has expired, while the registration of address 1 with
that router (`REG_REGISTERED`, armed at second 90 for 600 s) is still running.  The
second router `fe80::c` and every neighbour are alive, no registration is in
progress, and the RS timer has not expired. -/
def router_expiry_example : uip_ds6_state :=
  { empty_state with
    uip_ds6_if := { empty_state.uip_ds6_if with addr_list := sample_addr_list },
    uip_ds6_nbr_cache :=
      [ sample_nbr addr_fe80_a 100 NBR_REACHABLE, sample_nbr addr_fe80_c 50 NBR_REACHABLE,
        default, default ],
    uip_ds6_defrt_list := [ sample_defrt addr_fe80_a 40 50 1, sample_defrt addr_fe80_c 90 1800 0 ],
    uip_ds6_reg_list :=
      [ sample_reg 1 0 REG_REGISTERED 90 600 11520 128 0, default, default, default ],
    uip_ds6_timer_rs := { start := 12700, interval := 1280 } }

/-- A host at tick 12800 (second 100) with a registration in progress in slot 0:
address 1 with router `fe80::a` (slot 0), lifetime armed at second 90 for 20 s (not
expired), retransmit timer armed at tick 12000 for 128 ticks (expired), three
solicitations already sent.  Address 1 is also registered with router `fe80::c`.  The
RS timer has expired and no router has `sending_rs` set. -/
def nud_example : uip_ds6_state :=
  { empty_state with
    uip_ds6_if :=
      { empty_state.uip_ds6_if with
        addr_list := sample_addr_list, registration_in_progress := some 0 },
    uip_ds6_nbr_cache :=
      [ sample_nbr addr_fe80_a 100 NBR_REACHABLE, sample_nbr addr_fe80_c 50 NBR_REACHABLE,
        sample_nbr addr_fe80_d 70 NBR_STALE, sample_nbr addr_fe80_e 200 NBR_STALE ],
    uip_ds6_defrt_list := [ sample_defrt addr_fe80_a 90 1800 1, sample_defrt addr_fe80_c 90 1800 1 ],
    uip_ds6_reg_list :=
      [ sample_reg 1 0 REG_TENTATIVE 90 20 12000 128 3,
        sample_reg 1 1 REG_REGISTERED 90 600 11520 128 0,
        default, default ] }

/-- As `nud_example`, but slot 1 of the neighbour cache is a second in-use entry with
the address `fe80::a` of the router. -/
def nud_dup_nbr_example : uip_ds6_state :=
  { nud_example with
    uip_ds6_nbr_cache :=
      [ sample_nbr addr_fe80_a 100 NBR_REACHABLE, sample_nbr addr_fe80_a 50 NBR_STALE,
        sample_nbr addr_fe80_d 70 NBR_STALE, sample_nbr addr_fe80_e 200 NBR_STALE ] }

/-- As `nud_example`, but the RS timer was armed at tick 12700 for 1280 ticks and has
not expired. -/
def nud_rs_running_example : uip_ds6_state :=
  { nud_example with uip_ds6_timer_rs := { start := 12700, interval := 1280 } }

/-- As `nud_example`, but the other router `fe80::c` has `sending_rs` set and has not
been solicited yet. -/
def nud_rs_unicast_example : uip_ds6_state :=
  { nud_example with
    uip_ds6_defrt_list :=
      [ sample_defrt addr_fe80_a 90 1800 1,
        { sample_defrt addr_fe80_c 90 1800 1 with sending_rs := true } ] }


/-- A routing table of four slots in which slots 0 and 1 both hold an in-use route for
`2001:db8::/32`, the first via `fe80::a` and the second via `fe80::b`. -/
def routes_tie_example : uip_ds6_state :=
  { empty_state with
    uip_ds6_routing_table :=
      [ { isused := true, ipaddr := addr_2001_db8, length := 32, metric := 1,
          nexthop := addr_fe80_a },
        { isused := true, ipaddr := addr_2001_db8, length := 32, metric := 1,
          nexthop := addr_fe80_b },
        default,
        default ] }

/-- A routing table of two slots holding only `2001:db8:1::/48 -> fe80::b`, in slot 0. -/
def route_long_example : uip_ds6_state :=
  { empty_state with
    uip_ds6_routing_table :=
      [ { isused := true, ipaddr := addr_2001_db8_1, length := 48, metric := 1,
          nexthop := addr_fe80_b },
        default ] }

/-- As `reg_full_example`, but the registration of slot 3 is garbage-collectible too:
the list is full and its garbage-collectible entries are those of slots 1 and 3. -/
def reg_two_gc_example : uip_ds6_state :=
  { reg_full_example with
    uip_ds6_reg_list :=
      [ sample_reg 1 0 REG_REGISTERED 90 600 11520 128 0,
        sample_reg 1 1 REG_GARBAGE_COLLECTIBLE 90 20 11520 128 0,
        sample_reg 2 1 REG_REGISTERED 90 600 11520 128 0,
        sample_reg 0 1 REG_GARBAGE_COLLECTIBLE 90 20 11520 128 0 ] }

/-- As `reg_full_example`, but every registration is `REG_REGISTERED`: the list is full
and holds no garbage-collectible entry. -/
def reg_full_pinned_example : uip_ds6_state :=
  { reg_full_example with
    uip_ds6_reg_list :=
      [ sample_reg 1 0 REG_REGISTERED 90 600 11520 128 0,
        sample_reg 1 1 REG_REGISTERED 90 600 11520 128 0,
        sample_reg 2 1 REG_REGISTERED 90 600 11520 128 0,
        sample_reg 0 1 REG_REGISTERED 90 600 11520 128 0 ] }

/-- As `router_expiry_example`, with the routing table of `routes_example`: the route of
slot 0 has the address `fe80::a` of the default router of slot 0 as its next hop, and
the registration of slot 0 is with that router. -/
def defrt_rm_example : uip_ds6_state :=
  { router_expiry_example with
    uip_ds6_routing_table := routes_example.uip_ds6_routing_table }

/-- Routers `fe80::a` (slot 0) and `fe80::c` (slot 1), and a neighbour cache with two
in-use entries for `fe80::a`, the first `NBR_INCOMPLETE` and the second
`NBR_REACHABLE`, and a reachable entry for `fe80::c`. -/
def choose_dup_nbr_example : uip_ds6_state :=
  { empty_state with
    uip_ds6_nbr_cache :=
      [ sample_nbr addr_fe80_a 100 NBR_INCOMPLETE, sample_nbr addr_fe80_a 50 NBR_REACHABLE,
        sample_nbr addr_fe80_c 70 NBR_REACHABLE ],
    uip_ds6_defrt_list := [ sample_defrt addr_fe80_a 90 1800 0, sample_defrt addr_fe80_c 90 1800 0 ] }

/-- Routers `fe80::a`, `fe80::c` and `fe80::d` in slots 0, 1 and 3 (slot 2 free); the
neighbour of `fe80::a` is `NBR_INCOMPLETE`, those of `fe80::c` and `fe80::d` are
reachable. -/
def choose_example : uip_ds6_state :=
  { empty_state with
    uip_ds6_nbr_cache :=
      [ sample_nbr addr_fe80_a 100 NBR_INCOMPLETE, sample_nbr addr_fe80_c 50 NBR_REACHABLE,
        sample_nbr addr_fe80_d 70 NBR_STALE, default ],
    uip_ds6_defrt_list :=
      [ sample_defrt addr_fe80_a 90 1800 0, sample_defrt addr_fe80_c 90 1800 0, default,
        sample_defrt addr_fe80_d 90 1800 0 ] }

/-- The all-nodes multicast address `ff02::1`. -/
def addr_ff02_1 : uip_ipaddr_t :=
  ⟨[0xff, 0x02, 0, 0, 0, 0, 0, 0, 0, 0, 0, 0, 0, 0, 0, 1], by decide, by decide⟩

/-- A host with a free slot in every exact-match table: neighbours `fe80::a` and
`fe80::c` (slots 2 and 3 free), the router `fe80::a` (slot 1 free), the unicast
addresses of `sample_addr_list` (slot 2 free) and the group `ff02::1` (slot 1 free). -/
def tables_example : uip_ds6_state :=
  { router_expiry_example with
    uip_ds6_if :=
      { router_expiry_example.uip_ds6_if with
        maddr_list := [ { isused := true, ipaddr := addr_ff02_1 }, default ] },
    uip_ds6_defrt_list := [ sample_defrt addr_fe80_a 90 1800 1, default ] }


/-- A context in state `st` with prefix `a`, length `len` and id `cid`, its valid
lifetime armed at second `start` for `interval` seconds, learnt from router 0 with a
router lifetime of `defrt_lifetime` seconds. -/
def sample_context (st : uip_ds6_context_state_t) (a : uip_ipaddr_t)
    (len cid start interval defrt_lifetime : Nat) : uip_ds6_addr_context_t :=
  { state := st, length := len, context_id := cid, prefix_ := a,
    vlifetime := { start := start, interval := interval }, defrt := some 0,
    defrt_lifetime := defrt_lifetime }

/-- A context table of four slots with `2001:db8::/32` in slot 0 and
`2001:db8:1::/48` in slot 1, both in use for compression; slots 2 and 3 are free. -/
def contexts_example : uip_ds6_state :=
  { empty_state with
    uip_ds6_addr_context_table :=
      [ sample_context uip_ds6_context_state_t.IN_USE_COMPRESS addr_2001_db8 32 0 90 600 1800,
        sample_context uip_ds6_context_state_t.IN_USE_COMPRESS addr_2001_db8_1 48 1 90 600 1800,
        default, default ] }

/-- The usual values of the constants of the 6LoWPAN context option: the context id is
the low four bits of `res1_c_cid`, the compression flag is bit 4; `uip_ntohs` swaps the
two bytes of a 16-bit value (little-endian host). -/
def sample_6co_conf : uip_nd6_6co_conf :=
  { UIP_ND6_RA_CID := 0x0F,
    UIP_ND6_RA_FLAG_COMPRESSION := 0x10,
    uip_ntohs := fun x => (x % 256) * 256 + x / 256 % 256 }

/-- A context option for `2001:db8:1::/48` with context id 2, the compression flag
set, and a lifetime of 10 (in network byte order, `0x0a00` on the little-endian host
of `sample_6co_conf`). -/
def sample_6co : uip_nd6_opt_6co :=
  { preflen := 48, res1_c_cid := 0x12, lifetime := 0x0a00, prefix_ := addr_2001_db8_1 }

/-- Three routers `fe80::a`, `fe80::c`, `fe80::d` with 2, 1 and 1 registrations:
address 1 is registered with the first two, address 2 with the first and the third;
address 0 is registered with none. -/
def min_reg_example : uip_ds6_state :=
  { empty_state with
    uip_ds6_if := { empty_state.uip_ds6_if with addr_list := sample_addr_list_full },
    uip_ds6_defrt_list :=
      [ sample_defrt addr_fe80_a 90 1800 2, sample_defrt addr_fe80_c 90 1800 1,
        sample_defrt addr_fe80_d 90 1800 1 ],
    uip_ds6_reg_list :=
      [ sample_reg 1 0 REG_REGISTERED 90 600 11520 128 0,
        sample_reg 1 1 REG_REGISTERED 90 600 11520 128 0,
        sample_reg 2 0 REG_REGISTERED 90 600 11520 128 0,
        sample_reg 2 2 REG_REGISTERED 90 600 11520 128 0,
        default, default ] }


/-- The platform of `sample_env` read at second `t`, tick `128 * t`. -/
def env_at (t : Nat) : Env :=
  { sample_env with clock_seconds := t, clock_time := 128 * t }

/-- A host at second 0 with its link-local address, the router `fe80::a` (lifetime
30 s, armed at second 0) and its neighbour entry, and four free context slots. -/
def context_install_example : uip_ds6_state :=
  { empty_state with
    uip_ds6_if :=
      { empty_state.uip_ds6_if with
        addr_list :=
          [ { isused := true, ipaddr := addr_host_ll, state := ADDR_PREFERRED, type := 1,
              isinfinite := true, vlifetime := default, defrt := none },
            default, default ] },
    uip_ds6_nbr_cache := [ sample_nbr addr_fe80_a 0 NBR_STALE, default, default, default ],
    uip_ds6_defrt_list := [ sample_defrt addr_fe80_a 0 30 0, default ],
    uip_ds6_reg_list := [default, default, default, default],
    uip_ds6_addr_context_table := [default, default, default, default] }

/-- The host of `context_install_example` after the context option `sample_6co`
(`2001:db8:1::/48`, context id 2, compression, valid lifetime 10 s) has been installed
at second 0 with a router lifetime of 30 s. -/
def context_installed_example : uip_ds6_state :=
  (uip_ds6_context_add (env_at 0) sample_6co_conf context_install_example sample_6co 30).1

/-- The link-layer address `02:00:00:00:00:01`. -/
def sample_lladdr : uip_lladdr_t := { addr := [0x02, 0, 0, 0, 0, 0x01] }

/-- A platform with 48-bit link-layer addresses, read at second 0. -/
def sample_env_48 : Env :=
  { sample_env with clock_seconds := 0, clock_time := 0, UIP_LLADDR_LEN := 6 }

/-- The sizes that `uip-ds6.h` gives when nothing is configured, four context slots,
the usual values of the constants (random factors one half and three halves), the
link-layer address `02:00:00:00:00:01`, and the scratch address zero as at start-up. -/
def sample_conf : uip_ds6_conf :=
  { UIP_DS6_NBR_NBU := 4, UIP_DS6_DEFRT_NBU := 2, UIP_DS6_PREFIX_NBU := 2,
    UIP_DS6_ROUTE_NBU := 4, UIP_DS6_ADDR_NBU := 2, UIP_DS6_MADDR_NBU := 0,
    UIP_DS6_AADDR_NBU := 0, SICSLOWPAN_CONF_MAX_ADDR_CONTEXTS := 4,
    UIP_LINK_MTU := 1280, UIP_TTL := 64, UIP_ND6_REACHABLE_TIME := 30000,
    UIP_ND6_RETRANS_TIMER := 1000, UIP_DEFAULT_PREFIX_LEN := 64,
    UIP_ND6_MAX_RTR_SOLICITATION_DELAY := 1,
    UIP_ND6_MIN_RANDOM_FACTOR := fun x => x / 2,
    UIP_ND6_MAX_RANDOM_FACTOR := fun x => x + x / 2,
    uip_lladdr := sample_lladdr, loc_fipaddr := uip_ipaddr_zero,
    rand_hi := 7, rand_lo := 7, rand_rs := 7 }


/-- A host with the router `fe80::a` (slot 0, alive, one registration) and the
registration `R` of address 1 with that router in slot 0 of the registration list; no
registration is in progress, the RS timer is running, and the neighbour entry of the
router is `NBR_REACHABLE` and fresh. -/
def reg_start_example (R : uip_ds6_reg_t) : uip_ds6_state :=
  { empty_state with
    uip_ds6_if := { empty_state.uip_ds6_if with addr_list := sample_addr_list },
    uip_ds6_nbr_cache := [ sample_nbr addr_fe80_a 100 NBR_REACHABLE, default, default, default ],
    uip_ds6_defrt_list := [ sample_defrt addr_fe80_a 90 1800 1, default ],
    uip_ds6_reg_list := [ R, default, default, default ],
    uip_ds6_timer_rs := { start := 12700, interval := 12800 } }

/-- A registration in state `REG_REGISTERED` armed at second 0 for 150 s, whose last
campaign left `reg_count = 1`: at second 100 less of its lifetime remains (50 s) than
has elapsed (100 s). -/
def reg_renew_example : uip_ds6_state :=
  reg_start_example (sample_reg 1 0 REG_REGISTERED 0 150 0 0 1)

/-- A registration in state `REG_TO_BE_UNREGISTERED` (lifetime armed at second 90 for
600 s) that has not been solicited yet. -/
def reg_unregister_example : uip_ds6_state :=
  reg_start_example (sample_reg 1 0 REG_TO_BE_UNREGISTERED 90 600 0 0 0)

/-- A registration in state `REG_GARBAGE_COLLECTIBLE` with its lifetime of 20 s armed at
second 90, not solicited yet. -/
def reg_gc_example : uip_ds6_state :=
  reg_start_example (sample_reg 1 0 REG_GARBAGE_COLLECTIBLE 90 20 0 0 0)

/-- Two routers that are being solicited by unicast: `fe80::a` (slot 0) has been
solicited once, `fe80::c` (slot 1) three times; the RS timer (armed at tick 0 for 1280
ticks) has expired at tick 12800. -/
def rs_example : uip_ds6_state :=
  { empty_state with
    uip_ds6_if := { empty_state.uip_ds6_if with addr_list := sample_addr_list },
    uip_ds6_nbr_cache :=
      [ sample_nbr addr_fe80_a 100 NBR_REACHABLE, sample_nbr addr_fe80_c 50 NBR_REACHABLE,
        default, default ],
    uip_ds6_defrt_list :=
      [ { sample_defrt addr_fe80_a 90 1800 0 with sending_rs := true, rscount := 1 },
        { sample_defrt addr_fe80_c 90 1800 0 with sending_rs := true, rscount := 3 } ],
    uip_ds6_reg_list := [default, default, default, default],
    uip_ds6_timer_rs := { start := 0, interval := 1280 } }

/-- The router `fe80::a` (slot 0) is being solicited by unicast and has been solicited
eleven times; the RS timer (armed at tick 0 for 1280 ticks) has expired at tick 12800. -/
def rs_saturated_example : uip_ds6_state :=
  { empty_state with
    uip_ds6_if := { empty_state.uip_ds6_if with addr_list := sample_addr_list },
    uip_ds6_nbr_cache := [ sample_nbr addr_fe80_a 100 NBR_REACHABLE, default, default, default ],
    uip_ds6_defrt_list :=
      [ { sample_defrt addr_fe80_a 90 1800 0 with sending_rs := true, rscount := 11 } ],
    uip_ds6_reg_list := [default, default, default, default],
    uip_ds6_timer_rs := { start := 0, interval := 1280 } }

/-- A host whose neighbour `fe80::a` is in state `NBR_PROBE` with three solicitations
sent, together with the given default routers. -/
def probe_example (routers : List uip_ds6_defrt_t) : uip_ds6_state :=
  { empty_state with
    uip_ds6_nbr_cache :=
      [{ sample_nbr addr_fe80_a 100 NBR_PROBE with nscount := 3 },
       sample_nbr addr_fe80_b 100 NBR_STALE],
    uip_ds6_defrt_list := routers }

/-- The neighbour `fe80::a` in state `NBR_PROBE` with three solicitations sent, and the
routers `fe80::a` and `fe80::b`. -/
def probe_router_example : uip_ds6_state :=
  probe_example [sample_defrt addr_fe80_a 90 1800 0, sample_defrt addr_fe80_b 90 1800 0]

/-- The neighbour `fe80::a` in state `NBR_PROBE` with three solicitations sent, and two
in-use routers with the address `fe80::a`. -/
def probe_dup_router_example : uip_ds6_state :=
  probe_example [sample_defrt addr_fe80_a 90 1800 0, sample_defrt addr_fe80_a 90 1800 0]

/-! ## Lemmas on addresses, slots and loops -/

theorem byte_bits_length (b : Nat) : (byte_bits b).length = 8 := rfl

theorem byte_bits_inj {a b : Nat} (ha : a < 256) (hb : b < 256)
    (h : byte_bits a = byte_bits b) : a = b := by
  simp only [byte_bits, List.cons.injEq, and_true] at h
  omega

theorem flatMap_byte_bits_inj : ∀ (l1 l2 : List Nat), l1.length = l2.length →
    (∀ b ∈ l1, b < 256) → (∀ b ∈ l2, b < 256) →
    l1.flatMap byte_bits = l2.flatMap byte_bits → l1 = l2
  | [], [], _, _, _, _ => rfl
  | [], _ :: _, hl, _, _, _ => by simp at hl
  | _ :: _, [], hl, _, _, _ => by simp at hl
  | a :: l1, b :: l2, hl, h1, h2, h => by
    simp only [List.flatMap_cons] at h
    have hlen : (byte_bits a).length = (byte_bits b).length := rfl
    obtain ⟨hab, hrest⟩ := List.append_inj h hlen
    have ha : a < 256 := h1 a (List.mem_cons_self _ _)
    have hb : b < 256 := h2 b (List.mem_cons_self _ _)
    have e1 : a = b := byte_bits_inj ha hb hab
    have e2 : l1 = l2 := flatMap_byte_bits_inj l1 l2 (by simpa using hl)
      (fun x hx => h1 x (List.mem_cons_of_mem _ hx))
      (fun x hx => h2 x (List.mem_cons_of_mem _ hx)) hrest
    rw [e1, e2]

theorem addr_bits_length (a : uip_ipaddr_t) : (addr_bits a).length = 128 := by
  obtain ⟨l, hl, hb⟩ := a
  simp only [addr_bits]
  match l, hl with
  | [a0,a1,a2,a3,a4,a5,a6,a7,a8,a9,a10,a11,a12,a13,a14,a15], _ => rfl

theorem uip_ipaddr_ext {a b : uip_ipaddr_t} (h : a.u8 = b.u8) : a = b := by
  cases a; cases b; cases h; rfl

theorem uip_ipaddr_prefixcmp_128 (a b : uip_ipaddr_t) :
    uip_ipaddr_prefixcmp a b 128 = true ↔ a = b := by
  constructor
  · intro h
    simp only [uip_ipaddr_prefixcmp, decide_eq_true_eq] at h
    rw [List.take_of_length_le (by rw [addr_bits_length]),
      List.take_of_length_le (by rw [addr_bits_length])] at h
    exact uip_ipaddr_ext (flatMap_byte_bits_inj _ _ (by rw [a.len_eq, b.len_eq])
      a.byte_lt b.byte_lt h)
  · intro h
    subst h
    simp [uip_ipaddr_prefixcmp]

theorem uip_ipaddr_prefixcmp_refl (a : uip_ipaddr_t) (n : Nat) :
    uip_ipaddr_prefixcmp a a n = true := by
  simp [uip_ipaddr_prefixcmp]

theorem update_slot_length {α : Type} (l : List α) (i : Nat) (f : α → α) :
    (update_slot l i f).length = l.length := by
  unfold update_slot
  split <;> simp

theorem update_slot_getElem? {α : Type} (l : List α) (i j : Nat) (f : α → α) :
    (update_slot l i f)[j]? = if i = j then (l[j]?).map f else l[j]? := by
  unfold update_slot
  split
  · rename_i e he
    rw [List.getElem?_set]
    by_cases hij : i = j
    · subst hij
      have hlt : i < l.length := by
        rcases Nat.lt_or_ge i l.length with h | h
        · exact h
        · rw [List.getElem?_eq_none h] at he; cases he
      simp [hlt, he]
    · simp [hij]
  · rename_i he
    by_cases hij : i = j
    · subst hij
      simp [he]
    · simp [hij]

theorem update_slot_getElem?_self {α : Type} (l : List α) (i : Nat) (f : α → α) :
    (update_slot l i f)[i]? = (l[i]?).map f := by
  rw [update_slot_getElem?]; simp

theorem update_slot_getElem?_ne {α : Type} (l : List α) {i j : Nat} (f : α → α) (h : i ≠ j) :
    (update_slot l i f)[j]? = l[j]? := by
  rw [update_slot_getElem?]; simp [h]

theorem for_loop_succ {σ : Type} (body : σ → Nat → σ) (k : Nat) (init : σ) :
    for_loop body (k + 1) init = body (for_loop body k init) k := rfl

theorem for_loop_zero {σ : Type} (body : σ → Nat → σ) (init : σ) :
    for_loop body 0 init = init := rfl

/-- An invariant of the body of a counted loop holds after the loop. -/
theorem for_loop_invariant {σ : Type} (P : σ → Prop) (body : σ → Nat → σ)
    (hstep : ∀ v i, P v → P (body v i)) (n : Nat) (init : σ) (h0 : P init) :
    P (for_loop body n init) := by
  induction n with
  | zero => exact h0
  | succ k ih => exact hstep _ _ ih

/-- A relation that is reflexive, transitive and respected by the body holds between
the value before and after a counted loop. -/
theorem for_loop_rel {σ : Type} (R : σ → σ → Prop) (body : σ → Nat → σ)
    (hrefl : ∀ v, R v v) (htrans : ∀ a b c, R a b → R b c → R a c)
    (hstep : ∀ v i, R v (body v i)) (n : Nat) (init : σ) :
    R init (for_loop body n init) := by
  induction n with
  | zero => exact hrefl _
  | succ k ih => exact htrans _ _ _ ih (hstep _ _)

/-! ## The generic scan -/

/-- The three outcomes of the scan: a hit at the first in-use matching slot; no hit
and the last free slot (or the incoming `out` when every slot is in use); no hit, no
free slot. -/
theorem uip_ds6_list_loop_from_spec {α : Type} (isused : α → Bool) (ipaddr : α → uip_ipaddr_t)
    (target : uip_ipaddr_t) (len : Nat) :
    ∀ (l : List α) (i : Nat) (out : Option Nat),
      ((uip_ds6_list_loop_from isused ipaddr target len l i out).1 = FOUND ∧
        ∃ k e, (uip_ds6_list_loop_from isused ipaddr target len l i out).2 = some (i + k) ∧
          l[k]? = some e ∧ isused e = true ∧
          uip_ipaddr_prefixcmp (ipaddr e) target len = true ∧
          ∀ j e', j < k → l[j]? = some e' →
            ¬ (isused e' = true ∧ uip_ipaddr_prefixcmp (ipaddr e') target len = true))
      ∨ ((uip_ds6_list_loop_from isused ipaddr target len l i out).1 = FREESPACE ∧
        (∀ e ∈ l, ¬ (isused e = true ∧ uip_ipaddr_prefixcmp (ipaddr e) target len = true)) ∧
        (((uip_ds6_list_loop_from isused ipaddr target len l i out).2 = out ∧
            out.isSome = true ∧ ∀ e ∈ l, isused e = true)
          ∨ ∃ k e, (uip_ds6_list_loop_from isused ipaddr target len l i out).2 = some (i + k) ∧
              l[k]? = some e ∧ isused e = false ∧
              ∀ j e', k < j → l[j]? = some e' → isused e' = true))
      ∨ ((uip_ds6_list_loop_from isused ipaddr target len l i out).1 = NOSPACE ∧
        (uip_ds6_list_loop_from isused ipaddr target len l i out).2 = none ∧ out = none ∧
        ∀ e ∈ l, isused e = true ∧ uip_ipaddr_prefixcmp (ipaddr e) target len = false) := by
  intro l
  induction l with
  | nil =>
    intro i out
    cases out with
    | none =>
      right; right
      simp [uip_ds6_list_loop_from]
    | some o =>
      right; left
      simp [uip_ds6_list_loop_from]
  | cons e rest ih =>
    intro i out
    by_cases hu : isused e = true
    · by_cases hm : uip_ipaddr_prefixcmp (ipaddr e) target len = true
      · left
        simp only [uip_ds6_list_loop_from, hu, hm, if_true, true_and]
        exact ⟨0, e, rfl, List.getElem?_cons_zero, hu, hm, fun j e' hj => absurd hj (Nat.not_lt_zero j)⟩
      · have hstep : uip_ds6_list_loop_from isused ipaddr target len (e :: rest) i out
            = uip_ds6_list_loop_from isused ipaddr target len rest (i + 1) out := by
          simp [uip_ds6_list_loop_from, hu, hm]
        rw [hstep]
        rcases ih (i + 1) out with ⟨hc, k, e1, hr, hk, hu1, hm1, hfirst⟩ |
          ⟨hc, hno, hlast⟩ | ⟨hc, hr, ho, hall⟩
        · left
          refine ⟨hc, k + 1, e1, ?_, ?_, hu1, hm1, ?_⟩
          · rw [hr]; congr 1; omega
          · simpa using hk
          · intro j e' hj hje
            cases j with
            | zero =>
              simp only [List.getElem?_cons_zero, Option.some.injEq] at hje
              subst hje
              exact fun h => hm h.2
            | succ j' =>
              simp only [List.getElem?_cons_succ] at hje
              exact hfirst j' e' (by omega) hje
        · right; left
          refine ⟨hc, ?_, ?_⟩
          · intro x hx
            rcases List.mem_cons.mp hx with rfl | hx'
            · exact fun h => hm h.2
            · exact hno x hx'
          · rcases hlast with ⟨hr, hos, hall⟩ | ⟨k, e1, hr, hk, hu1, hlater⟩
            · left
              refine ⟨hr, hos, ?_⟩
              intro x hx
              rcases List.mem_cons.mp hx with rfl | hx'
              · exact hu
              · exact hall x hx'
            · right
              refine ⟨k + 1, e1, ?_, ?_, hu1, ?_⟩
              · rw [hr]; congr 1; omega
              · simpa using hk
              · intro j e' hj hje
                cases j with
                | zero => omega
                | succ j' =>
                  simp only [List.getElem?_cons_succ] at hje
                  exact hlater j' e' (by omega) hje
        · right; right
          refine ⟨hc, hr, ho, ?_⟩
          intro x hx
          rcases List.mem_cons.mp hx with rfl | hx'
          · exact ⟨hu, by simpa using hm⟩
          · exact hall x hx'
    · have hu' : isused e = false := by simpa using hu
      have hstep : uip_ds6_list_loop_from isused ipaddr target len (e :: rest) i out
          = uip_ds6_list_loop_from isused ipaddr target len rest (i + 1) (some i) := by
        simp [uip_ds6_list_loop_from, hu']
      rw [hstep]
      rcases ih (i + 1) (some i) with ⟨hc, k, e1, hr, hk, hu1, hm1, hfirst⟩ |
        ⟨hc, hno, hlast⟩ | ⟨hc, hr, ho, hall⟩
      · left
        refine ⟨hc, k + 1, e1, ?_, ?_, hu1, hm1, ?_⟩
        · rw [hr]; congr 1; omega
        · simpa using hk
        · intro j e' hj hje
          cases j with
          | zero =>
            simp only [List.getElem?_cons_zero, Option.some.injEq] at hje
            subst hje
            exact fun h => hu h.1
          | succ j' =>
            simp only [List.getElem?_cons_succ] at hje
            exact hfirst j' e' (by omega) hje
      · right; left
        refine ⟨hc, ?_, ?_⟩
        · intro x hx
          rcases List.mem_cons.mp hx with rfl | hx'
          · exact fun h => hu h.1
          · exact hno x hx'
        · right
          rcases hlast with ⟨hr, _, hall⟩ | ⟨k, e1, hr, hk, hu1, hlater⟩
          · refine ⟨0, e, ?_, List.getElem?_cons_zero, hu', ?_⟩
            · rw [hr]; rfl
            · intro j e' hj hje
              cases j with
              | zero => omega
              | succ j' =>
                simp only [List.getElem?_cons_succ] at hje
                exact hall e' (List.getElem?_mem hje)
          · refine ⟨k + 1, e1, ?_, ?_, hu1, ?_⟩
            · rw [hr]; congr 1; omega
            · simpa using hk
            · intro j e' hj hje
              cases j with
              | zero => omega
              | succ j' =>
                simp only [List.getElem?_cons_succ] at hje
                exact hlater j' e' (by omega) hje
      · cases ho

/-! ## Routing table -/

theorem uip_ds6_route_lookup_from_none (d : uip_ipaddr_t) :
    ∀ (l : List uip_ds6_route_t) (i lm : Nat) (locrt : Option Nat),
      uip_ds6_route_lookup_from d l i lm locrt = none ↔
        locrt = none ∧ ∀ r ∈ l, ¬ (r.isused = true ∧ lm ≤ r.length ∧
          uip_ipaddr_prefixcmp d r.ipaddr r.length = true) := by
  intro l
  induction l with
  | nil => intro i lm locrt; simp [uip_ds6_route_lookup_from]
  | cons r rest ih =>
    intro i lm locrt
    by_cases hc : r.isused = true ∧ lm ≤ r.length ∧
        uip_ipaddr_prefixcmp d r.ipaddr r.length = true
    · have hstep : uip_ds6_route_lookup_from d (r :: rest) i lm locrt
          = uip_ds6_route_lookup_from d rest (i + 1) r.length (some i) := by
        simp [uip_ds6_route_lookup_from, hc.1, hc.2.1, hc.2.2]
      rw [hstep, ih]
      constructor
      · intro h; cases h.1
      · intro h; exact absurd hc (h.2 r (List.mem_cons_self _ _))
    · have hstep : uip_ds6_route_lookup_from d (r :: rest) i lm locrt
          = uip_ds6_route_lookup_from d rest (i + 1) lm locrt := by
        simp only [uip_ds6_route_lookup_from]
        rw [if_neg]
        intro h
        simp only [Bool.and_eq_true, decide_eq_true_eq, ge_iff_le] at h
        exact hc ⟨h.1.1, h.1.2, h.2⟩
      rw [hstep, ih]
      constructor
      · intro h
        refine ⟨h.1, ?_⟩
        intro x hx
        rcases List.mem_cons.mp hx with rfl | hx'
        · exact hc
        · exact h.2 x hx'
      · intro h
        exact ⟨h.1, fun x hx => h.2 x (List.mem_cons_of_mem _ hx)⟩

theorem uip_ds6_route_lookup_from_some (d : uip_ipaddr_t) :
    ∀ (l : List uip_ds6_route_t) (i lm : Nat) (locrt : Option Nat) (k : Nat),
      uip_ds6_route_lookup_from d l i lm locrt = some k →
        (locrt = some k ∧ ∀ r ∈ l, ¬ (r.isused = true ∧ lm ≤ r.length ∧
          uip_ipaddr_prefixcmp d r.ipaddr r.length = true))
        ∨ ∃ m r, k = i + m ∧ l[m]? = some r ∧ r.isused = true ∧ lm ≤ r.length ∧
            uip_ipaddr_prefixcmp d r.ipaddr r.length = true ∧
            ∀ r' ∈ l, r'.isused = true →
              uip_ipaddr_prefixcmp d r'.ipaddr r'.length = true → r'.length ≤ r.length := by
  intro l
  induction l with
  | nil =>
    intro i lm locrt k h
    left
    simpa [uip_ds6_route_lookup_from] using h
  | cons r rest ih =>
    intro i lm locrt k h
    by_cases hc : r.isused = true ∧ lm ≤ r.length ∧
        uip_ipaddr_prefixcmp d r.ipaddr r.length = true
    · have hstep : uip_ds6_route_lookup_from d (r :: rest) i lm locrt
          = uip_ds6_route_lookup_from d rest (i + 1) r.length (some i) := by
        simp [uip_ds6_route_lookup_from, hc.1, hc.2.1, hc.2.2]
      rw [hstep] at h
      right
      rcases ih (i + 1) r.length (some i) k h with ⟨hk, hno⟩ | ⟨m, r2, hk, hm, hu, hl, hp, hmax⟩
      · refine ⟨0, r, ?_, List.getElem?_cons_zero, hc.1, hc.2.1, hc.2.2, ?_⟩
        · cases hk; rfl
        · intro x hx hxu hxp
          rcases List.mem_cons.mp hx with rfl | hx'
          · exact Nat.le_refl _
          · have := hno x hx'
            by_contra hlt
            exact this ⟨hxu, by omega, hxp⟩
      · refine ⟨m + 1, r2, by omega, by simpa using hm, hu, by omega, hp, ?_⟩
        intro x hx hxu hxp
        rcases List.mem_cons.mp hx with rfl | hx'
        · exact hl
        · exact hmax x hx' hxu hxp
    · have hstep : uip_ds6_route_lookup_from d (r :: rest) i lm locrt
          = uip_ds6_route_lookup_from d rest (i + 1) lm locrt := by
        simp only [uip_ds6_route_lookup_from]
        rw [if_neg]
        intro h
        simp only [Bool.and_eq_true, decide_eq_true_eq, ge_iff_le] at h
        exact hc ⟨h.1.1, h.1.2, h.2⟩
      rw [hstep] at h
      rcases ih (i + 1) lm locrt k h with ⟨hk, hno⟩ | ⟨m, r2, hk, hm, hu, hl, hp, hmax⟩
      · left
        refine ⟨hk, ?_⟩
        intro x hx
        rcases List.mem_cons.mp hx with rfl | hx'
        · exact hc
        · exact hno x hx'
      · right
        refine ⟨m + 1, r2, by omega, by simpa using hm, hu, hl, hp, ?_⟩
        intro x hx hxu hxp
        rcases List.mem_cons.mp hx with rfl | hx'
        · by_contra hlt
          exact hc ⟨hxu, by omega, hxp⟩
        · exact hmax x hx' hxu hxp

/-- C10. Longest-prefix match: `uip_ds6_route_lookup d` is null exactly when no in-use
route agrees with `d` on the first `length` bits of its prefix; otherwise it is the slot
of an in-use route that matches `d` and whose length is at least the length of every
in-use route matching `d`.  With `2001:db8::/32 -> fe80::a` and
`2001:db8:1::/48 -> fe80::b` in the table, the lookup of `2001:db8:1::42` is the /48
route. -/
theorem uip_ds6_route_lookup_longest_match :
    (∀ (s : uip_ds6_state) (d : uip_ipaddr_t),
      (uip_ds6_route_lookup s d = none ↔
        ¬ ∃ (j : Nat) (r : uip_ds6_route_t), s.uip_ds6_routing_table[j]? = some r ∧
          r.isused = true ∧ (addr_bits d).take r.length = (addr_bits r.ipaddr).take r.length) ∧
      (∀ k, uip_ds6_route_lookup s d = some k →
        ∃ r, s.uip_ds6_routing_table[k]? = some r ∧ r.isused = true ∧
          (addr_bits d).take r.length = (addr_bits r.ipaddr).take r.length ∧
          ∀ (j : Nat) (r' : uip_ds6_route_t), s.uip_ds6_routing_table[j]? = some r' →
            r'.isused = true → (addr_bits d).take r'.length = (addr_bits r'.ipaddr).take r'.length →
            r'.length ≤ r.length)) ∧
    (uip_ds6_route_lookup routes_example addr_2001_db8_1_42 = some 1 ∧
      routes_example.uip_ds6_routing_table[1]? =
        some { isused := true, ipaddr := addr_2001_db8_1, length := 48, metric := 1,
               nexthop := addr_fe80_b }) := by
  refine ⟨?_, by decide, by decide⟩
  intro s d
  constructor
  · unfold uip_ds6_route_lookup
    rw [uip_ds6_route_lookup_from_none]
    constructor
    · rintro ⟨_, h⟩ ⟨j, r, hj, hu, hp⟩
      exact h r (List.getElem?_mem hj) ⟨hu, Nat.zero_le _, by
        simpa [uip_ipaddr_prefixcmp] using hp⟩
    · intro h
      refine ⟨rfl, ?_⟩
      rintro r hr ⟨hu, _, hp⟩
      obtain ⟨j, hj⟩ := List.mem_iff_getElem?.mp hr
      exact h ⟨j, r, hj, hu, by simpa [uip_ipaddr_prefixcmp] using hp⟩
  · intro k hk
    unfold uip_ds6_route_lookup at hk
    rcases uip_ds6_route_lookup_from_some d _ 0 0 none k hk with ⟨h, _⟩ |
      ⟨m, r, hkm, hm, hu, _, hp, hmax⟩
    · cases h
    · have hkm' : k = m := by omega
      subst hkm'
      refine ⟨r, hm, hu, by simpa [uip_ipaddr_prefixcmp] using hp, ?_⟩
      intro j r' hj hu' hp'
      exact hmax r' (List.getElem?_mem hj) hu' (by simpa [uip_ipaddr_prefixcmp] using hp')

/-! ## Frame lemmas: what each primitive leaves alone -/

@[simp]
theorem uip_ds6_nbr_rm_output (s : uip_ds6_state) (nbr : Option Nat) :
    (uip_ds6_nbr_rm s nbr).output = s.output := by
  cases nbr <;> rfl

@[simp]
theorem uip_ds6_nbr_rm_reg_list (s : uip_ds6_state) (nbr : Option Nat) :
    (uip_ds6_nbr_rm s nbr).uip_ds6_reg_list = s.uip_ds6_reg_list := by
  cases nbr <;> rfl

@[simp]
theorem uip_ds6_nbr_rm_defrt_list (s : uip_ds6_state) (nbr : Option Nat) :
    (uip_ds6_nbr_rm s nbr).uip_ds6_defrt_list = s.uip_ds6_defrt_list := by
  cases nbr <;> rfl

@[simp]
theorem uip_ds6_nbr_rm_netif (s : uip_ds6_state) (nbr : Option Nat) :
    (uip_ds6_nbr_rm s nbr).uip_ds6_if = s.uip_ds6_if := by
  cases nbr <;> rfl

@[simp]
theorem uip_ds6_nbr_rm_timer_rs (s : uip_ds6_state) (nbr : Option Nat) :
    (uip_ds6_nbr_rm s nbr).uip_ds6_timer_rs = s.uip_ds6_timer_rs := by
  cases nbr <;> rfl

@[simp]
theorem uip_ds6_nbr_rm_rscount (s : uip_ds6_state) (nbr : Option Nat) :
    (uip_ds6_nbr_rm s nbr).rscount = s.rscount := by
  cases nbr <;> rfl

@[simp]
theorem uip_ds6_nbr_rm_context_table (s : uip_ds6_state) (nbr : Option Nat) :
    (uip_ds6_nbr_rm s nbr).uip_ds6_addr_context_table = s.uip_ds6_addr_context_table := by
  cases nbr <;> rfl

@[simp]
theorem uip_ds6_nbr_rm_prefix_list (s : uip_ds6_state) (nbr : Option Nat) :
    (uip_ds6_nbr_rm s nbr).uip_ds6_prefix_list = s.uip_ds6_prefix_list := by
  cases nbr <;> rfl

@[simp]
theorem uip_ds6_nbr_rm_routing_table (s : uip_ds6_state) (nbr : Option Nat) :
    (uip_ds6_nbr_rm s nbr).uip_ds6_routing_table = s.uip_ds6_routing_table := by
  cases nbr <;> rfl

@[simp]
theorem uip_ds6_defrt_rm_output (s : uip_ds6_state) (defrt : Option Nat) :
    (uip_ds6_defrt_rm s defrt).output = s.output := by
  cases defrt <;> rfl

@[simp]
theorem uip_ds6_defrt_rm_reg_list (s : uip_ds6_state) (defrt : Option Nat) :
    (uip_ds6_defrt_rm s defrt).uip_ds6_reg_list = s.uip_ds6_reg_list := by
  cases defrt <;> rfl

@[simp]
theorem uip_ds6_defrt_rm_nbr_cache (s : uip_ds6_state) (defrt : Option Nat) :
    (uip_ds6_defrt_rm s defrt).uip_ds6_nbr_cache = s.uip_ds6_nbr_cache := by
  cases defrt <;> rfl

@[simp]
theorem uip_ds6_defrt_rm_netif (s : uip_ds6_state) (defrt : Option Nat) :
    (uip_ds6_defrt_rm s defrt).uip_ds6_if = s.uip_ds6_if := by
  cases defrt <;> rfl

@[simp]
theorem uip_ds6_defrt_rm_timer_rs (s : uip_ds6_state) (defrt : Option Nat) :
    (uip_ds6_defrt_rm s defrt).uip_ds6_timer_rs = s.uip_ds6_timer_rs := by
  cases defrt <;> rfl

@[simp]
theorem uip_ds6_defrt_rm_rscount (s : uip_ds6_state) (defrt : Option Nat) :
    (uip_ds6_defrt_rm s defrt).rscount = s.rscount := by
  cases defrt <;> rfl

@[simp]
theorem uip_ds6_defrt_rm_context_table (s : uip_ds6_state) (defrt : Option Nat) :
    (uip_ds6_defrt_rm s defrt).uip_ds6_addr_context_table = s.uip_ds6_addr_context_table := by
  cases defrt <;> rfl

@[simp]
theorem uip_ds6_defrt_rm_prefix_list (s : uip_ds6_state) (defrt : Option Nat) :
    (uip_ds6_defrt_rm s defrt).uip_ds6_prefix_list = s.uip_ds6_prefix_list := by
  cases defrt <;> rfl

@[simp]
theorem uip_ds6_defrt_rm_routing_table (s : uip_ds6_state) (defrt : Option Nat) :
    (uip_ds6_defrt_rm s defrt).uip_ds6_routing_table = s.uip_ds6_routing_table := by
  cases defrt <;> rfl

@[simp]
theorem uip_ds6_addr_rm_output (s : uip_ds6_state) (addr : Option Nat) :
    (uip_ds6_addr_rm s addr).output = s.output := by
  cases addr <;> rfl

@[simp]
theorem uip_ds6_addr_rm_reg_list (s : uip_ds6_state) (addr : Option Nat) :
    (uip_ds6_addr_rm s addr).uip_ds6_reg_list = s.uip_ds6_reg_list := by
  cases addr <;> rfl

@[simp]
theorem uip_ds6_addr_rm_nbr_cache (s : uip_ds6_state) (addr : Option Nat) :
    (uip_ds6_addr_rm s addr).uip_ds6_nbr_cache = s.uip_ds6_nbr_cache := by
  cases addr <;> rfl

@[simp]
theorem uip_ds6_addr_rm_defrt_list (s : uip_ds6_state) (addr : Option Nat) :
    (uip_ds6_addr_rm s addr).uip_ds6_defrt_list = s.uip_ds6_defrt_list := by
  cases addr <;> rfl

@[simp]
theorem uip_ds6_addr_rm_timer_rs (s : uip_ds6_state) (addr : Option Nat) :
    (uip_ds6_addr_rm s addr).uip_ds6_timer_rs = s.uip_ds6_timer_rs := by
  cases addr <;> rfl

@[simp]
theorem uip_ds6_addr_rm_rscount (s : uip_ds6_state) (addr : Option Nat) :
    (uip_ds6_addr_rm s addr).rscount = s.rscount := by
  cases addr <;> rfl

@[simp]
theorem uip_ds6_addr_rm_context_table (s : uip_ds6_state) (addr : Option Nat) :
    (uip_ds6_addr_rm s addr).uip_ds6_addr_context_table = s.uip_ds6_addr_context_table := by
  cases addr <;> rfl

@[simp]
theorem uip_ds6_addr_rm_prefix_list (s : uip_ds6_state) (addr : Option Nat) :
    (uip_ds6_addr_rm s addr).uip_ds6_prefix_list = s.uip_ds6_prefix_list := by
  cases addr <;> rfl

@[simp]
theorem uip_ds6_addr_rm_routing_table (s : uip_ds6_state) (addr : Option Nat) :
    (uip_ds6_addr_rm s addr).uip_ds6_routing_table = s.uip_ds6_routing_table := by
  cases addr <;> rfl

@[simp]
theorem uip_ds6_prefix_rm_output (s : uip_ds6_state) (pfx : Option Nat) :
    (uip_ds6_prefix_rm s pfx).output = s.output := by
  cases pfx <;> rfl

@[simp]
theorem uip_ds6_prefix_rm_reg_list (s : uip_ds6_state) (pfx : Option Nat) :
    (uip_ds6_prefix_rm s pfx).uip_ds6_reg_list = s.uip_ds6_reg_list := by
  cases pfx <;> rfl

@[simp]
theorem uip_ds6_prefix_rm_nbr_cache (s : uip_ds6_state) (pfx : Option Nat) :
    (uip_ds6_prefix_rm s pfx).uip_ds6_nbr_cache = s.uip_ds6_nbr_cache := by
  cases pfx <;> rfl

@[simp]
theorem uip_ds6_prefix_rm_defrt_list (s : uip_ds6_state) (pfx : Option Nat) :
    (uip_ds6_prefix_rm s pfx).uip_ds6_defrt_list = s.uip_ds6_defrt_list := by
  cases pfx <;> rfl

@[simp]
theorem uip_ds6_prefix_rm_netif (s : uip_ds6_state) (pfx : Option Nat) :
    (uip_ds6_prefix_rm s pfx).uip_ds6_if = s.uip_ds6_if := by
  cases pfx <;> rfl

@[simp]
theorem uip_ds6_prefix_rm_timer_rs (s : uip_ds6_state) (pfx : Option Nat) :
    (uip_ds6_prefix_rm s pfx).uip_ds6_timer_rs = s.uip_ds6_timer_rs := by
  cases pfx <;> rfl

@[simp]
theorem uip_ds6_prefix_rm_rscount (s : uip_ds6_state) (pfx : Option Nat) :
    (uip_ds6_prefix_rm s pfx).rscount = s.rscount := by
  cases pfx <;> rfl

@[simp]
theorem uip_ds6_prefix_rm_context_table (s : uip_ds6_state) (pfx : Option Nat) :
    (uip_ds6_prefix_rm s pfx).uip_ds6_addr_context_table = s.uip_ds6_addr_context_table := by
  cases pfx <;> rfl

@[simp]
theorem uip_ds6_prefix_rm_routing_table (s : uip_ds6_state) (pfx : Option Nat) :
    (uip_ds6_prefix_rm s pfx).uip_ds6_routing_table = s.uip_ds6_routing_table := by
  cases pfx <;> rfl

@[simp]
theorem uip_ds6_context_rm_output (s : uip_ds6_state) (context : Nat) :
    (uip_ds6_context_rm s context).output = s.output := by
  rfl

@[simp]
theorem uip_ds6_context_rm_reg_list (s : uip_ds6_state) (context : Nat) :
    (uip_ds6_context_rm s context).uip_ds6_reg_list = s.uip_ds6_reg_list := by
  rfl

@[simp]
theorem uip_ds6_context_rm_nbr_cache (s : uip_ds6_state) (context : Nat) :
    (uip_ds6_context_rm s context).uip_ds6_nbr_cache = s.uip_ds6_nbr_cache := by
  rfl

@[simp]
theorem uip_ds6_context_rm_defrt_list (s : uip_ds6_state) (context : Nat) :
    (uip_ds6_context_rm s context).uip_ds6_defrt_list = s.uip_ds6_defrt_list := by
  rfl

@[simp]
theorem uip_ds6_context_rm_netif (s : uip_ds6_state) (context : Nat) :
    (uip_ds6_context_rm s context).uip_ds6_if = s.uip_ds6_if := by
  rfl

@[simp]
theorem uip_ds6_context_rm_timer_rs (s : uip_ds6_state) (context : Nat) :
    (uip_ds6_context_rm s context).uip_ds6_timer_rs = s.uip_ds6_timer_rs := by
  rfl

@[simp]
theorem uip_ds6_context_rm_rscount (s : uip_ds6_state) (context : Nat) :
    (uip_ds6_context_rm s context).rscount = s.rscount := by
  rfl

@[simp]
theorem uip_ds6_context_rm_prefix_list (s : uip_ds6_state) (context : Nat) :
    (uip_ds6_context_rm s context).uip_ds6_prefix_list = s.uip_ds6_prefix_list := by
  rfl

@[simp]
theorem uip_ds6_context_rm_routing_table (s : uip_ds6_state) (context : Nat) :
    (uip_ds6_context_rm s context).uip_ds6_routing_table = s.uip_ds6_routing_table := by
  rfl

@[simp]
theorem uip_ds6_reg_rm_output (s : uip_ds6_state) (reg : Nat) :
    (uip_ds6_reg_rm s reg).output = s.output := by
  unfold uip_ds6_reg_rm
  split
  · split <;> rfl
  · rfl

@[simp]
theorem uip_ds6_reg_rm_nbr_cache (s : uip_ds6_state) (reg : Nat) :
    (uip_ds6_reg_rm s reg).uip_ds6_nbr_cache = s.uip_ds6_nbr_cache := by
  unfold uip_ds6_reg_rm
  split
  · split <;> rfl
  · rfl

@[simp]
theorem uip_ds6_reg_rm_netif (s : uip_ds6_state) (reg : Nat) :
    (uip_ds6_reg_rm s reg).uip_ds6_if = s.uip_ds6_if := by
  unfold uip_ds6_reg_rm
  split
  · split <;> rfl
  · rfl

@[simp]
theorem uip_ds6_reg_rm_timer_rs (s : uip_ds6_state) (reg : Nat) :
    (uip_ds6_reg_rm s reg).uip_ds6_timer_rs = s.uip_ds6_timer_rs := by
  unfold uip_ds6_reg_rm
  split
  · split <;> rfl
  · rfl

@[simp]
theorem uip_ds6_reg_rm_rscount (s : uip_ds6_state) (reg : Nat) :
    (uip_ds6_reg_rm s reg).rscount = s.rscount := by
  unfold uip_ds6_reg_rm
  split
  · split <;> rfl
  · rfl

@[simp]
theorem uip_ds6_reg_rm_context_table (s : uip_ds6_state) (reg : Nat) :
    (uip_ds6_reg_rm s reg).uip_ds6_addr_context_table = s.uip_ds6_addr_context_table := by
  unfold uip_ds6_reg_rm
  split
  · split <;> rfl
  · rfl

@[simp]
theorem uip_ds6_reg_rm_prefix_list (s : uip_ds6_state) (reg : Nat) :
    (uip_ds6_reg_rm s reg).uip_ds6_prefix_list = s.uip_ds6_prefix_list := by
  unfold uip_ds6_reg_rm
  split
  · split <;> rfl
  · rfl

@[simp]
theorem uip_ds6_reg_rm_routing_table (s : uip_ds6_state) (reg : Nat) :
    (uip_ds6_reg_rm s reg).uip_ds6_routing_table = s.uip_ds6_routing_table := by
  unfold uip_ds6_reg_rm
  split
  · split <;> rfl
  · rfl

@[simp]
theorem uip_nd6_ns_output_reg_list (s : uip_ds6_state) (src dest tgt : Option uip_ipaddr_t) (aro lifetime : Nat) :
    (uip_nd6_ns_output s src dest tgt aro lifetime).uip_ds6_reg_list = s.uip_ds6_reg_list := by
  rfl

@[simp]
theorem uip_nd6_ns_output_nbr_cache (s : uip_ds6_state) (src dest tgt : Option uip_ipaddr_t) (aro lifetime : Nat) :
    (uip_nd6_ns_output s src dest tgt aro lifetime).uip_ds6_nbr_cache = s.uip_ds6_nbr_cache := by
  rfl

@[simp]
theorem uip_nd6_ns_output_defrt_list (s : uip_ds6_state) (src dest tgt : Option uip_ipaddr_t) (aro lifetime : Nat) :
    (uip_nd6_ns_output s src dest tgt aro lifetime).uip_ds6_defrt_list = s.uip_ds6_defrt_list := by
  rfl

@[simp]
theorem uip_nd6_ns_output_netif (s : uip_ds6_state) (src dest tgt : Option uip_ipaddr_t) (aro lifetime : Nat) :
    (uip_nd6_ns_output s src dest tgt aro lifetime).uip_ds6_if = s.uip_ds6_if := by
  rfl

@[simp]
theorem uip_nd6_ns_output_timer_rs (s : uip_ds6_state) (src dest tgt : Option uip_ipaddr_t) (aro lifetime : Nat) :
    (uip_nd6_ns_output s src dest tgt aro lifetime).uip_ds6_timer_rs = s.uip_ds6_timer_rs := by
  rfl

@[simp]
theorem uip_nd6_ns_output_rscount (s : uip_ds6_state) (src dest tgt : Option uip_ipaddr_t) (aro lifetime : Nat) :
    (uip_nd6_ns_output s src dest tgt aro lifetime).rscount = s.rscount := by
  rfl

@[simp]
theorem uip_nd6_ns_output_context_table (s : uip_ds6_state) (src dest tgt : Option uip_ipaddr_t) (aro lifetime : Nat) :
    (uip_nd6_ns_output s src dest tgt aro lifetime).uip_ds6_addr_context_table = s.uip_ds6_addr_context_table := by
  rfl

@[simp]
theorem uip_nd6_ns_output_prefix_list (s : uip_ds6_state) (src dest tgt : Option uip_ipaddr_t) (aro lifetime : Nat) :
    (uip_nd6_ns_output s src dest tgt aro lifetime).uip_ds6_prefix_list = s.uip_ds6_prefix_list := by
  rfl

@[simp]
theorem uip_nd6_ns_output_routing_table (s : uip_ds6_state) (src dest tgt : Option uip_ipaddr_t) (aro lifetime : Nat) :
    (uip_nd6_ns_output s src dest tgt aro lifetime).uip_ds6_routing_table = s.uip_ds6_routing_table := by
  rfl

@[simp]
theorem uip_nd6_rs_output_reg_list (s : uip_ds6_state) (target : Option uip_ipaddr_t) :
    (uip_nd6_rs_output s target).uip_ds6_reg_list = s.uip_ds6_reg_list := by
  rfl

@[simp]
theorem uip_nd6_rs_output_nbr_cache (s : uip_ds6_state) (target : Option uip_ipaddr_t) :
    (uip_nd6_rs_output s target).uip_ds6_nbr_cache = s.uip_ds6_nbr_cache := by
  rfl

@[simp]
theorem uip_nd6_rs_output_defrt_list (s : uip_ds6_state) (target : Option uip_ipaddr_t) :
    (uip_nd6_rs_output s target).uip_ds6_defrt_list = s.uip_ds6_defrt_list := by
  rfl

@[simp]
theorem uip_nd6_rs_output_netif (s : uip_ds6_state) (target : Option uip_ipaddr_t) :
    (uip_nd6_rs_output s target).uip_ds6_if = s.uip_ds6_if := by
  rfl

@[simp]
theorem uip_nd6_rs_output_timer_rs (s : uip_ds6_state) (target : Option uip_ipaddr_t) :
    (uip_nd6_rs_output s target).uip_ds6_timer_rs = s.uip_ds6_timer_rs := by
  rfl

@[simp]
theorem uip_nd6_rs_output_rscount (s : uip_ds6_state) (target : Option uip_ipaddr_t) :
    (uip_nd6_rs_output s target).rscount = s.rscount := by
  rfl

@[simp]
theorem uip_nd6_rs_output_context_table (s : uip_ds6_state) (target : Option uip_ipaddr_t) :
    (uip_nd6_rs_output s target).uip_ds6_addr_context_table = s.uip_ds6_addr_context_table := by
  rfl

@[simp]
theorem uip_nd6_rs_output_prefix_list (s : uip_ds6_state) (target : Option uip_ipaddr_t) :
    (uip_nd6_rs_output s target).uip_ds6_prefix_list = s.uip_ds6_prefix_list := by
  rfl

@[simp]
theorem uip_nd6_rs_output_routing_table (s : uip_ds6_state) (target : Option uip_ipaddr_t) :
    (uip_nd6_rs_output s target).uip_ds6_routing_table = s.uip_ds6_routing_table := by
  rfl

/-! ## Exact-match lookup -/

theorem FOUND_ne_FREESPACE : FOUND ≠ FREESPACE := by decide

theorem FOUND_ne_NOSPACE : FOUND ≠ NOSPACE := by decide

theorem FREESPACE_ne_NOSPACE : FREESPACE ≠ NOSPACE := by decide

/-- A hit of the exact-match scan is the first in-use slot holding the address. -/
theorem uip_ds6_list_loop_found {α : Type} (isused : α → Bool) (ipaddr : α → uip_ipaddr_t)
    (l : List α) (a : uip_ipaddr_t) (k : Nat)
    (h : (if (uip_ds6_list_loop isused ipaddr l a 128).1 = FOUND
          then (uip_ds6_list_loop isused ipaddr l a 128).2 else none) = some k) :
    ∃ e, l[k]? = some e ∧ isused e = true ∧ ipaddr e = a ∧
      ∀ j e', j < k → l[j]? = some e' → ¬ (isused e' = true ∧ ipaddr e' = a) := by
  unfold uip_ds6_list_loop at h
  rcases uip_ds6_list_loop_from_spec isused ipaddr a 128 l 0 none with
    ⟨hc, m, e, hr, hm, hu, hp, hfirst⟩ | ⟨hc, _, _⟩ | ⟨hc, _, _, _⟩
  · rw [if_pos hc, hr] at h
    have hk : k = m := by
      simp only [Option.some.injEq] at h; omega
    subst hk
    refine ⟨e, hm, hu, (uip_ipaddr_prefixcmp_128 _ _).mp hp, ?_⟩
    intro j e' hj hje hh
    exact hfirst j e' hj hje ⟨hh.1, (uip_ipaddr_prefixcmp_128 _ _).mpr hh.2⟩
  · rw [if_neg (by rw [hc]; exact fun h => FOUND_ne_FREESPACE h.symm)] at h
    cases h
  · rw [if_neg (by rw [hc]; exact fun h => FOUND_ne_NOSPACE h.symm)] at h
    cases h

/-- A miss of the exact-match scan: no in-use slot holds the address. -/
theorem uip_ds6_list_loop_not_found {α : Type} (isused : α → Bool) (ipaddr : α → uip_ipaddr_t)
    (l : List α) (a : uip_ipaddr_t)
    (h : (if (uip_ds6_list_loop isused ipaddr l a 128).1 = FOUND
          then (uip_ds6_list_loop isused ipaddr l a 128).2 else none) = none) :
    ∀ e ∈ l, ¬ (isused e = true ∧ ipaddr e = a) := by
  unfold uip_ds6_list_loop at h
  rcases uip_ds6_list_loop_from_spec isused ipaddr a 128 l 0 none with
    ⟨hc, m, e, hr, hm, hu, hp, hfirst⟩ | ⟨hc, hno, _⟩ | ⟨hc, _, _, hall⟩
  · rw [if_pos hc, hr] at h
    cases h
  · intro e he hh
    exact hno e he ⟨hh.1, (uip_ipaddr_prefixcmp_128 _ _).mpr hh.2⟩
  · intro e he hh
    have := (hall e he).2
    rw [(uip_ipaddr_prefixcmp_128 _ _).mpr hh.2] at this
    cases this

/-- The scan answers `NOSPACE` on a table whose slots are all in use and none of
which matches. -/
theorem uip_ds6_list_loop_nospace {α : Type} (isused : α → Bool) (ipaddr : α → uip_ipaddr_t)
    (l : List α) (a : uip_ipaddr_t) (len : Nat)
    (hfull : ∀ e ∈ l, isused e = true)
    (hno : ∀ e ∈ l, uip_ipaddr_prefixcmp (ipaddr e) a len = false) :
    uip_ds6_list_loop isused ipaddr l a len = (NOSPACE, none) := by
  unfold uip_ds6_list_loop
  rcases uip_ds6_list_loop_from_spec isused ipaddr a len l 0 none with
    ⟨_, m, e, _, hm, _, hp, _⟩ | ⟨_, _, hlast⟩ | ⟨hc, hr, _, _⟩
  · rw [hno e (List.getElem?_mem hm)] at hp
    cases hp
  · rcases hlast with ⟨_, ho, _⟩ | ⟨m, e, _, hm, hu, _⟩
    · cases ho
    · rw [hfull e (List.getElem?_mem hm)] at hu
      cases hu
  · exact Prod.ext hc hr

/-- Pairwise distinctness of the in-use keys, read through indices. -/
theorem pairwise_distinct_index {α : Type} (isused : α → Bool) (ipaddr : α → uip_ipaddr_t) :
    ∀ (l : List α),
      List.Pairwise (fun X Y => isused X = true → isused Y = true → ipaddr X ≠ ipaddr Y) l →
      ∀ (i j : Nat) (X Y : α), l[i]? = some X → l[j]? = some Y →
        isused X = true → isused Y = true → ipaddr X = ipaddr Y → i = j := by
  intro l
  induction l with
  | nil => intro _ i j X Y hi; simp at hi
  | cons e rest ih =>
    intro hp i j X Y hi hj hX hY hXY
    rw [List.pairwise_cons] at hp
    cases i with
    | zero =>
      cases j with
      | zero => rfl
      | succ j' =>
        simp only [List.getElem?_cons_zero, Option.some.injEq] at hi
        simp only [List.getElem?_cons_succ] at hj
        subst hi
        exact absurd hXY (hp.1 Y (List.getElem?_mem hj) hX hY)
    | succ i' =>
      cases j with
      | zero =>
        simp only [List.getElem?_cons_zero, Option.some.injEq] at hj
        simp only [List.getElem?_cons_succ] at hi
        subst hj
        exact absurd hXY.symm (hp.1 X (List.getElem?_mem hi) hY hX)
      | succ j' =>
        simp only [List.getElem?_cons_succ] at hi hj
        rw [ih hp.2 i' j' X Y hi hj hX hY hXY]

theorem uip_ds6_defrt_lookup_some (s : uip_ds6_state) (a : uip_ipaddr_t) (k : Nat)
    (h : uip_ds6_defrt_lookup s a = some k) :
    ∃ e, s.uip_ds6_defrt_list[k]? = some e ∧ e.isused = true ∧ e.ipaddr = a ∧
      ∀ j e', j < k → s.uip_ds6_defrt_list[j]? = some e' →
        ¬ (e'.isused = true ∧ e'.ipaddr = a) :=
  uip_ds6_list_loop_found (fun (e : uip_ds6_defrt_t) => e.isused) (fun e => e.ipaddr)
    s.uip_ds6_defrt_list a k h

theorem uip_ds6_defrt_lookup_none (s : uip_ds6_state) (a : uip_ipaddr_t)
    (h : uip_ds6_defrt_lookup s a = none) :
    ∀ e ∈ s.uip_ds6_defrt_list, ¬ (e.isused = true ∧ e.ipaddr = a) :=
  uip_ds6_list_loop_not_found (fun (e : uip_ds6_defrt_t) => e.isused) (fun e => e.ipaddr)
    s.uip_ds6_defrt_list a h

theorem uip_ds6_nbr_lookup_some (s : uip_ds6_state) (a : uip_ipaddr_t) (k : Nat)
    (h : uip_ds6_nbr_lookup s a = some k) :
    ∃ e, s.uip_ds6_nbr_cache[k]? = some e ∧ e.isused = true ∧ e.ipaddr = a ∧
      ∀ j e', j < k → s.uip_ds6_nbr_cache[j]? = some e' →
        ¬ (e'.isused = true ∧ e'.ipaddr = a) :=
  uip_ds6_list_loop_found (fun (e : uip_ds6_nbr_t) => e.isused) (fun e => e.ipaddr)
    s.uip_ds6_nbr_cache a k h

theorem uip_ds6_nbr_lookup_none (s : uip_ds6_state) (a : uip_ipaddr_t)
    (h : uip_ds6_nbr_lookup s a = none) :
    ∀ e ∈ s.uip_ds6_nbr_cache, ¬ (e.isused = true ∧ e.ipaddr = a) :=
  uip_ds6_list_loop_not_found (fun (e : uip_ds6_nbr_t) => e.isused) (fun e => e.ipaddr)
    s.uip_ds6_nbr_cache a h

theorem uip_ds6_defrt_lookup_congr (s s' : uip_ds6_state) (a : uip_ipaddr_t)
    (h : s'.uip_ds6_defrt_list = s.uip_ds6_defrt_list) :
    uip_ds6_defrt_lookup s' a = uip_ds6_defrt_lookup s a := by
  unfold uip_ds6_defrt_lookup; rw [h]

theorem uip_ds6_nbr_lookup_congr (s s' : uip_ds6_state) (a : uip_ipaddr_t)
    (h : s'.uip_ds6_nbr_cache = s.uip_ds6_nbr_cache) :
    uip_ds6_nbr_lookup s' a = uip_ds6_nbr_lookup s a := by
  unfold uip_ds6_nbr_lookup; rw [h]

/-! ## Garbage-collectible neighbours -/

theorem uip_ds6_is_nbr_garbage_collectible_from_eq_one (defrt : Option Nat) :
    ∀ (l : List uip_ds6_reg_t),
      uip_ds6_is_nbr_garbage_collectible_from defrt l = 1 ↔
        ∀ R ∈ l, ¬ (R.isused = true ∧ R.defrt = defrt ∧ R.state ≠ REG_GARBAGE_COLLECTIBLE) := by
  intro l
  induction l with
  | nil => simp [uip_ds6_is_nbr_garbage_collectible_from]
  | cons R rest ih =>
    by_cases hc : R.isused = true ∧ R.defrt = defrt ∧ R.state ≠ REG_GARBAGE_COLLECTIBLE
    · have : uip_ds6_is_nbr_garbage_collectible_from defrt (R :: rest) = 0 := by
        simp [uip_ds6_is_nbr_garbage_collectible_from, hc.1, hc.2.1, hc.2.2]
      rw [this]
      constructor
      · intro h; cases h
      · intro h; exact absurd hc (h R (List.mem_cons_self _ _))
    · have : uip_ds6_is_nbr_garbage_collectible_from defrt (R :: rest)
          = uip_ds6_is_nbr_garbage_collectible_from defrt rest := by
        simp only [uip_ds6_is_nbr_garbage_collectible_from]
        rw [if_neg]
        intro h
        simp only [Bool.and_eq_true, decide_eq_true_eq] at h
        exact hc ⟨h.1.1, h.1.2, h.2⟩
      rw [this, ih]
      constructor
      · intro h x hx
        rcases List.mem_cons.mp hx with rfl | hx'
        · exact hc
        · exact h x hx'
      · intro h x hx
        exact h x (List.mem_cons_of_mem _ hx)

theorem uip_ds6_is_nbr_garbage_collectible_from_le_one (defrt : Option Nat) :
    ∀ (l : List uip_ds6_reg_t),
      uip_ds6_is_nbr_garbage_collectible_from defrt l = 0 ∨
      uip_ds6_is_nbr_garbage_collectible_from defrt l = 1 := by
  intro l
  induction l with
  | nil => right; rfl
  | cons R rest ih =>
    simp only [uip_ds6_is_nbr_garbage_collectible_from]
    split
    · left; rfl
    · exact ih

theorem defrt_in_use_iff (s : uip_ds6_state) (p : Option Nat) :
    defrt_in_use s p = true ↔
      ∃ d X, p = some d ∧ s.uip_ds6_defrt_list[d]? = some X ∧ X.isused = true := by
  unfold defrt_in_use
  cases p with
  | none => simp
  | some d =>
    cases hX : s.uip_ds6_defrt_list[d]? with
    | none => simp [hX]
    | some X => simp [hX]

theorem defrt_ipaddr_eq_some (s : uip_ds6_state) (p : Option Nat) (a : uip_ipaddr_t) :
    defrt_ipaddr s p = some a ↔
      ∃ d X, p = some d ∧ s.uip_ds6_defrt_list[d]? = some X ∧ X.ipaddr = a := by
  unfold defrt_ipaddr
  cases p with
  | none => simp
  | some d =>
    cases hX : s.uip_ds6_defrt_list[d]? with
    | none => simp [hX]
    | some X => simp [hX]

/-- C9. In a state where each in-use registration refers to an in-use default router
and the in-use default routers have pairwise distinct addresses,
`uip_ds6_is_nbr_garbage_collectible(N)` returns 1 exactly when there is no in-use
registration whose router has the address of `N` and whose state is not
`REG_GARBAGE_COLLECTIBLE`. -/
theorem uip_ds6_is_nbr_garbage_collectible_iff (s : uip_ds6_state) (N : uip_ds6_nbr_t)
    (href : reg_routers_in_use s) (hdist : defrt_addrs_distinct s) :
    uip_ds6_is_nbr_garbage_collectible s N = 1 ↔
      ¬ ∃ R ∈ s.uip_ds6_reg_list, R.isused = true ∧
          defrt_ipaddr s R.defrt = some N.ipaddr ∧ R.state ≠ REG_GARBAGE_COLLECTIBLE := by
  unfold uip_ds6_is_nbr_garbage_collectible
  rw [uip_ds6_is_nbr_garbage_collectible_from_eq_one]
  have key : ∀ R ∈ s.uip_ds6_reg_list, R.isused = true →
      (R.defrt = uip_ds6_defrt_lookup s N.ipaddr ↔ defrt_ipaddr s R.defrt = some N.ipaddr) := by
    intro R hR hu
    obtain ⟨d, X, hd, hX, hXu⟩ := (defrt_in_use_iff s R.defrt).mp (href R hR hu)
    constructor
    · intro heq
      rw [hd] at heq
      obtain ⟨e, he, _, hea, _⟩ := uip_ds6_defrt_lookup_some s N.ipaddr d heq.symm
      rw [defrt_ipaddr_eq_some]
      exact ⟨d, e, hd, he, hea⟩
    · intro hip
      obtain ⟨d', X', hd', hX', ha⟩ := (defrt_ipaddr_eq_some s R.defrt N.ipaddr).mp hip
      rw [hd] at hd'
      cases hd'
      rw [hX] at hX'
      cases hX'
      cases hl : uip_ds6_defrt_lookup s N.ipaddr with
      | none =>
        exact absurd ⟨hXu, ha⟩ (uip_ds6_defrt_lookup_none s N.ipaddr hl X (List.getElem?_mem hX))
      | some k =>
        obtain ⟨e, he, heu, hea, _⟩ := uip_ds6_defrt_lookup_some s N.ipaddr k hl
        have : d = k := pairwise_distinct_index (fun (e : uip_ds6_defrt_t) => e.isused)
          (fun e => e.ipaddr) _ hdist
          d k X e hX he hXu heu (ha.trans hea.symm)
        rw [hd, this]
  constructor
  · rintro h ⟨R, hR, hu, hip, hst⟩
    exact h R hR ⟨hu, (key R hR hu).mpr hip, hst⟩
  · rintro h R hR ⟨hu, heq, hst⟩
    exact h ⟨R, hR, hu, (key R hR hu).mp heq, hst⟩

/-! ## Registration list: removal and clean-up -/

theorem update_slot_map_of_inv {α β : Type} (l : List α) (i : Nat) (f : α → α) (g : α → β)
    (h : ∀ e, g (f e) = g e) : (update_slot l i f).map g = l.map g := by
  apply List.ext_getElem?
  intro j
  rw [List.getElem?_map, List.getElem?_map, update_slot_getElem?]
  by_cases hij : i = j
  · subst hij
    cases hl : l[i]? with
    | none => simp
    | some e => simp [h]
  · simp [hij]

theorem update_slot_const {α : Type} (l : List α) (i : Nat) (a : α) :
    update_slot l i (fun _ => a) = l.set i a := by
  unfold update_slot
  cases h : l[i]? with
  | some e => rfl
  | none =>
    have : l.length ≤ i := by
      rcases Nat.lt_or_ge i l.length with h' | h'
      · rw [List.getElem?_eq_getElem h'] at h; cases h
      · exact h'
    simp [List.set_eq_of_length_le this]

theorem update_slot_update_slot {α : Type} (l : List α) (i : Nat) (f g : α → α) :
    update_slot (update_slot l i f) i g = update_slot l i (fun e => g (f e)) := by
  apply List.ext_getElem?
  intro j
  rw [update_slot_getElem?, update_slot_getElem?, update_slot_getElem?]
  by_cases hij : i = j
  · subst hij
    cases hl : l[i]? <;> simp
  · simp [hij]

theorem update_slot_set {α : Type} (l : List α) (i : Nat) (f : α → α) (a : α) :
    (update_slot l i f).set i a = l.set i a := by
  rw [← update_slot_const, update_slot_update_slot, update_slot_const]

theorem list_map_getElem?_eq {α β : Type} {l l' : List α} {g : α → β}
    (h : l'.map g = l.map g) (j : Nat) : (l'[j]?).map g = (l[j]?).map g := by
  rw [← List.getElem?_map, ← List.getElem?_map, h]

theorem list_map_length_eq {α β : Type} {l l' : List α} {g : α → β}
    (h : l'.map g = l.map g) : l'.length = l.length := by
  have := congrArg List.length h
  simpa using this

@[simp]
theorem uip_ds6_reg_rm_reg_list (s : uip_ds6_state) (reg : Nat) :
    (uip_ds6_reg_rm s reg).uip_ds6_reg_list =
      update_slot s.uip_ds6_reg_list reg (fun e => { e with isused := false }) := by
  unfold uip_ds6_reg_rm
  cases h : s.uip_ds6_reg_list[reg]? with
  | none => simp [update_slot, h]
  | some r =>
    cases hd : r.defrt <;> simp [hd]

theorem uip_ds6_reg_rm_defrt_keys (s : uip_ds6_state) (reg : Nat) :
    (uip_ds6_reg_rm s reg).uip_ds6_defrt_list.map defrt_key =
      s.uip_ds6_defrt_list.map defrt_key := by
  unfold uip_ds6_reg_rm
  cases h : s.uip_ds6_reg_list[reg]? with
  | none => rfl
  | some r =>
    cases hd : r.defrt with
    | none => simp only [hd]
    | some d =>
      simp only [hd]
      exact update_slot_map_of_inv _ _ _ _ (fun e => rfl)

/-- Whatever `uip_ds6_reg_rm` leaves alone, `uip_ds6_reg_cleanup_defrt` leaves alone. -/
theorem uip_ds6_reg_cleanup_defrt_frame {β : Type} (F : uip_ds6_state → β)
    (hF : ∀ s i, F (uip_ds6_reg_rm s i) = F s) (s : uip_ds6_state) (defrt : Option Nat) :
    F (uip_ds6_reg_cleanup_defrt s defrt) = F s := by
  unfold uip_ds6_reg_cleanup_defrt
  apply for_loop_invariant (fun s' => F s' = F s)
  · intro v i hv
    unfold uip_ds6_reg_cleanup_defrt_step
    split
    · split
      · rw [hF]; exact hv
      · exact hv
    · exact hv
  · rfl

@[simp]
theorem uip_ds6_reg_cleanup_defrt_nbr_cache (s : uip_ds6_state) (defrt : Option Nat) :
    (uip_ds6_reg_cleanup_defrt s defrt).uip_ds6_nbr_cache = s.uip_ds6_nbr_cache :=
  uip_ds6_reg_cleanup_defrt_frame (fun s => s.uip_ds6_nbr_cache) (by simp) s defrt

@[simp]
theorem uip_ds6_reg_cleanup_defrt_output (s : uip_ds6_state) (defrt : Option Nat) :
    (uip_ds6_reg_cleanup_defrt s defrt).output = s.output :=
  uip_ds6_reg_cleanup_defrt_frame (fun s => s.output) (by simp) s defrt

@[simp]
theorem uip_ds6_reg_cleanup_defrt_netif (s : uip_ds6_state) (defrt : Option Nat) :
    (uip_ds6_reg_cleanup_defrt s defrt).uip_ds6_if = s.uip_ds6_if :=
  uip_ds6_reg_cleanup_defrt_frame (fun s => s.uip_ds6_if) (by simp) s defrt

@[simp]
theorem uip_ds6_reg_cleanup_defrt_timer_rs (s : uip_ds6_state) (defrt : Option Nat) :
    (uip_ds6_reg_cleanup_defrt s defrt).uip_ds6_timer_rs = s.uip_ds6_timer_rs :=
  uip_ds6_reg_cleanup_defrt_frame (fun s => s.uip_ds6_timer_rs) (by simp) s defrt

@[simp]
theorem uip_ds6_reg_cleanup_defrt_rscount (s : uip_ds6_state) (defrt : Option Nat) :
    (uip_ds6_reg_cleanup_defrt s defrt).rscount = s.rscount :=
  uip_ds6_reg_cleanup_defrt_frame (fun s => s.rscount) (by simp) s defrt

theorem uip_ds6_reg_cleanup_defrt_defrt_keys (s : uip_ds6_state) (defrt : Option Nat) :
    (uip_ds6_reg_cleanup_defrt s defrt).uip_ds6_defrt_list.map defrt_key =
      s.uip_ds6_defrt_list.map defrt_key :=
  uip_ds6_reg_cleanup_defrt_frame (fun s => s.uip_ds6_defrt_list.map defrt_key)
    uip_ds6_reg_rm_defrt_keys s defrt

theorem uip_ds6_reg_cleanup_defrt_step_reg_list (defrt : Option Nat) (v : uip_ds6_state)
    (k j : Nat) :
    (uip_ds6_reg_cleanup_defrt_step defrt v k).uip_ds6_reg_list[j]? =
      if k = j then
        (v.uip_ds6_reg_list[j]?).map
          (fun R => if R.isused && decide (R.defrt = defrt) then { R with isused := false } else R)
      else v.uip_ds6_reg_list[j]? := by
  unfold uip_ds6_reg_cleanup_defrt_step
  cases hR : v.uip_ds6_reg_list[k]? with
  | none =>
    by_cases hjk : k = j
    · subst hjk; simp [hR]
    · simp [hjk]
  | some R =>
    by_cases hc : R.isused = true ∧ R.defrt = defrt
    · have hc2 : (R.isused && decide (R.defrt = defrt)) = true := by simp [hc.1, hc.2]
      simp only [hc2, if_true]
      rw [uip_ds6_reg_rm_reg_list, update_slot_getElem?]
      by_cases hjk : k = j
      · subst hjk
        simp [hR, hc.1, hc.2]
      · simp [hjk]
    · have hc2 : ¬ (R.isused && decide (R.defrt = defrt)) = true := by
        intro h
        simp only [Bool.and_eq_true, decide_eq_true_eq] at h
        exact hc h
      simp only [hc2]
      by_cases hjk : k = j
      · subst hjk
        simp [hR, hc]
      · simp [hjk]

/-- The registration list after the first `k` rounds of `uip_ds6_reg_cleanup_defrt`. -/
theorem uip_ds6_reg_cleanup_defrt_loop (s : uip_ds6_state) (defrt : Option Nat) (k j : Nat) :
    (for_loop (uip_ds6_reg_cleanup_defrt_step defrt) k s).uip_ds6_reg_list[j]? =
      if j < k then
        (s.uip_ds6_reg_list[j]?).map
          (fun R => if R.isused && decide (R.defrt = defrt) then { R with isused := false } else R)
      else s.uip_ds6_reg_list[j]? := by
  induction k with
  | zero => simp [for_loop]
  | succ k ih =>
    rw [for_loop_succ, uip_ds6_reg_cleanup_defrt_step_reg_list, ih]
    by_cases hjk : k = j
    · subst hjk
      simp
    · by_cases hj : j < k
      · simp [hjk, hj, Nat.lt_succ_of_lt hj]
      · have : ¬ j < k + 1 := by omega
        simp [hjk, hj, this]

/-- The registration list after `uip_ds6_reg_cleanup_defrt`: every in-use registration
with the router is marked unused, nothing else changes. -/
theorem uip_ds6_reg_cleanup_defrt_reg_list (s : uip_ds6_state) (defrt : Option Nat) (j : Nat) :
    (uip_ds6_reg_cleanup_defrt s defrt).uip_ds6_reg_list[j]? =
      (s.uip_ds6_reg_list[j]?).map
        (fun R => if R.isused && decide (R.defrt = defrt) then { R with isused := false } else R) := by
  unfold uip_ds6_reg_cleanup_defrt
  rw [uip_ds6_reg_cleanup_defrt_loop]
  by_cases hj : j < s.uip_ds6_reg_list.length
  · simp [hj]
  · simp [hj, List.getElem?_eq_none (Nat.le_of_not_lt hj)]

/-! ## Neighbour cache insertion -/

/-- The eviction search either keeps the incoming `oldest` (no candidate in the rest
of the table) or ends on a candidate of the table whose `last_lookup` is least among
the in-use garbage-collectible entries. -/
theorem uip_ds6_nbr_add_oldest_from_spec (s : uip_ds6_state) :
    ∀ (l : List uip_ds6_nbr_t) (i : Nat) (oldest : Option Nat) (ot : Nat),
      (uip_ds6_nbr_add_oldest_from s l i oldest ot = oldest ∧
        ∀ e ∈ l, ¬ (e.isused = true ∧ e.last_lookup < ot ∧
          uip_ds6_is_nbr_garbage_collectible s e ≠ 0))
      ∨ ∃ k e, uip_ds6_nbr_add_oldest_from s l i oldest ot = some (i + k) ∧
          l[k]? = some e ∧ e.isused = true ∧ e.last_lookup < ot ∧
          uip_ds6_is_nbr_garbage_collectible s e ≠ 0 ∧
          ∀ e' ∈ l, e'.isused = true → uip_ds6_is_nbr_garbage_collectible s e' ≠ 0 →
            e.last_lookup ≤ e'.last_lookup := by
  intro l
  induction l with
  | nil =>
    intro i oldest ot
    left
    simp [uip_ds6_nbr_add_oldest_from]
  | cons n rest ih =>
    intro i oldest ot
    by_cases hc : n.isused = true ∧ n.last_lookup < ot ∧
        uip_ds6_is_nbr_garbage_collectible s n ≠ 0
    · have hstep : uip_ds6_nbr_add_oldest_from s (n :: rest) i oldest ot
          = uip_ds6_nbr_add_oldest_from s rest (i + 1) (some i) n.last_lookup := by
        simp [uip_ds6_nbr_add_oldest_from, hc.1, hc.2.1, hc.2.2]
      rw [hstep]
      right
      rcases ih (i + 1) (some i) n.last_lookup with ⟨hr, hno⟩ | ⟨k, e, hr, hk, hu, hlt, hg, hmin⟩
      · refine ⟨0, n, hr, List.getElem?_cons_zero, hc.1, hc.2.1, hc.2.2, ?_⟩
        intro e' he' hu' hg'
        rcases List.mem_cons.mp he' with rfl | he''
        · exact Nat.le_refl _
        · by_contra hlt
          exact hno e' he'' ⟨hu', by omega, hg'⟩
      · refine ⟨k + 1, e, ?_, by simpa using hk, hu, by omega, hg, ?_⟩
        · rw [hr]; congr 1; omega
        · intro e' he' hu' hg'
          rcases List.mem_cons.mp he' with rfl | he''
          · omega
          · exact hmin e' he'' hu' hg'
    · have hstep : uip_ds6_nbr_add_oldest_from s (n :: rest) i oldest ot
          = uip_ds6_nbr_add_oldest_from s rest (i + 1) oldest ot := by
        simp only [uip_ds6_nbr_add_oldest_from]
        rw [if_neg]
        intro h
        simp only [Bool.and_eq_true, decide_eq_true_eq] at h
        exact hc ⟨h.1.1, h.1.2, h.2⟩
      rw [hstep]
      rcases ih (i + 1) oldest ot with ⟨hr, hno⟩ | ⟨k, e, hr, hk, hu, hlt, hg, hmin⟩
      · left
        refine ⟨hr, ?_⟩
        intro e' he'
        rcases List.mem_cons.mp he' with rfl | he''
        · exact hc
        · exact hno e' he''
      · right
        refine ⟨k + 1, e, ?_, by simpa using hk, hu, hlt, hg, ?_⟩
        · rw [hr]; congr 1; omega
        · intro e' he' hu' hg'
          rcases List.mem_cons.mp he' with rfl | he''
          · by_contra hlt'
            exact hc ⟨hu', by omega, hg'⟩
          · exact hmin e' he'' hu' hg'

theorem uip_ds6_is_nbr_garbage_collectible_zero_or_one (s : uip_ds6_state) (n : uip_ds6_nbr_t) :
    uip_ds6_is_nbr_garbage_collectible s n = 0 ∨ uip_ds6_is_nbr_garbage_collectible s n = 1 :=
  uip_ds6_is_nbr_garbage_collectible_from_le_one _ _

/-- On a full cache that holds no entry for `x` the scan of `uip_ds6_nbr_add` answers
`NOSPACE`. -/
theorem uip_ds6_nbr_add_scan_nospace (s : uip_ds6_state) (x : uip_ipaddr_t)
    (hfull : ∀ e ∈ s.uip_ds6_nbr_cache, e.isused = true)
    (hno : ∀ e ∈ s.uip_ds6_nbr_cache, e.ipaddr ≠ x) :
    uip_ds6_list_loop (fun (e : uip_ds6_nbr_t) => e.isused) (fun e => e.ipaddr)
      s.uip_ds6_nbr_cache x 128 = (NOSPACE, none) := by
  apply uip_ds6_list_loop_nospace
  · exact hfull
  · intro e he
    cases h : uip_ipaddr_prefixcmp e.ipaddr x 128 with
    | false => rfl
    | true => exact absurd ((uip_ipaddr_prefixcmp_128 _ _).mp h) (hno e he)

/-- C7. On a full neighbour cache that holds no entry for `x` and in which no entry is
garbage-collectible, `uip_ds6_nbr_add(x, ...)` returns null and leaves the state (so
the neighbour cache, the default-router list and the registration list) unchanged. -/
theorem uip_ds6_nbr_add_no_candidate (fuel : Nat) (env : Env) (s : uip_ds6_state)
    (x : uip_ipaddr_t) (lladdr : Option uip_lladdr_t) (isrouter state : Nat)
    (hfull : ∀ e ∈ s.uip_ds6_nbr_cache, e.isused = true)
    (hno : ∀ e ∈ s.uip_ds6_nbr_cache, e.ipaddr ≠ x)
    (hgc : ∀ e ∈ s.uip_ds6_nbr_cache, uip_ds6_is_nbr_garbage_collectible s e = 0) :
    uip_ds6_nbr_add (fuel + 1) env s x lladdr isrouter state = some (s, none) := by
  have hold : uip_ds6_nbr_add_oldest env s = none := by
    unfold uip_ds6_nbr_add_oldest
    rcases uip_ds6_nbr_add_oldest_from_spec s s.uip_ds6_nbr_cache 0 none env.clock_time with
      ⟨hr, _⟩ | ⟨k, e, _, hk, _, _, hg, _⟩
    · exact hr
    · exact absurd (hgc e (List.getElem?_mem hk)) hg
  simp only [uip_ds6_nbr_add, uip_ds6_nbr_add_scan_nospace s x hfull hno, hold]
  split <;> rfl

/-- Entries of two default-router lists that agree up to the registration counters. -/
theorem defrt_keys_getElem? {l l' : List uip_ds6_defrt_t}
    (h : l'.map defrt_key = l.map defrt_key) (j : Nat) (X' : uip_ds6_defrt_t)
    (hj : l'[j]? = some X') :
    ∃ X, l[j]? = some X ∧ X.isused = X'.isused ∧ X.ipaddr = X'.ipaddr ∧
      X.sending_rs = X'.sending_rs ∧ X.rscount = X'.rscount ∧
      X.lifetime = X'.lifetime ∧ X.isinfinite = X'.isinfinite := by
  have hm := list_map_getElem?_eq h j
  rw [hj] at hm
  cases hX : l[j]? with
  | none => rw [hX] at hm; cases hm
  | some X =>
    rw [hX] at hm
    simp only [Option.map_some', Option.some.injEq] at hm
    refine ⟨X, rfl, ?_, ?_, ?_, ?_, ?_, ?_⟩
    · exact (congrArg uip_ds6_defrt_t.isused hm).symm
    · exact (congrArg uip_ds6_defrt_t.ipaddr hm).symm
    · exact (congrArg uip_ds6_defrt_t.sending_rs hm).symm
    · exact (congrArg uip_ds6_defrt_t.rscount hm).symm
    · exact (congrArg uip_ds6_defrt_t.lifetime hm).symm
    · exact (congrArg uip_ds6_defrt_t.isinfinite hm).symm

/-- After the eviction of slot `o` from a full cache without an entry for `x`, the
scan finds exactly that slot free. -/
theorem uip_ds6_nbr_add_scan_after_evict (l : List uip_ds6_nbr_t) (x : uip_ipaddr_t) (o : Nat)
    (old : uip_ds6_nbr_t) (ho : l[o]? = some old)
    (hfull : ∀ e ∈ l, e.isused = true) (hno : ∀ e ∈ l, e.ipaddr ≠ x) :
    uip_ds6_list_loop (fun (e : uip_ds6_nbr_t) => e.isused) (fun e => e.ipaddr)
      (update_slot l o (fun e => { e with isused := false })) x 128 = (FREESPACE, some o) := by
  have hget : ∀ k e, (update_slot l o (fun e => { e with isused := false }))[k]? = some e →
      (k = o ∧ e.isused = false) ∨ (k ≠ o ∧ l[k]? = some e) := by
    intro k e hk
    rw [update_slot_getElem?] at hk
    by_cases hok : o = k
    · subst hok
      rw [if_pos rfl, ho] at hk
      simp only [Option.map_some', Option.some.injEq] at hk
      left
      exact ⟨rfl, by rw [← hk]⟩
    · rw [if_neg hok] at hk
      right
      exact ⟨fun h => hok h.symm, hk⟩
  unfold uip_ds6_list_loop
  rcases uip_ds6_list_loop_from_spec (fun (e : uip_ds6_nbr_t) => e.isused) (fun e => e.ipaddr)
      x 128 (update_slot l o (fun e => { e with isused := false })) 0 none with
    ⟨_, m, e, _, hm, hu, hp, _⟩ | ⟨hc, _, hlast⟩ | ⟨_, _, _, hall⟩
  · rcases hget m e hm with ⟨_, hf⟩ | ⟨_, hl⟩
    · rw [hf] at hu; cases hu
    · exact absurd ((uip_ipaddr_prefixcmp_128 _ _).mp hp) (hno e (List.getElem?_mem hl))
  · rcases hlast with ⟨_, hs, _⟩ | ⟨m, e, hr, hm, hu, _⟩
    · cases hs
    · rcases hget m e hm with ⟨hmo, _⟩ | ⟨_, hl⟩
      · subst hmo
        refine Prod.ext hc ?_
        rw [hr]
        simp
      · rw [hfull e (List.getElem?_mem hl)] at hu; cases hu
  · have hlt : o < l.length := by
      rcases Nat.lt_or_ge o l.length with h | h
      · exact h
      · rw [List.getElem?_eq_none h] at ho; cases ho
    have hin : ({ old with isused := false } : uip_ds6_nbr_t) ∈
        update_slot l o (fun e => { e with isused := false }) := by
      apply List.getElem?_mem (n := o)
      rw [update_slot_getElem?_self, ho]
      rfl
    have := (hall _ hin).1
    cases this

/-- The state in which `uip_ds6_nbr_add` calls itself after evicting slot `oldest`. -/
theorem uip_ds6_nbr_add_evict (fuel : Nat) (env : Env) (s : uip_ds6_state)
    (x : uip_ipaddr_t) (lladdr : Option uip_lladdr_t) (isrouter state : Nat)
    (o : Nat) (old : uip_ds6_nbr_t)
    (hfull : ∀ e ∈ s.uip_ds6_nbr_cache, e.isused = true)
    (hno : ∀ e ∈ s.uip_ds6_nbr_cache, e.ipaddr ≠ x)
    (hold : uip_ds6_nbr_add_oldest env s = some o)
    (ho : s.uip_ds6_nbr_cache[o]? = some old) :
    uip_ds6_nbr_add (fuel + 2) env s x lladdr isrouter state =
      some ({ uip_ds6_reg_cleanup_defrt
                (uip_ds6_defrt_rm (uip_ds6_nbr_rm s (some o)) (uip_ds6_defrt_lookup s old.ipaddr))
                (uip_ds6_defrt_lookup s old.ipaddr) with
              uip_ds6_nbr_cache :=
                s.uip_ds6_nbr_cache.set o (uip_ds6_nbr_add_entry env x lladdr isrouter state) },
            some o) := by
  have hld : ((uip_ds6_nbr_rm s (some o)).uip_ds6_nbr_cache[o]?).bind
      (fun e => uip_ds6_defrt_lookup (uip_ds6_nbr_rm s (some o)) e.ipaddr)
      = uip_ds6_defrt_lookup s old.ipaddr := by
    simp only [uip_ds6_nbr_rm, update_slot_getElem?_self, ho, Option.map_some', Option.some_bind]
    exact uip_ds6_defrt_lookup_congr _ _ _ rfl
  rw [uip_ds6_nbr_add]
  simp only [uip_ds6_nbr_add_scan_nospace s x hfull hno, hold, hld]
  rw [if_neg (fun h => FREESPACE_ne_NOSPACE h.symm), if_pos trivial]
  rw [uip_ds6_nbr_add]
  have hcache : (uip_ds6_reg_cleanup_defrt
      (uip_ds6_defrt_rm (uip_ds6_nbr_rm s (some o)) (uip_ds6_defrt_lookup s old.ipaddr))
      (uip_ds6_defrt_lookup s old.ipaddr)).uip_ds6_nbr_cache
      = update_slot s.uip_ds6_nbr_cache o (fun e => { e with isused := false }) := by
    simp [uip_ds6_nbr_rm]
  simp only [hcache, uip_ds6_nbr_add_scan_after_evict _ x o old ho hfull hno, if_true,
    update_slot_update_slot, update_slot_const, update_slot_set]

/-- C6 (as stated) fails: in `nbr_fresh_example` the cache is full, holds no entry for
`fe80::b`, and every entry is garbage-collectible, yet `uip_ds6_nbr_add` returns null
and changes nothing, because no entry is older than the current tick. -/
theorem uip_ds6_nbr_add_fresh_not_evicted :
    nbr_fresh_example.uip_ds6_nbr_cache.all (fun e => e.isused) = true ∧
    nbr_fresh_example.uip_ds6_nbr_cache.all (fun e => decide (e.ipaddr ≠ addr_fe80_b)) = true ∧
    nbr_fresh_example.uip_ds6_nbr_cache.all
      (fun e => decide (uip_ds6_is_nbr_garbage_collectible nbr_fresh_example e = 1)) = true ∧
    uip_ds6_nbr_add 2 sample_env nbr_fresh_example addr_fe80_b none 0 NBR_STALE
      = some (nbr_fresh_example, none) := by
  decide

/-- C6 (amended). On a full neighbour cache that holds no entry for `x` and in which
some garbage-collectible entry was last looked up before the current tick,
`uip_ds6_nbr_add` returns a handle `o`; the entry that was in slot `o` is
garbage-collectible and its `last_lookup` is least among the garbage-collectible
entries; afterwards slot `o` holds the new entry for `x` (given link-layer address,
`isrouter`, `state`, `nscount` 0) and the other slots are unchanged. -/
theorem uip_ds6_nbr_add_evicts_oldest (fuel : Nat) (env : Env) (s : uip_ds6_state)
    (x : uip_ipaddr_t) (lladdr : Option uip_lladdr_t) (isrouter state : Nat)
    (hfull : ∀ e ∈ s.uip_ds6_nbr_cache, e.isused = true)
    (hno : ∀ e ∈ s.uip_ds6_nbr_cache, e.ipaddr ≠ x)
    (hcand : ∃ e ∈ s.uip_ds6_nbr_cache,
      uip_ds6_is_nbr_garbage_collectible s e = 1 ∧ e.last_lookup < env.clock_time) :
    ∃ (s' : uip_ds6_state) (o : Nat) (old : uip_ds6_nbr_t),
      uip_ds6_nbr_add (fuel + 2) env s x lladdr isrouter state = some (s', some o) ∧
      s.uip_ds6_nbr_cache[o]? = some old ∧
      uip_ds6_is_nbr_garbage_collectible s old = 1 ∧
      (∀ e ∈ s.uip_ds6_nbr_cache, uip_ds6_is_nbr_garbage_collectible s e = 1 →
        old.last_lookup ≤ e.last_lookup) ∧
      s'.uip_ds6_nbr_cache =
        s.uip_ds6_nbr_cache.set o
          { isused := true, ipaddr := x,
            lladdr := lladdr.getD { addr := List.replicate env.UIP_LLADDR_LEN 0 },
            isrouter := isrouter, state := state, nscount := 0,
            reachable := stimer_set env 0, sendns := stimer_set env 0,
            last_lookup := env.clock_time } := by
  obtain ⟨c, hc, hcg, hclt⟩ := hcand
  rcases uip_ds6_nbr_add_oldest_from_spec s s.uip_ds6_nbr_cache 0 none env.clock_time with
    ⟨_, hnone⟩ | ⟨k, old, hr, hk, _, _, hg, hmin⟩
  · exact absurd ⟨hfull c hc, hclt, by rw [hcg]; decide⟩ (hnone c hc)
  · have hold : uip_ds6_nbr_add_oldest env s = some k := by
      unfold uip_ds6_nbr_add_oldest
      rw [hr]; simp
    refine ⟨_, k, old, uip_ds6_nbr_add_evict fuel env s x lladdr isrouter state k old
      hfull hno hold hk, hk, ?_, ?_, ?_⟩
    · rcases uip_ds6_is_nbr_garbage_collectible_zero_or_one s old with h0 | h1
      · exact absurd h0 hg
      · exact h1
    · intro e he hge
      exact hmin e he (hfull e he) (by rw [hge]; decide)
    · simp only [uip_ds6_nbr_add_entry]
      cases lladdr <;> rfl

/-- A use of the amended C6 on `nbr_old_example`: adding `fe80::b` evicts slot 1
(`fe80::c`, last looked up at tick 50). -/
theorem uip_ds6_nbr_add_evicts_oldest_witness :
    (∀ e ∈ nbr_old_example.uip_ds6_nbr_cache, e.isused = true) ∧
    (∀ e ∈ nbr_old_example.uip_ds6_nbr_cache, e.ipaddr ≠ addr_fe80_b) ∧
    (∃ e ∈ nbr_old_example.uip_ds6_nbr_cache,
      uip_ds6_is_nbr_garbage_collectible nbr_old_example e = 1 ∧
        e.last_lookup < sample_env.clock_time) ∧
    (∃ (s' : uip_ds6_state) (o : Nat) (old : uip_ds6_nbr_t),
      uip_ds6_nbr_add (0 + 2) sample_env nbr_old_example addr_fe80_b none 1 NBR_STALE
        = some (s', some o) ∧
      nbr_old_example.uip_ds6_nbr_cache[o]? = some old ∧
      uip_ds6_is_nbr_garbage_collectible nbr_old_example old = 1 ∧
      (∀ e ∈ nbr_old_example.uip_ds6_nbr_cache,
        uip_ds6_is_nbr_garbage_collectible nbr_old_example e = 1 →
        old.last_lookup ≤ e.last_lookup) ∧
      s'.uip_ds6_nbr_cache =
        nbr_old_example.uip_ds6_nbr_cache.set o
          { isused := true, ipaddr := addr_fe80_b,
            lladdr := (none : Option uip_lladdr_t).getD
              { addr := List.replicate sample_env.UIP_LLADDR_LEN 0 },
            isrouter := 1, state := NBR_STALE, nscount := 0,
            reachable := stimer_set sample_env 0, sendns := stimer_set sample_env 0,
            last_lookup := sample_env.clock_time }) ∧
    (uip_ds6_nbr_add 2 sample_env nbr_old_example addr_fe80_b none 1 NBR_STALE).map
      (fun r => r.2) = some (some 1) :=
  ⟨by decide, by decide, by decide,
    uip_ds6_nbr_add_evicts_oldest 0 sample_env nbr_old_example addr_fe80_b none 1 NBR_STALE
      (by decide) (by decide) (by decide),
    by decide⟩

/-- A use of C7 on `nbr_pinned_example`: both neighbours are routers with a
`REG_REGISTERED` registration, and adding `fe80::b` fails without any change. -/
theorem uip_ds6_nbr_add_no_candidate_witness :
    (∀ e ∈ nbr_pinned_example.uip_ds6_nbr_cache, e.isused = true) ∧
    (∀ e ∈ nbr_pinned_example.uip_ds6_nbr_cache, e.ipaddr ≠ addr_fe80_b) ∧
    (∀ e ∈ nbr_pinned_example.uip_ds6_nbr_cache,
      uip_ds6_is_nbr_garbage_collectible nbr_pinned_example e = 0) ∧
    uip_ds6_nbr_add (1 + 1) sample_env nbr_pinned_example addr_fe80_b none 1 NBR_STALE
      = some (nbr_pinned_example, none) :=
  ⟨by decide, by decide, by decide,
    uip_ds6_nbr_add_no_candidate 1 sample_env nbr_pinned_example addr_fe80_b none 1 NBR_STALE
      (by decide) (by decide) (by decide)⟩

/-- C8 (as stated) fails: in `defrt_dup_example` adding `fe80::b` evicts the neighbour
`fe80::a` of slot 0, and on return the default router of slot 1 is still in use with
the address `fe80::a` (only the first router with that address was removed). -/
theorem uip_ds6_nbr_add_duplicate_router_survives :
    uip_ds6_nbr_add_oldest sample_env defrt_dup_example = some 0 ∧
    (defrt_dup_example.uip_ds6_nbr_cache[0]?).map (fun e => e.ipaddr) = some addr_fe80_a ∧
    (uip_ds6_nbr_add 2 sample_env defrt_dup_example addr_fe80_b none 1 NBR_STALE).map
      (fun r => (r.2, r.1.uip_ds6_defrt_list.map (fun X => (X.isused, X.ipaddr))))
      = some (some 0, [(false, addr_fe80_a), (true, addr_fe80_a)]) := by
  decide

/-- C8 (amended). In a state where the in-use default routers have pairwise distinct
addresses, whenever `uip_ds6_nbr_add` evicts a neighbour entry (slot `o`, address
`old.ipaddr`), on return no in-use default router has that address and no in-use
registration refers to a default router that had that address. -/
theorem uip_ds6_nbr_add_eviction_cascade (fuel : Nat) (env : Env) (s : uip_ds6_state)
    (x : uip_ipaddr_t) (lladdr : Option uip_lladdr_t) (isrouter state : Nat)
    (o : Nat) (old : uip_ds6_nbr_t)
    (hfull : ∀ e ∈ s.uip_ds6_nbr_cache, e.isused = true)
    (hno : ∀ e ∈ s.uip_ds6_nbr_cache, e.ipaddr ≠ x)
    (hold : uip_ds6_nbr_add_oldest env s = some o)
    (ho : s.uip_ds6_nbr_cache[o]? = some old)
    (hdist : defrt_addrs_distinct s) :
    ∃ (s' : uip_ds6_state),
      uip_ds6_nbr_add (fuel + 2) env s x lladdr isrouter state = some (s', some o) ∧
      (∀ X ∈ s'.uip_ds6_defrt_list, X.isused = true → X.ipaddr ≠ old.ipaddr) ∧
      (∀ (d : Nat) (X : uip_ds6_defrt_t), s.uip_ds6_defrt_list[d]? = some X →
        X.isused = true → X.ipaddr = old.ipaddr →
        ∀ R ∈ s'.uip_ds6_reg_list, R.isused = true → R.defrt ≠ some d) := by
  refine ⟨_, uip_ds6_nbr_add_evict fuel env s x lladdr isrouter state o old hfull hno hold ho,
    ?_, ?_⟩
  · intro X' hX' hu' ha'
    obtain ⟨j, hj⟩ := List.mem_iff_getElem?.mp hX'
    simp only [] at hj
    obtain ⟨X2, hj2, hu2, ha2, _⟩ :=
      defrt_keys_getElem? (uip_ds6_reg_cleanup_defrt_defrt_keys _ _) j X' hj
    cases hl : uip_ds6_defrt_lookup s old.ipaddr with
    | none =>
      rw [hl] at hj2
      simp only [uip_ds6_defrt_rm, uip_ds6_nbr_rm_defrt_list] at hj2
      exact uip_ds6_defrt_lookup_none s old.ipaddr hl X2 (List.getElem?_mem hj2)
        ⟨hu2.trans hu', ha2.trans ha'⟩
    | some d =>
      rw [hl] at hj2
      simp only [uip_ds6_defrt_rm, uip_ds6_nbr_rm_defrt_list] at hj2
      obtain ⟨e, he, heu, hea, _⟩ := uip_ds6_defrt_lookup_some s old.ipaddr d hl
      rw [update_slot_getElem?] at hj2
      by_cases hdj : d = j
      · subst hdj
        rw [if_pos rfl, he] at hj2
        simp only [Option.map_some', Option.some.injEq] at hj2
        rw [← hj2] at hu2
        rw [← hu2] at hu'
        cases hu'
      · rw [if_neg hdj] at hj2
        exact hdj (pairwise_distinct_index (fun (e : uip_ds6_defrt_t) => e.isused)
          (fun e => e.ipaddr) _ hdist d j e X2 he hj2 heu (hu2.trans hu')
          (hea.trans (ha2.trans ha').symm))
  · intro d X hX hu ha R hR hRu hRd
    have hl : uip_ds6_defrt_lookup s old.ipaddr = some d := by
      cases hl : uip_ds6_defrt_lookup s old.ipaddr with
      | none =>
        exact absurd ⟨hu, ha⟩ (uip_ds6_defrt_lookup_none s old.ipaddr hl X (List.getElem?_mem hX))
      | some k =>
        obtain ⟨e, he, heu, hea, _⟩ := uip_ds6_defrt_lookup_some s old.ipaddr k hl
        rw [pairwise_distinct_index (fun (e : uip_ds6_defrt_t) => e.isused)
          (fun e => e.ipaddr) _ hdist k d e X he hX heu hu (hea.trans ha.symm)]
    obtain ⟨j, hj⟩ := List.mem_iff_getElem?.mp hR
    simp only [] at hj
    rw [uip_ds6_reg_cleanup_defrt_reg_list, hl] at hj
    cases hR0 : (uip_ds6_defrt_rm (uip_ds6_nbr_rm s (some o)) (some d)).uip_ds6_reg_list[j]? with
    | none => rw [hR0] at hj; cases hj
    | some R0 =>
      rw [hR0] at hj
      simp only [Option.map_some', Option.some.injEq] at hj
      by_cases hc : R0.isused = true ∧ R0.defrt = some d
      · have hc2 : (R0.isused && decide (R0.defrt = some d)) = true := by simp [hc.1, hc.2]
        rw [if_pos hc2] at hj
        rw [← hj] at hRu
        cases hRu
      · have hc2 : ¬ (R0.isused && decide (R0.defrt = some d)) = true := by
          intro h
          simp only [Bool.and_eq_true, decide_eq_true_eq] at h
          exact hc h
        rw [if_neg hc2] at hj
        subst hj
        exact hc ⟨hRu, hRd⟩

/-- A use of the amended C8 on `nbr_old_example`: the evicted neighbour `fe80::c` is a
default router with a garbage-collectible registration; both are gone on return. -/
theorem uip_ds6_nbr_add_eviction_cascade_witness :
    (∀ e ∈ nbr_old_example.uip_ds6_nbr_cache, e.isused = true) ∧
    (∀ e ∈ nbr_old_example.uip_ds6_nbr_cache, e.ipaddr ≠ addr_fe80_b) ∧
    uip_ds6_nbr_add_oldest sample_env nbr_old_example = some 1 ∧
    nbr_old_example.uip_ds6_nbr_cache[1]? = some (sample_nbr addr_fe80_c 50 NBR_STALE) ∧
    defrt_addrs_distinct nbr_old_example ∧
    (∃ (s' : uip_ds6_state),
      uip_ds6_nbr_add (0 + 2) sample_env nbr_old_example addr_fe80_b none 1 NBR_STALE
        = some (s', some 1) ∧
      (∀ X ∈ s'.uip_ds6_defrt_list, X.isused = true →
        X.ipaddr ≠ (sample_nbr addr_fe80_c 50 NBR_STALE).ipaddr) ∧
      (∀ (d : Nat) (X : uip_ds6_defrt_t), nbr_old_example.uip_ds6_defrt_list[d]? = some X →
        X.isused = true → X.ipaddr = (sample_nbr addr_fe80_c 50 NBR_STALE).ipaddr →
        ∀ R ∈ s'.uip_ds6_reg_list, R.isused = true → R.defrt ≠ some d)) ∧
    (uip_ds6_nbr_add 2 sample_env nbr_old_example addr_fe80_b none 1 NBR_STALE).map
      (fun r => (r.1.uip_ds6_defrt_list.map (fun X => X.isused),
                 r.1.uip_ds6_reg_list.map (fun R => R.isused)))
      = some ([true, false], [true, false, false, false]) :=
  ⟨by decide, by decide, by decide, by decide, by decide,
    uip_ds6_nbr_add_eviction_cascade 0 sample_env nbr_old_example addr_fe80_b none 1 NBR_STALE
      1 (sample_nbr addr_fe80_c 50 NBR_STALE) (by decide) (by decide) (by decide) (by decide)
      (by decide),
    by decide⟩

/-- A use of C9 on `nbr_old_example`: the neighbour `fe80::a` is the router of a
`REG_REGISTERED` registration and is not garbage-collectible. -/
theorem uip_ds6_is_nbr_garbage_collectible_iff_witness :
    reg_routers_in_use nbr_old_example ∧ defrt_addrs_distinct nbr_old_example ∧
    (uip_ds6_is_nbr_garbage_collectible nbr_old_example
        (sample_nbr addr_fe80_a 100 NBR_REACHABLE) = 1 ↔
      ¬ ∃ R ∈ nbr_old_example.uip_ds6_reg_list, R.isused = true ∧
          defrt_ipaddr nbr_old_example R.defrt
            = some (sample_nbr addr_fe80_a 100 NBR_REACHABLE).ipaddr ∧
          R.state ≠ REG_GARBAGE_COLLECTIBLE) ∧
    uip_ds6_is_nbr_garbage_collectible nbr_old_example
      (sample_nbr addr_fe80_a 100 NBR_REACHABLE) = 0 :=
  ⟨by decide, by decide,
    uip_ds6_is_nbr_garbage_collectible_iff nbr_old_example
      (sample_nbr addr_fe80_a 100 NBR_REACHABLE) (by decide) (by decide),
    by decide⟩

/-! ## Evaluations at the failing inputs -/

/-- C2, evaluation at the failing input.  In `reg_full_example` the registration
counters are exact.  `uip_ds6_reg_add(address 2, router 0, REG_TENTATIVE)` finds no free
slot, overwrites the garbage-collectible registration of slot 1 (router 1) and
increments the counter of router 0 without decrementing that of router 1: afterwards
router 1 counts 3 registrations while 2 in-use registrations refer to it. -/
theorem uip_ds6_reg_add_overwrite_miscounts :
    registrations_counted reg_full_example ∧
    (uip_ds6_reg_add sample_env reg_full_example (some 2) (some 0) REG_TENTATIVE).2 = some 1 ∧
    ¬ registrations_counted
      (uip_ds6_reg_add sample_env reg_full_example (some 2) (some 0) REG_TENTATIVE).1 ∧
    (uip_ds6_reg_add sample_env reg_full_example (some 2) (some 0)
      REG_TENTATIVE).1.uip_ds6_defrt_list.map (fun X => X.registrations) = [2, 3] ∧
    reg_count_for
      (uip_ds6_reg_add sample_env reg_full_example (some 2) (some 0) REG_TENTATIVE).1 1 = 2 := by
  decide

/-- C3, evaluation at the failing input.  In `router_expiry_example` every in-use
registration refers to an in-use router and an in-use address.  The tick at second 100
removes the expired router of slot 0 with `uip_ds6_defrt_rm` alone; the registration of
slot 0 stays in use and now refers to a router that is not in use. -/
theorem uip_ds6_periodic_router_expiry_dangles :
    reg_routers_in_use router_expiry_example ∧
    reg_addrs_in_use router_expiry_example ∧
    ¬ reg_routers_in_use (uip_ds6_periodic sample_env router_expiry_example) ∧
    (uip_ds6_periodic sample_env router_expiry_example).uip_ds6_defrt_list.map
      (fun X => X.isused) = [false, true] ∧
    (uip_ds6_periodic sample_env router_expiry_example).uip_ds6_reg_list.map
      (fun R => (R.isused, R.defrt)) = [(true, some 0), (false, none), (false, none), (false, none)] := by
  decide

/-! ## The registration counters under removal and clean-up -/

theorem registrations_counted_iff (s : uip_ds6_state) :
    registrations_counted s ↔
      ∀ (d : Nat) (X : uip_ds6_defrt_t), s.uip_ds6_defrt_list[d]? = some X →
        X.registrations = reg_count_for s d := by
  unfold registrations_counted
  constructor
  · intro h d X hX
    exact h (d, X) (List.mk_mem_enum_iff_getElem?.mpr hX)
  · intro h p hp
    exact h p.1 p.2 (List.mem_enum_iff_getElem?.mp hp)

theorem reg_count_for_eq_countP (s : uip_ds6_state) (d : Nat) :
    reg_count_for s d =
      List.countP (fun R => R.isused && decide (R.defrt = some d)) s.uip_ds6_reg_list := by
  unfold reg_count_for
  rw [List.countP_eq_length_filter]

theorem countP_update_slot {α : Type} (p : α → Bool) (l : List α) (i : Nat) (f : α → α)
    (e : α) (he : l[i]? = some e) :
    List.countP p (update_slot l i f) =
      (List.countP p l - if p e = true then 1 else 0) + if p (f e) = true then 1 else 0 := by
  have hlt : i < l.length := by
    rcases Nat.lt_or_ge i l.length with h | h
    · exact h
    · rw [List.getElem?_eq_none h] at he; cases he
  have hget : l[i] = e := by
    rw [List.getElem?_eq_getElem hlt] at he
    exact Option.some.inj he
  unfold update_slot
  rw [he]
  simp only []
  rw [List.countP_set p l i (f e) hlt, hget]

theorem countP_pos_of_getElem? {α : Type} (p : α → Bool) (l : List α) (i : Nat) (e : α)
    (he : l[i]? = some e) (hp : p e = true) : 0 < List.countP p l :=
  List.countP_pos_iff.mpr ⟨e, List.getElem?_mem he, hp⟩

/-- `uip_ds6_reg_rm` of an in-use registration keeps the registration counters exact
(the counters being `u8_t` values). -/
theorem registrations_counted_reg_rm (s : uip_ds6_state) (i : Nat) (R : uip_ds6_reg_t)
    (hR : s.uip_ds6_reg_list[i]? = some R) (hu : R.isused = true)
    (hb : ∀ X ∈ s.uip_ds6_defrt_list, X.registrations < 256)
    (h : registrations_counted s) :
    registrations_counted (uip_ds6_reg_rm s i) ∧
      ∀ X ∈ (uip_ds6_reg_rm s i).uip_ds6_defrt_list, X.registrations < 256 := by
  rw [registrations_counted_iff] at h ⊢
  have hcount : ∀ d, reg_count_for (uip_ds6_reg_rm s i) d =
      reg_count_for s d - if R.defrt = some d then 1 else 0 := by
    intro d
    rw [reg_count_for_eq_countP, reg_count_for_eq_countP, uip_ds6_reg_rm_reg_list,
      countP_update_slot _ _ _ _ R hR]
    simp [hu]
  cases hd : R.defrt with
  | none =>
    have hl : (uip_ds6_reg_rm s i).uip_ds6_defrt_list = s.uip_ds6_defrt_list := by
      unfold uip_ds6_reg_rm
      simp only [hR, hd]
    refine ⟨?_, by rw [hl]; exact hb⟩
    intro d X hX
    rw [hl] at hX
    rw [hcount d, hd, h d X hX]
    simp
  | some d0 =>
    have hl : (uip_ds6_reg_rm s i).uip_ds6_defrt_list =
        update_slot s.uip_ds6_defrt_list d0
          (fun e => { e with registrations := (e.registrations + 255) % 256 }) := by
      unfold uip_ds6_reg_rm
      simp only [hR, hd]
    constructor
    · intro d X' hX'
      rw [hl, update_slot_getElem?] at hX'
      rw [hcount d, hd]
      by_cases hdd : d0 = d
      · subst hdd
        rw [if_pos rfl] at hX'
        cases hX : s.uip_ds6_defrt_list[d0]? with
        | none => rw [hX] at hX'; cases hX'
        | some X =>
          rw [hX] at hX'
          simp only [Option.map_some', Option.some.injEq] at hX'
          subst hX'
          have h1 := h d0 X hX
          have h2 := hb X (List.getElem?_mem hX)
          have h3 : 0 < reg_count_for s d0 := by
            rw [reg_count_for_eq_countP]
            exact countP_pos_of_getElem? _ _ i R hR (by simp [hu, hd])
          simp only [if_true]
          omega
      · rw [if_neg hdd] at hX'
        rw [h d X' hX']
        have : ¬ (some d0 = some d) := fun h => hdd (Option.some.inj h)
        simp [this]
    · intro X' hX'
      rw [hl] at hX'
      obtain ⟨j, hj⟩ := List.mem_iff_getElem?.mp hX'
      rw [update_slot_getElem?] at hj
      by_cases hdj : d0 = j
      · subst hdj
        rw [if_pos rfl] at hj
        cases hX : s.uip_ds6_defrt_list[d0]? with
        | none => rw [hX] at hj; cases hj
        | some X =>
          rw [hX] at hj
          simp only [Option.map_some', Option.some.injEq] at hj
          subst hj
          exact Nat.mod_lt _ (by decide)
      · rw [if_neg hdj] at hj
        exact hb X' (List.getElem?_mem hj)

/-- `uip_ds6_reg_cleanup_defrt` keeps the registration counters exact. -/
theorem registrations_counted_reg_cleanup_defrt (s : uip_ds6_state) (defrt : Option Nat)
    (hb : ∀ X ∈ s.uip_ds6_defrt_list, X.registrations < 256)
    (h : registrations_counted s) :
    registrations_counted (uip_ds6_reg_cleanup_defrt s defrt) := by
  unfold uip_ds6_reg_cleanup_defrt
  refine (for_loop_invariant
    (fun s' => registrations_counted s' ∧ ∀ X ∈ s'.uip_ds6_defrt_list, X.registrations < 256)
    _ ?_ _ s ⟨h, hb⟩).1
  intro v i hv
  unfold uip_ds6_reg_cleanup_defrt_step
  cases hR : v.uip_ds6_reg_list[i]? with
  | none => exact hv
  | some R =>
    simp only []
    by_cases hc : (R.isused && decide (R.defrt = defrt)) = true
    · rw [if_pos hc]
      simp only [Bool.and_eq_true] at hc
      exact registrations_counted_reg_rm v i R hR hc.1 hv.2 hv.1
    · rw [if_neg hc]
      exact hv

/-- `uip_ds6_reg_cleanup_addr` keeps the registration counters exact. -/
theorem registrations_counted_reg_cleanup_addr (s : uip_ds6_state) (addr : Option Nat)
    (hb : ∀ X ∈ s.uip_ds6_defrt_list, X.registrations < 256)
    (h : registrations_counted s) :
    registrations_counted (uip_ds6_reg_cleanup_addr s addr) := by
  unfold uip_ds6_reg_cleanup_addr
  refine (for_loop_invariant
    (fun s' => registrations_counted s' ∧ ∀ X ∈ s'.uip_ds6_defrt_list, X.registrations < 256)
    _ ?_ _ s ⟨h, hb⟩).1
  intro v i hv
  unfold uip_ds6_reg_cleanup_addr_step
  cases hR : v.uip_ds6_reg_list[i]? with
  | none => exact hv
  | some R =>
    simp only []
    by_cases hc : (R.isused && decide (R.addr = addr)) = true
    · rw [if_pos hc]
      simp only [Bool.and_eq_true] at hc
      by_cases hst : R.state ≠ REG_REGISTERED
      · rw [if_pos hst]
        exact registrations_counted_reg_rm v i R hR hc.1 hv.2 hv.1
      · rw [if_neg hst]
        refine ⟨?_, hv.2⟩
        have h0 := (registrations_counted_iff v).mp hv.1
        rw [registrations_counted_iff]
        intro d X hX
        rw [h0 d X hX, reg_count_for_eq_countP, reg_count_for_eq_countP]
        simp only []
        rw [countP_update_slot _ _ _ _ R hR]
        by_cases hp : (R.isused && decide (R.defrt = some d)) = true
        · have hpos := countP_pos_of_getElem?
            (fun R => R.isused && decide (R.defrt = some d)) _ i R hR hp
          simp only [hp, if_true]
          omega
        · simp only [hp]
          simp
    · rw [if_neg hc]
      exact hv

/-! ## The output budget of the periodic driver -/

theorem uip_ds6_send_rs_multicast_output (env : Env) (s : uip_ds6_state) :
    (uip_ds6_send_rs_multicast env s).output = s.output ++ [Packet.rs none] := rfl

theorem uip_ds6_send_rs_unicast_output (env : Env) (s : uip_ds6_state) (d : Nat) :
    (uip_ds6_send_rs_unicast env s d).output = s.output ∨
      ∃ p, (uip_ds6_send_rs_unicast env s d).output = s.output ++ [p] := by
  unfold uip_ds6_send_rs_unicast
  split
  · split
    · right; exact ⟨_, rfl⟩
    · right; exact ⟨_, rfl⟩
  · left; rfl

/-- One call of `uip_ds6_send_rs` emits at most one packet. -/
theorem uip_ds6_send_rs_output (env : Env) (s : uip_ds6_state) (defrt : Option Nat) :
    (uip_ds6_send_rs env s defrt).output = s.output ∨
      ∃ p, (uip_ds6_send_rs env s defrt).output = s.output ++ [p] := by
  unfold uip_ds6_send_rs
  split
  · left; rfl
  · split
    · exact uip_ds6_send_rs_unicast_output env _ _
    · split
      · exact uip_ds6_send_rs_unicast_output env _ _
      · right; exact ⟨_, rfl⟩

/-- The NUD-failure branch emits at most one packet. -/
theorem uip_ds6_periodic_reg_nud_output (env : Env) (s : uip_ds6_state) (i : Nat)
    (locreg : uip_ds6_reg_t) :
    (uip_ds6_periodic_reg_nud env s i locreg).output = s.output ∨
      ∃ p, (uip_ds6_periodic_reg_nud env s i locreg).output = s.output ++ [p] := by
  have e : (uip_ds6_periodic_reg_nud env s i locreg).output
      = (uip_ds6_send_rs env (uip_ds6_reg_cleanup_defrt (uip_ds6_defrt_rm
          (uip_ds6_nbr_rm (uip_ds6_reg_rm s i)
            ((defrt_ipaddr (uip_ds6_reg_rm s i) locreg.defrt).bind
              (uip_ds6_nbr_lookup (uip_ds6_reg_rm s i)))) locreg.defrt) locreg.defrt)
          none).output := rfl
  rw [e]
  rcases uip_ds6_send_rs_output env (uip_ds6_reg_cleanup_defrt (uip_ds6_defrt_rm
      (uip_ds6_nbr_rm (uip_ds6_reg_rm s i)
        ((defrt_ipaddr (uip_ds6_reg_rm s i) locreg.defrt).bind
          (uip_ds6_nbr_lookup (uip_ds6_reg_rm s i)))) locreg.defrt) locreg.defrt) none
    with hs | ⟨p, hs⟩
  · left; rw [hs]; simp
  · right; exact ⟨p, by rw [hs]; simp⟩

theorem uip_ds6_periodic_reg_budget (env : Env) (o : List Packet) (v : periodic_vars) (i : Nat)
    (h : output_budget o v) : output_budget o (uip_ds6_periodic_reg env v i) := by
  obtain ⟨h1, h2⟩ := h
  unfold uip_ds6_periodic_reg
  split
  · exact ⟨h1, h2⟩
  · split
    · split
      · exact ⟨by simpa using h1, by simpa using h2⟩
      · split
        · rename_i ha
          split
          · split
            · split
              · refine ⟨(by intro hf; cases hf), ?_⟩
                exact (uip_ds6_periodic_reg_nud_output env v.st i _).elim
                  (fun hs => Or.inl (hs.trans (h1 ha)))
                  (fun ⟨p, hs⟩ => Or.inr ⟨p, hs.trans (congrArg (fun t => t ++ [p]) (h1 ha))⟩)
              · refine ⟨(by intro hf; cases hf), ?_⟩
                right
                exact ⟨_, congrArg (fun t => t ++ [_]) (h1 ha)⟩
            · exact ⟨h1, h2⟩
          · split
            · refine ⟨(by intro hf; cases hf), ?_⟩
              right
              exact ⟨_, congrArg (fun t => t ++ [_]) (h1 ha)⟩
            · exact ⟨h1, h2⟩
        · exact ⟨h1, h2⟩
    · exact ⟨h1, h2⟩

theorem uip_ds6_periodic_addr_budget (env : Env) (o : List Packet) (v : periodic_vars) (i : Nat)
    (h : output_budget o v) : output_budget o (uip_ds6_periodic_addr env v i) := by
  obtain ⟨h1, h2⟩ := h
  unfold uip_ds6_periodic_addr
  split
  · exact ⟨h1, h2⟩
  · split
    · split
      · exact ⟨by simpa using h1, by simpa using h2⟩
      · split
        · split
          · exact ⟨h1, h2⟩
          · exact ⟨h1, h2⟩
        · exact ⟨h1, h2⟩
    · exact ⟨h1, h2⟩

theorem uip_ds6_periodic_defrt_budget (env : Env) (o : List Packet) (v : periodic_vars) (i : Nat)
    (h : output_budget o v) : output_budget o (uip_ds6_periodic_defrt env v i) := by
  obtain ⟨h1, h2⟩ := h
  unfold uip_ds6_periodic_defrt
  split
  · exact ⟨h1, h2⟩
  · split
    · split
      · exact ⟨by simpa using h1, by simpa using h2⟩
      · split
        · split
          · exact ⟨h1, h2⟩
          · exact ⟨h1, h2⟩
        · exact ⟨h1, h2⟩
    · exact ⟨h1, h2⟩

theorem uip_ds6_periodic_defrts_budget (env : Env) (o : List Packet) (v : periodic_vars)
    (h : output_budget o v) : output_budget o (uip_ds6_periodic_defrts env v) := by
  unfold uip_ds6_periodic_defrts
  split
  · split
    · rename_i ha
      refine ⟨(by intro hf; cases hf), ?_⟩
      rcases uip_ds6_send_rs_output env v.st none with hs | ⟨p, hs⟩
      · left; exact hs.trans (h.1 ha)
      · right; exact ⟨p, hs.trans (congrArg (fun t => t ++ [p]) (h.1 ha))⟩
    · exact h
  · exact for_loop_invariant (output_budget o) _
      (fun v i hv => uip_ds6_periodic_defrt_budget env o v i hv) _ _ h

theorem uip_ds6_periodic_prefixes_budget (env : Env) (o : List Packet) (v : periodic_vars)
    (i : Nat) (h : output_budget o v) : output_budget o (uip_ds6_periodic_prefixes env v i) := by
  obtain ⟨h1, h2⟩ := h
  unfold uip_ds6_periodic_prefixes
  split
  · exact ⟨h1, h2⟩
  · split
    · split
      · exact ⟨by simpa using h1, by simpa using h2⟩
      · split
        · split
          · exact ⟨h1, h2⟩
          · exact ⟨h1, h2⟩
        · exact ⟨h1, h2⟩
    · exact ⟨h1, h2⟩

theorem uip_ds6_periodic_context_budget (env : Env) (o : List Packet) (v : periodic_vars)
    (i : Nat) (h : output_budget o v) : output_budget o (uip_ds6_periodic_context env v i) := by
  obtain ⟨h1, h2⟩ := h
  unfold uip_ds6_periodic_context
  split
  · exact ⟨h1, h2⟩
  · split
    · split
      · split
        · exact ⟨h1, h2⟩
        · exact ⟨by simpa using h1, by simpa using h2⟩
      · split
        · split
          · exact ⟨h1, h2⟩
          · exact ⟨h1, h2⟩
        · exact ⟨h1, h2⟩
    · exact ⟨h1, h2⟩

theorem uip_ds6_periodic_rs_budget (env : Env) (o : List Packet) (v : periodic_vars)
    (h : output_budget o v) : output_budget o (uip_ds6_periodic_rs env v) := by
  unfold uip_ds6_periodic_rs
  split
  · rename_i hc
    have ha : v.allow_output = true := by
      simp only [Bool.and_eq_true] at hc
      exact hc.1
    refine ⟨(by intro hf; cases hf), ?_⟩
    rcases uip_ds6_send_rs_output env v.st v.min_defrt with hs | ⟨p, hs⟩
    · left; exact hs.trans (h.1 ha)
    · right; exact ⟨p, hs.trans (congrArg (fun t => t ++ [p]) (h.1 ha))⟩
  · exact h

theorem uip_ds6_periodic_nbr_budget (env : Env) (o : List Packet) (v : periodic_vars) (i : Nat)
    (h : output_budget o v) : output_budget o (uip_ds6_periodic_nbr env v i) := by
  obtain ⟨h1, h2⟩ := h
  unfold uip_ds6_periodic_nbr
  split
  · exact ⟨h1, h2⟩
  · split
    · split
      · split
        · exact ⟨h1, h2⟩
        · exact ⟨h1, h2⟩
      · split
        · split
          · rename_i ha
            split
            · refine ⟨(by intro hf; cases hf), ?_⟩
              right
              exact ⟨_, congrArg (fun t => t ++ [_]) (h1 ha)⟩
            · exact ⟨h1, h2⟩
          · exact ⟨h1, h2⟩
        · split
          · split
            · rename_i ha
              split
              · refine ⟨fun _ => ?_, ?_⟩
                · simp only [uip_ds6_nbr_rm_output]
                  split
                  · simpa using h1 ha
                  · exact h1 ha
                · left
                  simp only [uip_ds6_nbr_rm_output]
                  split
                  · simpa using h1 ha
                  · exact h1 ha
              · split
                · refine ⟨(by intro hf; cases hf), ?_⟩
                  right
                  exact ⟨_, congrArg (fun t => t ++ [_]) (h1 ha)⟩
                · exact ⟨h1, h2⟩
            · exact ⟨h1, h2⟩
          · exact ⟨h1, h2⟩
    · exact ⟨h1, h2⟩

/-- The output budget holds at the end of the driver. -/
theorem uip_ds6_periodic_budget (env : Env) (s : uip_ds6_state) :
    output_budget s.output (uip_ds6_periodic_rest env (uip_ds6_periodic_regs env s)) := by
  have h1 : output_budget s.output (uip_ds6_periodic_regs env s) := by
    unfold uip_ds6_periodic_regs
    exact for_loop_invariant (output_budget s.output) _
      (fun v i hv => uip_ds6_periodic_reg_budget env s.output v i hv) _ _
      ⟨fun _ => rfl, Or.inl rfl⟩
  unfold uip_ds6_periodic_rest
  have h2 := for_loop_invariant (output_budget s.output) _
    (fun v i hv => uip_ds6_periodic_addr_budget env s.output v i hv)
    (uip_ds6_periodic_regs env s).st.uip_ds6_if.addr_list.length _ h1
  have h3 := uip_ds6_periodic_defrts_budget env s.output _ h2
  have h4 := for_loop_invariant (output_budget s.output) _
    (fun v i hv => uip_ds6_periodic_prefixes_budget env s.output v i hv)
    (uip_ds6_periodic_defrts env (for_loop (uip_ds6_periodic_addr env)
      (uip_ds6_periodic_regs env s).st.uip_ds6_if.addr_list.length
      (uip_ds6_periodic_regs env s))).st.uip_ds6_prefix_list.length _ h3
  have h5 := for_loop_invariant (output_budget s.output) _
    (fun v i hv => uip_ds6_periodic_context_budget env s.output v i hv)
    (for_loop (uip_ds6_periodic_prefixes env)
      (uip_ds6_periodic_defrts env (for_loop (uip_ds6_periodic_addr env)
        (uip_ds6_periodic_regs env s).st.uip_ds6_if.addr_list.length
        (uip_ds6_periodic_regs env s))).st.uip_ds6_prefix_list.length
      (uip_ds6_periodic_defrts env (for_loop (uip_ds6_periodic_addr env)
        (uip_ds6_periodic_regs env s).st.uip_ds6_if.addr_list.length
        (uip_ds6_periodic_regs env s)))).st.uip_ds6_addr_context_table.length _ h4
  have h6 := uip_ds6_periodic_rs_budget env s.output _ h5
  exact for_loop_invariant (output_budget s.output) _
    (fun v i hv => uip_ds6_periodic_nbr_budget env s.output v i hv) _ _ h6

theorem uip_ds6_periodic_output (env : Env) (s : uip_ds6_state) :
    (uip_ds6_periodic env s).output
      = (uip_ds6_periodic_rest env (uip_ds6_periodic_regs env s)).st.output := by
  unfold uip_ds6_periodic
  rfl


/-! ## Steps of the driver once the output budget is spent -/

theorem table_shrinks_refl {α κ : Type} (used : α → Bool) (key : α → κ) (l : List α) :
    table_shrinks used key l l :=
  ⟨rfl, fun _ e' h hu => ⟨e', h, hu, rfl⟩⟩

theorem table_shrinks_trans {α κ : Type} (used : α → Bool) (key : α → κ) {a b c : List α}
    (h1 : table_shrinks used key a b) (h2 : table_shrinks used key b c) :
    table_shrinks used key a c := by
  refine ⟨h2.1.trans h1.1, ?_⟩
  intro j e' hj hu
  obtain ⟨e1, he1, hu1, hk1⟩ := h2.2 j e' hj hu
  obtain ⟨e0, he0, hu0, hk0⟩ := h1.2 j e1 he1 hu1
  exact ⟨e0, he0, hu0, hk0.trans hk1⟩

theorem table_shrinks_update_slot {α κ : Type} (used : α → Bool) (key : α → κ) (l : List α)
    (i : Nat) (f : α → α) (hf : ∀ e, used (f e) = true → used e = true ∧ key e = key (f e)) :
    table_shrinks used key l (update_slot l i f) := by
  refine ⟨update_slot_length l i f, ?_⟩
  intro j e' hj hu
  rw [update_slot_getElem?] at hj
  by_cases hij : i = j
  · subst hij
    rw [if_pos rfl] at hj
    cases hl : l[i]? with
    | none => rw [hl] at hj; cases hj
    | some e =>
      rw [hl] at hj
      simp only [Option.map_some', Option.some.injEq] at hj
      subst hj
      exact ⟨e, rfl, (hf e hu).1, (hf e hu).2⟩
  · rw [if_neg hij] at hj
    exact ⟨e', hj, hu, rfl⟩

theorem table_shrinks_of_eq {α κ : Type} (used : α → Bool) (key : α → κ) {l l' : List α}
    (h : l' = l) : table_shrinks used key l l' := by
  subst h; exact table_shrinks_refl used key _

/-- Default-router lists that agree up to the registration counters shrink to each other. -/
theorem table_shrinks_of_defrt_keys {l l' : List uip_ds6_defrt_t}
    (h : l'.map defrt_key = l.map defrt_key) :
    table_shrinks (fun (X : uip_ds6_defrt_t) => X.isused) (fun X => X.ipaddr) l l' := by
  refine ⟨list_map_length_eq h, ?_⟩
  intro j e' hj hu
  obtain ⟨X, hX, hXu, hXa, _⟩ := defrt_keys_getElem? h j e' hj
  exact ⟨X, hX, hXu.trans hu, hXa⟩

theorem shrinks_refl (s : uip_ds6_state) : shrinks s s :=
  ⟨rfl, rfl, table_shrinks_refl _ _ _, table_shrinks_refl _ _ _, table_shrinks_refl _ _ _⟩

theorem shrinks_trans {a b c : uip_ds6_state} (h1 : shrinks a b) (h2 : shrinks b c) :
    shrinks a c :=
  ⟨h2.1.trans h1.1, h2.2.1.trans h1.2.1,
    table_shrinks_trans _ _ h1.2.2.1 h2.2.2.1,
    table_shrinks_trans _ _ h1.2.2.2.1 h2.2.2.2.1,
    table_shrinks_trans _ _ h1.2.2.2.2 h2.2.2.2.2⟩

theorem shrinks_reg_rm (s : uip_ds6_state) (i : Nat) : shrinks s (uip_ds6_reg_rm s i) := by
  refine ⟨by simp, by simp, ?_, ?_, ?_⟩
  · rw [uip_ds6_reg_rm_reg_list]
    exact table_shrinks_update_slot _ _ _ _ _ (fun e h => by cases h)
  · exact table_shrinks_of_defrt_keys (uip_ds6_reg_rm_defrt_keys s i)
  · exact table_shrinks_of_eq _ _ (by simp)

theorem shrinks_defrt_rm (s : uip_ds6_state) (d : Option Nat) :
    shrinks s (uip_ds6_defrt_rm s d) := by
  cases d with
  | none => exact shrinks_refl s
  | some d =>
    refine ⟨rfl, rfl, table_shrinks_refl _ _ _, ?_, table_shrinks_refl _ _ _⟩
    exact table_shrinks_update_slot _ _ _ _ _ (fun e h => by cases h)

theorem shrinks_nbr_rm (s : uip_ds6_state) (n : Option Nat) :
    shrinks s (uip_ds6_nbr_rm s n) := by
  cases n with
  | none => exact shrinks_refl s
  | some n =>
    refine ⟨rfl, rfl, table_shrinks_refl _ _ _, table_shrinks_refl _ _ _, ?_⟩
    exact table_shrinks_update_slot _ _ _ _ _ (fun e h => by cases h)

theorem shrinks_addr_rm (s : uip_ds6_state) (a : Option Nat) :
    shrinks s (uip_ds6_addr_rm s a) := by
  cases a with
  | none => exact shrinks_refl s
  | some a =>
    exact ⟨rfl, rfl, table_shrinks_refl _ _ _, table_shrinks_refl _ _ _, table_shrinks_refl _ _ _⟩

theorem shrinks_prefix_rm (s : uip_ds6_state) (p : Option Nat) :
    shrinks s (uip_ds6_prefix_rm s p) := by
  cases p with
  | none => exact shrinks_refl s
  | some p =>
    exact ⟨rfl, rfl, table_shrinks_refl _ _ _, table_shrinks_refl _ _ _, table_shrinks_refl _ _ _⟩

theorem shrinks_reg_cleanup_defrt (s : uip_ds6_state) (d : Option Nat) :
    shrinks s (uip_ds6_reg_cleanup_defrt s d) := by
  unfold uip_ds6_reg_cleanup_defrt
  apply for_loop_rel shrinks _ shrinks_refl (fun _ _ _ => shrinks_trans)
  intro v i
  unfold uip_ds6_reg_cleanup_defrt_step
  split
  · split
    · exact shrinks_reg_rm v i
    · exact shrinks_refl v
  · exact shrinks_refl v

theorem uip_ds6_periodic_reg_quiet (env : Env) (v : periodic_vars) (i : Nat)
    (h : v.allow_output = false) :
    (uip_ds6_periodic_reg env v i).allow_output = false ∧
      shrinks v.st (uip_ds6_periodic_reg env v i).st := by
  unfold uip_ds6_periodic_reg
  split
  · exact ⟨h, shrinks_refl _⟩
  · split
    · split
      · exact ⟨h, shrinks_reg_rm _ _⟩
      · split
        · rename_i ha
          rw [h] at ha
          cases ha
        · exact ⟨h, shrinks_refl _⟩
    · exact ⟨h, shrinks_refl _⟩

theorem uip_ds6_periodic_addr_quiet (env : Env) (v : periodic_vars) (i : Nat)
    (h : v.allow_output = false) :
    (uip_ds6_periodic_addr env v i).allow_output = false ∧
      shrinks v.st (uip_ds6_periodic_addr env v i).st := by
  unfold uip_ds6_periodic_addr
  split
  · exact ⟨h, shrinks_refl _⟩
  · split
    · split
      · exact ⟨h, shrinks_addr_rm _ _⟩
      · split
        · rename_i ha
          rw [h] at ha
          cases ha
        · exact ⟨h, shrinks_refl _⟩
    · exact ⟨h, shrinks_refl _⟩

theorem uip_ds6_periodic_defrt_quiet (env : Env) (v : periodic_vars) (i : Nat)
    (h : v.allow_output = false) :
    (uip_ds6_periodic_defrt env v i).allow_output = false ∧
      shrinks v.st (uip_ds6_periodic_defrt env v i).st := by
  unfold uip_ds6_periodic_defrt
  split
  · exact ⟨h, shrinks_refl _⟩
  · split
    · split
      · exact ⟨h, shrinks_defrt_rm _ _⟩
      · split
        · rename_i ha
          rw [h] at ha
          cases ha
        · exact ⟨h, shrinks_refl _⟩
    · exact ⟨h, shrinks_refl _⟩

theorem uip_ds6_periodic_prefixes_quiet (env : Env) (v : periodic_vars) (i : Nat)
    (h : v.allow_output = false) :
    (uip_ds6_periodic_prefixes env v i).allow_output = false ∧
      shrinks v.st (uip_ds6_periodic_prefixes env v i).st := by
  unfold uip_ds6_periodic_prefixes
  split
  · exact ⟨h, shrinks_refl _⟩
  · split
    · split
      · exact ⟨h, shrinks_prefix_rm _ _⟩
      · split
        · rename_i ha
          rw [h] at ha
          cases ha
        · exact ⟨h, shrinks_refl _⟩
    · exact ⟨h, shrinks_refl _⟩

theorem uip_ds6_periodic_context_quiet (env : Env) (v : periodic_vars) (i : Nat)
    (h : v.allow_output = false) :
    (uip_ds6_periodic_context env v i).allow_output = false ∧
      shrinks v.st (uip_ds6_periodic_context env v i).st := by
  unfold uip_ds6_periodic_context
  split
  · exact ⟨h, shrinks_refl _⟩
  · split
    · split
      · split
        · exact ⟨h, rfl, rfl, table_shrinks_refl _ _ _, table_shrinks_refl _ _ _,
            table_shrinks_refl _ _ _⟩
        · exact ⟨h, rfl, rfl, table_shrinks_refl _ _ _, table_shrinks_refl _ _ _,
            table_shrinks_refl _ _ _⟩
      · split
        · rename_i ha
          rw [h] at ha
          cases ha
        · exact ⟨h, shrinks_refl _⟩
    · exact ⟨h, shrinks_refl _⟩

theorem uip_ds6_periodic_nbr_quiet (env : Env) (v : periodic_vars) (i : Nat)
    (h : v.allow_output = false) :
    (uip_ds6_periodic_nbr env v i).allow_output = false ∧
      shrinks v.st (uip_ds6_periodic_nbr env v i).st := by
  unfold uip_ds6_periodic_nbr
  split
  · exact ⟨h, shrinks_refl _⟩
  · split
    · split
      · split
        · refine ⟨h, rfl, rfl, table_shrinks_refl _ _ _, table_shrinks_refl _ _ _, ?_⟩
          exact table_shrinks_update_slot _ _ _ _ _ (fun e hu => ⟨hu, rfl⟩)
        · exact ⟨h, shrinks_refl _⟩
      · split
        · split
          · rename_i ha
            rw [h] at ha
            cases ha
          · exact ⟨h, shrinks_refl _⟩
        · split
          · split
            · rename_i ha
              rw [h] at ha
              cases ha
            · exact ⟨h, shrinks_refl _⟩
          · exact ⟨h, shrinks_refl _⟩
    · exact ⟨h, shrinks_refl _⟩

/-- A loop of quiet steps is quiet. -/
theorem for_loop_quiet (body : periodic_vars → Nat → periodic_vars)
    (hbody : ∀ v i, v.allow_output = false →
      (body v i).allow_output = false ∧ shrinks v.st (body v i).st)
    (n : Nat) (v : periodic_vars) (h : v.allow_output = false) :
    (for_loop body n v).allow_output = false ∧ shrinks v.st (for_loop body n v).st := by
  induction n with
  | zero => exact ⟨h, shrinks_refl _⟩
  | succ k ih =>
    rw [for_loop_succ]
    obtain ⟨h1, h2⟩ := hbody _ k ih.1
    exact ⟨h1, shrinks_trans ih.2 h2⟩

theorem uip_ds6_periodic_defrts_quiet (env : Env) (v : periodic_vars)
    (h : v.allow_output = false) :
    (uip_ds6_periodic_defrts env v).allow_output = false ∧
      shrinks v.st (uip_ds6_periodic_defrts env v).st := by
  unfold uip_ds6_periodic_defrts
  split
  · split
    · rename_i ha
      rw [h] at ha
      cases ha
    · exact ⟨h, shrinks_refl _⟩
  · exact for_loop_quiet _ (uip_ds6_periodic_defrt_quiet env) _ v h

theorem uip_ds6_periodic_rs_quiet (env : Env) (v : periodic_vars)
    (h : v.allow_output = false) :
    (uip_ds6_periodic_rs env v).allow_output = false ∧
      shrinks v.st (uip_ds6_periodic_rs env v).st := by
  unfold uip_ds6_periodic_rs
  split
  · rename_i hc
    rw [h] at hc
    simp at hc
  · exact ⟨h, shrinks_refl _⟩

/-- Once the output budget is spent, the rest of the driver only removes entries. -/
theorem uip_ds6_periodic_rest_quiet (env : Env) (v : periodic_vars)
    (h : v.allow_output = false) :
    (uip_ds6_periodic_rest env v).allow_output = false ∧
      shrinks v.st (uip_ds6_periodic_rest env v).st := by
  unfold uip_ds6_periodic_rest
  have h2 := for_loop_quiet _ (uip_ds6_periodic_addr_quiet env)
    v.st.uip_ds6_if.addr_list.length v h
  have h3 := uip_ds6_periodic_defrts_quiet env _ h2.1
  have h4 := for_loop_quiet _ (uip_ds6_periodic_prefixes_quiet env)
    (uip_ds6_periodic_defrts env (for_loop (uip_ds6_periodic_addr env)
      v.st.uip_ds6_if.addr_list.length v)).st.uip_ds6_prefix_list.length _ h3.1
  have h5 := for_loop_quiet _ (uip_ds6_periodic_context_quiet env)
    (for_loop (uip_ds6_periodic_prefixes env)
      (uip_ds6_periodic_defrts env (for_loop (uip_ds6_periodic_addr env)
        v.st.uip_ds6_if.addr_list.length v)).st.uip_ds6_prefix_list.length
      (uip_ds6_periodic_defrts env (for_loop (uip_ds6_periodic_addr env)
        v.st.uip_ds6_if.addr_list.length v))).st.uip_ds6_addr_context_table.length _ h4.1
  have h6 := uip_ds6_periodic_rs_quiet env _ h5.1
  have h7 := for_loop_quiet _ (uip_ds6_periodic_nbr_quiet env)
    (uip_ds6_periodic_rs env (for_loop (uip_ds6_periodic_context env)
      (for_loop (uip_ds6_periodic_prefixes env)
        (uip_ds6_periodic_defrts env (for_loop (uip_ds6_periodic_addr env)
          v.st.uip_ds6_if.addr_list.length v)).st.uip_ds6_prefix_list.length
        (uip_ds6_periodic_defrts env (for_loop (uip_ds6_periodic_addr env)
          v.st.uip_ds6_if.addr_list.length v))).st.uip_ds6_addr_context_table.length
      (for_loop (uip_ds6_periodic_prefixes env)
        (uip_ds6_periodic_defrts env (for_loop (uip_ds6_periodic_addr env)
          v.st.uip_ds6_if.addr_list.length v)).st.uip_ds6_prefix_list.length
        (uip_ds6_periodic_defrts env (for_loop (uip_ds6_periodic_addr env)
          v.st.uip_ds6_if.addr_list.length v))))).st.uip_ds6_nbr_cache.length _ h6.1
  exact ⟨h7.1, shrinks_trans h2.2 (shrinks_trans h3.2 (shrinks_trans h4.2
    (shrinks_trans h5.2 (shrinks_trans h6.2 h7.2))))⟩

/-! ## Router solicitation -/

@[simp]
theorem uip_ds6_send_rs_multicast_reg_list (env : Env) (s : uip_ds6_state) :
    (uip_ds6_send_rs_multicast env s).uip_ds6_reg_list = s.uip_ds6_reg_list := rfl

@[simp]
theorem uip_ds6_send_rs_multicast_nbr_cache (env : Env) (s : uip_ds6_state) :
    (uip_ds6_send_rs_multicast env s).uip_ds6_nbr_cache = s.uip_ds6_nbr_cache := rfl

@[simp]
theorem uip_ds6_send_rs_multicast_netif (env : Env) (s : uip_ds6_state) :
    (uip_ds6_send_rs_multicast env s).uip_ds6_if = s.uip_ds6_if := rfl

@[simp]
theorem uip_ds6_send_rs_multicast_defrt_list (env : Env) (s : uip_ds6_state) :
    (uip_ds6_send_rs_multicast env s).uip_ds6_defrt_list = s.uip_ds6_defrt_list := rfl

@[simp]
theorem uip_ds6_send_rs_unicast_reg_list (env : Env) (s : uip_ds6_state) (d : Nat) :
    (uip_ds6_send_rs_unicast env s d).uip_ds6_reg_list = s.uip_ds6_reg_list := by
  unfold uip_ds6_send_rs_unicast
  split
  · split <;> rfl
  · rfl

@[simp]
theorem uip_ds6_send_rs_unicast_nbr_cache (env : Env) (s : uip_ds6_state) (d : Nat) :
    (uip_ds6_send_rs_unicast env s d).uip_ds6_nbr_cache = s.uip_ds6_nbr_cache := by
  unfold uip_ds6_send_rs_unicast
  split
  · split <;> rfl
  · rfl

@[simp]
theorem uip_ds6_send_rs_unicast_netif (env : Env) (s : uip_ds6_state) (d : Nat) :
    (uip_ds6_send_rs_unicast env s d).uip_ds6_if = s.uip_ds6_if := by
  unfold uip_ds6_send_rs_unicast
  split
  · split <;> rfl
  · rfl

theorem uip_ds6_send_rs_unicast_defrt_shrinks (env : Env) (s : uip_ds6_state) (d : Nat) :
    table_shrinks (fun (X : uip_ds6_defrt_t) => X.isused) (fun X => X.ipaddr)
      s.uip_ds6_defrt_list (uip_ds6_send_rs_unicast env s d).uip_ds6_defrt_list := by
  unfold uip_ds6_send_rs_unicast
  split
  · split
    · exact table_shrinks_update_slot _ _ _ _ _ (fun e hu => ⟨hu, rfl⟩)
    · exact table_shrinks_update_slot _ _ _ _ _ (fun e hu => ⟨hu, rfl⟩)
  · exact table_shrinks_refl _ _ _

@[simp]
theorem uip_ds6_send_rs_reg_list (env : Env) (s : uip_ds6_state) (defrt : Option Nat) :
    (uip_ds6_send_rs env s defrt).uip_ds6_reg_list = s.uip_ds6_reg_list := by
  unfold uip_ds6_send_rs
  split
  · rfl
  · split
    · simp
    · split <;> simp

@[simp]
theorem uip_ds6_send_rs_nbr_cache (env : Env) (s : uip_ds6_state) (defrt : Option Nat) :
    (uip_ds6_send_rs env s defrt).uip_ds6_nbr_cache = s.uip_ds6_nbr_cache := by
  unfold uip_ds6_send_rs
  split
  · rfl
  · split
    · simp
    · split <;> simp

@[simp]
theorem uip_ds6_send_rs_netif (env : Env) (s : uip_ds6_state) (defrt : Option Nat) :
    (uip_ds6_send_rs env s defrt).uip_ds6_if = s.uip_ds6_if := by
  unfold uip_ds6_send_rs
  split
  · rfl
  · split
    · simp
    · split <;> simp

theorem uip_ds6_send_rs_defrt_shrinks (env : Env) (s : uip_ds6_state) (defrt : Option Nat) :
    table_shrinks (fun (X : uip_ds6_defrt_t) => X.isused) (fun X => X.ipaddr)
      s.uip_ds6_defrt_list (uip_ds6_send_rs env s defrt).uip_ds6_defrt_list := by
  unfold uip_ds6_send_rs
  split
  · exact table_shrinks_refl _ _ _
  · split
    · refine table_shrinks_trans _ _ ?_ (uip_ds6_send_rs_unicast_defrt_shrinks env _ _)
      exact table_shrinks_update_slot _ _ _ _ _ (fun e hu => ⟨hu, rfl⟩)
    · split
      · exact uip_ds6_send_rs_unicast_defrt_shrinks env _ _
      · exact table_shrinks_refl _ _ _

/-- `uip_ds6_send_rs` does nothing while the RS timer is running. -/
theorem uip_ds6_send_rs_not_expired (env : Env) (s : uip_ds6_state) (defrt : Option Nat)
    (h : timer_expired env s.uip_ds6_timer_rs = false) : uip_ds6_send_rs env s defrt = s := by
  unfold uip_ds6_send_rs
  simp [h]

theorem uip_ds6_send_rs_find_some :
    ∀ (l : List uip_ds6_defrt_t) (i k : Nat), uip_ds6_send_rs_find l i = some k →
      ∃ e, i ≤ k ∧ l[k - i]? = some e ∧ e.isused = true ∧ e.sending_rs = true := by
  intro l
  induction l with
  | nil => intro i k h; simp [uip_ds6_send_rs_find] at h
  | cons e rest ih =>
    intro i k h
    simp only [uip_ds6_send_rs_find] at h
    split at h
    · rename_i hc
      simp only [Option.some.injEq] at h
      subst h
      simp only [Bool.and_eq_true] at hc
      exact ⟨e, Nat.le_refl _, by simp, hc.1, hc.2⟩
    · obtain ⟨e', hle, he', hu, hs⟩ := ih (i + 1) k h
      refine ⟨e', by omega, ?_, hu, hs⟩
      have : k - i = (k - (i + 1)) + 1 := by omega
      rw [this]
      simpa using he'

theorem uip_ds6_send_rs_find_map_key :
    ∀ (l : List uip_ds6_defrt_t) (i : Nat),
      uip_ds6_send_rs_find (l.map defrt_key) i = uip_ds6_send_rs_find l i := by
  intro l
  induction l with
  | nil => intro i; rfl
  | cons e rest ih =>
    intro i
    simp only [List.map_cons, uip_ds6_send_rs_find, ih]
    rfl

theorem uip_ds6_send_rs_find_keys {l l' : List uip_ds6_defrt_t}
    (h : l'.map defrt_key = l.map defrt_key) (i : Nat) :
    uip_ds6_send_rs_find l' i = uip_ds6_send_rs_find l i := by
  rw [← uip_ds6_send_rs_find_map_key l', ← uip_ds6_send_rs_find_map_key l, h]

/-- With the RS timer expired and no target given, `uip_ds6_send_rs` multicasts when
the router it would solicit by unicast, if any, has used up its unicast solicitations. -/
theorem uip_ds6_send_rs_none_multicast (env : Env) (s : uip_ds6_state)
    (ht : timer_expired env s.uip_ds6_timer_rs = true)
    (hf : ∀ k e, uip_ds6_send_rs_find s.uip_ds6_defrt_list 0 = some k →
      s.uip_ds6_defrt_list[k]? = some e → env.UIP_ND6_MAX_RTR_SOLICITATIONS ≤ e.rscount) :
    (uip_ds6_send_rs env s none).output = s.output ++ [Packet.rs none] := by
  unfold uip_ds6_send_rs
  simp only [ht, Bool.not_true, Bool.false_eq_true, if_false, Option.none_bind]
  cases hfind : uip_ds6_send_rs_find s.uip_ds6_defrt_list 0 with
  | none => rfl
  | some k =>
    simp only []
    obtain ⟨e, _, he, _, _⟩ := uip_ds6_send_rs_find_some _ 0 k hfind
    simp only [Nat.sub_zero] at he
    unfold uip_ds6_send_rs_unicast
    simp only [he]
    have := hf k e hfind he
    rw [if_neg (by omega)]
    rfl

/-! ## Registration NUD failure -/

theorem table_shrinks_unused {α κ : Type} (used : α → Bool) (key : α → κ) {l l' : List α}
    (h : table_shrinks used key l l') (j : Nat)
    (hj : (l[j]?).map used = some false) : (l'[j]?).map used = some false := by
  cases hl : l[j]? with
  | none => rw [hl] at hj; cases hj
  | some e =>
    rw [hl] at hj
    simp only [Option.map_some', Option.some.injEq] at hj
    have hlt : j < l'.length := by
      rw [h.1]
      rcases Nat.lt_or_ge j l.length with h' | h'
      · exact h'
      · rw [List.getElem?_eq_none h'] at hl; cases hl
    rw [List.getElem?_eq_getElem hlt]
    simp only [Option.map_some', Option.some.injEq]
    cases hu : used l'[j] with
    | false => rfl
    | true =>
      obtain ⟨e0, he0, hu0, _⟩ := h.2 j l'[j] (List.getElem?_eq_getElem hlt) hu
      rw [hl] at he0
      cases he0
      rw [hj] at hu0
      cases hu0

/-- The outcome of the NUD failure survives every later removal. -/
theorem nud_post_shrinks (i d : Nat) (a : uip_ipaddr_t) {s1 s2 : uip_ds6_state}
    (h : nud_post i d a s1) (hs : shrinks s1 s2) : nud_post i d a s2 := by
  obtain ⟨hp, hr, hd, hn, hg⟩ := h
  obtain ⟨_, hsp, hsr, hsd, hsn⟩ := hs
  refine ⟨hsp.trans hp, table_shrinks_unused _ _ hsr i hr, table_shrinks_unused _ _ hsd d hd,
    ?_, ?_⟩
  · intro N hN hu ha
    obtain ⟨j, hj⟩ := List.mem_iff_getElem?.mp hN
    obtain ⟨N0, hN0, hu0, hk0⟩ := hsn.2 j N hj hu
    exact hn N0 (List.getElem?_mem hN0) hu0 (hk0.trans ha)
  · intro R hR hu hd'
    obtain ⟨j, hj⟩ := List.mem_iff_getElem?.mp hR
    obtain ⟨R0, hR0, hu0, hk0⟩ := hsr.2 j R hj hu
    exact hg R0 (List.getElem?_mem hR0) hu0 (hk0.trans hd')

theorem reg_loop_pre_step (env : Env) (s : uip_ds6_state) (i j : Nat) (v : periodic_vars)
    (hip : s.uip_ds6_if.registration_in_progress = some i) (hji : j ≠ i)
    (h : reg_loop_pre s i v) : reg_loop_pre s i (uip_ds6_periodic_reg env v j) := by
  have h0 := h
  obtain ⟨ha, hif, hn, ho, ht, hk, hr, hl⟩ := h
  unfold uip_ds6_periodic_reg
  cases hloc : v.st.uip_ds6_reg_list[j]? with
  | none => exact h0
  | some locreg =>
    simp only []
    by_cases hu : locreg.isused = true
    · rw [if_pos hu]
      by_cases he : stimer_expired env locreg.reg_lifetime = true
      · rw [if_pos he]
        refine ⟨ha, ?_, ?_, ?_, ?_, ?_, ?_, ?_⟩
        · simpa using hif
        · simpa using hn
        · simpa using ho
        · simpa using ht
        · exact (uip_ds6_reg_rm_defrt_keys _ _).trans hk
        · simp only [uip_ds6_reg_rm_reg_list]
          rw [update_slot_getElem?_ne _ _ hji]
          exact hr
        · simp only [uip_ds6_reg_rm_reg_list, update_slot_length]
          exact hl
      · rw [if_neg he, if_pos ha]
        have hsome : v.st.uip_ds6_if.registration_in_progress.isSome = true := by
          rw [hif, hip]; rfl
        rw [if_pos hsome]
        have hcond : ¬ (decide (v.st.uip_ds6_if.registration_in_progress = some j)
            && timer_expired env locreg.registration_timer) = true := by
          rw [hif, hip]
          intro hc
          simp only [Option.some.injEq, Bool.and_eq_true, decide_eq_true_eq] at hc
          exact hji hc.1.symm
        rw [if_neg hcond]
        exact h0
    · rw [if_neg hu]
      exact h0

/-- The loop over the registrations keeps `reg_loop_pre` up to the slot in progress. -/
theorem reg_loop_pre_loop (env : Env) (s : uip_ds6_state) (i : Nat)
    (hip : s.uip_ds6_if.registration_in_progress = some i) :
    ∀ k, k ≤ i → reg_loop_pre s i (for_loop (uip_ds6_periodic_reg env) k
      { st := s, allow_output := true, min_lifetime := 4294967295, min_defrt := none }) := by
  intro k
  induction k with
  | zero => intro _; exact ⟨rfl, rfl, rfl, rfl, rfl, rfl, rfl, rfl⟩
  | succ k ih =>
    intro hk
    rw [for_loop_succ]
    exact reg_loop_pre_step env s i k _ hip (by omega) (ih (by omega))

/-- After `uip_ds6_reg_cleanup_defrt` no in-use registration refers to the router. -/
theorem uip_ds6_reg_cleanup_defrt_none_left (s : uip_ds6_state) (defrt : Option Nat) :
    ∀ R ∈ (uip_ds6_reg_cleanup_defrt s defrt).uip_ds6_reg_list,
      R.isused = true → R.defrt ≠ defrt := by
  intro R hR hRu hRd
  obtain ⟨j, hj⟩ := List.mem_iff_getElem?.mp hR
  rw [uip_ds6_reg_cleanup_defrt_reg_list] at hj
  cases hR0 : s.uip_ds6_reg_list[j]? with
  | none => rw [hR0] at hj; cases hj
  | some R0 =>
    rw [hR0] at hj
    simp only [Option.map_some', Option.some.injEq] at hj
    by_cases hc : R0.isused = true ∧ R0.defrt = defrt
    · have hc2 : (R0.isused && decide (R0.defrt = defrt)) = true := by simp [hc.1, hc.2]
      rw [if_pos hc2] at hj
      rw [← hj] at hRu
      cases hRu
    · have hc2 : ¬ (R0.isused && decide (R0.defrt = defrt)) = true := by
        intro h
        simp only [Bool.and_eq_true, decide_eq_true_eq] at h
        exact hc h
      rw [if_neg hc2] at hj
      subst hj
      exact hc ⟨hRu, hRd⟩

/-- A slot that is not in use stays so through `uip_ds6_reg_cleanup_defrt`. -/
theorem uip_ds6_reg_cleanup_defrt_unused (s : uip_ds6_state) (defrt : Option Nat) (i : Nat)
    (h : (s.uip_ds6_reg_list[i]?).map (fun R => R.isused) = some false) :
    ((uip_ds6_reg_cleanup_defrt s defrt).uip_ds6_reg_list[i]?).map (fun R => R.isused)
      = some false :=
  table_shrinks_unused _ _ (shrinks_reg_cleanup_defrt s defrt).2.2.1 i h

/-- Removing the first in-use neighbour with address `a` from a cache whose in-use
entries have distinct addresses leaves no in-use neighbour with that address. -/
theorem uip_ds6_nbr_rm_lookup_none_left (s : uip_ds6_state) (a : uip_ipaddr_t)
    (hdist : nbr_addrs_distinct s) :
    ∀ N ∈ (uip_ds6_nbr_rm s (uip_ds6_nbr_lookup s a)).uip_ds6_nbr_cache,
      N.isused = true → N.ipaddr ≠ a := by
  intro N hN hu ha
  cases hl : uip_ds6_nbr_lookup s a with
  | none =>
    rw [hl] at hN
    exact uip_ds6_nbr_lookup_none s a hl N hN ⟨hu, ha⟩
  | some n =>
    rw [hl] at hN
    obtain ⟨e, he, heu, hea, _⟩ := uip_ds6_nbr_lookup_some s a n hl
    obtain ⟨j, hj⟩ := List.mem_iff_getElem?.mp hN
    simp only [uip_ds6_nbr_rm] at hj
    rw [update_slot_getElem?] at hj
    by_cases hnj : n = j
    · subst hnj
      rw [if_pos rfl, he] at hj
      simp only [Option.map_some', Option.some.injEq] at hj
      rw [← hj] at hu
      cases hu
    · rw [if_neg hnj] at hj
      exact hnj (pairwise_distinct_index (fun (e : uip_ds6_nbr_t) => e.isused)
        (fun e => e.ipaddr) _ hdist n j e N he hj heu hu (hea.trans ha.symm))

/-- The outcome of the NUD-failure branch. -/
theorem uip_ds6_periodic_reg_nud_post (env : Env) (s : uip_ds6_state) (i d : Nat)
    (R : uip_ds6_reg_t) (X : uip_ds6_defrt_t)
    (hR : s.uip_ds6_reg_list[i]? = some R) (hd : R.defrt = some d)
    (hX : s.uip_ds6_defrt_list[d]? = some X) (hdist : nbr_addrs_distinct s) :
    nud_post i d X.ipaddr (uip_ds6_periodic_reg_nud env s i R) := by
  have hkeys1 := uip_ds6_reg_rm_defrt_keys s i
  obtain ⟨X1, hX1, _, hX1a, _⟩ := defrt_keys_getElem? hkeys1.symm d X hX
  have hip : defrt_ipaddr (uip_ds6_reg_rm s i) R.defrt = some X.ipaddr := by
    rw [defrt_ipaddr_eq_some]
    exact ⟨d, X1, hd, hX1, hX1a⟩
  have hlook : (defrt_ipaddr (uip_ds6_reg_rm s i) R.defrt).bind
      (uip_ds6_nbr_lookup (uip_ds6_reg_rm s i)) = uip_ds6_nbr_lookup s X.ipaddr := by
    rw [hip]
    exact uip_ds6_nbr_lookup_congr _ _ _ (by simp)
  unfold uip_ds6_periodic_reg_nud
  simp only [hlook]
  simp only [hd]
  refine ⟨rfl, ?_, ?_, ?_, ?_⟩
  · simp only [uip_ds6_send_rs_reg_list]
    apply uip_ds6_reg_cleanup_defrt_unused
    simp only [uip_ds6_defrt_rm_reg_list, uip_ds6_nbr_rm_reg_list, uip_ds6_reg_rm_reg_list]
    rw [update_slot_getElem?_self, hR]
    rfl
  · apply table_shrinks_unused _ _ (uip_ds6_send_rs_defrt_shrinks env _ none) d
    apply table_shrinks_unused _ _
      (table_shrinks_of_defrt_keys (uip_ds6_reg_cleanup_defrt_defrt_keys _ (some d))) d
    simp only [uip_ds6_defrt_rm, uip_ds6_nbr_rm_defrt_list]
    rw [update_slot_getElem?_self, hX1]
    rfl
  · intro N hN
    simp only [uip_ds6_send_rs_nbr_cache, uip_ds6_reg_cleanup_defrt_nbr_cache,
      uip_ds6_defrt_rm_nbr_cache] at hN
    have hN' : N ∈ (uip_ds6_nbr_rm s (uip_ds6_nbr_lookup s X.ipaddr)).uip_ds6_nbr_cache := by
      cases hl : uip_ds6_nbr_lookup s X.ipaddr with
      | none => rw [hl] at hN; simpa [uip_ds6_nbr_rm] using hN
      | some n => rw [hl] at hN; simpa [uip_ds6_nbr_rm] using hN
    exact uip_ds6_nbr_rm_lookup_none_left s X.ipaddr hdist N hN'
  · intro R' hR'
    simp only [uip_ds6_send_rs_reg_list] at hR'
    exact uip_ds6_reg_cleanup_defrt_none_left _ _ R' hR'

/-- The body of the loop over the registrations at the slot in progress, when its
retransmissions are exhausted. -/
theorem uip_ds6_periodic_reg_at_nud (env : Env) (v : periodic_vars) (i : Nat)
    (R : uip_ds6_reg_t)
    (hloc : v.st.uip_ds6_reg_list[i]? = some R) (hu : R.isused = true)
    (he : stimer_expired env R.reg_lifetime = false) (ha : v.allow_output = true)
    (hip : v.st.uip_ds6_if.registration_in_progress = some i)
    (ht : timer_expired env R.registration_timer = true)
    (hc : env.UIP_ND6_MAX_UNICAST_SOLICIT ≤ R.reg_count) :
    uip_ds6_periodic_reg env v i =
      { v with st := uip_ds6_periodic_reg_nud env v.st i R, allow_output := false } := by
  unfold uip_ds6_periodic_reg
  simp only [hloc, hu, he, ha, hip, ht, if_true, Bool.false_eq_true, if_false,
    Option.isSome_some, decide_True, Bool.and_self, ge_iff_le, hc]

/-- After the slot where the output budget was spent, the loop only removes entries. -/
theorem for_loop_quiet_from (body : periodic_vars → Nat → periodic_vars)
    (hbody : ∀ v i, v.allow_output = false →
      (body v i).allow_output = false ∧ shrinks v.st (body v i).st)
    (k : Nat) (v0 : periodic_vars) (h : (for_loop body k v0).allow_output = false) :
    ∀ m, (for_loop body (k + m) v0).allow_output = false ∧
      shrinks (for_loop body k v0).st (for_loop body (k + m) v0).st := by
  intro m
  induction m with
  | zero => exact ⟨h, shrinks_refl _⟩
  | succ m ih =>
    have e : for_loop body (k + (m + 1)) v0
        = body (for_loop body (k + m) v0) (k + m) := rfl
    rw [e]
    obtain ⟨h1, h2⟩ := hbody _ (k + m) ih.1
    exact ⟨h1, shrinks_trans ih.2 h2⟩

theorem update_slot_map_comm {α β : Type} (l : List α) (i : Nat) (f : α → α) (g : α → β)
    (f' : β → β) (h : ∀ e, g (f e) = f' (g e)) :
    (update_slot l i f).map g = update_slot (l.map g) i f' := by
  apply List.ext_getElem?
  intro j
  rw [List.getElem?_map, update_slot_getElem?, update_slot_getElem?, List.getElem?_map]
  by_cases hij : i = j
  · subst hij
    cases hl : l[i]? with
    | none => simp
    | some e => simp [h]
  · simp [hij]

theorem uip_ds6_defrt_rm_keys (sA sB : uip_ds6_state) (p : Option Nat)
    (h : sA.uip_ds6_defrt_list.map defrt_key = sB.uip_ds6_defrt_list.map defrt_key) :
    (uip_ds6_defrt_rm sA p).uip_ds6_defrt_list.map defrt_key
      = (uip_ds6_defrt_rm sB p).uip_ds6_defrt_list.map defrt_key := by
  cases p with
  | none => exact h
  | some d =>
    simp only [uip_ds6_defrt_rm]
    rw [update_slot_map_comm _ d (fun (e : uip_ds6_defrt_t) => { e with isused := false })
        defrt_key (fun (e : uip_ds6_defrt_t) => { e with isused := false }) (fun _ => rfl),
      update_slot_map_comm _ d (fun (e : uip_ds6_defrt_t) => { e with isused := false })
        defrt_key (fun (e : uip_ds6_defrt_t) => { e with isused := false }) (fun _ => rfl), h]

theorem shrinks_set_timer_periodic (s : uip_ds6_state) (t : timer) :
    shrinks s { s with uip_ds6_timer_periodic := t } :=
  ⟨rfl, rfl, table_shrinks_refl _ _ _, table_shrinks_refl _ _ _, table_shrinks_refl _ _ _⟩

/-- The state after the loop over the registrations, and after the whole tick, when
the registration in progress (slot `i`) has exhausted its retransmissions: up to later
removals it is the NUD-failure branch applied to a state `v.st` that differs from the
initial one only in other registrations and in the registration counters. -/
theorem uip_ds6_periodic_nud_shrinks (env : Env) (s : uip_ds6_state) (i : Nat)
    (R : uip_ds6_reg_t)
    (hip : s.uip_ds6_if.registration_in_progress = some i)
    (hR : s.uip_ds6_reg_list[i]? = some R) (hu : R.isused = true)
    (hlife : stimer_expired env R.reg_lifetime = false)
    (htimer : timer_expired env R.registration_timer = true)
    (hcount : env.UIP_ND6_MAX_UNICAST_SOLICIT ≤ R.reg_count) :
    ∃ v : periodic_vars, reg_loop_pre s i v ∧
      shrinks (uip_ds6_periodic_reg_nud env v.st i R) (uip_ds6_periodic env s) := by
  have hpre := reg_loop_pre_loop env s i hip i (Nat.le_refl i)
  refine ⟨_, hpre, ?_⟩
  obtain ⟨ha, hif, _, _, _, _, hr, _⟩ := hpre
  have hstep := uip_ds6_periodic_reg_at_nud env _ i R (hr.trans hR) hu hlife ha
    (by rw [hif]; exact hip) htimer hcount
  have hlt : i < s.uip_ds6_reg_list.length := by
    rcases Nat.lt_or_ge i s.uip_ds6_reg_list.length with h | h
    · exact h
    · rw [List.getElem?_eq_none h] at hR; cases hR
  have hsucc : for_loop (uip_ds6_periodic_reg env) (i + 1)
      { st := s, allow_output := true, min_lifetime := 4294967295, min_defrt := none }
      = { for_loop (uip_ds6_periodic_reg env) i
            { st := s, allow_output := true, min_lifetime := 4294967295, min_defrt := none } with
          st := uip_ds6_periodic_reg_nud env
            (for_loop (uip_ds6_periodic_reg env) i
              { st := s, allow_output := true, min_lifetime := 4294967295,
                min_defrt := none }).st i R,
          allow_output := false } := by
    rw [for_loop_succ]
    exact hstep
  have hq := for_loop_quiet_from (uip_ds6_periodic_reg env) (uip_ds6_periodic_reg_quiet env)
    (i + 1) { st := s, allow_output := true, min_lifetime := 4294967295, min_defrt := none }
    (by rw [hsucc]) (s.uip_ds6_reg_list.length - (i + 1))
  have hn : i + 1 + (s.uip_ds6_reg_list.length - (i + 1)) = s.uip_ds6_reg_list.length := by
    omega
  rw [hn, hsucc] at hq
  have hregs : uip_ds6_periodic_regs env s = for_loop (uip_ds6_periodic_reg env)
      s.uip_ds6_reg_list.length
      { st := s, allow_output := true, min_lifetime := 4294967295, min_defrt := none } := rfl
  rw [← hregs] at hq
  have hrest := uip_ds6_periodic_rest_quiet env (uip_ds6_periodic_regs env s) hq.1
  have hfinal : shrinks (uip_ds6_periodic_rest env (uip_ds6_periodic_regs env s)).st
      (uip_ds6_periodic env s) := by
    unfold uip_ds6_periodic
    exact shrinks_set_timer_periodic _ _
  exact shrinks_trans (shrinks_trans hq.2 hrest.2) hfinal

/-- C4 (amended). If at the start of a tick the registration `R` (slot `i`) referenced
by `registration_in_progress` is in use, its lifetime has not expired, its retransmit
timer has expired and `R.reg_count >= UIP_ND6_MAX_UNICAST_SOLICIT`, and the in-use
neighbour cache entries have pairwise distinct addresses, then after
`uip_ds6_periodic` `R` is not in use, its router (slot `d`) is not in use, no in-use
neighbour has the router's address, no in-use registration refers to that router, and
`registration_in_progress` is null. -/
theorem uip_ds6_periodic_registration_nud_failure (env : Env) (s : uip_ds6_state) (i d : Nat)
    (R : uip_ds6_reg_t) (X : uip_ds6_defrt_t)
    (hip : s.uip_ds6_if.registration_in_progress = some i)
    (hR : s.uip_ds6_reg_list[i]? = some R) (hu : R.isused = true)
    (hlife : stimer_expired env R.reg_lifetime = false)
    (htimer : timer_expired env R.registration_timer = true)
    (hcount : env.UIP_ND6_MAX_UNICAST_SOLICIT ≤ R.reg_count)
    (hd : R.defrt = some d) (hX : s.uip_ds6_defrt_list[d]? = some X)
    (hdist : nbr_addrs_distinct s) :
    ((uip_ds6_periodic env s).uip_ds6_reg_list[i]?).map (fun R' => R'.isused) = some false ∧
    ((uip_ds6_periodic env s).uip_ds6_defrt_list[d]?).map (fun X' => X'.isused) = some false ∧
    (∀ N ∈ (uip_ds6_periodic env s).uip_ds6_nbr_cache, N.isused = true → N.ipaddr ≠ X.ipaddr) ∧
    (∀ R' ∈ (uip_ds6_periodic env s).uip_ds6_reg_list, R'.isused = true → R'.defrt ≠ some d) ∧
    (uip_ds6_periodic env s).uip_ds6_if.registration_in_progress = none := by
  obtain ⟨v, hpre, hs⟩ := uip_ds6_periodic_nud_shrinks env s i R hip hR hu hlife htimer hcount
  obtain ⟨_, _, hn, _, _, hk, hr, _⟩ := hpre
  obtain ⟨Xv, hXv, _, hXva, _⟩ := defrt_keys_getElem? hk.symm d X hX
  have hdist' : nbr_addrs_distinct v.st := by
    unfold nbr_addrs_distinct
    rw [hn]
    exact hdist
  have hpost := uip_ds6_periodic_reg_nud_post env v.st i d R Xv (hr.trans hR) hd hXv hdist'
  rw [hXva] at hpost
  obtain ⟨h1, h2, h3, h4, h5⟩ := nud_post_shrinks i d X.ipaddr hpost hs
  exact ⟨h2, h3, h4, h5, h1⟩

/-- C5 (amended). On registration retransmission exhaustion (registration in progress
in use, lifetime not expired, retransmit timer expired,
`reg_count >= UIP_ND6_MAX_UNICAST_SOLICIT`): if the RS timer has not expired, the tick
emits nothing; if it has expired and the router that `uip_ds6_send_rs` selects for a
unicast solicitation once the registration's router is removed, if any, has
`rscount >= UIP_ND6_MAX_RTR_SOLICITATIONS`, the tick emits exactly one packet, the
multicast Router Solicitation `uip_nd6_rs_output(NULL)`. -/
theorem uip_ds6_periodic_nud_failure_rs (env : Env) (s : uip_ds6_state) (i : Nat)
    (R : uip_ds6_reg_t)
    (hip : s.uip_ds6_if.registration_in_progress = some i)
    (hR : s.uip_ds6_reg_list[i]? = some R) (hu : R.isused = true)
    (hlife : stimer_expired env R.reg_lifetime = false)
    (htimer : timer_expired env R.registration_timer = true)
    (hcount : env.UIP_ND6_MAX_UNICAST_SOLICIT ≤ R.reg_count) :
    (timer_expired env s.uip_ds6_timer_rs = false →
      (uip_ds6_periodic env s).output = s.output) ∧
    (timer_expired env s.uip_ds6_timer_rs = true →
      (∀ k e, uip_ds6_send_rs_find (uip_ds6_defrt_rm s R.defrt).uip_ds6_defrt_list 0 = some k →
        (uip_ds6_defrt_rm s R.defrt).uip_ds6_defrt_list[k]? = some e →
        env.UIP_ND6_MAX_RTR_SOLICITATIONS ≤ e.rscount) →
      (uip_ds6_periodic env s).output = s.output ++ [Packet.rs none]) := by
  obtain ⟨v, hpre, hs⟩ := uip_ds6_periodic_nud_shrinks env s i R hip hR hu hlife htimer hcount
  obtain ⟨_, _, _, ho, ht, hk, _, _⟩ := hpre
  have hout : (uip_ds6_periodic_reg_nud env v.st i R).output
      = (uip_ds6_send_rs env (uip_ds6_reg_cleanup_defrt (uip_ds6_defrt_rm
          (uip_ds6_nbr_rm (uip_ds6_reg_rm v.st i)
            ((defrt_ipaddr (uip_ds6_reg_rm v.st i) R.defrt).bind
              (uip_ds6_nbr_lookup (uip_ds6_reg_rm v.st i)))) R.defrt) R.defrt)
          none).output := rfl
  have hkeys : (uip_ds6_reg_cleanup_defrt (uip_ds6_defrt_rm
      (uip_ds6_nbr_rm (uip_ds6_reg_rm v.st i)
        ((defrt_ipaddr (uip_ds6_reg_rm v.st i) R.defrt).bind
          (uip_ds6_nbr_lookup (uip_ds6_reg_rm v.st i)))) R.defrt)
      R.defrt).uip_ds6_defrt_list.map defrt_key
      = (uip_ds6_defrt_rm s R.defrt).uip_ds6_defrt_list.map defrt_key := by
    rw [uip_ds6_reg_cleanup_defrt_defrt_keys]
    apply uip_ds6_defrt_rm_keys
    rw [uip_ds6_nbr_rm_defrt_list]
    exact (uip_ds6_reg_rm_defrt_keys _ _).trans hk
  constructor
  · intro hne
    rw [hs.1, hout, uip_ds6_send_rs_not_expired env _ none (by simpa [ht] using hne)]
    simpa using ho
  · intro hex hfind
    rw [hs.1, hout, uip_ds6_send_rs_none_multicast env _ (by simpa [ht] using hex)]
    · simp [ho]
    · intro k e hk1 hk2
      rw [uip_ds6_send_rs_find_keys hkeys] at hk1
      obtain ⟨e0, he0, _, _, _, hrs, _⟩ := defrt_keys_getElem? hkeys k e hk2
      rw [← hrs]
      exact hfind k e0 hk1 he0

set_option maxRecDepth 8000 in
/-- C4 (as stated) fails: `nud_dup_nbr_example` meets every hypothesis of the claim
(registration 0 in progress and in use, lifetime not expired, retransmit timer expired,
`reg_count = 3 = UIP_ND6_MAX_UNICAST_SOLICIT`), and after the tick the neighbour of slot
1 is still in use with the address `fe80::a` of the router: `uip_ds6_nbr_lookup` finds,
and the driver removes, only the first entry with that address. -/
theorem uip_ds6_periodic_nud_duplicate_neighbour_survives :
    nud_dup_nbr_example.uip_ds6_if.registration_in_progress = some 0 ∧
    nud_dup_nbr_example.uip_ds6_reg_list[0]?
      = some (sample_reg 1 0 REG_TENTATIVE 90 20 12000 128 3) ∧
    stimer_expired sample_env (sample_reg 1 0 REG_TENTATIVE 90 20 12000 128 3).reg_lifetime
      = false ∧
    timer_expired sample_env
      (sample_reg 1 0 REG_TENTATIVE 90 20 12000 128 3).registration_timer = true ∧
    sample_env.UIP_ND6_MAX_UNICAST_SOLICIT
      ≤ (sample_reg 1 0 REG_TENTATIVE 90 20 12000 128 3).reg_count ∧
    defrt_ipaddr nud_dup_nbr_example (sample_reg 1 0 REG_TENTATIVE 90 20 12000 128 3).defrt
      = some addr_fe80_a ∧
    (uip_ds6_periodic sample_env nud_dup_nbr_example).uip_ds6_nbr_cache.map
      (fun N => (N.isused, N.ipaddr))
      = [(false, addr_fe80_a), (true, addr_fe80_a), (true, addr_fe80_d), (true, addr_fe80_e)] := by
  decide

set_option maxRecDepth 8000 in
/-- A use of the amended C4 on `nud_example`. -/
theorem uip_ds6_periodic_registration_nud_failure_witness :
    nud_example.uip_ds6_if.registration_in_progress = some 0 ∧
    nud_example.uip_ds6_reg_list[0]? = some (sample_reg 1 0 REG_TENTATIVE 90 20 12000 128 3) ∧
    nud_example.uip_ds6_defrt_list[0]? = some (sample_defrt addr_fe80_a 90 1800 1) ∧
    nbr_addrs_distinct nud_example ∧
    (((uip_ds6_periodic sample_env nud_example).uip_ds6_reg_list[0]?).map
        (fun R' => R'.isused) = some false ∧
      ((uip_ds6_periodic sample_env nud_example).uip_ds6_defrt_list[0]?).map
        (fun X' => X'.isused) = some false ∧
      (∀ N ∈ (uip_ds6_periodic sample_env nud_example).uip_ds6_nbr_cache, N.isused = true →
        N.ipaddr ≠ (sample_defrt addr_fe80_a 90 1800 1).ipaddr) ∧
      (∀ R' ∈ (uip_ds6_periodic sample_env nud_example).uip_ds6_reg_list, R'.isused = true →
        R'.defrt ≠ some 0) ∧
      (uip_ds6_periodic sample_env nud_example).uip_ds6_if.registration_in_progress = none) ∧
    (uip_ds6_periodic sample_env nud_example).uip_ds6_nbr_cache.map (fun N => N.isused)
      = [false, true, true, true] :=
  ⟨by decide, by decide, by decide, by decide,
    uip_ds6_periodic_registration_nud_failure sample_env nud_example 0 0
      (sample_reg 1 0 REG_TENTATIVE 90 20 12000 128 3) (sample_defrt addr_fe80_a 90 1800 1)
      (by decide) (by decide) (by decide) (by decide) (by decide) (by decide) (by decide)
      (by decide) (by decide),
    by decide⟩

set_option maxRecDepth 8000 in
/-- C5 (as stated) fails.  Both `nud_rs_running_example` (RS timer not expired) and
`nud_rs_unicast_example` (another router has `sending_rs` set) have the registration of
slot 0 in progress with its retransmissions exhausted; in the first the tick emits
nothing at all, in the second it emits a unicast Router Solicitation to `fe80::c`.  In
neither is `uip_nd6_rs_output` called with a null target. -/
theorem uip_ds6_periodic_nud_no_multicast_rs :
    nud_rs_running_example.uip_ds6_if.registration_in_progress = some 0 ∧
    nud_rs_running_example.uip_ds6_reg_list[0]?
      = some (sample_reg 1 0 REG_TENTATIVE 90 20 12000 128 3) ∧
    nud_rs_unicast_example.uip_ds6_if.registration_in_progress = some 0 ∧
    nud_rs_unicast_example.uip_ds6_reg_list[0]?
      = some (sample_reg 1 0 REG_TENTATIVE 90 20 12000 128 3) ∧
    stimer_expired sample_env (sample_reg 1 0 REG_TENTATIVE 90 20 12000 128 3).reg_lifetime
      = false ∧
    timer_expired sample_env
      (sample_reg 1 0 REG_TENTATIVE 90 20 12000 128 3).registration_timer = true ∧
    sample_env.UIP_ND6_MAX_UNICAST_SOLICIT
      ≤ (sample_reg 1 0 REG_TENTATIVE 90 20 12000 128 3).reg_count ∧
    (uip_ds6_periodic sample_env nud_rs_running_example).output = [] ∧
    (uip_ds6_periodic sample_env nud_rs_unicast_example).output
      = [Packet.rs (some addr_fe80_c)] := by
  decide

set_option maxRecDepth 8000 in
/-- A use of the amended C5 on `nud_example`: the RS timer has expired, no router has
`sending_rs` set, and the tick emits the multicast Router Solicitation and nothing
else. -/
theorem uip_ds6_periodic_nud_failure_rs_witness :
    nud_example.uip_ds6_if.registration_in_progress = some 0 ∧
    nud_example.uip_ds6_reg_list[0]? = some (sample_reg 1 0 REG_TENTATIVE 90 20 12000 128 3) ∧
    ((timer_expired sample_env nud_example.uip_ds6_timer_rs = false →
        (uip_ds6_periodic sample_env nud_example).output = nud_example.output) ∧
      (timer_expired sample_env nud_example.uip_ds6_timer_rs = true →
        (∀ k e, uip_ds6_send_rs_find (uip_ds6_defrt_rm nud_example
            (sample_reg 1 0 REG_TENTATIVE 90 20 12000 128 3).defrt).uip_ds6_defrt_list 0 = some k →
          (uip_ds6_defrt_rm nud_example
            (sample_reg 1 0 REG_TENTATIVE 90 20 12000 128 3).defrt).uip_ds6_defrt_list[k]? = some e →
          sample_env.UIP_ND6_MAX_RTR_SOLICITATIONS ≤ e.rscount) →
        (uip_ds6_periodic sample_env nud_example).output
          = nud_example.output ++ [Packet.rs none])) ∧
    (uip_ds6_periodic sample_env nud_example).output = [Packet.rs none] :=
  ⟨by decide, by decide,
    uip_ds6_periodic_nud_failure_rs sample_env nud_example 0
      (sample_reg 1 0 REG_TENTATIVE 90 20 12000 128 3)
      (by decide) (by decide) (by decide) (by decide) (by decide) (by decide),
    by decide⟩

/-! ## At most one packet per tick -/

theorem quiet_step_of_shrinks (f : periodic_vars → periodic_vars)
    (h : ∀ v, v.allow_output = false → (f v).allow_output = false ∧ shrinks v.st (f v).st) :
    quiet_step f :=
  fun v hv => ⟨(h v hv).1, (h v hv).2.1⟩

/-- C1. Host profile: for every state and every clock value, one invocation of
`uip_ds6_periodic` appends at most one packet to the trace of the calls of
`uip_nd6_ns_output` and `uip_nd6_rs_output` (direct or through `uip_ds6_send_rs`): the
trace after the call is the trace before it, or that trace with one packet added.
Moreover no step of the driver (the body of each of its loops, the default-router
phase, the proactive solicitation) emits anything or sets `allow_output` again once it
is entered with `allow_output` cleared. -/
theorem uip_ds6_periodic_at_most_one_packet (env : Env) (s : uip_ds6_state) :
    ((uip_ds6_periodic env s).output = s.output ∨
      ∃ p, (uip_ds6_periodic env s).output = s.output ++ [p]) ∧
    (∀ i, quiet_step (fun v => uip_ds6_periodic_reg env v i) ∧
      quiet_step (fun v => uip_ds6_periodic_addr env v i) ∧
      quiet_step (uip_ds6_periodic_defrts env) ∧
      quiet_step (fun v => uip_ds6_periodic_prefixes env v i) ∧
      quiet_step (fun v => uip_ds6_periodic_context env v i) ∧
      quiet_step (uip_ds6_periodic_rs env) ∧
      quiet_step (fun v => uip_ds6_periodic_nbr env v i)) := by
  constructor
  · rw [uip_ds6_periodic_output]
    exact (uip_ds6_periodic_budget env s).2
  · intro i
    exact ⟨quiet_step_of_shrinks _ (fun v => uip_ds6_periodic_reg_quiet env v i),
      quiet_step_of_shrinks _ (fun v => uip_ds6_periodic_addr_quiet env v i),
      quiet_step_of_shrinks _ (uip_ds6_periodic_defrts_quiet env),
      quiet_step_of_shrinks _ (fun v => uip_ds6_periodic_prefixes_quiet env v i),
      quiet_step_of_shrinks _ (fun v => uip_ds6_periodic_context_quiet env v i),
      quiet_step_of_shrinks _ (uip_ds6_periodic_rs_quiet env),
      quiet_step_of_shrinks _ (fun v => uip_ds6_periodic_nbr_quiet env v i)⟩

/-! ## The generic scan: outcomes -/

theorem uip_ipaddr_prefixcmp_iff (a b : uip_ipaddr_t) (n : Nat) :
    uip_ipaddr_prefixcmp a b n = true ↔ (addr_bits a).take n = (addr_bits b).take n := by
  simp [uip_ipaddr_prefixcmp]

/-- The scan from slot 0 ends in exactly one of three ways: `FOUND` with the first in-use
matching slot; `FREESPACE` with the last free slot, no in-use entry matching; `NOSPACE`
with a null out element, every slot in use and none matching. -/
theorem uip_ds6_list_loop_cases {α : Type} (isused : α → Bool) (ipaddr : α → uip_ipaddr_t)
    (l : List α) (target : uip_ipaddr_t) (len : Nat) :
    (∃ k e, uip_ds6_list_loop isused ipaddr l target len = (FOUND, some k) ∧
        l[k]? = some e ∧ isused e = true ∧ uip_ipaddr_prefixcmp (ipaddr e) target len = true ∧
        ∀ j e', j < k → l[j]? = some e' →
          ¬ (isused e' = true ∧ uip_ipaddr_prefixcmp (ipaddr e') target len = true))
    ∨ (∃ k e, uip_ds6_list_loop isused ipaddr l target len = (FREESPACE, some k) ∧
        l[k]? = some e ∧ isused e = false ∧
        (∀ j e', k < j → l[j]? = some e' → isused e' = true) ∧
        ∀ e' ∈ l, ¬ (isused e' = true ∧ uip_ipaddr_prefixcmp (ipaddr e') target len = true))
    ∨ (uip_ds6_list_loop isused ipaddr l target len = (NOSPACE, none) ∧
        ∀ e ∈ l, isused e = true ∧ uip_ipaddr_prefixcmp (ipaddr e) target len = false) := by
  unfold uip_ds6_list_loop
  rcases uip_ds6_list_loop_from_spec isused ipaddr target len l 0 none with
    ⟨hc, k, e, hr, hk, hu, hm, hfirst⟩ | ⟨hc, hno, hlast⟩ | ⟨hc, hr, _, hall⟩
  · left
    refine ⟨k, e, ?_, hk, hu, hm, hfirst⟩
    rw [Nat.zero_add] at hr
    exact Prod.ext hc hr
  · right; left
    rcases hlast with ⟨_, hos, _⟩ | ⟨k, e, hr, hk, hu, hlater⟩
    · cases hos
    · refine ⟨k, e, ?_, hk, hu, hlater, hno⟩
      rw [Nat.zero_add] at hr
      exact Prod.ext hc hr
  · right; right
    exact ⟨Prod.ext hc hr, hall⟩

/-- C15. Scan trichotomy.  `uip_ds6_list_loop` returns `FOUND` exactly when some in-use
entry equals the target on the first `ipaddrlen` bits, and the out element is then the
lowest-index such entry; it returns `NOSPACE` exactly when every slot is in use and none
matches, and the out element is then null; it returns `FREESPACE` exactly in the
remaining case (no in-use entry matches and some slot is free).  The scan is a function
of the pool that yields only the result code and the out element: the pool is not
modified. -/
theorem uip_ds6_list_loop_trichotomy {α : Type} (isused : α → Bool)
    (ipaddr : α → uip_ipaddr_t) (list : List α) (target : uip_ipaddr_t) (ipaddrlen : Nat) :
    ((uip_ds6_list_loop isused ipaddr list target ipaddrlen).1 = FOUND ↔
      ∃ e ∈ list, isused e = true ∧
        (addr_bits (ipaddr e)).take ipaddrlen = (addr_bits target).take ipaddrlen) ∧
    ((uip_ds6_list_loop isused ipaddr list target ipaddrlen).1 = FOUND →
      ∃ k e, (uip_ds6_list_loop isused ipaddr list target ipaddrlen).2 = some k ∧
        list[k]? = some e ∧ isused e = true ∧
        (addr_bits (ipaddr e)).take ipaddrlen = (addr_bits target).take ipaddrlen ∧
        ∀ j e', j < k → list[j]? = some e' →
          ¬ (isused e' = true ∧
            (addr_bits (ipaddr e')).take ipaddrlen = (addr_bits target).take ipaddrlen)) ∧
    ((uip_ds6_list_loop isused ipaddr list target ipaddrlen).1 = NOSPACE ↔
      (∀ e ∈ list, isused e = true) ∧
      ¬ ∃ e ∈ list, isused e = true ∧
        (addr_bits (ipaddr e)).take ipaddrlen = (addr_bits target).take ipaddrlen) ∧
    ((uip_ds6_list_loop isused ipaddr list target ipaddrlen).1 = NOSPACE →
      (uip_ds6_list_loop isused ipaddr list target ipaddrlen).2 = none) ∧
    ((uip_ds6_list_loop isused ipaddr list target ipaddrlen).1 = FREESPACE ↔
      (∃ e ∈ list, isused e = false) ∧
      ¬ ∃ e ∈ list, isused e = true ∧
        (addr_bits (ipaddr e)).take ipaddrlen = (addr_bits target).take ipaddrlen) := by
  simp only [← uip_ipaddr_prefixcmp_iff]
  rcases uip_ds6_list_loop_cases isused ipaddr list target ipaddrlen with
    ⟨k, e, hr, hk, hu, hm, hfirst⟩ | ⟨k, e, hr, hk, hu, hlater, hno⟩ | ⟨hr, hall⟩
  · have hex : ∃ e ∈ list, isused e = true ∧
        uip_ipaddr_prefixcmp (ipaddr e) target ipaddrlen = true :=
      ⟨e, List.getElem?_mem hk, hu, hm⟩
    rw [hr]
    refine ⟨⟨fun _ => hex, fun _ => rfl⟩, fun _ => ⟨k, e, rfl, hk, hu, hm, hfirst⟩,
      ⟨fun h => absurd h FOUND_ne_NOSPACE, fun h => absurd hex h.2⟩,
      fun h => absurd h FOUND_ne_NOSPACE,
      ⟨fun h => absurd h FOUND_ne_FREESPACE, fun h => absurd hex h.2⟩⟩
  · have hnex : ¬ ∃ e ∈ list, isused e = true ∧
        uip_ipaddr_prefixcmp (ipaddr e) target ipaddrlen = true := by
      rintro ⟨x, hx, hxu⟩
      exact hno x hx hxu
    have hfree : ∃ e ∈ list, isused e = false := ⟨e, List.getElem?_mem hk, hu⟩
    rw [hr]
    refine ⟨⟨fun h => absurd h.symm FOUND_ne_FREESPACE, fun h => absurd h hnex⟩,
      fun h => absurd h.symm FOUND_ne_FREESPACE,
      ⟨fun h => absurd h FREESPACE_ne_NOSPACE, fun h => ?_⟩,
      fun h => absurd h FREESPACE_ne_NOSPACE,
      ⟨fun _ => ⟨hfree, hnex⟩, fun _ => rfl⟩⟩
    have := h.1 e (List.getElem?_mem hk)
    rw [hu] at this
    cases this
  · have hnex : ¬ ∃ e ∈ list, isused e = true ∧
        uip_ipaddr_prefixcmp (ipaddr e) target ipaddrlen = true := by
      rintro ⟨x, hx, _, hxm⟩
      rw [(hall x hx).2] at hxm
      cases hxm
    rw [hr]
    refine ⟨⟨fun h => absurd h.symm FOUND_ne_NOSPACE, fun h => absurd h hnex⟩,
      fun h => absurd h.symm FOUND_ne_NOSPACE,
      ⟨fun _ => ⟨fun x hx => (hall x hx).1, hnex⟩, fun _ => rfl⟩,
      fun _ => rfl,
      ⟨fun h => absurd h.symm FREESPACE_ne_NOSPACE, fun h => ?_⟩⟩
    obtain ⟨⟨x, hx, hxu⟩, _⟩ := h
    rw [(hall x hx).1] at hxu
    cases hxu


/-! ## Add, lookup and remove on the exact-match tables -/

/-- What a `FREESPACE` outcome of the scan says of the pool. -/
theorem uip_ds6_list_loop_freespace_inv {α : Type} (isused : α → Bool)
    (ipaddr : α → uip_ipaddr_t) (l : List α) (x : uip_ipaddr_t) (len h : Nat)
    (hscan : uip_ds6_list_loop isused ipaddr l x len = (FREESPACE, some h)) :
    ∃ e, l[h]? = some e ∧ isused e = false ∧
      (∀ j e', h < j → l[j]? = some e' → isused e' = true) ∧
      ∀ e' ∈ l, ¬ (isused e' = true ∧ uip_ipaddr_prefixcmp (ipaddr e') x len = true) := by
  rcases uip_ds6_list_loop_cases isused ipaddr l x len with
    ⟨k, e, hr, _⟩ | ⟨k, e, hr, hk, hu, hlater, hno⟩ | ⟨hr, _⟩
  · rw [hr] at hscan
    exact absurd (congrArg Prod.fst hscan) FOUND_ne_FREESPACE
  · rw [hr] at hscan
    have hkh : k = h := Option.some.inj (congrArg Prod.snd hscan)
    subst hkh
    exact ⟨e, hk, hu, hlater, hno⟩
  · rw [hr] at hscan
    exact absurd (congrArg Prod.fst hscan).symm FREESPACE_ne_NOSPACE

/-- The scan finds no in-use entry with the address exactly when the lookup built on it
is null. -/
theorem uip_ds6_list_loop_lookup_none {α : Type} (isused : α → Bool)
    (ipaddr : α → uip_ipaddr_t) (l : List α) (x : uip_ipaddr_t)
    (hno : ∀ e ∈ l, ¬ (isused e = true ∧ ipaddr e = x)) :
    (if (uip_ds6_list_loop isused ipaddr l x 128).1 = FOUND
      then (uip_ds6_list_loop isused ipaddr l x 128).2 else none) = none := by
  rcases uip_ds6_list_loop_cases isused ipaddr l x 128 with
    ⟨k, e, hr, hk, hu, hm, _⟩ | ⟨k, e, hr, _⟩ | ⟨hr, _⟩
  · exact absurd ⟨hu, (uip_ipaddr_prefixcmp_128 _ _).mp hm⟩ (hno e (List.getElem?_mem hk))
  · rw [hr]; rfl
  · rw [hr]; rfl

/-- After an entry for `x` has been written into the slot `h` that the scan for `x`
reported free, the lookup of `x` returns `h`. -/
theorem uip_ds6_list_loop_after_add {α : Type} (isused : α → Bool)
    (ipaddr : α → uip_ipaddr_t) (l : List α) (x : uip_ipaddr_t) (h : Nat) (f : α → α)
    (hscan : uip_ds6_list_loop isused ipaddr l x 128 = (FREESPACE, some h))
    (hf : ∀ e, isused (f e) = true ∧ ipaddr (f e) = x) :
    (if (uip_ds6_list_loop isused ipaddr (update_slot l h f) x 128).1 = FOUND
      then (uip_ds6_list_loop isused ipaddr (update_slot l h f) x 128).2 else none)
      = some h := by
  obtain ⟨e0, he0, _, _, hno⟩ := uip_ds6_list_loop_freespace_inv isused ipaddr l x 128 h hscan
  have hnew : (update_slot l h f)[h]? = some (f e0) := by
    rw [update_slot_getElem?_self, he0]; rfl
  have hmatch : isused (f e0) = true ∧ uip_ipaddr_prefixcmp (ipaddr (f e0)) x 128 = true :=
    ⟨(hf e0).1, (uip_ipaddr_prefixcmp_128 _ _).mpr (hf e0).2⟩
  rcases uip_ds6_list_loop_cases isused ipaddr (update_slot l h f) x 128 with
    ⟨k, e, hr, hk, hu, hm, hfirst⟩ | ⟨k, e, hr, _, _, _, hno'⟩ | ⟨hr, hall⟩
  · rw [hr]
    simp only [if_true]
    congr 1
    rcases Nat.lt_trichotomy k h with hlt | heq | hgt
    · rw [update_slot_getElem?_ne _ _ (Nat.ne_of_gt hlt)] at hk
      exact absurd ⟨hu, hm⟩ (hno e (List.getElem?_mem hk))
    · exact heq
    · exact absurd hmatch (hfirst h (f e0) hgt hnew)
  · exact absurd hmatch (hno' _ (List.getElem?_mem hnew))
  · have := (hall _ (List.getElem?_mem hnew)).2
    rw [hmatch.2] at this
    cases this

/-- After that entry has been removed again, the lookup of `x` is null. -/
theorem uip_ds6_list_loop_after_add_rm {α : Type} (isused : α → Bool)
    (ipaddr : α → uip_ipaddr_t) (l : List α) (x : uip_ipaddr_t) (h : Nat) (f g : α → α)
    (hscan : uip_ds6_list_loop isused ipaddr l x 128 = (FREESPACE, some h))
    (hg : ∀ e, isused (g e) = false) :
    (if (uip_ds6_list_loop isused ipaddr (update_slot (update_slot l h f) h g) x 128).1 = FOUND
      then (uip_ds6_list_loop isused ipaddr (update_slot (update_slot l h f) h g) x 128).2
      else none) = none := by
  obtain ⟨e0, he0, _, _, hno⟩ := uip_ds6_list_loop_freespace_inv isused ipaddr l x 128 h hscan
  apply uip_ds6_list_loop_lookup_none
  intro e he
  obtain ⟨j, hj⟩ := List.mem_iff_getElem?.mp he
  rw [update_slot_getElem?, update_slot_getElem?] at hj
  by_cases hhj : h = j
  · subst hhj
    rw [if_pos rfl, if_pos rfl, he0] at hj
    simp only [Option.map_some', Option.some.injEq] at hj
    subst hj
    intro hc
    rw [hg] at hc
    cases hc.1
  · rw [if_neg hhj, if_neg hhj] at hj
    intro hc
    exact hno e (List.getElem?_mem hj) ⟨hc.1, (uip_ipaddr_prefixcmp_128 _ _).mpr hc.2⟩

/-- In a pool whose in-use entries have pairwise distinct addresses, the lookup of `x` is
null once the entry the lookup returned has been removed. -/
theorem uip_ds6_list_loop_lookup_rm {α : Type} (isused : α → Bool)
    (ipaddr : α → uip_ipaddr_t) (l : List α) (x : uip_ipaddr_t) (h : Nat) (g : α → α)
    (hdist : List.Pairwise
      (fun X Y => isused X = true → isused Y = true → ipaddr X ≠ ipaddr Y) l)
    (hlook : (if (uip_ds6_list_loop isused ipaddr l x 128).1 = FOUND
      then (uip_ds6_list_loop isused ipaddr l x 128).2 else none) = some h)
    (hg : ∀ e, isused (g e) = false) :
    (if (uip_ds6_list_loop isused ipaddr (update_slot l h g) x 128).1 = FOUND
      then (uip_ds6_list_loop isused ipaddr (update_slot l h g) x 128).2 else none)
      = none := by
  obtain ⟨e0, he0, hu0, ha0, _⟩ := uip_ds6_list_loop_found isused ipaddr l x h hlook
  apply uip_ds6_list_loop_lookup_none
  intro e he
  obtain ⟨j, hj⟩ := List.mem_iff_getElem?.mp he
  rw [update_slot_getElem?] at hj
  by_cases hhj : h = j
  · subst hhj
    rw [if_pos rfl, he0] at hj
    simp only [Option.map_some', Option.some.injEq] at hj
    subst hj
    intro hc
    rw [hg] at hc
    cases hc.1
  · rw [if_neg hhj] at hj
    intro hc
    exact hhj (pairwise_distinct_index isused ipaddr l hdist h j e0 e he0 hj hu0 hc.1
      (ha0.trans hc.2.symm))


theorem uip_ds6_defrt_add_some (env : Env) (s s' : uip_ds6_state) (x : uip_ipaddr_t)
    (interval h : Nat) (hadd : uip_ds6_defrt_add env s x interval = (s', some h)) :
    uip_ds6_list_loop (fun (e : uip_ds6_defrt_t) => e.isused) (fun e => e.ipaddr)
      s.uip_ds6_defrt_list x 128 = (FREESPACE, some h) ∧
    s' = { s with
           uip_ds6_defrt_list :=
             update_slot s.uip_ds6_defrt_list h
               (fun e =>
                 { e with
                   isused := true, sending_rs := false, rscount := 0, ipaddr := x,
                   lifetime := if interval ≠ 0 then stimer_set env interval else e.lifetime,
                   isinfinite := decide (interval = 0) }) } := by
  unfold uip_ds6_defrt_add at hadd
  rcases uip_ds6_list_loop_cases (fun (e : uip_ds6_defrt_t) => e.isused) (fun e => e.ipaddr)
      s.uip_ds6_defrt_list x 128 with ⟨k, e, hr, _⟩ | ⟨k, e, hr, _⟩ | ⟨hr, _⟩
  · simp [hr, FOUND_ne_FREESPACE] at hadd
  · simp only [hr, if_true, Prod.mk.injEq, Option.some.injEq] at hadd
    obtain ⟨hs, hk⟩ := hadd
    subst hk
    exact ⟨hr, hs.symm⟩
  · simp [hr, FREESPACE_ne_NOSPACE.symm] at hadd

theorem uip_ds6_addr_add_some (env : Env) (s s' : uip_ds6_state) (x : uip_ipaddr_t)
    (vlifetime type h : Nat) (hadd : uip_ds6_addr_add env s x vlifetime type = (s', some h)) :
    uip_ds6_list_loop (fun (e : uip_ds6_addr_t) => e.isused) (fun e => e.ipaddr)
      s.uip_ds6_if.addr_list x 128 = (FREESPACE, some h) ∧
    s' = { s with
           uip_ds6_if :=
             { s.uip_ds6_if with
               addr_list :=
                 update_slot s.uip_ds6_if.addr_list h
                   (fun e =>
                     { e with
                       isused := true, ipaddr := x,
                       state := if uip_is_addr_link_local x then ADDR_PREFERRED
                                else ADDR_TENTATIVE,
                       type := type,
                       isinfinite := decide (vlifetime = 0),
                       vlifetime := if vlifetime = 0 then e.vlifetime
                                    else stimer_set env vlifetime }) } } := by
  unfold uip_ds6_addr_add at hadd
  rcases uip_ds6_list_loop_cases (fun (e : uip_ds6_addr_t) => e.isused) (fun e => e.ipaddr)
      s.uip_ds6_if.addr_list x 128 with ⟨k, e, hr, _⟩ | ⟨k, e, hr, _⟩ | ⟨hr, _⟩
  · simp [hr, FOUND_ne_FREESPACE] at hadd
  · simp only [hr, if_true, Prod.mk.injEq, Option.some.injEq] at hadd
    obtain ⟨hs, hk⟩ := hadd
    subst hk
    exact ⟨hr, hs.symm⟩
  · simp [hr, FREESPACE_ne_NOSPACE.symm] at hadd

theorem uip_ds6_maddr_add_some (s s' : uip_ds6_state) (x : uip_ipaddr_t) (h : Nat)
    (hadd : uip_ds6_maddr_add s x = (s', some h)) :
    uip_ds6_list_loop (fun (e : uip_ds6_maddr_t) => e.isused) (fun e => e.ipaddr)
      s.uip_ds6_if.maddr_list x 128 = (FREESPACE, some h) ∧
    s' = { s with
           uip_ds6_if :=
             { s.uip_ds6_if with
               maddr_list :=
                 update_slot s.uip_ds6_if.maddr_list h
                   (fun e => { e with isused := true, ipaddr := x }) } } := by
  unfold uip_ds6_maddr_add at hadd
  rcases uip_ds6_list_loop_cases (fun (e : uip_ds6_maddr_t) => e.isused) (fun e => e.ipaddr)
      s.uip_ds6_if.maddr_list x 128 with ⟨k, e, hr, _⟩ | ⟨k, e, hr, _⟩ | ⟨hr, _⟩
  · simp [hr, FOUND_ne_FREESPACE] at hadd
  · simp only [hr, if_true, Prod.mk.injEq, Option.some.injEq] at hadd
    obtain ⟨hs, hk⟩ := hadd
    subst hk
    exact ⟨hr, hs.symm⟩
  · simp [hr, FREESPACE_ne_NOSPACE.symm] at hadd

/-- Whenever `uip_ds6_nbr_add` returns a handle, the entry was written into a slot that a
scan for the address reported free (in the state reached after the evictions, if any). -/
theorem uip_ds6_nbr_add_some (env : Env) (x : uip_ipaddr_t) (lladdr : Option uip_lladdr_t)
    (isrouter state : Nat) :
    ∀ (fuel : Nat) (s s' : uip_ds6_state) (h : Nat),
      uip_ds6_nbr_add fuel env s x lladdr isrouter state = some (s', some h) →
      ∃ s0 : uip_ds6_state,
        uip_ds6_list_loop (fun (e : uip_ds6_nbr_t) => e.isused) (fun e => e.ipaddr)
          s0.uip_ds6_nbr_cache x 128 = (FREESPACE, some h) ∧
        s'.uip_ds6_nbr_cache =
          update_slot s0.uip_ds6_nbr_cache h
            (fun _ => uip_ds6_nbr_add_entry env x lladdr isrouter state) := by
  intro fuel
  induction fuel with
  | zero =>
    intro s s' h hadd
    simp [uip_ds6_nbr_add] at hadd
  | succ fuel ih =>
    intro s s' h hadd
    rw [uip_ds6_nbr_add] at hadd
    rcases uip_ds6_list_loop_cases (fun (e : uip_ds6_nbr_t) => e.isused) (fun e => e.ipaddr)
        s.uip_ds6_nbr_cache x 128 with ⟨k, e, hr, _⟩ | ⟨k, e, hr, _⟩ | ⟨hr, _⟩
    · simp [hr, FOUND_ne_FREESPACE, FOUND_ne_NOSPACE] at hadd
    · simp only [hr, if_true, Option.some.injEq, Prod.mk.injEq] at hadd
      obtain ⟨hs, hk⟩ := hadd
      subst hk
      exact ⟨s, hr, by rw [← hs]⟩
    · simp only [hr, FREESPACE_ne_NOSPACE.symm, if_false, if_true] at hadd
      cases hold : uip_ds6_nbr_add_oldest env s with
      | none => simp [hold] at hadd
      | some o =>
        simp only [hold] at hadd
        exact ih _ s' h hadd

/-- C13. Add/lookup/remove round trip for the neighbour cache, the default-router list,
the unicast address list and the multicast address list.  Whenever the add of `x`
returns a handle `h`, the lookup of `x` in the state it leaves returns `h`, and once
`h` has been removed the lookup of `x` is null (this half needs no assumption on the
state).  And in a state whose in-use entries have pairwise distinct addresses, once the
entry that the lookup of `x` returned has been removed the lookup of `x` is null. -/
theorem uip_ds6_add_lookup_rm_round_trip (env : Env) (s s' : uip_ds6_state)
    (x : uip_ipaddr_t) (h : Nat) :
    (∀ (fuel : Nat) (lladdr : Option uip_lladdr_t) (isrouter state : Nat),
      uip_ds6_nbr_add fuel env s x lladdr isrouter state = some (s', some h) →
        uip_ds6_nbr_lookup s' x = some h ∧
        uip_ds6_nbr_lookup (uip_ds6_nbr_rm s' (some h)) x = none) ∧
    (∀ (interval : Nat), uip_ds6_defrt_add env s x interval = (s', some h) →
        uip_ds6_defrt_lookup s' x = some h ∧
        uip_ds6_defrt_lookup (uip_ds6_defrt_rm s' (some h)) x = none) ∧
    (∀ (vlifetime type : Nat), uip_ds6_addr_add env s x vlifetime type = (s', some h) →
        uip_ds6_addr_lookup s' x = some h ∧
        uip_ds6_addr_lookup (uip_ds6_addr_rm s' (some h)) x = none) ∧
    (uip_ds6_maddr_add s x = (s', some h) →
        uip_ds6_maddr_lookup s' x = some h ∧
        uip_ds6_maddr_lookup (uip_ds6_maddr_rm s' (some h)) x = none) ∧
    (nbr_addrs_distinct s → uip_ds6_nbr_lookup s x = some h →
        uip_ds6_nbr_lookup (uip_ds6_nbr_rm s (some h)) x = none) ∧
    (defrt_addrs_distinct s → uip_ds6_defrt_lookup s x = some h →
        uip_ds6_defrt_lookup (uip_ds6_defrt_rm s (some h)) x = none) ∧
    (addr_addrs_distinct s → uip_ds6_addr_lookup s x = some h →
        uip_ds6_addr_lookup (uip_ds6_addr_rm s (some h)) x = none) ∧
    (maddr_addrs_distinct s → uip_ds6_maddr_lookup s x = some h →
        uip_ds6_maddr_lookup (uip_ds6_maddr_rm s (some h)) x = none) := by
  refine ⟨?_, ?_, ?_, ?_, ?_, ?_, ?_, ?_⟩
  · intro fuel lladdr isrouter state hadd
    obtain ⟨s0, hscan, hcache⟩ := uip_ds6_nbr_add_some env x lladdr isrouter state fuel s s' h hadd
    constructor
    · unfold uip_ds6_nbr_lookup
      rw [hcache]
      exact uip_ds6_list_loop_after_add _ _ _ x h _ hscan (fun _ => ⟨rfl, rfl⟩)
    · unfold uip_ds6_nbr_lookup uip_ds6_nbr_rm
      simp only [hcache]
      exact uip_ds6_list_loop_after_add_rm _ _ _ x h _ _ hscan (fun _ => rfl)
  · intro interval hadd
    obtain ⟨hscan, hs⟩ := uip_ds6_defrt_add_some env s s' x interval h hadd
    subst hs
    constructor
    · unfold uip_ds6_defrt_lookup
      exact uip_ds6_list_loop_after_add _ _ _ x h _ hscan (fun _ => ⟨rfl, rfl⟩)
    · unfold uip_ds6_defrt_lookup uip_ds6_defrt_rm
      exact uip_ds6_list_loop_after_add_rm _ _ _ x h _ _ hscan (fun _ => rfl)
  · intro vlifetime type hadd
    obtain ⟨hscan, hs⟩ := uip_ds6_addr_add_some env s s' x vlifetime type h hadd
    subst hs
    constructor
    · unfold uip_ds6_addr_lookup
      exact uip_ds6_list_loop_after_add _ _ _ x h _ hscan (fun _ => ⟨rfl, rfl⟩)
    · unfold uip_ds6_addr_lookup uip_ds6_addr_rm
      exact uip_ds6_list_loop_after_add_rm _ _ _ x h _ _ hscan (fun _ => rfl)
  · intro hadd
    obtain ⟨hscan, hs⟩ := uip_ds6_maddr_add_some s s' x h hadd
    subst hs
    constructor
    · unfold uip_ds6_maddr_lookup
      exact uip_ds6_list_loop_after_add _ _ _ x h _ hscan (fun _ => ⟨rfl, rfl⟩)
    · unfold uip_ds6_maddr_lookup uip_ds6_maddr_rm
      exact uip_ds6_list_loop_after_add_rm _ _ _ x h _ _ hscan (fun _ => rfl)
  · intro hdist hlook
    unfold uip_ds6_nbr_lookup uip_ds6_nbr_rm
    exact uip_ds6_list_loop_lookup_rm _ _ _ x h _ hdist hlook (fun _ => rfl)
  · intro hdist hlook
    unfold uip_ds6_defrt_lookup uip_ds6_defrt_rm
    exact uip_ds6_list_loop_lookup_rm _ _ _ x h _ hdist hlook (fun _ => rfl)
  · intro hdist hlook
    unfold uip_ds6_addr_lookup uip_ds6_addr_rm
    exact uip_ds6_list_loop_lookup_rm _ _ _ x h _ hdist hlook (fun _ => rfl)
  · intro hdist hlook
    unfold uip_ds6_maddr_lookup uip_ds6_maddr_rm
    exact uip_ds6_list_loop_lookup_rm _ _ _ x h _ hdist hlook (fun _ => rfl)

/-- A use of C13 on `tables_example`, for each of the four tables: an add followed by
the lookup and by the removal, and the removal of an entry that a lookup returned. -/
theorem uip_ds6_add_lookup_rm_round_trip_witness :
    (uip_ds6_nbr_lookup
        ((uip_ds6_nbr_add 1 sample_env tables_example addr_fe80_b none 1 NBR_STALE).getD
          (tables_example, none)).1 addr_fe80_b = some 3 ∧
      uip_ds6_nbr_lookup
        (uip_ds6_nbr_rm
          ((uip_ds6_nbr_add 1 sample_env tables_example addr_fe80_b none 1 NBR_STALE).getD
            (tables_example, none)).1 (some 3)) addr_fe80_b = none) ∧
    (uip_ds6_defrt_lookup
        (uip_ds6_defrt_add sample_env tables_example addr_fe80_c 1800).1 addr_fe80_c = some 1 ∧
      uip_ds6_defrt_lookup
        (uip_ds6_defrt_rm (uip_ds6_defrt_add sample_env tables_example addr_fe80_c 1800).1
          (some 1)) addr_fe80_c = none) ∧
    (uip_ds6_addr_lookup
        (uip_ds6_addr_add sample_env tables_example addr_2001_db8_0_1 600 1).1
        addr_2001_db8_0_1 = some 2 ∧
      uip_ds6_addr_lookup
        (uip_ds6_addr_rm (uip_ds6_addr_add sample_env tables_example addr_2001_db8_0_1 600 1).1
          (some 2)) addr_2001_db8_0_1 = none) ∧
    (uip_ds6_maddr_lookup (uip_ds6_maddr_add tables_example addr_fe80_b).1 addr_fe80_b
        = some 1 ∧
      uip_ds6_maddr_lookup
        (uip_ds6_maddr_rm (uip_ds6_maddr_add tables_example addr_fe80_b).1 (some 1))
        addr_fe80_b = none) ∧
    uip_ds6_nbr_lookup (uip_ds6_nbr_rm tables_example (some 1)) addr_fe80_c = none ∧
    uip_ds6_defrt_lookup (uip_ds6_defrt_rm tables_example (some 0)) addr_fe80_a = none ∧
    uip_ds6_addr_lookup (uip_ds6_addr_rm tables_example (some 1)) addr_2001_db8_1_42 = none ∧
    uip_ds6_maddr_lookup (uip_ds6_maddr_rm tables_example (some 0)) addr_ff02_1 = none :=
  ⟨(uip_ds6_add_lookup_rm_round_trip sample_env tables_example _ addr_fe80_b 3).1
      1 none 1 NBR_STALE (by decide),
   (uip_ds6_add_lookup_rm_round_trip sample_env tables_example _ addr_fe80_c 1).2.1
      1800 (by decide),
   (uip_ds6_add_lookup_rm_round_trip sample_env tables_example _ addr_2001_db8_0_1 2).2.2.1
      600 1 (by decide),
   (uip_ds6_add_lookup_rm_round_trip sample_env tables_example _ addr_fe80_b 1).2.2.2.1
      (by decide),
   (uip_ds6_add_lookup_rm_round_trip sample_env tables_example tables_example
      addr_fe80_c 1).2.2.2.2.1 (by decide) (by decide),
   (uip_ds6_add_lookup_rm_round_trip sample_env tables_example tables_example
      addr_fe80_a 0).2.2.2.2.2.1 (by decide) (by decide),
   (uip_ds6_add_lookup_rm_round_trip sample_env tables_example tables_example
      addr_2001_db8_1_42 1).2.2.2.2.2.2.1 (by decide) (by decide),
   (uip_ds6_add_lookup_rm_round_trip sample_env tables_example tables_example
      addr_ff02_1 0).2.2.2.2.2.2.2 (by decide) (by decide)⟩


/-! ## Routing table: tie-break, insertion -/

/-- The route returned by the loop of `uip_ds6_route_lookup` is the last of the matching
in-use routes of greatest length: every matching in-use route in a later slot is
strictly shorter. -/
theorem uip_ds6_route_lookup_from_last (d : uip_ipaddr_t) :
    ∀ (l : List uip_ds6_route_t) (i lm : Nat) (locrt : Option Nat) (k : Nat),
      uip_ds6_route_lookup_from d l i lm locrt = some k →
        (locrt = some k ∧ ∀ r ∈ l, ¬ (r.isused = true ∧ lm ≤ r.length ∧
          uip_ipaddr_prefixcmp d r.ipaddr r.length = true))
        ∨ ∃ m r, k = i + m ∧ l[m]? = some r ∧
            ∀ (j : Nat) (r' : uip_ds6_route_t), m < j → l[j]? = some r' → r'.isused = true →
              uip_ipaddr_prefixcmp d r'.ipaddr r'.length = true → r'.length < r.length := by
  intro l
  induction l with
  | nil =>
    intro i lm locrt k h
    left
    simpa [uip_ds6_route_lookup_from] using h
  | cons r rest ih =>
    intro i lm locrt k h
    by_cases hc : r.isused = true ∧ lm ≤ r.length ∧
        uip_ipaddr_prefixcmp d r.ipaddr r.length = true
    · have hstep : uip_ds6_route_lookup_from d (r :: rest) i lm locrt
          = uip_ds6_route_lookup_from d rest (i + 1) r.length (some i) := by
        simp [uip_ds6_route_lookup_from, hc.1, hc.2.1, hc.2.2]
      rw [hstep] at h
      right
      rcases ih (i + 1) r.length (some i) k h with ⟨hk, hno⟩ | ⟨m, r2, hk, hm, hlater⟩
      · refine ⟨0, r, ?_, List.getElem?_cons_zero, ?_⟩
        · cases hk; rfl
        · intro j r' hj hjr hu hp
          cases j with
          | zero => omega
          | succ j' =>
            simp only [List.getElem?_cons_succ] at hjr
            have := hno r' (List.getElem?_mem hjr)
            by_contra hlt
            exact this ⟨hu, by omega, hp⟩
      · refine ⟨m + 1, r2, by omega, by simpa using hm, ?_⟩
        intro j r' hj hjr hu hp
        cases j with
        | zero => omega
        | succ j' =>
          simp only [List.getElem?_cons_succ] at hjr
          exact hlater j' r' (by omega) hjr hu hp
    · have hstep : uip_ds6_route_lookup_from d (r :: rest) i lm locrt
          = uip_ds6_route_lookup_from d rest (i + 1) lm locrt := by
        simp only [uip_ds6_route_lookup_from]
        rw [if_neg]
        intro h
        simp only [Bool.and_eq_true, decide_eq_true_eq, ge_iff_le] at h
        exact hc ⟨h.1.1, h.1.2, h.2⟩
      rw [hstep] at h
      rcases ih (i + 1) lm locrt k h with ⟨hk, hno⟩ | ⟨m, r2, hk, hm, hlater⟩
      · left
        refine ⟨hk, ?_⟩
        intro x hx
        rcases List.mem_cons.mp hx with rfl | hx'
        · exact hc
        · exact hno x hx'
      · right
        refine ⟨m + 1, r2, by omega, by simpa using hm, ?_⟩
        intro j r' hj hjr hu hp
        cases j with
        | zero => omega
        | succ j' =>
          simp only [List.getElem?_cons_succ] at hjr
          exact hlater j' r' (by omega) hjr hu hp

/-- C11 (as stated) fails: in `routes_tie_example` the routes of slots 0 and 1 are both
in use and match `2001:db8:1::42` with the same length 32, no longer route matches, and
`uip_ds6_route_lookup` returns slot 1, not the lowest slot. -/
theorem uip_ds6_route_lookup_tie_not_first :
    routes_tie_example.uip_ds6_routing_table.map
      (fun r => (r.isused, r.length,
        uip_ipaddr_prefixcmp addr_2001_db8_1_42 r.ipaddr r.length))
      = [(true, 32, true), (true, 32, true), (false, 0, true), (false, 0, true)] ∧
    uip_ds6_route_lookup routes_tie_example addr_2001_db8_1_42 = some 1 := by
  decide

/-- C11 (amended). Tie-break of the route lookup: the route that
`uip_ds6_route_lookup d` returns is in use, matches `d`, is at least as long as every
in-use route matching `d`, and among the in-use routes that match `d` with that same
length it is the one in the highest slot. -/
theorem uip_ds6_route_lookup_tie_break (s : uip_ds6_state) (d : uip_ipaddr_t) (k : Nat)
    (h : uip_ds6_route_lookup s d = some k) :
    ∃ r, s.uip_ds6_routing_table[k]? = some r ∧ r.isused = true ∧
      (addr_bits d).take r.length = (addr_bits r.ipaddr).take r.length ∧
      ∀ (j : Nat) (r' : uip_ds6_route_t), s.uip_ds6_routing_table[j]? = some r' →
        r'.isused = true → (addr_bits d).take r'.length = (addr_bits r'.ipaddr).take r'.length →
        r'.length ≤ r.length ∧ (r'.length = r.length → j ≤ k) := by
  unfold uip_ds6_route_lookup at h
  rcases uip_ds6_route_lookup_from_some d _ 0 0 none k h with ⟨h0, _⟩ |
    ⟨m, r, hkm, hm, hu, _, hp, hmax⟩
  · cases h0
  · have hkm' : k = m := by omega
    subst hkm'
    refine ⟨r, hm, hu, (uip_ipaddr_prefixcmp_iff _ _ _).mp hp, ?_⟩
    intro j r' hj hu' hp'
    have hp'' := (uip_ipaddr_prefixcmp_iff _ _ _).mpr hp'
    refine ⟨hmax r' (List.getElem?_mem hj) hu' hp'', ?_⟩
    intro hlen
    rcases uip_ds6_route_lookup_from_last d _ 0 0 none k h with ⟨h0, _⟩ |
      ⟨m2, r2, hkm2, hm2, hlater⟩
    · cases h0
    · have hk2 : k = m2 := by omega
      subst hk2
      rw [hm] at hm2
      cases hm2
      by_contra hlt
      have := hlater j r' (by omega) hj hu' hp''
      omega

/-- A use of the amended C11 on `routes_tie_example`. -/
theorem uip_ds6_route_lookup_tie_break_witness :
    uip_ds6_route_lookup routes_tie_example addr_2001_db8_1_42 = some 1 ∧
    ∃ r, routes_tie_example.uip_ds6_routing_table[1]? = some r ∧ r.isused = true ∧
      (addr_bits addr_2001_db8_1_42).take r.length = (addr_bits r.ipaddr).take r.length ∧
      ∀ (j : Nat) (r' : uip_ds6_route_t),
        routes_tie_example.uip_ds6_routing_table[j]? = some r' →
        r'.isused = true →
        (addr_bits addr_2001_db8_1_42).take r'.length = (addr_bits r'.ipaddr).take r'.length →
        r'.length ≤ r.length ∧ (r'.length = r.length → j ≤ 1) :=
  ⟨by decide, uip_ds6_route_lookup_tie_break routes_tie_example addr_2001_db8_1_42 1 (by decide)⟩


/-- C12 (as stated) fails: in `routes_example` the in-use route of slot 0 is
`2001:db8::/32` via `fe80::a` with metric 1; `uip_ds6_route_add` of `2001:db8::/32`
with next hop `fe80::c` and metric 9 returns that route and changes nothing, so its
next hop is still `fe80::a` and its metric still 1. -/
theorem uip_ds6_route_add_found_no_overwrite :
    (routes_example.uip_ds6_routing_table[0]?).map
      (fun r => (r.isused, uip_ipaddr_prefixcmp r.ipaddr addr_2001_db8 32))
      = some (true, true) ∧
    uip_ds6_route_add routes_example addr_2001_db8 32 addr_fe80_c 9
      = (routes_example, some 0) ∧
    (routes_example.uip_ds6_routing_table[0]?).map (fun r => (r.nexthop, r.metric))
      = some (addr_fe80_a, 1) ∧
    addr_fe80_a ≠ addr_fe80_c := by
  decide

/-- C12 (amended). When some in-use route equals `p` on the first `len` bits,
`uip_ds6_route_add p len nexthop metric` returns the lowest-slot such route and leaves
every table as it was (the next hop and the metric of that route are not written). -/
theorem uip_ds6_route_add_found (s : uip_ds6_state) (p : uip_ipaddr_t) (len : Nat)
    (nexthop : uip_ipaddr_t) (metric : Nat)
    (hex : ∃ r ∈ s.uip_ds6_routing_table, r.isused = true ∧
      (addr_bits r.ipaddr).take len = (addr_bits p).take len) :
    ∃ k r, uip_ds6_route_add s p len nexthop metric = (s, some k) ∧
      s.uip_ds6_routing_table[k]? = some r ∧ r.isused = true ∧
      (addr_bits r.ipaddr).take len = (addr_bits p).take len ∧
      ∀ (j : Nat) (r' : uip_ds6_route_t), j < k → s.uip_ds6_routing_table[j]? = some r' →
        ¬ (r'.isused = true ∧ (addr_bits r'.ipaddr).take len = (addr_bits p).take len) := by
  simp only [← uip_ipaddr_prefixcmp_iff] at hex ⊢
  obtain ⟨r0, hr0, hu0, hm0⟩ := hex
  unfold uip_ds6_route_add
  rcases uip_ds6_list_loop_cases (fun (e : uip_ds6_route_t) => e.isused) (fun e => e.ipaddr)
      s.uip_ds6_routing_table p len with
    ⟨k, e, hr, hk, hu, hm, hfirst⟩ | ⟨k, e, hr, _, _, _, hno⟩ | ⟨hr, hall⟩
  · refine ⟨k, e, ?_, hk, hu, hm, hfirst⟩
    simp [hr, FOUND_ne_FREESPACE]
  · exact absurd ⟨hu0, hm0⟩ (hno r0 hr0)
  · have := (hall r0 hr0).2
    rw [hm0] at this
    cases this

/-- A use of the amended C12 on `routes_example`. -/
theorem uip_ds6_route_add_found_witness :
    (∃ r ∈ routes_example.uip_ds6_routing_table, r.isused = true ∧
      (addr_bits r.ipaddr).take 32 = (addr_bits addr_2001_db8).take 32) ∧
    ∃ k r, uip_ds6_route_add routes_example addr_2001_db8 32 addr_fe80_c 9
        = (routes_example, some k) ∧
      routes_example.uip_ds6_routing_table[k]? = some r ∧ r.isused = true ∧
      (addr_bits r.ipaddr).take 32 = (addr_bits addr_2001_db8).take 32 ∧
      ∀ (j : Nat) (r' : uip_ds6_route_t), j < k →
        routes_example.uip_ds6_routing_table[j]? = some r' →
        ¬ (r'.isused = true ∧
          (addr_bits r'.ipaddr).take 32 = (addr_bits addr_2001_db8).take 32) :=
  ⟨by decide, uip_ds6_route_add_found routes_example addr_2001_db8 32 addr_fe80_c 9 (by decide)⟩

/-- The three outcomes of `uip_ds6_route_add`: an in-use route that equals `p` on the
first `len` bits is returned and nothing is written; or the new route is written into
the slot returned; or the result is null and nothing is written. -/
theorem uip_ds6_route_add_cases (s : uip_ds6_state) (p : uip_ipaddr_t) (len : Nat)
    (nexthop : uip_ipaddr_t) (metric : Nat) :
    (∃ k r, uip_ds6_route_add s p len nexthop metric = (s, some k) ∧
        s.uip_ds6_routing_table[k]? = some r ∧ r.isused = true ∧
        uip_ipaddr_prefixcmp r.ipaddr p len = true)
    ∨ (∃ k e, uip_ds6_route_add s p len nexthop metric =
          ({ s with
             uip_ds6_routing_table :=
               update_slot s.uip_ds6_routing_table k
                 (fun e =>
                   { e with
                     isused := true, ipaddr := p, length := len, nexthop := nexthop,
                     metric := metric }) }, some k) ∧
        s.uip_ds6_routing_table[k]? = some e ∧ e.isused = false ∧
        ∀ r ∈ s.uip_ds6_routing_table,
          ¬ (r.isused = true ∧ uip_ipaddr_prefixcmp r.ipaddr p len = true))
    ∨ uip_ds6_route_add s p len nexthop metric = (s, none) := by
  unfold uip_ds6_route_add
  rcases uip_ds6_list_loop_cases (fun (e : uip_ds6_route_t) => e.isused) (fun e => e.ipaddr)
      s.uip_ds6_routing_table p len with
    ⟨k, e, hr, hk, hu, hm, _⟩ | ⟨k, e, hr, hk, hu, _, hno⟩ | ⟨hr, _⟩
  · left
    exact ⟨k, e, by simp [hr, FOUND_ne_FREESPACE], hk, hu, hm⟩
  · right; left
    exact ⟨k, e, by simp [hr], hk, hu, hno⟩
  · right; right
    simp [hr, FREESPACE_ne_NOSPACE.symm]

theorem uip_ds6_route_lookup_ne_none (s : uip_ds6_state) (p : uip_ipaddr_t) (k : Nat)
    (r : uip_ds6_route_t) (hk : s.uip_ds6_routing_table[k]? = some r) (hu : r.isused = true)
    (hm : uip_ipaddr_prefixcmp p r.ipaddr r.length = true) :
    uip_ds6_route_lookup s p ≠ none := by
  intro hnone
  unfold uip_ds6_route_lookup at hnone
  exact ((uip_ds6_route_lookup_from_none p _ 0 0 none).mp hnone).2 r (List.getElem?_mem hk)
    ⟨hu, Nat.zero_le _, hm⟩

theorem uip_ipaddr_prefixcmp_shorter (a b : uip_ipaddr_t) (n m : Nat) (hmn : m ≤ n)
    (h : uip_ipaddr_prefixcmp a b n = true) : uip_ipaddr_prefixcmp b a m = true := by
  rw [uip_ipaddr_prefixcmp_iff] at h ⊢
  have := congrArg (List.take m) h
  rw [List.take_take, List.take_take, Nat.min_eq_left hmn] at this
  exact this.symm

/-- C14 (as stated) fails: `route_long_example` holds only `2001:db8:1::/48`.
`uip_ds6_route_add` of `2001:db8::/32` finds that route equal to the new prefix on the
first 32 bits, returns it (slot 0, not null) and stores nothing; the lookup of
`2001:db8::` that follows is null, since the address is not in `2001:db8:1::/48`. -/
theorem uip_ds6_route_add_lookup_fails :
    uip_ds6_route_add route_long_example addr_2001_db8 32 addr_fe80_a 1
      = (route_long_example, some 0) ∧
    uip_ds6_route_lookup
      (uip_ds6_route_add route_long_example addr_2001_db8 32 addr_fe80_a 1).1 addr_2001_db8
      = none := by
  decide

/-- C14 (amended). Add/lookup round trip for the routing table: whenever
`uip_ds6_route_add p len nexthop metric` returns a route whose prefix length is at most
`len`, the lookup of `p` that follows is not null.  A route that the call stores has
prefix `p` and length `len` (with the next hop and metric given), so the round trip
holds whenever no in-use route equalled `p` on the first `len` bits before the call. -/
theorem uip_ds6_route_add_lookup (s s' : uip_ds6_state) (p : uip_ipaddr_t) (len : Nat)
    (nexthop : uip_ipaddr_t) (metric : Nat) (k : Nat)
    (hadd : uip_ds6_route_add s p len nexthop metric = (s', some k)) :
    (∀ r, s'.uip_ds6_routing_table[k]? = some r → r.length ≤ len →
      uip_ds6_route_lookup s' p ≠ none) ∧
    ((¬ ∃ r ∈ s.uip_ds6_routing_table, r.isused = true ∧
        (addr_bits r.ipaddr).take len = (addr_bits p).take len) →
      (∃ e, s.uip_ds6_routing_table[k]? = some e ∧ e.isused = false) ∧
      (s'.uip_ds6_routing_table[k]?).map
          (fun r => (r.isused, r.ipaddr, r.length, r.nexthop, r.metric))
        = some (true, p, len, nexthop, metric) ∧
      uip_ds6_route_lookup s' p ≠ none) := by
  rcases uip_ds6_route_add_cases s p len nexthop metric with
    ⟨k0, r0, hr, hk0, hu0, hm0⟩ | ⟨k0, e0, hr, hk0, hu0, hno⟩ | hr
  · rw [hr] at hadd
    simp only [Prod.mk.injEq, Option.some.injEq] at hadd
    obtain ⟨hs, hk⟩ := hadd
    subst hs; subst hk
    constructor
    · intro r hkr hlen
      rw [hk0] at hkr
      cases hkr
      exact uip_ds6_route_lookup_ne_none s p k0 r0 hk0 hu0
        (uip_ipaddr_prefixcmp_shorter _ _ len _ hlen hm0)
    · intro hnex
      exact absurd ⟨r0, List.getElem?_mem hk0, hu0, (uip_ipaddr_prefixcmp_iff _ _ _).mp hm0⟩ hnex
  · rw [hr] at hadd
    simp only [Prod.mk.injEq, Option.some.injEq] at hadd
    obtain ⟨hs, hk⟩ := hadd
    subst hs; subst hk
    have hnew : (update_slot s.uip_ds6_routing_table k0
        (fun e => { e with isused := true, ipaddr := p, length := len, nexthop := nexthop,
                           metric := metric }))[k0]?
        = some { e0 with isused := true, ipaddr := p, length := len, nexthop := nexthop,
                         metric := metric } := by
      rw [update_slot_getElem?_self, hk0]; rfl
    have hlook : uip_ds6_route_lookup
        { s with
          uip_ds6_routing_table :=
            update_slot s.uip_ds6_routing_table k0
              (fun e => { e with isused := true, ipaddr := p, length := len,
                                 nexthop := nexthop, metric := metric }) } p ≠ none :=
      uip_ds6_route_lookup_ne_none _ p k0 _ hnew rfl (uip_ipaddr_prefixcmp_refl _ _)
    refine ⟨fun _ _ _ => hlook, fun _ => ⟨⟨e0, hk0, hu0⟩, ?_, hlook⟩⟩
    show (update_slot s.uip_ds6_routing_table k0 _)[k0]?.map _ = _
    rw [hnew]
    rfl
  · rw [hr] at hadd
    simp at hadd

/-- A use of the amended C14 on `routes_example`: adding `fe80::a/10`, which no route
matches, stores it (in slot 3) and the lookup of `fe80::a` finds a route; adding
`2001:db8:1::/64` returns the route `2001:db8:1::/48` of slot 1, whose length is at
most 64, and the lookup of `2001:db8:1::` finds a route. -/
theorem uip_ds6_route_add_lookup_witness :
    uip_ds6_route_add routes_example addr_fe80_a 10 addr_fe80_c 9
      = ((uip_ds6_route_add routes_example addr_fe80_a 10 addr_fe80_c 9).1, some 3) ∧
    ((∃ e, routes_example.uip_ds6_routing_table[3]? = some e ∧ e.isused = false) ∧
      ((uip_ds6_route_add routes_example addr_fe80_a 10 addr_fe80_c
          9).1.uip_ds6_routing_table[3]?).map
          (fun r => (r.isused, r.ipaddr, r.length, r.nexthop, r.metric))
        = some (true, addr_fe80_a, 10, addr_fe80_c, 9) ∧
      uip_ds6_route_lookup (uip_ds6_route_add routes_example addr_fe80_a 10 addr_fe80_c 9).1
        addr_fe80_a ≠ none) ∧
    uip_ds6_route_add routes_example addr_2001_db8_1 64 addr_fe80_c 9
      = (routes_example, some 1) ∧
    uip_ds6_route_lookup routes_example addr_2001_db8_1 ≠ none :=
  ⟨by decide,
   (uip_ds6_route_add_lookup routes_example _ addr_fe80_a 10 addr_fe80_c 9 3
      (by decide)).2 (by decide),
   by decide,
   (uip_ds6_route_add_lookup routes_example routes_example addr_2001_db8_1 64 addr_fe80_c 9 1
      (by decide)).1
      { isused := true, ipaddr := addr_2001_db8_1, length := 48, metric := 1,
        nexthop := addr_fe80_b } (by decide) (by decide)⟩


/-- A use of C15 on the neighbour cache of `router_expiry_example` (`fe80::a`,
`fe80::c`, two free slots): the scan for `fe80::c` is a hit in slot 1, and the scan for
`fe80::b` reports free space. -/
theorem uip_ds6_list_loop_trichotomy_witness :
    (uip_ds6_list_loop (fun (e : uip_ds6_nbr_t) => e.isused) (fun e => e.ipaddr)
      router_expiry_example.uip_ds6_nbr_cache addr_fe80_c 128).1 = FOUND ∧
    (∃ k e, (uip_ds6_list_loop (fun (e : uip_ds6_nbr_t) => e.isused) (fun e => e.ipaddr)
        router_expiry_example.uip_ds6_nbr_cache addr_fe80_c 128).2 = some k ∧
      router_expiry_example.uip_ds6_nbr_cache[k]? = some e ∧ e.isused = true ∧
      (addr_bits e.ipaddr).take 128 = (addr_bits addr_fe80_c).take 128 ∧
      ∀ j e', j < k → router_expiry_example.uip_ds6_nbr_cache[j]? = some e' →
        ¬ (e'.isused = true ∧
          (addr_bits e'.ipaddr).take 128 = (addr_bits addr_fe80_c).take 128)) ∧
    (uip_ds6_list_loop (fun (e : uip_ds6_nbr_t) => e.isused) (fun e => e.ipaddr)
      router_expiry_example.uip_ds6_nbr_cache addr_fe80_c 128).2 = some 1 ∧
    (uip_ds6_list_loop (fun (e : uip_ds6_nbr_t) => e.isused) (fun e => e.ipaddr)
      router_expiry_example.uip_ds6_nbr_cache addr_fe80_b 128).1 = FREESPACE :=
  ⟨by decide,
   (uip_ds6_list_loop_trichotomy (fun (e : uip_ds6_nbr_t) => e.isused) (fun e => e.ipaddr)
      router_expiry_example.uip_ds6_nbr_cache addr_fe80_c 128).2.1 (by decide),
   by decide, by decide⟩

/-- C16 (as stated) fails: the neighbour cache of `router_expiry_example` has its slots
2 and 3 free and no entry for `fe80::b`; the scan for `fe80::b` returns `FREESPACE` with
slot 3, not the first free slot, and `uip_ds6_nbr_add` stores the new entry in slot 3. -/
theorem uip_ds6_list_loop_freespace_not_first :
    router_expiry_example.uip_ds6_nbr_cache.map
      (fun e => (e.isused, uip_ipaddr_prefixcmp e.ipaddr addr_fe80_b 128))
      = [(true, false), (true, false), (false, false), (false, false)] ∧
    uip_ds6_list_loop (fun (e : uip_ds6_nbr_t) => e.isused) (fun e => e.ipaddr)
      router_expiry_example.uip_ds6_nbr_cache addr_fe80_b 128 = (FREESPACE, some 3) ∧
    (uip_ds6_nbr_add 1 sample_env router_expiry_example addr_fe80_b none 1 NBR_STALE).map
      (fun r => (r.2, r.1.uip_ds6_nbr_cache.map (fun e => (e.isused, e.ipaddr))))
      = some (some 3, [(true, addr_fe80_a), (true, addr_fe80_c), (false, uip_ipaddr_zero),
          (true, addr_fe80_b)]) := by
  decide

/-- With a free slot and no in-use entry equal to the target on the first `len` bits,
the scan reports `FREESPACE` and the last free slot. -/
theorem uip_ds6_list_loop_freespace_of {α : Type} (isused : α → Bool)
    (ipaddr : α → uip_ipaddr_t) (l : List α) (target : uip_ipaddr_t) (len : Nat)
    (hfree : ∃ e ∈ l, isused e = false)
    (hno : ∀ e ∈ l, isused e = true → uip_ipaddr_prefixcmp (ipaddr e) target len = false) :
    ∃ k e, uip_ds6_list_loop isused ipaddr l target len = (FREESPACE, some k) ∧
      l[k]? = some e ∧ isused e = false ∧
      ∀ j e', k < j → l[j]? = some e' → isused e' = true := by
  rcases uip_ds6_list_loop_cases isused ipaddr l target len with
    ⟨k, e, _, hk, hu, hm, _⟩ | ⟨k, e, hr, hk, hu, hlater, _⟩ | ⟨_, hall⟩
  · rw [hno e (List.getElem?_mem hk) hu] at hm
    cases hm
  · exact ⟨k, e, hr, hk, hu, hlater⟩
  · obtain ⟨e, he, hu⟩ := hfree
    rw [(hall e he).1] at hu
    cases hu

theorem uip_ipaddr_prefixcmp_128_false (a b : uip_ipaddr_t) (h : a ≠ b) :
    uip_ipaddr_prefixcmp a b 128 = false := by
  cases hc : uip_ipaddr_prefixcmp a b 128 with
  | false => rfl
  | true => exact absurd ((uip_ipaddr_prefixcmp_128 a b).mp hc) h

/-- C16 (amended). For every pool with at least one free slot and no in-use entry equal
to the target on the first `ipaddrlen` bits, `uip_ds6_list_loop` returns `FREESPACE`
with the out element equal to the last (highest-index) free slot; and the additions
(`uip_ds6_nbr_add`, `uip_ds6_defrt_add`, `uip_ds6_addr_add`, `uip_ds6_maddr_add`,
`uip_ds6_route_add`) then return that slot and store the new entry in it. -/
theorem uip_ds6_list_loop_freespace_last :
    (∀ {α : Type} (isused : α → Bool) (ipaddr : α → uip_ipaddr_t) (list : List α)
        (target : uip_ipaddr_t) (ipaddrlen : Nat),
      (∃ e ∈ list, isused e = false) →
      (∀ e ∈ list, isused e = true →
        (addr_bits (ipaddr e)).take ipaddrlen ≠ (addr_bits target).take ipaddrlen) →
      ∃ k e, uip_ds6_list_loop isused ipaddr list target ipaddrlen = (FREESPACE, some k) ∧
        list[k]? = some e ∧ isused e = false ∧
        ∀ j e', k < j → list[j]? = some e' → isused e' = true) ∧
    (∀ (fuel : Nat) (env : Env) (s : uip_ds6_state) (x : uip_ipaddr_t)
        (lladdr : Option uip_lladdr_t) (isrouter state : Nat),
      (∃ e ∈ s.uip_ds6_nbr_cache, e.isused = false) →
      (∀ e ∈ s.uip_ds6_nbr_cache, e.isused = true → e.ipaddr ≠ x) →
      ∃ s' k e, uip_ds6_nbr_add (fuel + 1) env s x lladdr isrouter state = some (s', some k) ∧
        s.uip_ds6_nbr_cache[k]? = some e ∧ e.isused = false ∧
        (∀ j e', k < j → s.uip_ds6_nbr_cache[j]? = some e' → e'.isused = true) ∧
        (s'.uip_ds6_nbr_cache[k]?).map (fun e => (e.isused, e.ipaddr)) = some (true, x)) ∧
    (∀ (env : Env) (s : uip_ds6_state) (x : uip_ipaddr_t) (interval : Nat),
      (∃ e ∈ s.uip_ds6_defrt_list, e.isused = false) →
      (∀ e ∈ s.uip_ds6_defrt_list, e.isused = true → e.ipaddr ≠ x) →
      ∃ k e, (uip_ds6_defrt_add env s x interval).2 = some k ∧
        s.uip_ds6_defrt_list[k]? = some e ∧ e.isused = false ∧
        (∀ j e', k < j → s.uip_ds6_defrt_list[j]? = some e' → e'.isused = true) ∧
        ((uip_ds6_defrt_add env s x interval).1.uip_ds6_defrt_list[k]?).map
          (fun e => (e.isused, e.ipaddr)) = some (true, x)) ∧
    (∀ (env : Env) (s : uip_ds6_state) (x : uip_ipaddr_t) (vlifetime type : Nat),
      (∃ e ∈ s.uip_ds6_if.addr_list, e.isused = false) →
      (∀ e ∈ s.uip_ds6_if.addr_list, e.isused = true → e.ipaddr ≠ x) →
      ∃ k e, (uip_ds6_addr_add env s x vlifetime type).2 = some k ∧
        s.uip_ds6_if.addr_list[k]? = some e ∧ e.isused = false ∧
        (∀ j e', k < j → s.uip_ds6_if.addr_list[j]? = some e' → e'.isused = true) ∧
        ((uip_ds6_addr_add env s x vlifetime type).1.uip_ds6_if.addr_list[k]?).map
          (fun e => (e.isused, e.ipaddr)) = some (true, x)) ∧
    (∀ (s : uip_ds6_state) (x : uip_ipaddr_t),
      (∃ e ∈ s.uip_ds6_if.maddr_list, e.isused = false) →
      (∀ e ∈ s.uip_ds6_if.maddr_list, e.isused = true → e.ipaddr ≠ x) →
      ∃ k e, (uip_ds6_maddr_add s x).2 = some k ∧
        s.uip_ds6_if.maddr_list[k]? = some e ∧ e.isused = false ∧
        (∀ j e', k < j → s.uip_ds6_if.maddr_list[j]? = some e' → e'.isused = true) ∧
        ((uip_ds6_maddr_add s x).1.uip_ds6_if.maddr_list[k]?).map
          (fun e => (e.isused, e.ipaddr)) = some (true, x)) ∧
    (∀ (s : uip_ds6_state) (p : uip_ipaddr_t) (len : Nat) (nexthop : uip_ipaddr_t)
        (metric : Nat),
      (∃ e ∈ s.uip_ds6_routing_table, e.isused = false) →
      (∀ e ∈ s.uip_ds6_routing_table, e.isused = true →
        (addr_bits e.ipaddr).take len ≠ (addr_bits p).take len) →
      ∃ k e, (uip_ds6_route_add s p len nexthop metric).2 = some k ∧
        s.uip_ds6_routing_table[k]? = some e ∧ e.isused = false ∧
        (∀ j e', k < j → s.uip_ds6_routing_table[j]? = some e' → e'.isused = true) ∧
        ((uip_ds6_route_add s p len nexthop metric).1.uip_ds6_routing_table[k]?).map
          (fun e => (e.isused, e.ipaddr, e.length)) = some (true, p, len)) := by
  refine ⟨?_, ?_, ?_, ?_, ?_, ?_⟩
  · intro α isused ipaddr list target ipaddrlen hfree hno
    refine uip_ds6_list_loop_freespace_of isused ipaddr list target ipaddrlen hfree ?_
    intro e he hu
    cases hc : uip_ipaddr_prefixcmp (ipaddr e) target ipaddrlen with
    | false => rfl
    | true => exact absurd ((uip_ipaddr_prefixcmp_iff _ _ _).mp hc) (hno e he hu)
  · intro fuel env s x lladdr isrouter state hfree hno
    obtain ⟨k, e, hr, hk, hu, hlater⟩ := uip_ds6_list_loop_freespace_of
      (fun (e : uip_ds6_nbr_t) => e.isused) (fun e => e.ipaddr) s.uip_ds6_nbr_cache x 128
      hfree (fun e he hu => uip_ipaddr_prefixcmp_128_false _ _ (hno e he hu))
    refine ⟨{ s with
              uip_ds6_nbr_cache :=
                update_slot s.uip_ds6_nbr_cache k
                  (fun _ => uip_ds6_nbr_add_entry env x lladdr isrouter state) },
      k, e, ?_, hk, hu, hlater, ?_⟩
    · rw [uip_ds6_nbr_add]
      simp only [hr, if_true]
    · simp only [update_slot_getElem?_self, hk]
      rfl
  · intro env s x interval hfree hno
    obtain ⟨k, e, hr, hk, hu, hlater⟩ := uip_ds6_list_loop_freespace_of
      (fun (e : uip_ds6_defrt_t) => e.isused) (fun e => e.ipaddr) s.uip_ds6_defrt_list x 128
      hfree (fun e he hu => uip_ipaddr_prefixcmp_128_false _ _ (hno e he hu))
    refine ⟨k, e, ?_, hk, hu, hlater, ?_⟩
    · simp [uip_ds6_defrt_add, hr]
    · simp [uip_ds6_defrt_add, hr, update_slot_getElem?_self, hk]
  · intro env s x vlifetime type hfree hno
    obtain ⟨k, e, hr, hk, hu, hlater⟩ := uip_ds6_list_loop_freespace_of
      (fun (e : uip_ds6_addr_t) => e.isused) (fun e => e.ipaddr) s.uip_ds6_if.addr_list x 128
      hfree (fun e he hu => uip_ipaddr_prefixcmp_128_false _ _ (hno e he hu))
    refine ⟨k, e, ?_, hk, hu, hlater, ?_⟩
    · simp [uip_ds6_addr_add, hr]
    · simp [uip_ds6_addr_add, hr, update_slot_getElem?_self, hk]
  · intro s x hfree hno
    obtain ⟨k, e, hr, hk, hu, hlater⟩ := uip_ds6_list_loop_freespace_of
      (fun (e : uip_ds6_maddr_t) => e.isused) (fun e => e.ipaddr) s.uip_ds6_if.maddr_list x 128
      hfree (fun e he hu => uip_ipaddr_prefixcmp_128_false _ _ (hno e he hu))
    refine ⟨k, e, ?_, hk, hu, hlater, ?_⟩
    · simp [uip_ds6_maddr_add, hr]
    · simp [uip_ds6_maddr_add, hr, update_slot_getElem?_self, hk]
  · intro s p len nexthop metric hfree hno
    obtain ⟨k, e, hr, hk, hu, hlater⟩ := uip_ds6_list_loop_freespace_of
      (fun (e : uip_ds6_route_t) => e.isused) (fun e => e.ipaddr) s.uip_ds6_routing_table p len
      hfree (fun e he hu => by
        cases hc : uip_ipaddr_prefixcmp e.ipaddr p len with
        | false => rfl
        | true => exact absurd ((uip_ipaddr_prefixcmp_iff _ _ _).mp hc) (hno e he hu))
    refine ⟨k, e, ?_, hk, hu, hlater, ?_⟩
    · simp [uip_ds6_route_add, hr]
    · simp [uip_ds6_route_add, hr, update_slot_getElem?_self, hk]

/-- A use of the amended C16: the scan of the neighbour cache of `tables_example` for
`fe80::b`, and an addition to each table (`tables_example`, `routes_example`). -/
theorem uip_ds6_list_loop_freespace_last_witness :
    (∃ k e, uip_ds6_list_loop (fun (e : uip_ds6_nbr_t) => e.isused) (fun e => e.ipaddr)
        tables_example.uip_ds6_nbr_cache addr_fe80_b 128 = (FREESPACE, some k) ∧
      tables_example.uip_ds6_nbr_cache[k]? = some e ∧ e.isused = false ∧
      ∀ j e', k < j → tables_example.uip_ds6_nbr_cache[j]? = some e' → e'.isused = true) ∧
    (∃ s' k e, uip_ds6_nbr_add (0 + 1) sample_env tables_example addr_fe80_b none 1 NBR_STALE
        = some (s', some k) ∧
      tables_example.uip_ds6_nbr_cache[k]? = some e ∧ e.isused = false ∧
      (∀ j e', k < j → tables_example.uip_ds6_nbr_cache[j]? = some e' → e'.isused = true) ∧
      (s'.uip_ds6_nbr_cache[k]?).map (fun e => (e.isused, e.ipaddr))
        = some (true, addr_fe80_b)) ∧
    (uip_ds6_defrt_add sample_env tables_example addr_fe80_c 1800).2 = some 1 ∧
    (uip_ds6_addr_add sample_env tables_example addr_2001_db8_0_1 600 1).2 = some 2 ∧
    (uip_ds6_maddr_add tables_example addr_fe80_b).2 = some 1 ∧
    (uip_ds6_route_add routes_example addr_fe80_a 10 addr_fe80_c 9).2 = some 3 ∧
    (∃ k e, (uip_ds6_route_add routes_example addr_fe80_a 10 addr_fe80_c 9).2 = some k ∧
      routes_example.uip_ds6_routing_table[k]? = some e ∧ e.isused = false ∧
      (∀ j e', k < j → routes_example.uip_ds6_routing_table[j]? = some e' →
        e'.isused = true) ∧
      ((uip_ds6_route_add routes_example addr_fe80_a 10 addr_fe80_c
          9).1.uip_ds6_routing_table[k]?).map (fun e => (e.isused, e.ipaddr, e.length))
        = some (true, addr_fe80_a, 10)) :=
  ⟨uip_ds6_list_loop_freespace_last.1 (fun (e : uip_ds6_nbr_t) => e.isused) (fun e => e.ipaddr)
      tables_example.uip_ds6_nbr_cache addr_fe80_b 128 (by decide) (by decide),
   uip_ds6_list_loop_freespace_last.2.1 0 sample_env tables_example addr_fe80_b none 1
      NBR_STALE (by decide) (by decide),
   by decide, by decide, by decide, by decide,
   uip_ds6_list_loop_freespace_last.2.2.2.2.2 routes_example addr_fe80_a 10 addr_fe80_c 9
      (by decide) (by decide)⟩


/-! ## Slot selection of `uip_ds6_reg_add` -/

/-- The candidate search of `uip_ds6_reg_add`: the first slot not in use if there is
one; otherwise the last garbage-collectible entry if there is one; otherwise the
incoming candidate. -/
theorem uip_ds6_reg_add_candidate_spec :
    ∀ (l : List uip_ds6_reg_t) (i : Nat) (c : Option Nat),
      (∃ k e, uip_ds6_reg_add_candidate l i c = some (i + k) ∧ l[k]? = some e ∧
          e.isused = false ∧ ∀ j e', j < k → l[j]? = some e' → e'.isused = true)
      ∨ ((∀ e ∈ l, e.isused = true) ∧
          ((∃ k e, uip_ds6_reg_add_candidate l i c = some (i + k) ∧ l[k]? = some e ∧
              e.state = REG_GARBAGE_COLLECTIBLE ∧
              ∀ j e', k < j → l[j]? = some e' → e'.state ≠ REG_GARBAGE_COLLECTIBLE)
            ∨ (uip_ds6_reg_add_candidate l i c = c ∧
                ∀ e ∈ l, e.state ≠ REG_GARBAGE_COLLECTIBLE))) := by
  intro l
  induction l with
  | nil =>
    intro i c
    right
    exact ⟨fun e he => absurd he (List.not_mem_nil e),
      Or.inr ⟨rfl, fun e he => absurd he (List.not_mem_nil e)⟩⟩
  | cons e rest ih =>
    intro i c
    by_cases hu : e.isused = true
    · by_cases hg : e.state = REG_GARBAGE_COLLECTIBLE
      · have hstep : uip_ds6_reg_add_candidate (e :: rest) i c
            = uip_ds6_reg_add_candidate rest (i + 1) (some i) := by
          simp [uip_ds6_reg_add_candidate, hu, hg]
        rw [hstep]
        rcases ih (i + 1) (some i) with ⟨k, e1, hr, hk, hu1, hfirst⟩ |
          ⟨hused, ⟨k, e1, hr, hk, hg1, hlater⟩ | ⟨hr, hnog⟩⟩
        · left
          refine ⟨k + 1, e1, by rw [hr]; congr 1; omega, by simpa using hk, hu1, ?_⟩
          intro j e' hj hje
          cases j with
          | zero =>
            simp only [List.getElem?_cons_zero, Option.some.injEq] at hje
            subst hje; exact hu
          | succ j' =>
            simp only [List.getElem?_cons_succ] at hje
            exact hfirst j' e' (by omega) hje
        · right
          refine ⟨?_, Or.inl ⟨k + 1, e1, by rw [hr]; congr 1; omega, by simpa using hk, hg1, ?_⟩⟩
          · intro x hx
            rcases List.mem_cons.mp hx with rfl | hx'
            · exact hu
            · exact hused x hx'
          · intro j e' hj hje
            cases j with
            | zero => omega
            | succ j' =>
              simp only [List.getElem?_cons_succ] at hje
              exact hlater j' e' (by omega) hje
        · right
          refine ⟨?_, Or.inl ⟨0, e, by rw [hr]; rfl, List.getElem?_cons_zero, hg, ?_⟩⟩
          · intro x hx
            rcases List.mem_cons.mp hx with rfl | hx'
            · exact hu
            · exact hused x hx'
          · intro j e' hj hje
            cases j with
            | zero => omega
            | succ j' =>
              simp only [List.getElem?_cons_succ] at hje
              exact hnog e' (List.getElem?_mem hje)
      · have hstep : uip_ds6_reg_add_candidate (e :: rest) i c
            = uip_ds6_reg_add_candidate rest (i + 1) c := by
          simp [uip_ds6_reg_add_candidate, hu, hg]
        rw [hstep]
        rcases ih (i + 1) c with ⟨k, e1, hr, hk, hu1, hfirst⟩ |
          ⟨hused, ⟨k, e1, hr, hk, hg1, hlater⟩ | ⟨hr, hnog⟩⟩
        · left
          refine ⟨k + 1, e1, by rw [hr]; congr 1; omega, by simpa using hk, hu1, ?_⟩
          intro j e' hj hje
          cases j with
          | zero =>
            simp only [List.getElem?_cons_zero, Option.some.injEq] at hje
            subst hje; exact hu
          | succ j' =>
            simp only [List.getElem?_cons_succ] at hje
            exact hfirst j' e' (by omega) hje
        · right
          refine ⟨?_, Or.inl ⟨k + 1, e1, by rw [hr]; congr 1; omega, by simpa using hk, hg1, ?_⟩⟩
          · intro x hx
            rcases List.mem_cons.mp hx with rfl | hx'
            · exact hu
            · exact hused x hx'
          · intro j e' hj hje
            cases j with
            | zero => omega
            | succ j' =>
              simp only [List.getElem?_cons_succ] at hje
              exact hlater j' e' (by omega) hje
        · right
          refine ⟨?_, Or.inr ⟨hr, ?_⟩⟩
          · intro x hx
            rcases List.mem_cons.mp hx with rfl | hx'
            · exact hu
            · exact hused x hx'
          · intro x hx
            rcases List.mem_cons.mp hx with rfl | hx'
            · exact hg
            · exact hnog x hx'
    · have hu' : e.isused = false := by simpa using hu
      left
      refine ⟨0, e, by simp [uip_ds6_reg_add_candidate, hu'], List.getElem?_cons_zero, hu', ?_⟩
      intro j e' hj
      omega

/-- What `uip_ds6_reg_add` does once the candidate search has chosen slot `k`. -/
theorem uip_ds6_reg_add_of_candidate (env : Env) (s : uip_ds6_state) (addr defrt : Option Nat)
    (state k : Nat) (e : uip_ds6_reg_t)
    (hc : uip_ds6_reg_add_candidate s.uip_ds6_reg_list 0 none = some k)
    (hk : s.uip_ds6_reg_list[k]? = some e) :
    (uip_ds6_reg_add env s addr defrt state).2 = some k ∧
    ((uip_ds6_reg_add env s addr defrt state).1.uip_ds6_reg_list[k]?).map
      (fun R => (R.isused, R.addr, R.defrt, R.state)) = some (true, addr, defrt, state) ∧
    ∀ j, j ≠ k →
      (uip_ds6_reg_add env s addr defrt state).1.uip_ds6_reg_list[j]? = s.uip_ds6_reg_list[j]? := by
  unfold uip_ds6_reg_add
  rw [hc]
  cases defrt with
  | none =>
    refine ⟨rfl, ?_, ?_⟩
    · simp only [update_slot_getElem?_self, hk]
      rfl
    · intro j hj
      simp only []
      rw [update_slot_getElem?_ne _ _ (Ne.symm hj)]
  | some d =>
    refine ⟨rfl, ?_, ?_⟩
    · simp only [update_slot_getElem?_self, hk]
      rfl
    · intro j hj
      simp only []
      rw [update_slot_getElem?_ne _ _ (Ne.symm hj)]

/-- C17 (as stated) fails: the registration list of `reg_two_gc_example` is full and
its garbage-collectible entries are in slots 1 and 3; `uip_ds6_reg_add` overwrites the
entry of slot 3, not the lowest-index one, and leaves slot 1 as it was. -/
theorem uip_ds6_reg_add_overwrites_last_gc :
    reg_two_gc_example.uip_ds6_reg_list.map (fun R => (R.isused, R.state))
      = [(true, REG_REGISTERED), (true, REG_GARBAGE_COLLECTIBLE), (true, REG_REGISTERED),
         (true, REG_GARBAGE_COLLECTIBLE)] ∧
    (uip_ds6_reg_add sample_env reg_two_gc_example (some 2) (some 0) REG_TENTATIVE).2
      = some 3 ∧
    (uip_ds6_reg_add sample_env reg_two_gc_example (some 2) (some 0)
        REG_TENTATIVE).1.uip_ds6_reg_list.map (fun R => (R.isused, R.addr, R.defrt, R.state))
      = [(true, some 1, some 0, REG_REGISTERED),
         (true, some 1, some 1, REG_GARBAGE_COLLECTIBLE),
         (true, some 2, some 1, REG_REGISTERED),
         (true, some 2, some 0, REG_TENTATIVE)] := by
  decide

/-- C17 (amended). Slot selection of `uip_ds6_reg_add`: if some slot is not in use, the
registration is stored in the lowest-index slot not in use; otherwise, if some entry is
in `REG_GARBAGE_COLLECTIBLE` state, the highest-index such entry is overwritten;
otherwise the call returns null and changes nothing.  In the first two cases the new
entry is in use with the given address, router and state, and the other slots of the
registration list are unchanged. -/
theorem uip_ds6_reg_add_slot (env : Env) (s : uip_ds6_state) (addr defrt : Option Nat)
    (state : Nat) :
    ((∃ e ∈ s.uip_ds6_reg_list, e.isused = false) →
      ∃ k e, (uip_ds6_reg_add env s addr defrt state).2 = some k ∧
        s.uip_ds6_reg_list[k]? = some e ∧ e.isused = false ∧
        (∀ j e', j < k → s.uip_ds6_reg_list[j]? = some e' → e'.isused = true) ∧
        ((uip_ds6_reg_add env s addr defrt state).1.uip_ds6_reg_list[k]?).map
          (fun R => (R.isused, R.addr, R.defrt, R.state)) = some (true, addr, defrt, state) ∧
        ∀ j, j ≠ k →
          (uip_ds6_reg_add env s addr defrt state).1.uip_ds6_reg_list[j]?
            = s.uip_ds6_reg_list[j]?) ∧
    ((∀ e ∈ s.uip_ds6_reg_list, e.isused = true) →
      (∃ e ∈ s.uip_ds6_reg_list, e.state = REG_GARBAGE_COLLECTIBLE) →
      ∃ k e, (uip_ds6_reg_add env s addr defrt state).2 = some k ∧
        s.uip_ds6_reg_list[k]? = some e ∧ e.state = REG_GARBAGE_COLLECTIBLE ∧
        (∀ j e', k < j → s.uip_ds6_reg_list[j]? = some e' →
          e'.state ≠ REG_GARBAGE_COLLECTIBLE) ∧
        ((uip_ds6_reg_add env s addr defrt state).1.uip_ds6_reg_list[k]?).map
          (fun R => (R.isused, R.addr, R.defrt, R.state)) = some (true, addr, defrt, state) ∧
        ∀ j, j ≠ k →
          (uip_ds6_reg_add env s addr defrt state).1.uip_ds6_reg_list[j]?
            = s.uip_ds6_reg_list[j]?) ∧
    ((∀ e ∈ s.uip_ds6_reg_list, e.isused = true ∧ e.state ≠ REG_GARBAGE_COLLECTIBLE) →
      uip_ds6_reg_add env s addr defrt state = (s, none)) := by
  refine ⟨?_, ?_, ?_⟩
  · rintro ⟨e0, he0, hu0⟩
    rcases uip_ds6_reg_add_candidate_spec s.uip_ds6_reg_list 0 none with
      ⟨k, e, hr, hk, hu, hfirst⟩ | ⟨hused, _⟩
    · rw [Nat.zero_add] at hr
      obtain ⟨h1, h2, h3⟩ := uip_ds6_reg_add_of_candidate env s addr defrt state k e hr hk
      exact ⟨k, e, h1, hk, hu, hfirst, h2, h3⟩
    · rw [hused e0 he0] at hu0
      cases hu0
  · rintro hall ⟨e0, he0, hg0⟩
    rcases uip_ds6_reg_add_candidate_spec s.uip_ds6_reg_list 0 none with
      ⟨k, e, _, hk, hu, _⟩ | ⟨_, ⟨k, e, hr, hk, hg, hlater⟩ | ⟨_, hnog⟩⟩
    · rw [hall e (List.getElem?_mem hk)] at hu
      cases hu
    · rw [Nat.zero_add] at hr
      obtain ⟨h1, h2, h3⟩ := uip_ds6_reg_add_of_candidate env s addr defrt state k e hr hk
      exact ⟨k, e, h1, hk, hg, hlater, h2, h3⟩
    · exact absurd hg0 (hnog e0 he0)
  · intro hall
    rcases uip_ds6_reg_add_candidate_spec s.uip_ds6_reg_list 0 none with
      ⟨k, e, _, hk, hu, _⟩ | ⟨_, ⟨k, e, _, hk, hg, _⟩ | ⟨hr, _⟩⟩
    · rw [(hall e (List.getElem?_mem hk)).1] at hu
      cases hu
    · exact absurd hg (hall e (List.getElem?_mem hk)).2
    · unfold uip_ds6_reg_add
      rw [hr]

/-- A use of the amended C17: a list with free slots (`nbr_old_example`, slots 2 and 3
free, the first is taken), a full list with two garbage-collectible entries
(`reg_two_gc_example`, the last is overwritten) and a full list without any
(`reg_full_pinned_example`, the call returns null). -/
theorem uip_ds6_reg_add_slot_witness :
    (uip_ds6_reg_add sample_env nbr_old_example (some 0) (some 1) REG_TENTATIVE).2 = some 2 ∧
    (∃ k e, (uip_ds6_reg_add sample_env nbr_old_example (some 0) (some 1) REG_TENTATIVE).2
        = some k ∧
      nbr_old_example.uip_ds6_reg_list[k]? = some e ∧ e.isused = false ∧
      (∀ j e', j < k → nbr_old_example.uip_ds6_reg_list[j]? = some e' → e'.isused = true) ∧
      ((uip_ds6_reg_add sample_env nbr_old_example (some 0) (some 1)
          REG_TENTATIVE).1.uip_ds6_reg_list[k]?).map
          (fun R => (R.isused, R.addr, R.defrt, R.state))
        = some (true, some 0, some 1, REG_TENTATIVE) ∧
      ∀ j, j ≠ k →
        (uip_ds6_reg_add sample_env nbr_old_example (some 0) (some 1)
          REG_TENTATIVE).1.uip_ds6_reg_list[j]? = nbr_old_example.uip_ds6_reg_list[j]?) ∧
    (∃ k e, (uip_ds6_reg_add sample_env reg_two_gc_example (some 2) (some 0) REG_TENTATIVE).2
        = some k ∧
      reg_two_gc_example.uip_ds6_reg_list[k]? = some e ∧
      e.state = REG_GARBAGE_COLLECTIBLE ∧
      (∀ j e', k < j → reg_two_gc_example.uip_ds6_reg_list[j]? = some e' →
        e'.state ≠ REG_GARBAGE_COLLECTIBLE) ∧
      ((uip_ds6_reg_add sample_env reg_two_gc_example (some 2) (some 0)
          REG_TENTATIVE).1.uip_ds6_reg_list[k]?).map
          (fun R => (R.isused, R.addr, R.defrt, R.state))
        = some (true, some 2, some 0, REG_TENTATIVE) ∧
      ∀ j, j ≠ k →
        (uip_ds6_reg_add sample_env reg_two_gc_example (some 2) (some 0)
          REG_TENTATIVE).1.uip_ds6_reg_list[j]? = reg_two_gc_example.uip_ds6_reg_list[j]?) ∧
    uip_ds6_reg_add sample_env reg_full_pinned_example (some 2) (some 0) REG_TENTATIVE
      = (reg_full_pinned_example, none) :=
  ⟨by decide,
   (uip_ds6_reg_add_slot sample_env nbr_old_example (some 0) (some 1) REG_TENTATIVE).1
     (by decide),
   (uip_ds6_reg_add_slot sample_env reg_two_gc_example (some 2) (some 0) REG_TENTATIVE).2.1
     (by decide) (by decide),
   (uip_ds6_reg_add_slot sample_env reg_full_pinned_example (some 2) (some 0)
     REG_TENTATIVE).2.2 (by decide)⟩


/-! ## `uip_ds6_reg_cleanup_addr` -/

theorem uip_ds6_reg_cleanup_addr_step_reg_list (addr : Option Nat) (v : uip_ds6_state)
    (k j : Nat) :
    (uip_ds6_reg_cleanup_addr_step addr v k).uip_ds6_reg_list[j]? =
      if k = j then
        (v.uip_ds6_reg_list[j]?).map
          (fun R =>
            if R.isused && decide (R.addr = addr) then
              if R.state ≠ REG_REGISTERED then { R with isused := false }
              else { R with state := REG_TO_BE_UNREGISTERED }
            else R)
      else v.uip_ds6_reg_list[j]? := by
  unfold uip_ds6_reg_cleanup_addr_step
  cases hR : v.uip_ds6_reg_list[k]? with
  | none =>
    by_cases hjk : k = j
    · subst hjk; simp [hR]
    · simp [hjk]
  | some R =>
    by_cases hc : R.isused = true ∧ R.addr = addr
    · have hc2 : (R.isused && decide (R.addr = addr)) = true := by simp [hc.1, hc.2]
      simp only [hc2, if_true]
      by_cases hst : R.state = REG_REGISTERED
      · have hst2 : ¬ R.state ≠ REG_REGISTERED := fun h => h hst
        rw [if_neg hst2]
        simp only []
        rw [update_slot_getElem?]
        by_cases hjk : k = j
        · subst hjk
          simp [hR, hc.1, hc.2, hst]
        · simp [hjk]
      · rw [if_pos hst, uip_ds6_reg_rm_reg_list, update_slot_getElem?]
        by_cases hjk : k = j
        · subst hjk
          simp [hR, hc.1, hc.2, hst]
        · simp [hjk]
    · have hc2 : ¬ (R.isused && decide (R.addr = addr)) = true := by
        intro h
        simp only [Bool.and_eq_true, decide_eq_true_eq] at h
        exact hc h
      simp only [hc2]
      by_cases hjk : k = j
      · subst hjk
        simp [hR, hc]
      · simp [hjk]

/-- The registration list after the first `k` rounds of `uip_ds6_reg_cleanup_addr`. -/
theorem uip_ds6_reg_cleanup_addr_loop (s : uip_ds6_state) (addr : Option Nat) (k j : Nat) :
    (for_loop (uip_ds6_reg_cleanup_addr_step addr) k s).uip_ds6_reg_list[j]? =
      if j < k then
        (s.uip_ds6_reg_list[j]?).map
          (fun R =>
            if R.isused && decide (R.addr = addr) then
              if R.state ≠ REG_REGISTERED then { R with isused := false }
              else { R with state := REG_TO_BE_UNREGISTERED }
            else R)
      else s.uip_ds6_reg_list[j]? := by
  induction k with
  | zero => simp [for_loop]
  | succ k ih =>
    rw [for_loop_succ, uip_ds6_reg_cleanup_addr_step_reg_list, ih]
    by_cases hjk : k = j
    · subst hjk
      simp
    · by_cases hj : j < k
      · simp [hjk, hj, Nat.lt_succ_of_lt hj]
      · have : ¬ j < k + 1 := by omega
        simp [hjk, hj, this]

/-- The registration list after `uip_ds6_reg_cleanup_addr`, slot by slot. -/
theorem uip_ds6_reg_cleanup_addr_reg_list (s : uip_ds6_state) (addr : Option Nat) (j : Nat) :
    (uip_ds6_reg_cleanup_addr s addr).uip_ds6_reg_list[j]? =
      (s.uip_ds6_reg_list[j]?).map
        (fun R =>
          if R.isused && decide (R.addr = addr) then
            if R.state ≠ REG_REGISTERED then { R with isused := false }
            else { R with state := REG_TO_BE_UNREGISTERED }
          else R) := by
  unfold uip_ds6_reg_cleanup_addr
  rw [uip_ds6_reg_cleanup_addr_loop]
  by_cases hj : j < s.uip_ds6_reg_list.length
  · simp [hj]
  · simp [hj, List.getElem?_eq_none (Nat.le_of_not_lt hj)]

/-- C18. After `uip_ds6_reg_cleanup_addr a`, for the registration `R` of every slot
`j`: if `R` was an in-use registration of `a` in `REG_REGISTERED` state, the slot holds
`R` with state `REG_TO_BE_UNREGISTERED` (still in use, nothing else changed); if `R` was
an in-use registration of `a` in another state, the slot holds `R` marked not in use;
if `R` is a registration of a different address, or was not in use, the slot holds `R`
unchanged.  The list keeps its slots. -/
theorem uip_ds6_reg_cleanup_addr_effect (s : uip_ds6_state) (a : Option Nat) :
    (uip_ds6_reg_cleanup_addr s a).uip_ds6_reg_list.length = s.uip_ds6_reg_list.length ∧
    ∀ (j : Nat) (R : uip_ds6_reg_t), s.uip_ds6_reg_list[j]? = some R →
      (R.isused = true → R.addr = a → R.state = REG_REGISTERED →
        (uip_ds6_reg_cleanup_addr s a).uip_ds6_reg_list[j]?
          = some { R with state := REG_TO_BE_UNREGISTERED }) ∧
      (R.isused = true → R.addr = a → R.state ≠ REG_REGISTERED →
        (uip_ds6_reg_cleanup_addr s a).uip_ds6_reg_list[j]?
          = some { R with isused := false }) ∧
      (R.addr ≠ a → (uip_ds6_reg_cleanup_addr s a).uip_ds6_reg_list[j]? = some R) ∧
      (R.isused = false → (uip_ds6_reg_cleanup_addr s a).uip_ds6_reg_list[j]? = some R) := by
  constructor
  · have hmap : (uip_ds6_reg_cleanup_addr s a).uip_ds6_reg_list =
        s.uip_ds6_reg_list.map
          (fun R =>
            if R.isused && decide (R.addr = a) then
              if R.state ≠ REG_REGISTERED then { R with isused := false }
              else { R with state := REG_TO_BE_UNREGISTERED }
            else R) := by
      apply List.ext_getElem?
      intro j
      rw [uip_ds6_reg_cleanup_addr_reg_list, List.getElem?_map]
    rw [hmap, List.length_map]
  · intro j R hR
    rw [uip_ds6_reg_cleanup_addr_reg_list, hR]
    refine ⟨?_, ?_, ?_, ?_⟩
    · intro hu ha hst
      simp [hu, ha, hst]
    · intro hu ha hst
      simp [hu, ha, hst]
    · intro ha
      simp [ha]
    · intro hu
      simp [hu]

/-- A use of C18 on `reg_full_example` and address 1: the registration of slot 0
(`REG_REGISTERED`) becomes `REG_TO_BE_UNREGISTERED`, the garbage-collectible one of
slot 1 is removed, and the registrations of addresses 2 and 0 (slots 2, 3) stay. -/
theorem uip_ds6_reg_cleanup_addr_effect_witness :
    (uip_ds6_reg_cleanup_addr reg_full_example (some 1)).uip_ds6_reg_list[0]?
      = some { sample_reg 1 0 REG_REGISTERED 90 600 11520 128 0 with
               state := REG_TO_BE_UNREGISTERED } ∧
    (uip_ds6_reg_cleanup_addr reg_full_example (some 1)).uip_ds6_reg_list[1]?
      = some { sample_reg 1 1 REG_GARBAGE_COLLECTIBLE 90 20 11520 128 0 with
               isused := false } ∧
    (uip_ds6_reg_cleanup_addr reg_full_example (some 1)).uip_ds6_reg_list[2]?
      = some (sample_reg 2 1 REG_REGISTERED 90 600 11520 128 0) ∧
    (uip_ds6_reg_cleanup_addr reg_full_example (some 1)).uip_ds6_reg_list.map
        (fun R => (R.isused, R.addr, R.state))
      = [(true, some 1, REG_TO_BE_UNREGISTERED), (false, some 1, REG_GARBAGE_COLLECTIBLE),
         (true, some 2, REG_REGISTERED), (true, some 0, REG_REGISTERED)] :=
  ⟨((uip_ds6_reg_cleanup_addr_effect reg_full_example (some 1)).2 0 _ (by decide)).1
      (by decide) (by decide) (by decide),
   ((uip_ds6_reg_cleanup_addr_effect reg_full_example (some 1)).2 1 _ (by decide)).2.1
      (by decide) (by decide) (by decide),
   ((uip_ds6_reg_cleanup_addr_effect reg_full_example (some 1)).2 2 _ (by decide)).2.2.1
      (by decide),
   by decide⟩


/-! ## Removal of a default router -/

theorem uip_ds6_route_rm_by_nexthop_step_table (a : uip_ipaddr_t) (v : uip_ds6_state)
    (k j : Nat) :
    (uip_ds6_route_rm_by_nexthop_step a v k).uip_ds6_routing_table[j]? =
      if k = j then
        (v.uip_ds6_routing_table[j]?).map
          (fun rt => if rt.isused && uip_ipaddr_cmp rt.nexthop a
            then { rt with isused := false } else rt)
      else v.uip_ds6_routing_table[j]? := by
  unfold uip_ds6_route_rm_by_nexthop_step
  cases hR : v.uip_ds6_routing_table[k]? with
  | none =>
    by_cases hjk : k = j
    · subst hjk; simp [hR]
    · simp [hjk]
  | some rt =>
    by_cases hc : (rt.isused && uip_ipaddr_cmp rt.nexthop a) = true
    · simp only [hc, if_true]
      rw [update_slot_getElem?]
      by_cases hjk : k = j
      · subst hjk
        rw [if_pos rfl, if_pos rfl, hR]
        simp only [Option.map_some', hc, if_true]
      · simp [hjk]
    · simp only []
      rw [if_neg hc]
      by_cases hjk : k = j
      · subst hjk
        rw [if_pos rfl, hR]
        simp only [Option.map_some']
        rw [if_neg hc]
      · simp [hjk]

theorem uip_ds6_route_rm_by_nexthop_loop (s : uip_ds6_state) (a : uip_ipaddr_t) (k j : Nat) :
    (for_loop (uip_ds6_route_rm_by_nexthop_step a) k s).uip_ds6_routing_table[j]? =
      if j < k then
        (s.uip_ds6_routing_table[j]?).map
          (fun rt => if rt.isused && uip_ipaddr_cmp rt.nexthop a
            then { rt with isused := false } else rt)
      else s.uip_ds6_routing_table[j]? := by
  induction k with
  | zero => simp [for_loop]
  | succ k ih =>
    rw [for_loop_succ, uip_ds6_route_rm_by_nexthop_step_table, ih]
    by_cases hjk : k = j
    · subst hjk
      simp
    · by_cases hj : j < k
      · simp [hjk, hj, Nat.lt_succ_of_lt hj]
      · have : ¬ j < k + 1 := by omega
        simp [hjk, hj, this]

/-- The routing table after `uip_ds6_route_rm_by_nexthop`, slot by slot. -/
theorem uip_ds6_route_rm_by_nexthop_table (s : uip_ds6_state) (a : uip_ipaddr_t) (j : Nat) :
    (uip_ds6_route_rm_by_nexthop s a).uip_ds6_routing_table[j]? =
      (s.uip_ds6_routing_table[j]?).map
        (fun rt => if rt.isused && uip_ipaddr_cmp rt.nexthop a
          then { rt with isused := false } else rt) := by
  unfold uip_ds6_route_rm_by_nexthop
  rw [uip_ds6_route_rm_by_nexthop_loop]
  by_cases hj : j < s.uip_ds6_routing_table.length
  · simp [hj]
  · simp [hj, List.getElem?_eq_none (Nat.le_of_not_lt hj)]

/-- C19 (as stated) fails: in `defrt_rm_example` the default router of slot 0
(`fe80::a`) is in use; after `uip_ds6_defrt_rm` of it the registration of slot 0 is
still in use and still refers to router slot 0, and the route of slot 0 is still in use
with next hop `fe80::a`. -/
theorem uip_ds6_defrt_rm_no_cascade :
    defrt_in_use defrt_rm_example (some 0) = true ∧
    defrt_ipaddr defrt_rm_example (some 0) = some addr_fe80_a ∧
    ((uip_ds6_defrt_rm defrt_rm_example (some 0)).uip_ds6_reg_list[0]?).map
      (fun R => (R.isused, R.defrt)) = some (true, some 0) ∧
    ((uip_ds6_defrt_rm defrt_rm_example (some 0)).uip_ds6_routing_table[0]?).map
      (fun rt => (rt.isused, rt.nexthop)) = some (true, addr_fe80_a) := by
  decide

/-- C19 (amended). `uip_ds6_defrt_rm r` marks the router `r` not in use and changes
nothing else: the other routers, the registration list and the routing table are as
before.  The cascade is made by separate calls: after `uip_ds6_reg_cleanup_defrt r`
no in-use registration refers to `r`, and after `uip_ds6_route_rm_by_nexthop a` no
in-use route has next hop `a`. -/
theorem uip_ds6_defrt_rm_effect (s : uip_ds6_state) (r : Nat) (a : uip_ipaddr_t) :
    ((uip_ds6_defrt_rm s (some r)).uip_ds6_reg_list = s.uip_ds6_reg_list ∧
      (uip_ds6_defrt_rm s (some r)).uip_ds6_routing_table = s.uip_ds6_routing_table ∧
      (∀ j, (uip_ds6_defrt_rm s (some r)).uip_ds6_defrt_list[j]? =
        if r = j then (s.uip_ds6_defrt_list[j]?).map (fun X => { X with isused := false })
        else s.uip_ds6_defrt_list[j]?)) ∧
    (∀ R ∈ (uip_ds6_reg_cleanup_defrt (uip_ds6_defrt_rm s (some r)) (some r)).uip_ds6_reg_list,
      R.isused = true → R.defrt ≠ some r) ∧
    (∀ rt ∈ (uip_ds6_route_rm_by_nexthop s a).uip_ds6_routing_table,
      rt.isused = true → rt.nexthop ≠ a) := by
  refine ⟨⟨rfl, rfl, fun j => update_slot_getElem? _ _ _ _⟩,
    uip_ds6_reg_cleanup_defrt_none_left _ _, ?_⟩
  intro rt hrt hu ha
  obtain ⟨j, hj⟩ := List.mem_iff_getElem?.mp hrt
  rw [uip_ds6_route_rm_by_nexthop_table] at hj
  cases h0 : s.uip_ds6_routing_table[j]? with
  | none => rw [h0] at hj; cases hj
  | some rt0 =>
    rw [h0] at hj
    simp only [Option.map_some', Option.some.injEq] at hj
    by_cases hc : (rt0.isused && uip_ipaddr_cmp rt0.nexthop a) = true
    · rw [if_pos hc] at hj
      subst hj
      cases hu
    · rw [if_neg hc] at hj
      subst hj
      apply hc
      simp [uip_ipaddr_cmp, hu, ha]

/-- A use of the amended C19 on `defrt_rm_example`: the removal of router 0 followed by
the clean-up of its registrations, and the removal of the routes via `fe80::a`. -/
theorem uip_ds6_defrt_rm_effect_witness :
    ((uip_ds6_defrt_rm defrt_rm_example (some 0)).uip_ds6_defrt_list.map
        (fun X => (X.isused, X.ipaddr)) = [(false, addr_fe80_a), (true, addr_fe80_c)]) ∧
    (∀ R ∈ (uip_ds6_reg_cleanup_defrt (uip_ds6_defrt_rm defrt_rm_example (some 0))
        (some 0)).uip_ds6_reg_list, R.isused = true → R.defrt ≠ some 0) ∧
    (∀ rt ∈ (uip_ds6_route_rm_by_nexthop defrt_rm_example addr_fe80_a).uip_ds6_routing_table,
      rt.isused = true → rt.nexthop ≠ addr_fe80_a) ∧
    (uip_ds6_route_rm_by_nexthop defrt_rm_example addr_fe80_a).uip_ds6_routing_table.map
        (fun rt => (rt.isused, rt.nexthop))
      = [(false, addr_fe80_a), (true, addr_fe80_b), (false, uip_ipaddr_zero),
         (false, uip_ipaddr_zero)] :=
  ⟨by decide,
   (uip_ds6_defrt_rm_effect defrt_rm_example 0 addr_fe80_a).2.1,
   (uip_ds6_defrt_rm_effect defrt_rm_example 0 addr_fe80_a).2.2,
   by decide⟩


/-! ## `uip_ds6_defrt_choose` -/

/-- The loop of `uip_ds6_defrt_choose`: the first in-use router that passes the
neighbour test if there is one; otherwise the last in-use router if there is one;
otherwise the incoming value. -/
theorem uip_ds6_defrt_choose_from_spec (s : uip_ds6_state) :
    ∀ (l : List uip_ds6_defrt_t) (i : Nat) (acc : Option Nat),
      (∃ k X, uip_ds6_defrt_choose_from s l i acc = some (i + k) ∧ l[k]? = some X ∧
          X.isused = true ∧ defrt_reachable s X = true ∧
          ∀ j X', j < k → l[j]? = some X' →
            ¬ (X'.isused = true ∧ defrt_reachable s X' = true))
      ∨ ((∀ X ∈ l, ¬ (X.isused = true ∧ defrt_reachable s X = true)) ∧
          ((∃ k X, uip_ds6_defrt_choose_from s l i acc = some (i + k) ∧ l[k]? = some X ∧
              X.isused = true ∧ ∀ j X', k < j → l[j]? = some X' → X'.isused = false)
            ∨ (uip_ds6_defrt_choose_from s l i acc = acc ∧ ∀ X ∈ l, X.isused = false))) := by
  intro l
  induction l with
  | nil =>
    intro i acc
    right
    exact ⟨fun X hX => absurd hX (List.not_mem_nil X),
      Or.inr ⟨rfl, fun X hX => absurd hX (List.not_mem_nil X)⟩⟩
  | cons e rest ih =>
    intro i acc
    by_cases hu : e.isused = true
    · by_cases hr : defrt_reachable s e = true
      · left
        refine ⟨0, e, ?_, List.getElem?_cons_zero, hu, hr, fun j _ hj => absurd hj (Nat.not_lt_zero j)⟩
        unfold defrt_reachable at hr
        simp only [uip_ds6_defrt_choose_from, hu, if_true]
        cases hb : (uip_ds6_nbr_lookup s e.ipaddr).bind (fun n => s.uip_ds6_nbr_cache[n]?) with
        | none => rw [hb] at hr; cases hr
        | some b =>
          rw [hb] at hr
          simp only [decide_eq_true_eq] at hr
          simp only []
          rw [if_pos hr]
          rfl
      · have hstep : uip_ds6_defrt_choose_from s (e :: rest) i acc
            = uip_ds6_defrt_choose_from s rest (i + 1) (some i) := by
          unfold defrt_reachable at hr
          simp only [uip_ds6_defrt_choose_from, hu, if_true]
          cases hb : (uip_ds6_nbr_lookup s e.ipaddr).bind (fun n => s.uip_ds6_nbr_cache[n]?) with
          | none => rfl
          | some b =>
            rw [hb] at hr
            simp only [decide_eq_true_eq] at hr
            simp only [hr, if_false]
        rw [hstep]
        rcases ih (i + 1) (some i) with ⟨k, X, hres, hk, hXu, hXr, hfirst⟩ |
          ⟨hnone, ⟨k, X, hres, hk, hXu, hlater⟩ | ⟨hres, hunused⟩⟩
        · left
          refine ⟨k + 1, X, by rw [hres]; congr 1; omega, by simpa using hk, hXu, hXr, ?_⟩
          intro j X' hj hjX
          cases j with
          | zero =>
            simp only [List.getElem?_cons_zero, Option.some.injEq] at hjX
            subst hjX
            exact fun h => hr h.2
          | succ j' =>
            simp only [List.getElem?_cons_succ] at hjX
            exact hfirst j' X' (by omega) hjX
        · right
          refine ⟨?_, Or.inl ⟨k + 1, X, by rw [hres]; congr 1; omega, by simpa using hk, hXu, ?_⟩⟩
          · intro x hx
            rcases List.mem_cons.mp hx with rfl | hx'
            · exact fun h => hr h.2
            · exact hnone x hx'
          · intro j X' hj hjX
            cases j with
            | zero => omega
            | succ j' =>
              simp only [List.getElem?_cons_succ] at hjX
              exact hlater j' X' (by omega) hjX
        · right
          refine ⟨?_, Or.inl ⟨0, e, by rw [hres]; rfl, List.getElem?_cons_zero, hu, ?_⟩⟩
          · intro x hx
            rcases List.mem_cons.mp hx with rfl | hx'
            · exact fun h => hr h.2
            · exact hnone x hx'
          · intro j X' hj hjX
            cases j with
            | zero => omega
            | succ j' =>
              simp only [List.getElem?_cons_succ] at hjX
              exact hunused X' (List.getElem?_mem hjX)
    · have hu' : e.isused = false := by simpa using hu
      have hstep : uip_ds6_defrt_choose_from s (e :: rest) i acc
          = uip_ds6_defrt_choose_from s rest (i + 1) acc := by
        simp [uip_ds6_defrt_choose_from, hu']
      rw [hstep]
      rcases ih (i + 1) acc with ⟨k, X, hres, hk, hXu, hXr, hfirst⟩ |
        ⟨hnone, ⟨k, X, hres, hk, hXu, hlater⟩ | ⟨hres, hunused⟩⟩
      · left
        refine ⟨k + 1, X, by rw [hres]; congr 1; omega, by simpa using hk, hXu, hXr, ?_⟩
        intro j X' hj hjX
        cases j with
        | zero =>
          simp only [List.getElem?_cons_zero, Option.some.injEq] at hjX
          subst hjX
          exact fun h => hu h.1
        | succ j' =>
          simp only [List.getElem?_cons_succ] at hjX
          exact hfirst j' X' (by omega) hjX
      · right
        refine ⟨?_, Or.inl ⟨k + 1, X, by rw [hres]; congr 1; omega, by simpa using hk, hXu, ?_⟩⟩
        · intro x hx
          rcases List.mem_cons.mp hx with rfl | hx'
          · exact fun h => hu h.1
          · exact hnone x hx'
        · intro j X' hj hjX
          cases j with
          | zero => omega
          | succ j' =>
            simp only [List.getElem?_cons_succ] at hjX
            exact hlater j' X' (by omega) hjX
      · right
        refine ⟨?_, Or.inr ⟨hres, ?_⟩⟩
        · intro x hx
          rcases List.mem_cons.mp hx with rfl | hx'
          · exact fun h => hu h.1
          · exact hnone x hx'
        · intro x hx
          rcases List.mem_cons.mp hx with rfl | hx'
          · exact hu'
          · exact hunused x hx'

/-- A router that passes the neighbour test has an in-use neighbour cache entry with
its address whose state is not `NBR_INCOMPLETE`. -/
theorem defrt_reachable_imp (s : uip_ds6_state) (X : uip_ds6_defrt_t)
    (h : defrt_reachable s X = true) :
    ∃ N ∈ s.uip_ds6_nbr_cache, N.isused = true ∧ N.ipaddr = X.ipaddr ∧
      N.state ≠ NBR_INCOMPLETE := by
  unfold defrt_reachable at h
  cases hl : uip_ds6_nbr_lookup s X.ipaddr with
  | none => simp [hl] at h
  | some n =>
    obtain ⟨e, he, hu, ha, _⟩ := uip_ds6_nbr_lookup_some s X.ipaddr n hl
    simp [hl, he] at h
    exact ⟨e, List.getElem?_mem he, hu, ha, h⟩

/-- In a cache whose in-use entries have pairwise distinct addresses the converse
holds. -/
theorem defrt_reachable_of_distinct (s : uip_ds6_state) (X : uip_ds6_defrt_t)
    (hdist : nbr_addrs_distinct s)
    (h : ∃ N ∈ s.uip_ds6_nbr_cache, N.isused = true ∧ N.ipaddr = X.ipaddr ∧
      N.state ≠ NBR_INCOMPLETE) :
    defrt_reachable s X = true := by
  obtain ⟨N, hN, hu, ha, hst⟩ := h
  obtain ⟨m, hm⟩ := List.mem_iff_getElem?.mp hN
  unfold defrt_reachable
  cases hl : uip_ds6_nbr_lookup s X.ipaddr with
  | none => exact absurd ⟨hu, ha⟩ (uip_ds6_nbr_lookup_none s X.ipaddr hl N hN)
  | some n =>
    obtain ⟨e, he, hue, hae, _⟩ := uip_ds6_nbr_lookup_some s X.ipaddr n hl
    have hnm : n = m := pairwise_distinct_index (fun (e : uip_ds6_nbr_t) => e.isused)
      (fun e => e.ipaddr) s.uip_ds6_nbr_cache hdist n m e N he hm hue hu (hae.trans ha.symm)
    subst hnm
    rw [he] at hm
    cases hm
    simpa [he] using hst

/-- C20 (as stated) fails: in `choose_dup_nbr_example` both routers are in use and the
router of slot 0 (`fe80::a`) has an in-use neighbour cache entry (slot 1) whose state
is `NBR_REACHABLE`; but the lookup of `fe80::a` returns the entry of slot 0, which is
`NBR_INCOMPLETE`, and `uip_ds6_defrt_choose` returns the router of slot 1. -/
theorem uip_ds6_defrt_choose_duplicate_neighbour :
    choose_dup_nbr_example.uip_ds6_defrt_list.map (fun X => (X.isused, X.ipaddr))
      = [(true, addr_fe80_a), (true, addr_fe80_c)] ∧
    (choose_dup_nbr_example.uip_ds6_nbr_cache[1]?).map
      (fun N => (N.isused, N.ipaddr, decide (N.state ≠ NBR_INCOMPLETE)))
      = some (true, addr_fe80_a, true) ∧
    uip_ds6_defrt_choose choose_dup_nbr_example = some 1 := by
  decide

/-- C20 (amended). `uip_ds6_defrt_choose` returns null exactly when no default router
is in use, and otherwise the address of an in-use router.  If for some in-use router
the neighbour cache lookup of its address returns an entry whose state is not
`NBR_INCOMPLETE`, it returns the address of the lowest-index such router.  When the
in-use neighbour cache entries have pairwise distinct addresses, that is the
lowest-index in-use router that has an in-use neighbour cache entry whose state is not
`NBR_INCOMPLETE`. -/
theorem uip_ds6_defrt_choose_spec (s : uip_ds6_state) :
    (uip_ds6_defrt_choose s = none ↔ ∀ X ∈ s.uip_ds6_defrt_list, X.isused = false) ∧
    (∀ k, uip_ds6_defrt_choose s = some k →
      ∃ X, s.uip_ds6_defrt_list[k]? = some X ∧ X.isused = true) ∧
    ((∃ X ∈ s.uip_ds6_defrt_list, X.isused = true ∧ defrt_reachable s X = true) →
      ∃ k X, uip_ds6_defrt_choose s = some k ∧ s.uip_ds6_defrt_list[k]? = some X ∧
        X.isused = true ∧ defrt_reachable s X = true ∧
        ∀ j X', j < k → s.uip_ds6_defrt_list[j]? = some X' →
          ¬ (X'.isused = true ∧ defrt_reachable s X' = true)) ∧
    (nbr_addrs_distinct s →
      (∃ X ∈ s.uip_ds6_defrt_list, X.isused = true ∧
        ∃ N ∈ s.uip_ds6_nbr_cache, N.isused = true ∧ N.ipaddr = X.ipaddr ∧
          N.state ≠ NBR_INCOMPLETE) →
      ∃ k X, uip_ds6_defrt_choose s = some k ∧ s.uip_ds6_defrt_list[k]? = some X ∧
        X.isused = true ∧
        (∃ N ∈ s.uip_ds6_nbr_cache, N.isused = true ∧ N.ipaddr = X.ipaddr ∧
          N.state ≠ NBR_INCOMPLETE) ∧
        ∀ j X', j < k → s.uip_ds6_defrt_list[j]? = some X' →
          ¬ (X'.isused = true ∧
            ∃ N ∈ s.uip_ds6_nbr_cache, N.isused = true ∧ N.ipaddr = X'.ipaddr ∧
              N.state ≠ NBR_INCOMPLETE)) := by
  unfold uip_ds6_defrt_choose
  rcases uip_ds6_defrt_choose_from_spec s s.uip_ds6_defrt_list 0 none with
    ⟨k, X, hres, hk, hXu, hXr, hfirst⟩ |
    ⟨hnone, ⟨k, X, hres, hk, hXu, hlater⟩ | ⟨hres, hunused⟩⟩
  · rw [Nat.zero_add] at hres
    rw [hres]
    refine ⟨⟨(by intro h; cases h), fun h => ?_⟩, ?_, ?_, ?_⟩
    · rw [h X (List.getElem?_mem hk)] at hXu
      cases hXu
    · intro k' hk'
      cases hk'
      exact ⟨X, hk, hXu⟩
    · intro _
      exact ⟨k, X, rfl, hk, hXu, hXr, hfirst⟩
    · intro hdist _
      refine ⟨k, X, rfl, hk, hXu, defrt_reachable_imp s X hXr, ?_⟩
      intro j X' hj hjX hc
      exact hfirst j X' hj hjX ⟨hc.1, defrt_reachable_of_distinct s X' hdist hc.2⟩
  · rw [Nat.zero_add] at hres
    rw [hres]
    refine ⟨⟨(by intro h; cases h), fun h => ?_⟩, ?_, ?_, ?_⟩
    · rw [h X (List.getElem?_mem hk)] at hXu
      cases hXu
    · intro k' hk'
      cases hk'
      exact ⟨X, hk, hXu⟩
    · rintro ⟨X0, hX0, hc0⟩
      exact absurd hc0 (hnone X0 hX0)
    · rintro hdist ⟨X0, hX0, hu0, hN0⟩
      exact absurd ⟨hu0, defrt_reachable_of_distinct s X0 hdist hN0⟩ (hnone X0 hX0)
  · rw [hres]
    refine ⟨⟨fun _ => hunused, fun _ => rfl⟩, ?_, ?_, ?_⟩
    · intro k' hk'
      cases hk'
    · rintro ⟨X0, hX0, hu0, _⟩
      rw [hunused X0 hX0] at hu0
      cases hu0
    · rintro _ ⟨X0, hX0, hu0, _⟩
      rw [hunused X0 hX0] at hu0
      cases hu0

/-- A use of the amended C20 on `choose_example`: the neighbour of the router of slot 0
is incomplete, and the router of slot 1 is returned. -/
theorem uip_ds6_defrt_choose_spec_witness :
    nbr_addrs_distinct choose_example ∧
    uip_ds6_defrt_choose choose_example = some 1 ∧
    (∃ k X, uip_ds6_defrt_choose choose_example = some k ∧
      choose_example.uip_ds6_defrt_list[k]? = some X ∧ X.isused = true ∧
      defrt_reachable choose_example X = true ∧
      ∀ j X', j < k → choose_example.uip_ds6_defrt_list[j]? = some X' →
        ¬ (X'.isused = true ∧ defrt_reachable choose_example X' = true)) ∧
    (∃ k X, uip_ds6_defrt_choose choose_example = some k ∧
      choose_example.uip_ds6_defrt_list[k]? = some X ∧ X.isused = true ∧
      (∃ N ∈ choose_example.uip_ds6_nbr_cache, N.isused = true ∧ N.ipaddr = X.ipaddr ∧
        N.state ≠ NBR_INCOMPLETE) ∧
      ∀ j X', j < k → choose_example.uip_ds6_defrt_list[j]? = some X' →
        ¬ (X'.isused = true ∧
          ∃ N ∈ choose_example.uip_ds6_nbr_cache, N.isused = true ∧
            N.ipaddr = X'.ipaddr ∧ N.state ≠ NBR_INCOMPLETE)) ∧
    (∃ X, choose_example.uip_ds6_defrt_list[1]? = some X ∧ X.isused = true) ∧
    uip_ds6_defrt_choose empty_state = none :=
  ⟨by decide, by decide,
   (uip_ds6_defrt_choose_spec choose_example).2.2.1 (by decide),
   (uip_ds6_defrt_choose_spec choose_example).2.2.2 (by decide) (by decide),
   (uip_ds6_defrt_choose_spec choose_example).2.1 1 (by decide),
   (uip_ds6_defrt_choose_spec empty_state).1.mpr (by decide)⟩


/-! ## `get_match_length` -/

theorem xor_div_pow_mod_two (x y k : Nat) :
    (x ^^^ y) / 2 ^ k % 2 = (x / 2 ^ k % 2 + y / 2 ^ k % 2) % 2 := by
  have h := Nat.testBit_xor x y k
  simp only [Nat.testBit_to_div_mod] at h
  rcases Nat.mod_two_eq_zero_or_one (x / 2 ^ k) with hx | hx <;>
    rcases Nat.mod_two_eq_zero_or_one (y / 2 ^ k) with hy | hy <;>
    rcases Nat.mod_two_eq_zero_or_one ((x ^^^ y) / 2 ^ k) with hz | hz <;>
    simp [hx, hy, hz] at h ⊢

/-- The bits of the exclusive or of two bytes are the sums modulo 2 of their bits. -/
theorem byte_bits_xor (x y : Nat) :
    byte_bits (x ^^^ y) = List.zipWith (fun p q => (p + q) % 2) (byte_bits x) (byte_bits y) := by
  have h7 := xor_div_pow_mod_two x y 7
  have h6 := xor_div_pow_mod_two x y 6
  have h5 := xor_div_pow_mod_two x y 5
  have h4 := xor_div_pow_mod_two x y 4
  have h3 := xor_div_pow_mod_two x y 3
  have h2 := xor_div_pow_mod_two x y 2
  have h1 := xor_div_pow_mod_two x y 1
  have h0 := xor_div_pow_mod_two x y 0
  simp only [Nat.reducePow, Nat.div_one] at h7 h6 h5 h4 h3 h2 h1 h0
  simp only [byte_bits, List.zipWith_cons_cons, List.zipWith_nil_right]
  rw [h7, h6, h5, h4, h3, h2, h1, h0]

theorem byte_bits_lt_two (b : Nat) : ∀ p ∈ byte_bits b, p < 2 := by
  intro p hp
  simp only [byte_bits, List.mem_cons, List.mem_singleton, List.not_mem_nil, or_false] at hp
  rcases hp with h | h | h | h | h | h | h | h <;> subst h <;> exact Nat.mod_lt _ (by decide)

set_option maxRecDepth 100000 in
/-- The inner loop counts the leading zero bits of the byte. -/
theorem get_match_length_bits_zero :
    ∀ z, z < 256 →
      get_match_length_bits 8 z 0 = agree_length (byte_bits z) [0, 0, 0, 0, 0, 0, 0, 0] := by
  decide

theorem get_match_length_bits_len :
    ∀ (n z len : Nat), len < 256 →
      get_match_length_bits n z len = (len + get_match_length_bits n z 0) % 256 := by
  intro n
  induction n with
  | zero =>
    intro z len h
    simp only [get_match_length_bits]
    omega
  | succ n ih =>
    intro z len h
    simp only [get_match_length_bits]
    by_cases hc : z &&& 0x80 = 0
    · rw [if_pos hc, if_pos hc, ih _ ((len + 1) % 256) (Nat.mod_lt _ (by decide)),
        ih _ ((0 + 1) % 256) (Nat.mod_lt _ (by decide))]
      omega
    · rw [if_neg hc, if_neg hc]
      omega

theorem get_match_length_bits_le (n z : Nat) : get_match_length_bits n z 0 ≤ n := by
  have : ∀ (n z len : Nat), len < 256 → get_match_length_bits n z len ≤ len + n := by
    intro n
    induction n with
    | zero => intro z len _; simp [get_match_length_bits]
    | succ n ih =>
      intro z len h
      simp only [get_match_length_bits]
      split
      · have := ih ((z <<< 1) % 256) ((len + 1) % 256) (Nat.mod_lt _ (by decide))
        omega
      · omega
  have := this n z 0 (by decide)
  omega

theorem agree_length_le_left : ∀ (xs ys : List Nat), agree_length xs ys ≤ xs.length
  | [], _ => by simp [agree_length]
  | _ :: _, [] => by simp [agree_length]
  | x :: xs, y :: ys => by
    simp only [agree_length, List.length_cons]
    split
    · have := agree_length_le_left xs ys
      omega
    · omega

theorem agree_length_le_right : ∀ (xs ys : List Nat), agree_length xs ys ≤ ys.length
  | [], _ => by simp [agree_length]
  | _ :: _, [] => by simp [agree_length]
  | x :: xs, y :: ys => by
    simp only [agree_length, List.length_cons]
    split
    · have := agree_length_le_right xs ys
      omega
    · omega

theorem agree_length_self : ∀ (xs : List Nat), agree_length xs xs = xs.length
  | [] => rfl
  | x :: xs => by simp [agree_length, agree_length_self xs]

theorem agree_length_take :
    ∀ (xs ys : List Nat), xs.take (agree_length xs ys) = ys.take (agree_length xs ys)
  | [], _ => by simp [agree_length]
  | _ :: _, [] => by simp [agree_length]
  | x :: xs, y :: ys => by
    simp only [agree_length]
    split
    · rename_i h
      subst h
      simp [agree_length_take xs ys]
    · simp

theorem agree_length_getElem?_ne :
    ∀ (xs ys : List Nat), agree_length xs ys < xs.length → agree_length xs ys < ys.length →
      xs[agree_length xs ys]? ≠ ys[agree_length xs ys]?
  | [], _, h, _ => by simp at h
  | _ :: _, [], _, h => by simp at h
  | x :: xs, y :: ys, h1, h2 => by
    simp only [agree_length] at h1 h2 ⊢
    split
    · rename_i h
      rw [if_pos h] at h1 h2
      simp only [List.length_cons] at h1 h2
      simp only [List.getElem?_cons_succ]
      exact agree_length_getElem?_ne xs ys (by omega) (by omega)
    · rename_i h
      simp only [List.getElem?_cons_zero, ne_eq, Option.some.injEq]
      exact h

theorem agree_length_eq_length :
    ∀ (xs ys : List Nat), xs.length = ys.length → agree_length xs ys = xs.length → xs = ys
  | [], [], _, _ => rfl
  | [], _ :: _, h, _ => by simp at h
  | _ :: _, [], h, _ => by simp at h
  | x :: xs, y :: ys, hl, h => by
    simp only [agree_length, List.length_cons] at h hl
    split at h
    · rename_i hxy
      subst hxy
      rw [agree_length_eq_length xs ys (by omega) (by omega)]
    · omega

theorem agree_length_append_self :
    ∀ (xs l1 l2 : List Nat), agree_length (xs ++ l1) (xs ++ l2) = xs.length + agree_length l1 l2
  | [], _, _ => by simp
  | x :: xs, l1, l2 => by
    have ih := agree_length_append_self xs l1 l2
    show agree_length (x :: (xs ++ l1)) (x :: (xs ++ l2)) = _
    simp only [agree_length, if_true, List.length_cons, ih]
    omega

theorem agree_length_append_of_lt :
    ∀ (xs ys l1 l2 : List Nat), xs.length = ys.length → agree_length xs ys < xs.length →
      agree_length (xs ++ l1) (ys ++ l2) = agree_length xs ys
  | [], _, _, _, _, h => by simp at h
  | _ :: _, [], _, _, hl, _ => by simp at hl
  | x :: xs, y :: ys, l1, l2, hl, h => by
    simp only [agree_length, List.length_cons] at h hl
    show agree_length (x :: (xs ++ l1)) (y :: (ys ++ l2)) = agree_length (x :: xs) (y :: ys)
    simp only [agree_length]
    split
    · rename_i hxy
      rw [if_pos hxy] at h
      rw [agree_length_append_of_lt xs ys l1 l2 (by omega) (by omega)]
    · rfl

/-- Two lists of bits agree where the list of their sums modulo 2 is zero. -/
theorem agree_length_zipWith :
    ∀ (xs ys : List Nat), xs.length = ys.length → (∀ p ∈ xs, p < 2) → (∀ p ∈ ys, p < 2) →
      agree_length (List.zipWith (fun p q => (p + q) % 2) xs ys) (List.replicate xs.length 0)
        = agree_length xs ys
  | [], [], _, _, _ => rfl
  | [], _ :: _, h, _, _ => by simp at h
  | _ :: _, [], h, _, _ => by simp at h
  | x :: xs, y :: ys, hl, hx, hy => by
    have h1 : x < 2 := hx x (List.mem_cons_self _ _)
    have h2 : y < 2 := hy y (List.mem_cons_self _ _)
    have ih := agree_length_zipWith xs ys (by simpa using hl)
      (fun p hp => hx p (List.mem_cons_of_mem _ hp))
      (fun p hp => hy p (List.mem_cons_of_mem _ hp))
    simp only [List.zipWith_cons_cons, List.length_cons, List.replicate_succ, agree_length, ih]
    by_cases hxy : x = y
    · have : (x + y) % 2 = 0 := by omega
      rw [if_pos this, if_pos hxy]
    · have : ¬ (x + y) % 2 = 0 := by omega
      rw [if_neg this, if_neg hxy]

/-- The inner loop, entered with the exclusive or of two different bytes, counts the
leading bits on which the bytes agree. -/
theorem get_match_length_bits_xor (x y len : Nat) (hx : x < 256) (hy : y < 256)
    (hxy : x ≠ y) (hlen : len + 8 < 256) (l1 l2 : List Nat) :
    get_match_length_bits 8 (x ^^^ y) len
      = len + agree_length (byte_bits x ++ l1) (byte_bits y ++ l2) := by
  have hz : x ^^^ y < 256 := Nat.xor_lt_two_pow (n := 8) hx hy
  have h1 := get_match_length_bits_zero (x ^^^ y) hz
  rw [byte_bits_xor] at h1
  have h2 := agree_length_zipWith (byte_bits x) (byte_bits y) rfl (byte_bits_lt_two x)
    (byte_bits_lt_two y)
  rw [byte_bits_length] at h2
  have h3 : get_match_length_bits 8 (x ^^^ y) 0 = agree_length (byte_bits x) (byte_bits y) :=
    h1.trans h2
  have hlt : agree_length (byte_bits x) (byte_bits y) < (byte_bits x).length := by
    rcases Nat.lt_or_ge (agree_length (byte_bits x) (byte_bits y)) (byte_bits x).length with h | h
    · exact h
    · have hle := agree_length_le_left (byte_bits x) (byte_bits y)
      exact absurd (byte_bits_inj hx hy
        (agree_length_eq_length _ _ rfl (Nat.le_antisymm hle h))) hxy
  rw [get_match_length_bits_len 8 _ len (by omega), h3,
    agree_length_append_of_lt (byte_bits x) (byte_bits y) l1 l2 rfl hlt]
  rw [byte_bits_length] at hlt
  omega

theorem get_match_length_from_spec :
    ∀ (xs ys : List Nat) (len : Nat), xs.length = ys.length →
      (∀ b ∈ xs, b < 256) → (∀ b ∈ ys, b < 256) → len + 8 * xs.length < 256 →
      get_match_length_from xs ys len
        = len + agree_length (xs.flatMap byte_bits) (ys.flatMap byte_bits)
  | [], [], len, _, _, _, _ => by simp [get_match_length_from, agree_length]
  | [], _ :: _, _, h, _, _, _ => by simp at h
  | _ :: _, [], _, h, _, _, _ => by simp at h
  | x :: xs, y :: ys, len, hl, hx, hy, hlen => by
    simp only [List.length_cons] at hl hlen
    simp only [get_match_length_from, List.flatMap_cons]
    by_cases hxy : x = y
    · subst hxy
      rw [if_pos rfl, agree_length_append_self, byte_bits_length,
        get_match_length_from_spec xs ys ((len + 8) % 256) (by omega)
          (fun b hb => hx b (List.mem_cons_of_mem _ hb))
          (fun b hb => hy b (List.mem_cons_of_mem _ hb)) (by omega)]
      omega
    · rw [if_neg hxy]
      exact get_match_length_bits_xor x y len (hx x (List.mem_cons_self _ _))
        (hy y (List.mem_cons_self _ _)) hxy (by omega) _ _

/-- C27. `get_match_length a b` is the number of leading (high-order) bits on which `a`
and `b` agree: the two addresses agree on that many leading bits and, when the number
is below 128, differ in the next bit.  It is 128 exactly when `a = b`, in particular
for `get_match_length a a`, and never exceeds 128; the `u8_t` counter of the code never
wraps, the count being the true one. -/
theorem get_match_length_spec (a b : uip_ipaddr_t) :
    get_match_length a b = agree_length (addr_bits a) (addr_bits b) ∧
    get_match_length a b ≤ 128 ∧
    (addr_bits a).take (get_match_length a b) = (addr_bits b).take (get_match_length a b) ∧
    (get_match_length a b < 128 →
      (addr_bits a)[get_match_length a b]? ≠ (addr_bits b)[get_match_length a b]?) ∧
    (get_match_length a b = 128 ↔ a = b) ∧
    get_match_length a a = 128 := by
  have hspec : ∀ (a b : uip_ipaddr_t),
      get_match_length a b = agree_length (addr_bits a) (addr_bits b) := by
    intro a b
    unfold get_match_length addr_bits
    rw [get_match_length_from_spec a.u8 b.u8 0 (by rw [a.len_eq, b.len_eq]) a.byte_lt b.byte_lt
      (by rw [a.len_eq]; decide)]
    omega
  have hle : agree_length (addr_bits a) (addr_bits b) ≤ 128 := by
    have := agree_length_le_left (addr_bits a) (addr_bits b)
    rwa [addr_bits_length] at this
  refine ⟨hspec a b, ?_, ?_, ?_, ?_, ?_⟩
  · rw [hspec]; exact hle
  · rw [hspec]; exact agree_length_take _ _
  · rw [hspec]
    intro h
    exact agree_length_getElem?_ne _ _ (by rw [addr_bits_length]; exact h)
      (by rw [addr_bits_length]; exact h)
  · rw [hspec]
    constructor
    · intro h
      have hbits := agree_length_eq_length (addr_bits a) (addr_bits b)
        (by rw [addr_bits_length, addr_bits_length]) (by rw [addr_bits_length]; exact h)
      exact uip_ipaddr_ext (flatMap_byte_bits_inj _ _ (by rw [a.len_eq, b.len_eq])
        a.byte_lt b.byte_lt hbits)
    · intro h
      subst h
      rw [agree_length_self, addr_bits_length]
  · rw [hspec, agree_length_self, addr_bits_length]


/-! ## `uip_ds6_set_addr_iid` -/

theorem uip_ipaddr_take_eight_length (p : uip_ipaddr_t) : (p.u8.take 8).length = 8 := by
  rw [List.length_take, p.len_eq]
  rfl

theorem take_eight_append (p : uip_ipaddr_t) (l : List Nat) :
    (p.u8.take 8 ++ l).take 8 = p.u8.take 8 :=
  List.take_left' (uip_ipaddr_take_eight_length p)

theorem drop_eight_append (p : uip_ipaddr_t) (l : List Nat) :
    (p.u8.take 8 ++ l).drop 8 = l :=
  List.drop_left' (uip_ipaddr_take_eight_length p)

/-- The exclusive or with `0x02` flips the bit of weight 2 and keeps the other bits. -/
theorem byte_bits_xor_two (b : Nat) :
    byte_bits (b ^^^ 0x02) =
      [b / 128 % 2, b / 64 % 2, b / 32 % 2, b / 16 % 2, b / 8 % 2, b / 4 % 2,
       (b / 2 % 2 + 1) % 2, b % 2] := by
  rw [byte_bits_xor]
  simp only [byte_bits, List.zipWith_cons_cons, List.zipWith_nil_right]
  have h7 : (b / 128 % 2 + 2 / 128 % 2) % 2 = b / 128 % 2 := by omega
  have h6 : (b / 64 % 2 + 2 / 64 % 2) % 2 = b / 64 % 2 := by omega
  have h5 : (b / 32 % 2 + 2 / 32 % 2) % 2 = b / 32 % 2 := by omega
  have h4 : (b / 16 % 2 + 2 / 16 % 2) % 2 = b / 16 % 2 := by omega
  have h3 : (b / 8 % 2 + 2 / 8 % 2) % 2 = b / 8 % 2 := by omega
  have h2 : (b / 4 % 2 + 2 / 4 % 2) % 2 = b / 4 % 2 := by omega
  have h1 : (b / 2 % 2 + 2 / 2 % 2) % 2 = (b / 2 % 2 + 1) % 2 := by omega
  have h0 : (b % 2 + 2 % 2) % 2 = b % 2 := by omega
  rw [h7, h6, h5, h4, h3, h2, h1, h0]

/-- C28. IID derivation.  For a 48-bit link-layer address `l0 .. l5`, after
`uip_ds6_set_addr_iid` the bytes 8..15 of the address are
`[l0 xor 0x02, l1, l2, 0xff, 0xfe, l3, l4, l5]` and the bytes 0..7 are unchanged; for a
64-bit link-layer address `l0 .. l7` the bytes 8..15 are `[l0 xor 0x02, l1, .., l7]`
and the bytes 0..7 are unchanged; the exclusive or flips the bit of weight 2 of `l0`
and nothing else.  The link-layer address `02:00:00:00:00:01` on `fe80::` gives
`fe80::ff:fe00:1`. -/
theorem uip_ds6_set_addr_iid_bytes (env : Env) (p : uip_ipaddr_t) :
    (∀ l0 l1 l2 l3 l4 l5 : Nat, l0 < 256 → l1 < 256 → l2 < 256 → l3 < 256 → l4 < 256 →
      l5 < 256 → env.UIP_LLADDR_LEN = 6 →
      (uip_ds6_set_addr_iid env p { addr := [l0, l1, l2, l3, l4, l5] }).u8.drop 8
        = [l0 ^^^ 0x02, l1, l2, 0xff, 0xfe, l3, l4, l5] ∧
      (uip_ds6_set_addr_iid env p { addr := [l0, l1, l2, l3, l4, l5] }).u8.take 8
        = p.u8.take 8) ∧
    (∀ l0 l1 l2 l3 l4 l5 l6 l7 : Nat, l0 < 256 → l1 < 256 → l2 < 256 → l3 < 256 →
      l4 < 256 → l5 < 256 → l6 < 256 → l7 < 256 → env.UIP_LLADDR_LEN = 8 →
      (uip_ds6_set_addr_iid env p { addr := [l0, l1, l2, l3, l4, l5, l6, l7] }).u8.drop 8
        = [l0 ^^^ 0x02, l1, l2, l3, l4, l5, l6, l7] ∧
      (uip_ds6_set_addr_iid env p { addr := [l0, l1, l2, l3, l4, l5, l6, l7] }).u8.take 8
        = p.u8.take 8) ∧
    (∀ l0 : Nat, byte_bits (l0 ^^^ 0x02) =
      [l0 / 128 % 2, l0 / 64 % 2, l0 / 32 % 2, l0 / 16 % 2, l0 / 8 % 2, l0 / 4 % 2,
       (l0 / 2 % 2 + 1) % 2, l0 % 2]) ∧
    uip_ds6_set_addr_iid { sample_env with UIP_LLADDR_LEN := 6 }
      ⟨[0xfe, 0x80, 0, 0, 0, 0, 0, 0, 0, 0, 0, 0, 0, 0, 0, 0], by decide, by decide⟩
      { addr := [0x02, 0x00, 0x00, 0x00, 0x00, 0x01] }
      = ⟨[0xfe, 0x80, 0, 0, 0, 0, 0, 0, 0x00, 0x00, 0x00, 0xff, 0xfe, 0x00, 0x00, 0x01],
          by decide, by decide⟩ := by
  refine ⟨?_, ?_, byte_bits_xor_two, by decide⟩
  · intro l0 l1 l2 l3 l4 l5 h0 h1 h2 h3 h4 h5 hlen
    have hne : ¬ env.UIP_LLADDR_LEN = 8 := by omega
    simp only [uip_ds6_set_addr_iid, if_neg hne, drop_eight_append, take_eight_append,
      lladdr_byte, List.getD_cons_zero, List.getD_cons_succ, Nat.mod_eq_of_lt h0,
      Nat.mod_eq_of_lt h1, Nat.mod_eq_of_lt h2, Nat.mod_eq_of_lt h3, Nat.mod_eq_of_lt h4,
      Nat.mod_eq_of_lt h5, and_self]
  · intro l0 l1 l2 l3 l4 l5 l6 l7 h0 h1 h2 h3 h4 h5 h6 h7 hlen
    simp only [uip_ds6_set_addr_iid, if_pos hlen, drop_eight_append, take_eight_append,
      lladdr_byte, List.getD_cons_zero, List.getD_cons_succ, Nat.mod_eq_of_lt h0,
      Nat.mod_eq_of_lt h1, Nat.mod_eq_of_lt h2, Nat.mod_eq_of_lt h3, Nat.mod_eq_of_lt h4,
      Nat.mod_eq_of_lt h5, Nat.mod_eq_of_lt h6, Nat.mod_eq_of_lt h7, and_self]

/-- A use of C28: the link-layer addresses `00:12:4b:00:01:02` (48 bits) and
`00:12:4b:00:00:00:01:02` (64 bits) on `2001:db8::`. -/
theorem uip_ds6_set_addr_iid_bytes_witness :
    (uip_ds6_set_addr_iid { sample_env with UIP_LLADDR_LEN := 6 } addr_2001_db8
        { addr := [0x00, 0x12, 0x4b, 0x00, 0x01, 0x02] }).u8.drop 8
      = [0x00 ^^^ 0x02, 0x12, 0x4b, 0xff, 0xfe, 0x00, 0x01, 0x02] ∧
    (uip_ds6_set_addr_iid sample_env addr_2001_db8
        { addr := [0x00, 0x12, 0x4b, 0x00, 0x00, 0x00, 0x01, 0x02] }).u8
      = [0x20, 0x01, 0x0d, 0xb8, 0, 0, 0, 0, 0x02, 0x12, 0x4b, 0x00, 0x00, 0x00, 0x01, 0x02] :=
  ⟨((uip_ds6_set_addr_iid_bytes { sample_env with UIP_LLADDR_LEN := 6 } addr_2001_db8).1
      0x00 0x12 0x4b 0x00 0x01 0x02 (by decide) (by decide) (by decide) (by decide)
      (by decide) (by decide) rfl).1,
   by decide⟩

/-- C29. Applying `uip_ds6_set_addr_iid` twice with the same link-layer address gives
the same address as applying it once: the second application copies the link-layer
bytes again before it flips the bit, so the bit is not flipped back. -/
theorem uip_ds6_set_addr_iid_idempotent (env : Env) (p : uip_ipaddr_t) (L : uip_lladdr_t) :
    uip_ds6_set_addr_iid env (uip_ds6_set_addr_iid env p L) L = uip_ds6_set_addr_iid env p L := by
  apply uip_ipaddr_ext
  by_cases h : env.UIP_LLADDR_LEN = 8
  · simp only [uip_ds6_set_addr_iid, if_pos h, take_eight_append]
  · simp only [uip_ds6_set_addr_iid, if_neg h, take_eight_append]


/-! ## Address contexts: lookup and insertion -/

theorem uip_ds6_context_lookup_by_prefix_from_spec (a : uip_ipaddr_t) :
    ∀ (l : List uip_ds6_addr_context_t) (i : Nat),
      (uip_ds6_context_lookup_by_prefix_from a l i = none ∧
        ∀ c ∈ l, ¬ (c.state ≠ uip_ds6_context_state_t.NOT_IN_USE ∧
          uip_ipaddr_prefixcmp a c.prefix_ c.length = true))
      ∨ ∃ k c, uip_ds6_context_lookup_by_prefix_from a l i = some (i + k) ∧ l[k]? = some c ∧
          c.state ≠ uip_ds6_context_state_t.NOT_IN_USE ∧
          uip_ipaddr_prefixcmp a c.prefix_ c.length = true ∧
          ∀ j c', j < k → l[j]? = some c' →
            ¬ (c'.state ≠ uip_ds6_context_state_t.NOT_IN_USE ∧
              uip_ipaddr_prefixcmp a c'.prefix_ c'.length = true) := by
  intro l
  induction l with
  | nil =>
    intro i
    left
    exact ⟨rfl, fun c hc => absurd hc (List.not_mem_nil c)⟩
  | cons e rest ih =>
    intro i
    by_cases hc : e.state ≠ uip_ds6_context_state_t.NOT_IN_USE ∧
        uip_ipaddr_prefixcmp a e.prefix_ e.length = true
    · right
      refine ⟨0, e, ?_, List.getElem?_cons_zero, hc.1, hc.2,
        fun j _ hj => absurd hj (Nat.not_lt_zero j)⟩
      simp only [uip_ds6_context_lookup_by_prefix_from]
      rw [if_pos hc.1, if_pos hc.2]
      rfl
    · have hstep : uip_ds6_context_lookup_by_prefix_from a (e :: rest) i
          = uip_ds6_context_lookup_by_prefix_from a rest (i + 1) := by
        simp only [uip_ds6_context_lookup_by_prefix_from]
        by_cases hs : e.state ≠ uip_ds6_context_state_t.NOT_IN_USE
        · rw [if_pos hs, if_neg (fun hm => hc ⟨hs, hm⟩)]
        · rw [if_neg hs]
      rw [hstep]
      rcases ih (i + 1) with ⟨hr, hno⟩ | ⟨k, c, hr, hk, hs, hm, hfirst⟩
      · left
        refine ⟨hr, ?_⟩
        intro c hcm
        rcases List.mem_cons.mp hcm with rfl | h'
        · exact hc
        · exact hno c h'
      · right
        refine ⟨k + 1, c, by rw [hr]; congr 1; omega, by simpa using hk, hs, hm, ?_⟩
        intro j c' hj hjc
        cases j with
        | zero =>
          simp only [List.getElem?_cons_zero, Option.some.injEq] at hjc
          subst hjc
          exact hc
        | succ j' =>
          simp only [List.getElem?_cons_succ] at hjc
          exact hfirst j' c' (by omega) hjc

/-- C24 (as stated) fails: in `contexts_example` the contexts `2001:db8::/32` (slot 0)
and `2001:db8:1::/48` (slot 1) are both in use and both match `2001:db8:1::42`;
`uip_ds6_context_lookup_by_prefix` returns slot 0, whose length 32 is not maximal. -/
theorem uip_ds6_context_lookup_by_prefix_not_longest :
    contexts_example.uip_ds6_addr_context_table.map
      (fun c => (decide (c.state ≠ uip_ds6_context_state_t.NOT_IN_USE), c.length,
        uip_ipaddr_prefixcmp addr_2001_db8_1_42 c.prefix_ c.length))
      = [(true, 32, true), (true, 48, true), (false, 0, true), (false, 0, true)] ∧
    uip_ds6_context_lookup_by_prefix contexts_example addr_2001_db8_1_42 = some 0 := by
  decide

/-- C24 (amended). `uip_ds6_context_lookup_by_prefix a` is null exactly when no in-use
context has `a` equal to its prefix on the first `length` bits; otherwise it returns
the lowest-slot in-use context that matches `a`. -/
theorem uip_ds6_context_lookup_by_prefix_first (s : uip_ds6_state) (a : uip_ipaddr_t) :
    ( uip_ds6_context_lookup_by_prefix s a = none ↔
      ¬ ∃ c ∈ s.uip_ds6_addr_context_table,
        c.state ≠ uip_ds6_context_state_t.NOT_IN_USE ∧
        (addr_bits a).take c.length = (addr_bits c.prefix_).take c.length) ∧
    (∀ k, uip_ds6_context_lookup_by_prefix s a = some k →
      ∃ c, s.uip_ds6_addr_context_table[k]? = some c ∧
        c.state ≠ uip_ds6_context_state_t.NOT_IN_USE ∧
        (addr_bits a).take c.length = (addr_bits c.prefix_).take c.length ∧
        ∀ j c', j < k → s.uip_ds6_addr_context_table[j]? = some c' →
          ¬ (c'.state ≠ uip_ds6_context_state_t.NOT_IN_USE ∧
            (addr_bits a).take c'.length = (addr_bits c'.prefix_).take c'.length)) := by
  simp only [← uip_ipaddr_prefixcmp_iff]
  unfold uip_ds6_context_lookup_by_prefix
  rcases uip_ds6_context_lookup_by_prefix_from_spec a s.uip_ds6_addr_context_table 0 with
    ⟨hr, hno⟩ | ⟨k, c, hr, hk, hs, hm, hfirst⟩
  · rw [hr]
    refine ⟨⟨fun _ => ?_, fun _ => rfl⟩, ?_⟩
    · rintro ⟨c, hc, hcm⟩
      exact hno c hc hcm
    · intro k hk
      cases hk
  · rw [Nat.zero_add] at hr
    rw [hr]
    refine ⟨⟨(by intro h; cases h), fun h => absurd ⟨c, List.getElem?_mem hk, hs, hm⟩ h⟩, ?_⟩
    intro k' hk'
    cases hk'
    exact ⟨c, hk, hs, hm, hfirst⟩

/-- A use of the amended C24 on `contexts_example`. -/
theorem uip_ds6_context_lookup_by_prefix_first_witness :
    (∃ c, contexts_example.uip_ds6_addr_context_table[0]? = some c ∧
      c.state ≠ uip_ds6_context_state_t.NOT_IN_USE ∧
      (addr_bits addr_2001_db8_1_42).take c.length = (addr_bits c.prefix_).take c.length ∧
      ∀ j c', j < 0 → contexts_example.uip_ds6_addr_context_table[j]? = some c' →
        ¬ (c'.state ≠ uip_ds6_context_state_t.NOT_IN_USE ∧
          (addr_bits addr_2001_db8_1_42).take c'.length
            = (addr_bits c'.prefix_).take c'.length)) ∧
    uip_ds6_context_lookup_by_prefix contexts_example addr_fe80_a = none :=
  ⟨(uip_ds6_context_lookup_by_prefix_first contexts_example addr_2001_db8_1_42).2 0
      (by decide),
   (uip_ds6_context_lookup_by_prefix_first contexts_example addr_fe80_a).1.mpr (by decide)⟩

/-- C25. For a context option whose context id `c` (the bits of `res1_c_cid` selected
by `UIP_ND6_RA_CID`) is a slot of the table: if the slot is not `NOT_IN_USE`,
`uip_ds6_context_add` returns null and leaves the state unchanged; otherwise it returns
slot `c`, and afterwards `uip_ds6_context_lookup_by_id c` returns that slot, which holds
the prefix and prefix length of the option, `context_id = c`, the state
`IN_USE_COMPRESS` if the compression flag is set and `IN_USE_UNCOMPRESS_ONLY`
otherwise, the valid lifetime of the option armed at the current second, and the router
lifetime capped at `0x7FFF`; every other slot is unchanged. -/
theorem uip_ds6_context_add_spec (env : Env) (k : uip_nd6_6co_conf) (s : uip_ds6_state)
    (opt : uip_nd6_opt_6co) (defrt_lifetime : Nat) (c0 : uip_ds6_addr_context_t)
    (hslot : s.uip_ds6_addr_context_table[opt.res1_c_cid &&& k.UIP_ND6_RA_CID]? = some c0) :
    (c0.state ≠ uip_ds6_context_state_t.NOT_IN_USE →
      uip_ds6_context_add env k s opt defrt_lifetime = (s, none)) ∧
    (c0.state = uip_ds6_context_state_t.NOT_IN_USE →
      (uip_ds6_context_add env k s opt defrt_lifetime).2
        = some (opt.res1_c_cid &&& k.UIP_ND6_RA_CID) ∧
      uip_ds6_context_lookup_by_id (uip_ds6_context_add env k s opt defrt_lifetime).1
        (opt.res1_c_cid &&& k.UIP_ND6_RA_CID) = some (opt.res1_c_cid &&& k.UIP_ND6_RA_CID) ∧
      (uip_ds6_context_add env k s opt defrt_lifetime).1.uip_ds6_addr_context_table[
          opt.res1_c_cid &&& k.UIP_ND6_RA_CID]?
        = some
            { c0 with
              length := opt.preflen,
              context_id := opt.res1_c_cid &&& k.UIP_ND6_RA_CID,
              prefix_ := opt.prefix_,
              state :=
                if opt.res1_c_cid &&& k.UIP_ND6_RA_FLAG_COMPRESSION ≠ 0 then
                  uip_ds6_context_state_t.IN_USE_COMPRESS
                else uip_ds6_context_state_t.IN_USE_UNCOMPRESS_ONLY,
              vlifetime := stimer_set env (k.uip_ntohs opt.lifetime),
              defrt_lifetime := if defrt_lifetime < 0x7FFF then defrt_lifetime else 0x7FFF } ∧
      ∀ j, j ≠ (opt.res1_c_cid &&& k.UIP_ND6_RA_CID) →
        (uip_ds6_context_add env k s opt defrt_lifetime).1.uip_ds6_addr_context_table[j]?
          = s.uip_ds6_addr_context_table[j]?) := by
  constructor
  · intro hst
    simp only [uip_ds6_context_add, hslot, if_pos hst]
  · intro hst
    have hst2 : ¬ c0.state ≠ uip_ds6_context_state_t.NOT_IN_USE := fun h => h hst
    have hnew : (uip_ds6_context_add env k s opt defrt_lifetime).1.uip_ds6_addr_context_table[
          opt.res1_c_cid &&& k.UIP_ND6_RA_CID]?
        = some
            { c0 with
              length := opt.preflen,
              context_id := opt.res1_c_cid &&& k.UIP_ND6_RA_CID,
              prefix_ := opt.prefix_,
              state :=
                if opt.res1_c_cid &&& k.UIP_ND6_RA_FLAG_COMPRESSION ≠ 0 then
                  uip_ds6_context_state_t.IN_USE_COMPRESS
                else uip_ds6_context_state_t.IN_USE_UNCOMPRESS_ONLY,
              vlifetime := stimer_set env (k.uip_ntohs opt.lifetime),
              defrt_lifetime :=
                if defrt_lifetime < 0x7FFF then defrt_lifetime else 0x7FFF } := by
      simp only [uip_ds6_context_add, hslot, if_neg hst2, update_slot_getElem?_self,
        Option.map_some']
    refine ⟨?_, ?_, hnew, ?_⟩
    · simp only [uip_ds6_context_add, hslot, if_neg hst2]
    · unfold uip_ds6_context_lookup_by_id
      rw [hnew]
      simp only []
      split <;> simp
    · intro j hj
      simp only [uip_ds6_context_add, hslot, if_neg hst2]
      rw [update_slot_getElem?_ne _ _ (Ne.symm hj)]

/-- A use of C25 on `contexts_example`: the option `sample_6co` (context id 2, free)
is stored in slot 2 for compression with its lifetime of 10 s; the same option with
context id 1 (in use) is rejected. -/
theorem uip_ds6_context_add_spec_witness :
    ((uip_ds6_context_add sample_env sample_6co_conf contexts_example sample_6co 1800).2
        = some 2 ∧
      uip_ds6_context_lookup_by_id
        (uip_ds6_context_add sample_env sample_6co_conf contexts_example sample_6co 1800).1 2
        = some 2 ∧
      (uip_ds6_context_add sample_env sample_6co_conf contexts_example sample_6co
          1800).1.uip_ds6_addr_context_table[2]?
        = some
            { state := uip_ds6_context_state_t.IN_USE_COMPRESS, length := 48, context_id := 2,
              prefix_ := addr_2001_db8_1, vlifetime := { start := 100, interval := 10 },
              defrt := none, defrt_lifetime := 1800 }) ∧
    uip_ds6_context_add sample_env sample_6co_conf contexts_example
        { sample_6co with res1_c_cid := 0x11 } 1800 = (contexts_example, none) :=
  ⟨⟨((uip_ds6_context_add_spec sample_env sample_6co_conf contexts_example sample_6co 1800
        default (by decide)).2 (by decide)).1,
    ((uip_ds6_context_add_spec sample_env sample_6co_conf contexts_example sample_6co 1800
        default (by decide)).2 (by decide)).2.1,
    by decide⟩,
   (uip_ds6_context_add_spec sample_env sample_6co_conf contexts_example
      { sample_6co with res1_c_cid := 0x11 } 1800
      (sample_context uip_ds6_context_state_t.IN_USE_COMPRESS addr_2001_db8_1 48 1 90 600 1800)
      (by decide)).1 (by decide)⟩


/-! ## `uip_ds6_defrt_choose_min_reg` -/

theorem uip_ds6_reg_lookup_from_none (addr defrt : Option Nat) :
    ∀ (l : List uip_ds6_reg_t) (i : Nat),
      uip_ds6_reg_lookup_from addr defrt l i = none ↔
        ∀ R ∈ l, ¬ (R.isused = true ∧ R.addr = addr ∧ R.defrt = defrt) := by
  intro l
  induction l with
  | nil => intro i; simp [uip_ds6_reg_lookup_from]
  | cons e rest ih =>
    intro i
    by_cases hc : e.isused = true ∧ e.addr = addr ∧ e.defrt = defrt
    · have hc2 : (e.isused && decide (e.addr = addr) && decide (e.defrt = defrt)) = true := by
        simp [hc.1, hc.2.1, hc.2.2]
      simp only [uip_ds6_reg_lookup_from, hc2, if_true]
      constructor
      · intro h; cases h
      · intro h; exact absurd hc (h e (List.mem_cons_self _ _))
    · have hc2 : ¬ (e.isused && decide (e.addr = addr) && decide (e.defrt = defrt)) = true := by
        intro h
        simp only [Bool.and_eq_true, decide_eq_true_eq] at h
        exact hc ⟨h.1.1, h.1.2, h.2⟩
      simp only [uip_ds6_reg_lookup_from]
      rw [if_neg hc2, ih]
      constructor
      · intro h R hR
        rcases List.mem_cons.mp hR with rfl | hR'
        · exact hc
        · exact h R hR'
      · intro h R hR
        exact h R (List.mem_cons_of_mem _ hR)

/-- The lookup of a registration is null exactly when no in-use registration has the
address and the router. -/
theorem uip_ds6_reg_lookup_none (s : uip_ds6_state) (addr defrt : Option Nat) :
    uip_ds6_reg_lookup s addr defrt = none ↔
      ∀ R ∈ s.uip_ds6_reg_list, ¬ (R.isused = true ∧ R.addr = addr ∧ R.defrt = defrt) :=
  uip_ds6_reg_lookup_from_none addr defrt s.uip_ds6_reg_list 0

theorem uip_ds6_get_registrations_in_use (s : uip_ds6_state) (j : Nat) (X : uip_ds6_defrt_t)
    (hX : s.uip_ds6_defrt_list[j]? = some X) (hu : X.isused = true) :
    uip_ds6_get_registrations s (some j) = X.registrations := by
  simp [uip_ds6_get_registrations, hX, hu]

/-- The loop of `uip_ds6_defrt_choose_min_reg`, run on the slots from `i` on with a
running minimum that is right for the slots before `i`: a null result means that no
in-use router is without a registration of the address; any other result is an in-use
router without one whose counter is least among those. -/
theorem uip_ds6_defrt_choose_min_reg_from_spec (s : uip_ds6_state) (addr : Option Nat) :
    ∀ (l : List uip_ds6_defrt_t) (i min : Nat) (md : Option Nat),
      (∀ k, l[k]? = s.uip_ds6_defrt_list[i + k]?) →
      (∀ m, md = some m →
        (∃ X, s.uip_ds6_defrt_list[m]? = some X ∧ X.isused = true ∧ X.registrations = min) ∧
        uip_ds6_reg_lookup s addr (some m) = none ∧
        ∀ j Y, j < i → s.uip_ds6_defrt_list[j]? = some Y → Y.isused = true →
          uip_ds6_reg_lookup s addr (some j) = none → min ≤ Y.registrations) →
      (md = none → ∀ j Y, j < i → s.uip_ds6_defrt_list[j]? = some Y → Y.isused = true →
        uip_ds6_reg_lookup s addr (some j) ≠ none) →
      (uip_ds6_defrt_choose_min_reg_from s addr l i min md = none →
        ∀ j Y, s.uip_ds6_defrt_list[j]? = some Y → Y.isused = true →
          uip_ds6_reg_lookup s addr (some j) ≠ none) ∧
      (∀ r, uip_ds6_defrt_choose_min_reg_from s addr l i min md = some r →
        ∃ X, s.uip_ds6_defrt_list[r]? = some X ∧ X.isused = true ∧
          uip_ds6_reg_lookup s addr (some r) = none ∧
          ∀ j Y, s.uip_ds6_defrt_list[j]? = some Y → Y.isused = true →
            uip_ds6_reg_lookup s addr (some j) = none → X.registrations ≤ Y.registrations) := by
  intro l
  induction l with
  | nil =>
    intro i min md hl hinv hnone
    have hall : ∀ j Y, s.uip_ds6_defrt_list[j]? = some Y → j < i := by
      intro j Y hj
      by_contra hge
      have := hl (j - i)
      rw [show i + (j - i) = j by omega, hj] at this
      simp at this
    simp only [uip_ds6_defrt_choose_min_reg_from]
    constructor
    · intro hmd j Y hj hu
      exact hnone hmd j Y (hall j Y hj) hj hu
    · intro r hr
      obtain ⟨⟨X, hX, hXu, hXr⟩, hlook, hmin⟩ := hinv r hr
      refine ⟨X, hX, hXu, hlook, ?_⟩
      intro j Y hj hu hl'
      rw [hXr]
      exact hmin j Y (hall j Y hj) hj hu hl'
  | cons e rest ih =>
    intro i min md hl hinv hnone
    have he : s.uip_ds6_defrt_list[i]? = some e := by
      have := hl 0
      simpa using this.symm
    have hl' : ∀ k, rest[k]? = s.uip_ds6_defrt_list[i + 1 + k]? := by
      intro k
      have := hl (k + 1)
      rw [List.getElem?_cons_succ] at this
      rw [this]
      congr 1
      omega
    by_cases helig : e.isused = true ∧ uip_ds6_reg_lookup s addr (some i) = none
    · have hregs : uip_ds6_get_registrations s (some i) = e.registrations :=
        uip_ds6_get_registrations_in_use s i e he helig.1
      have hlk2 : (uip_ds6_reg_lookup s addr (some i)).isNone = true := by
        rw [helig.2]; rfl
      by_cases hcond : (md.isNone
          || (md.isSome && decide (uip_ds6_get_registrations s (some i) < min))) = true
      · by_cases hzero : uip_ds6_get_registrations s (some i) = 0
        · have hstep : uip_ds6_defrt_choose_min_reg_from s addr (e :: rest) i min md = some i := by
            simp only [uip_ds6_defrt_choose_min_reg_from]
            rw [if_pos helig.1, if_pos hlk2, if_pos hcond, if_pos hzero]
          rw [hstep]
          constructor
          · intro h; cases h
          · intro r hr
            cases hr
            refine ⟨e, he, helig.1, helig.2, ?_⟩
            intro j Y _ _ _
            rw [← hregs, hzero]
            exact Nat.zero_le _
        · have hstep : uip_ds6_defrt_choose_min_reg_from s addr (e :: rest) i min md
              = uip_ds6_defrt_choose_min_reg_from s addr rest (i + 1)
                  (uip_ds6_get_registrations s (some i)) (some i) := by
            simp only [uip_ds6_defrt_choose_min_reg_from]
            rw [if_pos helig.1, if_pos hlk2, if_pos hcond, if_neg hzero]
          rw [hstep]
          apply ih (i + 1) _ (some i) hl'
          · intro m hm
            cases hm
            refine ⟨⟨e, he, helig.1, hregs.symm⟩, helig.2, ?_⟩
            intro j Y hj hjY hu hlook
            rw [hregs]
            by_cases hji : j = i
            · subst hji
              rw [he] at hjY
              cases hjY
              exact Nat.le_refl _
            · have hlt : j < i := by omega
              cases hmd : md with
              | none => exact absurd hlook (hnone hmd j Y hlt hjY hu)
              | some m0 =>
                obtain ⟨_, _, hmin⟩ := hinv m0 hmd
                have h1 := hmin j Y hlt hjY hu hlook
                rw [hmd] at hcond
                simp only [Option.isNone_some, Option.isSome_some, Bool.true_and,
                  Bool.false_or, decide_eq_true_eq] at hcond
                rw [hregs] at hcond
                omega
          · intro h; cases h
      · have hstep : uip_ds6_defrt_choose_min_reg_from s addr (e :: rest) i min md
            = uip_ds6_defrt_choose_min_reg_from s addr rest (i + 1) min md := by
          simp only [uip_ds6_defrt_choose_min_reg_from]
          rw [if_pos helig.1, if_pos hlk2, if_neg hcond]
        rw [hstep]
        cases hmd : md with
        | none => rw [hmd] at hcond; simp at hcond
        | some m0 =>
          rw [hmd] at hcond hinv
          simp only [Option.isNone_some, Option.isSome_some, Bool.true_and,
            Bool.false_or, decide_eq_true_eq] at hcond
          rw [hregs] at hcond
          apply ih (i + 1) min (some m0) hl'
          · intro m hm
            obtain ⟨hX, hlook, hmin⟩ := hinv m hm
            refine ⟨hX, hlook, ?_⟩
            intro j Y hj hjY hu hlk
            by_cases hji : j = i
            · subst hji
              rw [he] at hjY
              cases hjY
              omega
            · exact hmin j Y (by omega) hjY hu hlk
          · intro h; cases h
    · have hstep : uip_ds6_defrt_choose_min_reg_from s addr (e :: rest) i min md
          = uip_ds6_defrt_choose_min_reg_from s addr rest (i + 1) min md := by
        simp only [uip_ds6_defrt_choose_min_reg_from]
        by_cases hu : e.isused = true
        · have hlk : uip_ds6_reg_lookup s addr (some i) ≠ none := fun h => helig ⟨hu, h⟩
          cases hv : uip_ds6_reg_lookup s addr (some i) with
          | none => exact absurd hv hlk
          | some v => simp [hu]
        · simp [hu]
      rw [hstep]
      apply ih (i + 1) min md hl'
      · intro m hm
        obtain ⟨hX, hlook, hmin⟩ := hinv m hm
        refine ⟨hX, hlook, ?_⟩
        intro j Y hj hjY hu hlk
        by_cases hji : j = i
        · subst hji
          rw [he] at hjY
          cases hjY
          exact absurd ⟨hu, hlk⟩ helig
        · exact hmin j Y (by omega) hjY hu hlk
      · intro hmd j Y hj hjY hu
        by_cases hji : j = i
        · subst hji
          rw [he] at hjY
          cases hjY
          exact fun h => helig ⟨hu, h⟩
        · exact hnone hmd j Y (by omega) hjY hu

/-- C21. `uip_ds6_defrt_choose_min_reg a` is null exactly when every in-use default
router already has an in-use registration of `a`; otherwise it returns an in-use router
without such a registration whose `registrations` counter is at most the counter of
every in-use router without a registration of `a`. -/
theorem uip_ds6_defrt_choose_min_reg_spec (s : uip_ds6_state) (a : Option Nat) :
    (uip_ds6_defrt_choose_min_reg s a = none ↔
      ∀ j X, s.uip_ds6_defrt_list[j]? = some X → X.isused = true →
        ∃ R ∈ s.uip_ds6_reg_list, R.isused = true ∧ R.addr = a ∧ R.defrt = some j) ∧
    (∀ r, uip_ds6_defrt_choose_min_reg s a = some r →
      ∃ X, s.uip_ds6_defrt_list[r]? = some X ∧ X.isused = true ∧
        (¬ ∃ R ∈ s.uip_ds6_reg_list, R.isused = true ∧ R.addr = a ∧ R.defrt = some r) ∧
        ∀ j Y, s.uip_ds6_defrt_list[j]? = some Y → Y.isused = true →
          (¬ ∃ R ∈ s.uip_ds6_reg_list, R.isused = true ∧ R.addr = a ∧ R.defrt = some j) →
          X.registrations ≤ Y.registrations) := by
  have hiff : ∀ j, uip_ds6_reg_lookup s a (some j) = none ↔
      ¬ ∃ R ∈ s.uip_ds6_reg_list, R.isused = true ∧ R.addr = a ∧ R.defrt = some j := by
    intro j
    rw [uip_ds6_reg_lookup_none]
    constructor
    · rintro h ⟨R, hR, hc⟩
      exact h R hR hc
    · intro h R hR hc
      exact h ⟨R, hR, hc⟩
  obtain ⟨h1, h2⟩ := uip_ds6_defrt_choose_min_reg_from_spec s a s.uip_ds6_defrt_list 0 0 none
    (fun k => by rw [Nat.zero_add]) (by intro m hm; cases hm)
    (fun _ j Y hj => absurd hj (Nat.not_lt_zero j))
  have h2' : ∀ r, uip_ds6_defrt_choose_min_reg s a = some r →
      ∃ X, s.uip_ds6_defrt_list[r]? = some X ∧ X.isused = true ∧
        (¬ ∃ R ∈ s.uip_ds6_reg_list, R.isused = true ∧ R.addr = a ∧ R.defrt = some r) ∧
        ∀ j Y, s.uip_ds6_defrt_list[j]? = some Y → Y.isused = true →
          (¬ ∃ R ∈ s.uip_ds6_reg_list, R.isused = true ∧ R.addr = a ∧ R.defrt = some j) →
          X.registrations ≤ Y.registrations := by
    intro r hr
    obtain ⟨X, hX, hu, hlk, hmin⟩ := h2 r hr
    exact ⟨X, hX, hu, (hiff r).mp hlk, fun j Y hj hYu hno => hmin j Y hj hYu ((hiff j).mpr hno)⟩
  refine ⟨⟨?_, ?_⟩, h2'⟩
  · intro hnone j X hj hu
    by_contra hno
    exact h1 hnone j X hj hu ((hiff j).mpr hno)
  · intro hall
    cases hres : uip_ds6_defrt_choose_min_reg s a with
    | none => rfl
    | some r =>
      obtain ⟨X, hX, hu, hno, _⟩ := h2' r hres
      exact absurd (hall r X hX hu) hno

/-- A use of C21 on `min_reg_example`: for address 1 (registered with routers 0 and 1)
router 2 is returned; for address 0 (registered with none) router 1, the first of the
two routers with the least counter; and with a single router that already has a
registration of address 1 the result is null. -/
theorem uip_ds6_defrt_choose_min_reg_spec_witness :
    uip_ds6_defrt_choose_min_reg min_reg_example (some 1) = some 2 ∧
    uip_ds6_defrt_choose_min_reg min_reg_example (some 0) = some 1 ∧
    (∃ X, min_reg_example.uip_ds6_defrt_list[1]? = some X ∧ X.isused = true ∧
      (¬ ∃ R ∈ min_reg_example.uip_ds6_reg_list,
        R.isused = true ∧ R.addr = some 0 ∧ R.defrt = some 1) ∧
      ∀ j Y, min_reg_example.uip_ds6_defrt_list[j]? = some Y → Y.isused = true →
        (¬ ∃ R ∈ min_reg_example.uip_ds6_reg_list,
          R.isused = true ∧ R.addr = some 0 ∧ R.defrt = some j) →
        X.registrations ≤ Y.registrations) ∧
    uip_ds6_defrt_choose_min_reg router_expiry_example (some 1) = some 1 ∧
    uip_ds6_defrt_choose_min_reg
      { router_expiry_example with
        uip_ds6_defrt_list := [ sample_defrt addr_fe80_a 90 1800 1, default ] } (some 1)
      = none :=
  ⟨by decide, by decide,
   (uip_ds6_defrt_choose_min_reg_spec min_reg_example (some 0)).2 1 (by decide),
   by decide,
   by decide⟩


/-! ## Source address selection -/

theorem uip_ds6_select_src_from_spec (d : uip_ipaddr_t) :
    ∀ (l : List uip_ds6_addr_t) (i best : Nat) (ma : Option Nat),
      (uip_ds6_select_src_from d l i best ma = ma ∧
        ∀ e ∈ l, e.isused = true → e.state = ADDR_PREFERRED →
          uip_is_addr_link_local e.ipaddr = false → get_match_length d e.ipaddr < best) ∨
      ∃ m e, uip_ds6_select_src_from d l i best ma = some (i + m) ∧ l[m]? = some e ∧
        e.isused = true ∧ e.state = ADDR_PREFERRED ∧
        uip_is_addr_link_local e.ipaddr = false ∧ best ≤ get_match_length d e.ipaddr ∧
        ∀ b ∈ l, b.isused = true → b.state = ADDR_PREFERRED →
          uip_is_addr_link_local b.ipaddr = false →
          get_match_length d b.ipaddr ≤ get_match_length d e.ipaddr := by
  intro l
  induction l with
  | nil =>
    intro i best ma
    left
    exact ⟨rfl, fun e he => absurd he (List.not_mem_nil e)⟩
  | cons x rest ih =>
    intro i best ma
    by_cases hc : x.isused = true ∧ x.state = ADDR_PREFERRED ∧
        uip_is_addr_link_local x.ipaddr = false
    · have hc2 : (x.isused && decide (x.state = ADDR_PREFERRED)
          && !uip_is_addr_link_local x.ipaddr) = true := by
        simp [hc.1, hc.2.1, hc.2.2]
      by_cases hb : get_match_length d x.ipaddr ≥ best
      · have hstep : uip_ds6_select_src_from d (x :: rest) i best ma
            = uip_ds6_select_src_from d rest (i + 1) (get_match_length d x.ipaddr) (some i) := by
          simp only [uip_ds6_select_src_from]
          rw [if_pos hc2, if_pos hb]
        rw [hstep]
        right
        rcases ih (i + 1) (get_match_length d x.ipaddr) (some i) with ⟨hr, hlt⟩ |
          ⟨m, e, hr, hm, hu, hs, hl, hge, hmax⟩
        · refine ⟨0, x, by rw [hr]; rfl, List.getElem?_cons_zero, hc.1, hc.2.1, hc.2.2, hb, ?_⟩
          intro b hbm hbu hbs hbl
          rcases List.mem_cons.mp hbm with rfl | hb'
          · exact Nat.le_refl _
          · exact Nat.le_of_lt (hlt b hb' hbu hbs hbl)
        · refine ⟨m + 1, e, by rw [hr]; congr 1; omega, by simpa using hm, hu, hs, hl,
            Nat.le_trans hb hge, ?_⟩
          intro b hbm hbu hbs hbl
          rcases List.mem_cons.mp hbm with rfl | hb'
          · exact hge
          · exact hmax b hb' hbu hbs hbl
      · have hstep : uip_ds6_select_src_from d (x :: rest) i best ma
            = uip_ds6_select_src_from d rest (i + 1) best ma := by
          simp only [uip_ds6_select_src_from]
          rw [if_pos hc2, if_neg hb]
        rw [hstep]
        rcases ih (i + 1) best ma with ⟨hr, hlt⟩ | ⟨m, e, hr, hm, hu, hs, hl, hge, hmax⟩
        · left
          refine ⟨hr, ?_⟩
          intro b hbm hbu hbs hbl
          rcases List.mem_cons.mp hbm with rfl | hb'
          · exact Nat.lt_of_not_le hb
          · exact hlt b hb' hbu hbs hbl
        · right
          refine ⟨m + 1, e, by rw [hr]; congr 1; omega, by simpa using hm, hu, hs, hl, hge, ?_⟩
          intro b hbm hbu hbs hbl
          rcases List.mem_cons.mp hbm with rfl | hb'
          · exact Nat.le_trans (Nat.le_of_lt (Nat.lt_of_not_le hb)) hge
          · exact hmax b hb' hbu hbs hbl
    · have hc2 : ¬ (x.isused && decide (x.state = ADDR_PREFERRED)
          && !uip_is_addr_link_local x.ipaddr) = true := by
        intro h
        simp only [Bool.and_eq_true, decide_eq_true_eq, Bool.not_eq_true'] at h
        exact hc ⟨h.1.1, h.1.2, h.2⟩
      have hstep : uip_ds6_select_src_from d (x :: rest) i best ma
          = uip_ds6_select_src_from d rest (i + 1) best ma := by
        simp only [uip_ds6_select_src_from]
        rw [if_neg hc2]
      rw [hstep]
      rcases ih (i + 1) best ma with ⟨hr, hlt⟩ | ⟨m, e, hr, hm, hu, hs, hl, hge, hmax⟩
      · left
        refine ⟨hr, ?_⟩
        intro b hbm hbu hbs hbl
        rcases List.mem_cons.mp hbm with rfl | hb'
        · exact absurd ⟨hbu, hbs, hbl⟩ hc
        · exact hlt b hb' hbu hbs hbl
      · right
        refine ⟨m + 1, e, by rw [hr]; congr 1; omega, by simpa using hm, hu, hs, hl, hge, ?_⟩
        intro b hbm hbu hbs hbl
        rcases List.mem_cons.mp hbm with rfl | hb'
        · exact absurd ⟨hbu, hbs, hbl⟩ hc
        · exact hmax b hb' hbu hbs hbl

/-- C26. For a destination `d` that is neither link-local nor multicast,
`uip_ds6_select_src` writes the unspecified address `::` when no in-use unicast address
is PREFERRED and not link-local; otherwise it writes the address of an in-use,
PREFERRED, non-link-local entry `a` with
`get_match_length d b ≤ get_match_length d a` for every in-use, PREFERRED,
non-link-local entry `b`. -/
theorem uip_ds6_select_src_longest (s : uip_ds6_state) (d : uip_ipaddr_t)
    (hll : uip_is_addr_link_local d = false) (hmc : uip_is_addr_mcast d = false) :
    ((¬ ∃ e ∈ s.uip_ds6_if.addr_list, e.isused = true ∧ e.state = ADDR_PREFERRED ∧
        uip_is_addr_link_local e.ipaddr = false) →
      uip_ds6_select_src s d = uip_ipaddr_zero) ∧
    ((∃ e ∈ s.uip_ds6_if.addr_list, e.isused = true ∧ e.state = ADDR_PREFERRED ∧
        uip_is_addr_link_local e.ipaddr = false) →
      ∃ a ∈ s.uip_ds6_if.addr_list, a.isused = true ∧ a.state = ADDR_PREFERRED ∧
        uip_is_addr_link_local a.ipaddr = false ∧ uip_ds6_select_src s d = a.ipaddr ∧
        ∀ b ∈ s.uip_ds6_if.addr_list, b.isused = true → b.state = ADDR_PREFERRED →
          uip_is_addr_link_local b.ipaddr = false →
          get_match_length d b.ipaddr ≤ get_match_length d a.ipaddr) := by
  have hsel : uip_ds6_select_src s d =
      match (uip_ds6_select_src_from d s.uip_ds6_if.addr_list 0 0 none).bind
        (fun a => s.uip_ds6_if.addr_list[a]?) with
      | none => uip_ipaddr_zero
      | some e => e.ipaddr := by
    simp [uip_ds6_select_src, hll, hmc]
  rcases uip_ds6_select_src_from_spec d s.uip_ds6_if.addr_list 0 0 none with ⟨hr, hlt⟩ |
    ⟨m, e, hr, hm, hu, hs, hl, _, hmax⟩
  · constructor
    · intro _
      rw [hsel, hr]
      rfl
    · rintro ⟨e, he, hu, hs, hl⟩
      exact absurd (hlt e he hu hs hl) (Nat.not_lt_zero _)
  · constructor
    · intro hno
      exact absurd ⟨e, List.getElem?_mem hm, hu, hs, hl⟩ hno
    · intro _
      refine ⟨e, List.getElem?_mem hm, hu, hs, hl, ?_, hmax⟩
      rw [hsel, hr]
      simp [hm]

set_option maxRecDepth 100000 in
/-- A use of C26: with the link-local address, `2001:db8:1::42` and `2001:db8::1` all
PREFERRED, the source chosen for the destination `2001:db8:1::` is `2001:db8:1::42`
(121 leading bits in common against 47); with no unicast address at all it is `::`. -/
theorem uip_ds6_select_src_longest_witness :
    uip_is_addr_link_local addr_2001_db8_1 = false ∧
    uip_is_addr_mcast addr_2001_db8_1 = false ∧
    (∃ a ∈ reg_full_example.uip_ds6_if.addr_list, a.isused = true ∧
      a.state = ADDR_PREFERRED ∧ uip_is_addr_link_local a.ipaddr = false ∧
      uip_ds6_select_src reg_full_example addr_2001_db8_1 = a.ipaddr ∧
      ∀ b ∈ reg_full_example.uip_ds6_if.addr_list, b.isused = true →
        b.state = ADDR_PREFERRED → uip_is_addr_link_local b.ipaddr = false →
        get_match_length addr_2001_db8_1 b.ipaddr ≤ get_match_length addr_2001_db8_1 a.ipaddr) ∧
    uip_ds6_select_src reg_full_example addr_2001_db8_1 = addr_2001_db8_1_42 ∧
    get_match_length addr_2001_db8_1 addr_2001_db8_1_42 = 121 ∧
    get_match_length addr_2001_db8_1 addr_2001_db8_0_1 = 47 ∧
    uip_ds6_select_src empty_state addr_2001_db8_1 = uip_ipaddr_zero :=
  ⟨by decide, by decide,
   (uip_ds6_select_src_longest reg_full_example addr_2001_db8_1 (by decide) (by decide)).2
     (by decide),
   by decide, by decide, by decide,
   (uip_ds6_select_src_longest empty_state addr_2001_db8_1 (by decide) (by decide)).1
     (by decide)⟩


/-! ## The periodic processing of the contexts -/

@[simp]
theorem uip_ds6_send_rs_multicast_context_table (env : Env) (s : uip_ds6_state) :
    (uip_ds6_send_rs_multicast env s).uip_ds6_addr_context_table
      = s.uip_ds6_addr_context_table := rfl

@[simp]
theorem uip_ds6_send_rs_unicast_context_table (env : Env) (s : uip_ds6_state) (d : Nat) :
    (uip_ds6_send_rs_unicast env s d).uip_ds6_addr_context_table
      = s.uip_ds6_addr_context_table := by
  unfold uip_ds6_send_rs_unicast
  split
  · split <;> rfl
  · rfl

@[simp]
theorem uip_ds6_send_rs_context_table (env : Env) (s : uip_ds6_state) (defrt : Option Nat) :
    (uip_ds6_send_rs env s defrt).uip_ds6_addr_context_table
      = s.uip_ds6_addr_context_table := by
  unfold uip_ds6_send_rs
  split
  · rfl
  · split
    · simp
    · split <;> simp

@[simp]
theorem uip_ds6_reg_cleanup_defrt_context_table (s : uip_ds6_state) (defrt : Option Nat) :
    (uip_ds6_reg_cleanup_defrt s defrt).uip_ds6_addr_context_table
      = s.uip_ds6_addr_context_table :=
  uip_ds6_reg_cleanup_defrt_frame (fun s => s.uip_ds6_addr_context_table) (by simp) s defrt

@[simp]
theorem uip_ds6_periodic_reg_nud_context_table (env : Env) (s : uip_ds6_state) (i : Nat)
    (locreg : uip_ds6_reg_t) :
    (uip_ds6_periodic_reg_nud env s i locreg).uip_ds6_addr_context_table
      = s.uip_ds6_addr_context_table := by
  simp [uip_ds6_periodic_reg_nud]

theorem uip_ds6_periodic_reg_context_table (env : Env) (v : periodic_vars) (i : Nat) :
    (uip_ds6_periodic_reg env v i).st.uip_ds6_addr_context_table
      = v.st.uip_ds6_addr_context_table := by
  unfold uip_ds6_periodic_reg
  repeat' split
  all_goals first | rfl | simp

theorem uip_ds6_periodic_addr_context_table (env : Env) (v : periodic_vars) (i : Nat) :
    (uip_ds6_periodic_addr env v i).st.uip_ds6_addr_context_table
      = v.st.uip_ds6_addr_context_table := by
  unfold uip_ds6_periodic_addr
  repeat' split
  all_goals rfl

theorem uip_ds6_periodic_defrt_context_table (env : Env) (v : periodic_vars) (i : Nat) :
    (uip_ds6_periodic_defrt env v i).st.uip_ds6_addr_context_table
      = v.st.uip_ds6_addr_context_table := by
  unfold uip_ds6_periodic_defrt
  repeat' split
  all_goals rfl

/-- A counted loop whose body leaves the context table alone leaves it alone. -/
theorem for_loop_context_table (body : periodic_vars → Nat → periodic_vars)
    (hbody : ∀ v i, (body v i).st.uip_ds6_addr_context_table
      = v.st.uip_ds6_addr_context_table) (n : Nat) (v : periodic_vars) :
    (for_loop body n v).st.uip_ds6_addr_context_table = v.st.uip_ds6_addr_context_table := by
  induction n with
  | zero => rfl
  | succ k ih => rw [for_loop_succ, hbody, ih]

theorem uip_ds6_periodic_defrts_context_table (env : Env) (v : periodic_vars) :
    (uip_ds6_periodic_defrts env v).st.uip_ds6_addr_context_table
      = v.st.uip_ds6_addr_context_table := by
  unfold uip_ds6_periodic_defrts
  split
  · split
    · simp
    · rfl
  · exact for_loop_context_table _ (uip_ds6_periodic_defrt_context_table env) _ _

theorem uip_ds6_periodic_prefixes_context_table (env : Env) (v : periodic_vars) (i : Nat) :
    (uip_ds6_periodic_prefixes env v i).st.uip_ds6_addr_context_table
      = v.st.uip_ds6_addr_context_table := by
  unfold uip_ds6_periodic_prefixes
  repeat' split
  all_goals rfl

theorem uip_ds6_periodic_rs_context_table (env : Env) (v : periodic_vars) :
    (uip_ds6_periodic_rs env v).st.uip_ds6_addr_context_table
      = v.st.uip_ds6_addr_context_table := by
  unfold uip_ds6_periodic_rs
  split
  · simp
  · rfl

theorem uip_ds6_periodic_nbr_context_table (env : Env) (v : periodic_vars) (i : Nat) :
    (uip_ds6_periodic_nbr env v i).st.uip_ds6_addr_context_table
      = v.st.uip_ds6_addr_context_table := by
  unfold uip_ds6_periodic_nbr
  repeat' split
  all_goals first | rfl | (simp; done) | (simp only [uip_ds6_nbr_rm_context_table]; split <;> simp)

/-- The context table after a tick is the table after the loop over the contexts, and
that loop starts from the table the tick was entered with. -/
theorem uip_ds6_periodic_context_table (env : Env) (s : uip_ds6_state) :
    ∃ v : periodic_vars, v.st.uip_ds6_addr_context_table = s.uip_ds6_addr_context_table ∧
      (uip_ds6_periodic env s).uip_ds6_addr_context_table
        = (for_loop (uip_ds6_periodic_context env) s.uip_ds6_addr_context_table.length
            v).st.uip_ds6_addr_context_table := by
  have h1 : (uip_ds6_periodic_regs env s).st.uip_ds6_addr_context_table
      = s.uip_ds6_addr_context_table :=
    for_loop_context_table _ (uip_ds6_periodic_reg_context_table env) _ _
  have h4 : (for_loop (uip_ds6_periodic_prefixes env)
      (uip_ds6_periodic_defrts env (for_loop (uip_ds6_periodic_addr env)
        (uip_ds6_periodic_regs env s).st.uip_ds6_if.addr_list.length
        (uip_ds6_periodic_regs env s))).st.uip_ds6_prefix_list.length
      (uip_ds6_periodic_defrts env (for_loop (uip_ds6_periodic_addr env)
        (uip_ds6_periodic_regs env s).st.uip_ds6_if.addr_list.length
        (uip_ds6_periodic_regs env s)))).st.uip_ds6_addr_context_table
      = s.uip_ds6_addr_context_table := by
    rw [for_loop_context_table _ (uip_ds6_periodic_prefixes_context_table env),
      uip_ds6_periodic_defrts_context_table,
      for_loop_context_table _ (uip_ds6_periodic_addr_context_table env), h1]
  refine ⟨_, h4, ?_⟩
  unfold uip_ds6_periodic uip_ds6_periodic_rest
  simp only []
  rw [for_loop_context_table _ (uip_ds6_periodic_nbr_context_table env),
    uip_ds6_periodic_rs_context_table, h4]

theorem uip_ds6_periodic_context_length (env : Env) (v : periodic_vars) (i : Nat) :
    (uip_ds6_periodic_context env v i).st.uip_ds6_addr_context_table.length
      = v.st.uip_ds6_addr_context_table.length := by
  unfold uip_ds6_periodic_context uip_ds6_context_rm
  repeat' split
  all_goals first | rfl | simp [update_slot_length]

/-- The body of the loop over the contexts, run for slot `i`, leaves every other slot
alone. -/
theorem uip_ds6_periodic_context_ne (env : Env) (v : periodic_vars) {i j : Nat}
    (h : i ≠ j) :
    (uip_ds6_periodic_context env v i).st.uip_ds6_addr_context_table[j]?
      = v.st.uip_ds6_addr_context_table[j]? := by
  unfold uip_ds6_periodic_context uip_ds6_context_rm
  repeat' split
  all_goals first | rfl | simp [update_slot_getElem?_ne _ _ h]

/-- The body of the loop over the contexts, run for the slot `i` of a context that is
in use, not `EXPIRED`, and whose valid lifetime has expired. -/
theorem uip_ds6_periodic_context_self (env : Env) (v : periodic_vars) (i : Nat)
    (c : uip_ds6_addr_context_t) (hi : v.st.uip_ds6_addr_context_table[i]? = some c)
    (h1 : c.state ≠ uip_ds6_context_state_t.NOT_IN_USE)
    (h2 : c.state ≠ uip_ds6_context_state_t.EXPIRED)
    (hexp : stimer_expired env c.vlifetime = true) :
    (uip_ds6_periodic_context env v i).st.uip_ds6_addr_context_table[i]?
      = some { c with state := uip_ds6_context_state_t.IN_USE_UNCOMPRESS_ONLY,
                      vlifetime := stimer_set env (2 * c.defrt_lifetime) } := by
  unfold uip_ds6_periodic_context
  rw [hi]
  simp only []
  rw [if_pos h1, if_pos hexp, if_pos h2]
  simp only []
  rw [update_slot_getElem?_self, hi]
  rfl

theorem uip_ds6_periodic_context_loop_below (env : Env) (v : periodic_vars) (j : Nat) :
    ∀ k, k ≤ j →
      (for_loop (uip_ds6_periodic_context env) k v).st.uip_ds6_addr_context_table[j]?
        = v.st.uip_ds6_addr_context_table[j]? := by
  intro k
  induction k with
  | zero => intro _; rfl
  | succ k ih =>
    intro hk
    rw [for_loop_succ, uip_ds6_periodic_context_ne env _ (by omega), ih (by omega)]

theorem uip_ds6_periodic_context_loop_above (env : Env) (v : periodic_vars) (j : Nat) :
    ∀ k, j < k →
      (for_loop (uip_ds6_periodic_context env) k v).st.uip_ds6_addr_context_table[j]?
        = (uip_ds6_periodic_context env (for_loop (uip_ds6_periodic_context env) j v)
            j).st.uip_ds6_addr_context_table[j]? := by
  intro k
  induction k with
  | zero => intro h; exact absurd h (Nat.not_lt_zero _)
  | succ k ih =>
    intro hk
    rw [for_loop_succ]
    by_cases hjk : j = k
    · subst hjk; rfl
    · rw [uip_ds6_periodic_context_ne env _ (fun h => hjk h.symm), ih (by omega)]

/-- The body of the loop over the contexts never frees a slot whose context is in use
and not `EXPIRED`, and never makes it `EXPIRED`. -/
theorem uip_ds6_periodic_context_keeps (env : Env) (v : periodic_vars) (i j : Nat)
    (h : ∃ c, v.st.uip_ds6_addr_context_table[j]? = some c ∧
      c.state ≠ uip_ds6_context_state_t.NOT_IN_USE ∧
      c.state ≠ uip_ds6_context_state_t.EXPIRED) :
    ∃ c, (uip_ds6_periodic_context env v i).st.uip_ds6_addr_context_table[j]? = some c ∧
      c.state ≠ uip_ds6_context_state_t.NOT_IN_USE ∧
      c.state ≠ uip_ds6_context_state_t.EXPIRED := by
  obtain ⟨c, hj, h1, h2⟩ := h
  by_cases hij : i = j
  · subst hij
    by_cases hexp : stimer_expired env c.vlifetime = true
    · refine ⟨_, uip_ds6_periodic_context_self env v i c hj h1 h2 hexp, ?_, ?_⟩ <;>
        intro hc <;> cases hc
    · refine ⟨c, ?_, h1, h2⟩
      unfold uip_ds6_periodic_context
      rw [hj]
      simp only []
      rw [if_pos h1, if_neg hexp]
      repeat' split
      all_goals exact hj
  · exact ⟨c, by rw [uip_ds6_periodic_context_ne env v hij]; exact hj, h1, h2⟩

/-- No tick frees the slot of a context that is in use and not `EXPIRED`, and no tick
makes it `EXPIRED`: the removal branch of the loop over the contexts is never taken
for it, in this tick or in any later one. -/
theorem uip_ds6_periodic_context_never_freed (env : Env) (s : uip_ds6_state) (j : Nat)
    (h : ∃ c, s.uip_ds6_addr_context_table[j]? = some c ∧
      c.state ≠ uip_ds6_context_state_t.NOT_IN_USE ∧
      c.state ≠ uip_ds6_context_state_t.EXPIRED) :
    ∃ c, (uip_ds6_periodic env s).uip_ds6_addr_context_table[j]? = some c ∧
      c.state ≠ uip_ds6_context_state_t.NOT_IN_USE ∧
      c.state ≠ uip_ds6_context_state_t.EXPIRED := by
  obtain ⟨v, hv, hp⟩ := uip_ds6_periodic_context_table env s
  rw [hp]
  exact for_loop_invariant
    (fun w => ∃ c, w.st.uip_ds6_addr_context_table[j]? = some c ∧
      c.state ≠ uip_ds6_context_state_t.NOT_IN_USE ∧
      c.state ≠ uip_ds6_context_state_t.EXPIRED)
    _ (fun w i hw => uip_ds6_periodic_context_keeps env w i j hw) _ v (by
      show ∃ c, v.st.uip_ds6_addr_context_table[j]? = some c ∧ _
      rw [hv]
      exact h)

/-- The effect of a tick on the slot `j` of a context that is in use, not `EXPIRED`,
and whose valid lifetime has expired. -/
theorem uip_ds6_periodic_context_expiry (env : Env) (s : uip_ds6_state) (j : Nat)
    (c : uip_ds6_addr_context_t) (hj : s.uip_ds6_addr_context_table[j]? = some c)
    (h1 : c.state ≠ uip_ds6_context_state_t.NOT_IN_USE)
    (h2 : c.state ≠ uip_ds6_context_state_t.EXPIRED)
    (hexp : stimer_expired env c.vlifetime = true) :
    (uip_ds6_periodic env s).uip_ds6_addr_context_table[j]?
      = some { c with state := uip_ds6_context_state_t.IN_USE_UNCOMPRESS_ONLY,
                      vlifetime := { start := env.clock_seconds,
                                     interval := 2 * c.defrt_lifetime } } := by
  obtain ⟨v, hv, hp⟩ := uip_ds6_periodic_context_table env s
  have hlt : j < s.uip_ds6_addr_context_table.length := by
    rcases Nat.lt_or_ge j s.uip_ds6_addr_context_table.length with h | h
    · exact h
    · rw [List.getElem?_eq_none h] at hj
      cases hj
  rw [hp, uip_ds6_periodic_context_loop_above env v j _ hlt,
    uip_ds6_periodic_context_self env _ j c
      (by rw [uip_ds6_periodic_context_loop_below env v j j (Nat.le_refl j), hv]; exact hj)
      h1 h2 hexp]
  rfl

/-- C22. Context first expiry: when `uip_ds6_periodic` runs with the context of slot `j`
in state `IN_USE_COMPRESS` or `IN_USE_UNCOMPRESS_ONLY` and its valid-lifetime timer
expired, then after the tick the context is in state `IN_USE_UNCOMPRESS_ONLY` and its
valid-lifetime timer is armed at the current second for `2 * defrt_lifetime` seconds;
its other fields are as before. -/
theorem uip_ds6_periodic_context_first_expiry (env : Env) (s : uip_ds6_state) (j : Nat)
    (c : uip_ds6_addr_context_t) (hj : s.uip_ds6_addr_context_table[j]? = some c)
    (hst : c.state = uip_ds6_context_state_t.IN_USE_COMPRESS ∨
      c.state = uip_ds6_context_state_t.IN_USE_UNCOMPRESS_ONLY)
    (hexp : stimer_expired env c.vlifetime = true) :
    (uip_ds6_periodic env s).uip_ds6_addr_context_table[j]?
      = some { c with state := uip_ds6_context_state_t.IN_USE_UNCOMPRESS_ONLY,
                      vlifetime := { start := env.clock_seconds,
                                     interval := 2 * c.defrt_lifetime } } := by
  have h1 : c.state ≠ uip_ds6_context_state_t.NOT_IN_USE := by
    rcases hst with h | h <;> rw [h] <;> intro hc <;> cases hc
  have h2 : c.state ≠ uip_ds6_context_state_t.EXPIRED := by
    rcases hst with h | h <;> rw [h] <;> intro hc <;> cases hc
  exact uip_ds6_periodic_context_expiry env s j c hj h1 h2 hexp

/-- A use of C22: a context installed at second 0 with a valid lifetime of 10 s and a
router lifetime of 30 s is, after the tick at second 10, in state
`IN_USE_UNCOMPRESS_ONLY` with its valid lifetime armed at second 10 for 60 s. -/
theorem uip_ds6_periodic_context_first_expiry_witness :
    context_installed_example.uip_ds6_addr_context_table[2]?
      = some { state := uip_ds6_context_state_t.IN_USE_COMPRESS, length := 48,
               context_id := 2, prefix_ := addr_2001_db8_1,
               vlifetime := { start := 0, interval := 10 }, defrt := none,
               defrt_lifetime := 30 } ∧
    stimer_expired (env_at 9) { start := 0, interval := 10 } = false ∧
    stimer_expired (env_at 10) { start := 0, interval := 10 } = true ∧
    (uip_ds6_periodic (env_at 10) context_installed_example).uip_ds6_addr_context_table[2]?
      = some { state := uip_ds6_context_state_t.IN_USE_UNCOMPRESS_ONLY, length := 48,
               context_id := 2, prefix_ := addr_2001_db8_1,
               vlifetime := { start := 10, interval := 60 }, defrt := none,
               defrt_lifetime := 30 } :=
  ⟨by decide, by decide, by decide,
   uip_ds6_periodic_context_first_expiry (env_at 10) context_installed_example 2
     { state := uip_ds6_context_state_t.IN_USE_COMPRESS, length := 48,
       context_id := 2, prefix_ := addr_2001_db8_1,
       vlifetime := { start := 0, interval := 10 }, defrt := none,
       defrt_lifetime := 30 } (by decide) (Or.inl rfl) (by decide)⟩

set_option maxRecDepth 100000 in
/-- C23 on the code. A context installed at second 0 with a valid lifetime of 10 s and a
router lifetime of 30 s, never refreshed: the tick at second 10 finds the valid
lifetime expired and re-arms it for 60 s; the tick at second 70 finds the re-armed
timer expired, and after it the slot is not `NOT_IN_USE` but again
`IN_USE_UNCOMPRESS_ONLY`, re-armed at second 70 for 60 s; and so after the tick at
second 130. -/
theorem uip_ds6_periodic_context_second_expiry_stays :
    (uip_ds6_context_add (env_at 0) sample_6co_conf context_install_example sample_6co 30).2
      = some 2 ∧
    (context_installed_example.uip_ds6_addr_context_table[2]?).map
        (fun c => (c.state, c.vlifetime))
      = some (uip_ds6_context_state_t.IN_USE_COMPRESS, { start := 0, interval := 10 }) ∧
    stimer_expired (env_at 10) { start := 0, interval := 10 } = true ∧
    ((uip_ds6_periodic (env_at 10)
        context_installed_example).uip_ds6_addr_context_table[2]?).map
        (fun c => (c.state, c.vlifetime))
      = some (uip_ds6_context_state_t.IN_USE_UNCOMPRESS_ONLY, { start := 10, interval := 60 }) ∧
    stimer_expired (env_at 70) { start := 10, interval := 60 } = true ∧
    ((uip_ds6_periodic (env_at 70) (uip_ds6_periodic (env_at 10)
        context_installed_example)).uip_ds6_addr_context_table[2]?).map
        (fun c => (c.state, c.vlifetime))
      = some (uip_ds6_context_state_t.IN_USE_UNCOMPRESS_ONLY, { start := 70, interval := 60 }) ∧
    ((uip_ds6_periodic (env_at 130) (uip_ds6_periodic (env_at 70) (uip_ds6_periodic (env_at 10)
        context_installed_example))).uip_ds6_addr_context_table[2]?).map
        (fun c => (c.state, c.vlifetime))
      = some (uip_ds6_context_state_t.IN_USE_UNCOMPRESS_ONLY,
          { start := 130, interval := 60 }) := by
  decide


/-! ## Initialisation -/

/-- The scan of a zeroed table of `n + 1` slots reports the last slot as free. -/
theorem uip_ds6_list_loop_replicate {α : Type} (isused : α → Bool)
    (ipaddr : α → uip_ipaddr_t) (d : α) (hd : isused d = false) (n : Nat)
    (target : uip_ipaddr_t) (len : Nat) :
    uip_ds6_list_loop isused ipaddr (List.replicate (n + 1) d) target len
      = (FREESPACE, some n) := by
  obtain ⟨k, e, hr, hk, _, hlater⟩ := uip_ds6_list_loop_freespace_of isused ipaddr
    (List.replicate (n + 1) d) target len
    ⟨d, by simp, hd⟩
    (by
      intro e he hu
      rw [List.eq_of_mem_replicate he, hd] at hu
      cases hu)
  have hkn : k = n := by
    have hlt : k < n + 1 := by
      rcases Nat.lt_or_ge k (n + 1) with h | h
      · exact h
      · rw [List.getElem?_eq_none (by simpa using h)] at hk
        cases hk
    by_contra hne
    have hn : (List.replicate (n + 1) d)[n]? = some d := by
      rw [List.getElem?_replicate]
      simp
    have := hlater n d (by omega) hn
    rw [hd] at this
    cases this
  rw [hr, hkn]

theorem update_slot_replicate_getElem? {α : Type} (d : α) (n j : Nat) (f : α → α) :
    (update_slot (List.replicate (n + 1) d) n f)[j]?
      = if j = n then some (f d) else if j < n then some d else none := by
  rw [update_slot_getElem?, List.getElem?_replicate]
  by_cases hj : j = n
  · subst hj
    simp
  · rw [if_neg (fun h => hj h.symm), if_neg hj]
    by_cases hlt : j < n
    · rw [if_pos (by omega), if_pos hlt]
    · rw [if_neg (by omega), if_neg hlt]

/-- What `uip_ds6_prefix_add` changes is the prefix list. -/
theorem uip_ds6_prefix_add_frame (env : Env) (s : uip_ds6_state) (a : uip_ipaddr_t)
    (l i : Nat) :
    ∃ pl, uip_ds6_prefix_add env s a l i = { s with uip_ds6_prefix_list := pl } := by
  unfold uip_ds6_prefix_add
  simp only []
  by_cases hc : (uip_ds6_list_loop (fun (e : uip_ds6_prefix_t) => e.isused)
      (fun e => e.ipaddr) s.uip_ds6_prefix_list a l).1 = FREESPACE
  · rw [if_pos hc]
    cases (uip_ds6_list_loop (fun (e : uip_ds6_prefix_t) => e.isused)
      (fun e => e.ipaddr) s.uip_ds6_prefix_list a l).2 with
    | none => exact ⟨s.uip_ds6_prefix_list, rfl⟩
    | some p => exact ⟨_, rfl⟩
  · rw [if_neg hc]
    exact ⟨s.uip_ds6_prefix_list, rfl⟩

/-- What `uip_ds6_addr_add` changes is the list of unicast addresses. -/
theorem uip_ds6_addr_add_frame (env : Env) (s : uip_ds6_state) (x : uip_ipaddr_t)
    (v t : Nat) :
    ∃ l, (uip_ds6_addr_add env s x v t).1
      = { s with uip_ds6_if := { s.uip_ds6_if with addr_list := l } } := by
  unfold uip_ds6_addr_add
  simp only []
  split
  · split
    · exact ⟨_, rfl⟩
    · exact ⟨s.uip_ds6_if.addr_list, rfl⟩
  · exact ⟨s.uip_ds6_if.addr_list, rfl⟩

/-- What `uip_ds6_maddr_add` changes is the list of multicast addresses. -/
theorem uip_ds6_maddr_add_frame (s : uip_ds6_state) (x : uip_ipaddr_t) :
    ∃ l, (uip_ds6_maddr_add s x).1
      = { s with uip_ds6_if := { s.uip_ds6_if with maddr_list := l } } := by
  unfold uip_ds6_maddr_add
  simp only []
  split
  · split
    · exact ⟨_, rfl⟩
    · exact ⟨s.uip_ds6_if.maddr_list, rfl⟩
  · exact ⟨s.uip_ds6_if.maddr_list, rfl⟩

/-- The function `uip_ds6_addr_add` on a zeroed list of `n + 1` unicast addresses writes
the last slot. -/
theorem uip_ds6_addr_add_replicate (env : Env) (s : uip_ds6_state) (x : uip_ipaddr_t)
    (v t n : Nat) (h : s.uip_ds6_if.addr_list = List.replicate (n + 1) default) :
    (uip_ds6_addr_add env s x v t).1.uip_ds6_if.addr_list
      = update_slot (List.replicate (n + 1) default) n
          (fun e =>
            { e with
              isused := true, ipaddr := x,
              state := if uip_is_addr_link_local x then ADDR_PREFERRED else ADDR_TENTATIVE,
              type := t,
              isinfinite := decide (v = 0),
              vlifetime := if v = 0 then e.vlifetime else stimer_set env v }) := by
  have hscan : uip_ds6_list_loop (fun (e : uip_ds6_addr_t) => e.isused) (fun e => e.ipaddr)
      s.uip_ds6_if.addr_list x 128 = (FREESPACE, some n) := by
    rw [h]
    exact uip_ds6_list_loop_replicate _ _ default rfl n x 128
  unfold uip_ds6_addr_add
  simp only [hscan, if_true]
  rw [h]

/-- The function `uip_ds6_maddr_add` on a zeroed list of `n + 1` multicast addresses
writes the last slot. -/
theorem uip_ds6_maddr_add_replicate (s : uip_ds6_state) (x : uip_ipaddr_t) (n : Nat)
    (h : s.uip_ds6_if.maddr_list = List.replicate (n + 1) default) :
    (uip_ds6_maddr_add s x).1.uip_ds6_if.maddr_list
      = update_slot (List.replicate (n + 1) default) n
          (fun e => { e with isused := true, ipaddr := x }) := by
  have hscan : uip_ds6_list_loop (fun (e : uip_ds6_maddr_t) => e.isused) (fun e => e.ipaddr)
      s.uip_ds6_if.maddr_list x 128 = (FREESPACE, some n) := by
    rw [h]
    exact uip_ds6_list_loop_replicate _ _ default rfl n x 128
  unfold uip_ds6_maddr_add
  simp only [hscan, if_true]
  rw [h]

/-- The address written by `uip_ds6_set_addr_iid` depends on the first 64 bits of the
address it is given and on the link-layer address only. -/
theorem uip_ds6_set_addr_iid_congr (env : Env) (p q : uip_ipaddr_t) (L : uip_lladdr_t)
    (h : p.u8.take 8 = q.u8.take 8) :
    uip_ds6_set_addr_iid env p L = uip_ds6_set_addr_iid env q L := by
  apply uip_ipaddr_ext
  unfold uip_ds6_set_addr_iid
  split <;> simp only [h]

theorem uip_create_linklocal_prefix_take (a : uip_ipaddr_t) :
    ( uip_create_linklocal_prefix a).u8.take 8 = [0xfe, 0x80, 0, 0, 0, 0, 0, 0] := by
  simp [ uip_create_linklocal_prefix]

theorem uip_ds6_set_addr_iid_link_local (env : Env) (p : uip_ipaddr_t) (L : uip_lladdr_t)
    (h : p.u8.take 8 = [0xfe, 0x80, 0, 0, 0, 0, 0, 0]) :
    uip_is_addr_link_local (uip_ds6_set_addr_iid env p L) = true ∧
    (uip_ds6_set_addr_iid env p L).u8.take 8 = [0xfe, 0x80, 0, 0, 0, 0, 0, 0] := by
  have ht : (uip_ds6_set_addr_iid env p L).u8.take 8 = [0xfe, 0x80, 0, 0, 0, 0, 0, 0] := by
    unfold uip_ds6_set_addr_iid
    split <;> simp only [take_eight_append, h] <;> rfl
  refine ⟨?_, ht⟩
  have hu : ∃ l, (uip_ds6_set_addr_iid env p L).u8 = [0xfe, 0x80, 0, 0, 0, 0, 0, 0] ++ l := by
    refine ⟨(uip_ds6_set_addr_iid env p L).u8.drop 8, ?_⟩
    rw [← ht, List.take_append_drop]
  obtain ⟨l, hl⟩ := hu
  unfold uip_is_addr_link_local addr_bits
  rw [hl]
  simp [byte_bits]

/-- The shape of `uip_ds6_init`: the two insertions are made into a state whose tables,
the prefix list apart, are zeroed. -/
theorem uip_ds6_init_eq (env : Env) (k : uip_ds6_conf) (s : uip_ds6_state) :
    ∃ s3 : uip_ds6_state,
      s3.uip_ds6_if.addr_list = List.replicate (k.UIP_DS6_ADDR_NBU + 1) default ∧
      s3.uip_ds6_if.maddr_list = List.replicate (k.UIP_DS6_MADDR_NBU + 1) default ∧
      s3.uip_ds6_if.registration_in_progress = none ∧
      s3.uip_ds6_nbr_cache = List.replicate (UIP_DS6_NBR_NB k) default ∧
      s3.uip_ds6_defrt_list = List.replicate (UIP_DS6_DEFRT_NB k) default ∧
      s3.uip_ds6_reg_list = List.replicate (UIP_DS6_REG_LIST_SIZE k) default ∧
      s3.uip_ds6_routing_table = List.replicate (UIP_DS6_ROUTE_NB k) default ∧
      uip_ds6_init env k s =
        { (uip_ds6_maddr_add
            (uip_ds6_addr_add env s3
              (uip_ds6_set_addr_iid env ( uip_create_linklocal_prefix k.loc_fipaddr)
                k.uip_lladdr) 0 ADDR_AUTOCONF).1
            uip_create_linklocal_allnodes_mcast).1 with
          uip_ds6_timer_rs :=
            timer_set env
              (k.rand_rs % (k.UIP_ND6_MAX_RTR_SOLICITATION_DELAY * env.CLOCK_SECOND)),
          uip_ds6_timer_periodic := timer_set env (env.CLOCK_SECOND / 10) } := by
  obtain ⟨pl, hp⟩ := uip_ds6_prefix_add_frame env
    (uip_ds6_init_netif k (uip_ds6_init_tables k s))
    ( uip_create_linklocal_prefix k.loc_fipaddr) k.UIP_DEFAULT_PREFIX_LEN 0
  refine ⟨uip_ds6_prefix_add env (uip_ds6_init_netif k (uip_ds6_init_tables k s))
    ( uip_create_linklocal_prefix k.loc_fipaddr) k.UIP_DEFAULT_PREFIX_LEN 0,
    ?_, ?_, ?_, ?_, ?_, ?_, ?_, rfl⟩
  · rw [hp]
    show List.replicate (UIP_DS6_ADDR_NB k) default = _
    rw [UIP_DS6_ADDR_NB, Nat.add_comm]
  · rw [hp]
    show List.replicate (UIP_DS6_MADDR_NB k) default = _
    rw [UIP_DS6_MADDR_NB, Nat.add_comm]
  · rw [hp]; rfl
  · rw [hp]; rfl
  · rw [hp]; rfl
  · rw [hp]; rfl
  · rw [hp]; rfl

/-- C30. Initial state of a host.  For every platform, configuration (in particular
every link-layer address) and prior state, after `uip_ds6_init` the list of unicast
addresses has exactly one entry in use; its address has the first 64 bits `fe80:0:0:0`
and is what `uip_ds6_set_addr_iid` makes of the link-layer address on that prefix; it is
in state `ADDR_PREFERRED` with infinite lifetime.  The lookup of the all-nodes group
`ff02::1` is non-null; the neighbour cache, the default-router list, the registration
list and the routing table have no entry in use; `registration_in_progress` is null. -/
theorem uip_ds6_init_state (env : Env) (k : uip_ds6_conf) (s : uip_ds6_state) :
    (∃ (i : Nat) (e : uip_ds6_addr_t),
      (uip_ds6_init env k s).uip_ds6_if.addr_list[i]? = some e ∧
      e.isused = true ∧
      e.ipaddr.u8.take 8 = [0xfe, 0x80, 0, 0, 0, 0, 0, 0] ∧
      (∀ q : uip_ipaddr_t, q.u8.take 8 = [0xfe, 0x80, 0, 0, 0, 0, 0, 0] →
        e.ipaddr = uip_ds6_set_addr_iid env q k.uip_lladdr) ∧
      e.state = ADDR_PREFERRED ∧ e.isinfinite = true ∧
      ∀ (j : Nat) (e' : uip_ds6_addr_t),
        (uip_ds6_init env k s).uip_ds6_if.addr_list[j]? = some e' →
        e'.isused = true → j = i) ∧
    (∃ m, uip_ds6_maddr_lookup (uip_ds6_init env k s) uip_create_linklocal_allnodes_mcast
      = some m) ∧
    uip_create_linklocal_allnodes_mcast.u8
      = [0xff, 0x02, 0, 0, 0, 0, 0, 0, 0, 0, 0, 0, 0, 0, 0, 0x01] ∧
    (∀ e ∈ (uip_ds6_init env k s).uip_ds6_nbr_cache, e.isused = false) ∧
    (∀ e ∈ (uip_ds6_init env k s).uip_ds6_defrt_list, e.isused = false) ∧
    (∀ e ∈ (uip_ds6_init env k s).uip_ds6_reg_list, e.isused = false) ∧
    (∀ e ∈ (uip_ds6_init env k s).uip_ds6_routing_table, e.isused = false) ∧
    (uip_ds6_init env k s).uip_ds6_if.registration_in_progress = none := by
  obtain ⟨s3, ha, hm, hr, hn, hd, hg, ht, heq⟩ := uip_ds6_init_eq env k s
  have hloc := uip_ds6_set_addr_iid_link_local env ( uip_create_linklocal_prefix k.loc_fipaddr)
    k.uip_lladdr (uip_create_linklocal_prefix_take k.loc_fipaddr)
  obtain ⟨al, hal⟩ := uip_ds6_addr_add_frame env s3
    (uip_ds6_set_addr_iid env ( uip_create_linklocal_prefix k.loc_fipaddr) k.uip_lladdr)
    0 ADDR_AUTOCONF
  have hal2 := uip_ds6_addr_add_replicate env s3
    (uip_ds6_set_addr_iid env ( uip_create_linklocal_prefix k.loc_fipaddr) k.uip_lladdr)
    0 ADDR_AUTOCONF k.UIP_DS6_ADDR_NBU ha
  have hm4 : (uip_ds6_addr_add env s3
      (uip_ds6_set_addr_iid env ( uip_create_linklocal_prefix k.loc_fipaddr) k.uip_lladdr)
      0 ADDR_AUTOCONF).1.uip_ds6_if.maddr_list
      = List.replicate (k.UIP_DS6_MADDR_NBU + 1) default := by
    rw [hal]; exact hm
  obtain ⟨ml, hml⟩ := uip_ds6_maddr_add_frame (uip_ds6_addr_add env s3
      (uip_ds6_set_addr_iid env ( uip_create_linklocal_prefix k.loc_fipaddr) k.uip_lladdr)
      0 ADDR_AUTOCONF).1 uip_create_linklocal_allnodes_mcast
  have hml2 := uip_ds6_maddr_add_replicate _ uip_create_linklocal_allnodes_mcast
    k.UIP_DS6_MADDR_NBU hm4
  have haddr : (uip_ds6_init env k s).uip_ds6_if.addr_list
      = update_slot (List.replicate (k.UIP_DS6_ADDR_NBU + 1) default) k.UIP_DS6_ADDR_NBU
          (fun e =>
            { e with
              isused := true,
              ipaddr := uip_ds6_set_addr_iid env
                ( uip_create_linklocal_prefix k.loc_fipaddr) k.uip_lladdr,
              state := if uip_is_addr_link_local (uip_ds6_set_addr_iid env
                  ( uip_create_linklocal_prefix k.loc_fipaddr) k.uip_lladdr)
                then ADDR_PREFERRED else ADDR_TENTATIVE,
              type := ADDR_AUTOCONF,
              isinfinite := decide (0 = 0),
              vlifetime := if 0 = 0 then e.vlifetime else stimer_set env 0 }) := by
    rw [heq, ← hal2]
    show (uip_ds6_maddr_add _ uip_create_linklocal_allnodes_mcast).1.uip_ds6_if.addr_list = _
    rw [hml]
  have hmaddr : (uip_ds6_init env k s).uip_ds6_if.maddr_list
      = update_slot (List.replicate (k.UIP_DS6_MADDR_NBU + 1) default) k.UIP_DS6_MADDR_NBU
          (fun e => { e with isused := true, ipaddr := uip_create_linklocal_allnodes_mcast }) := by
    rw [heq, ← hml2]
  have hrest : (uip_ds6_init env k s).uip_ds6_nbr_cache = s3.uip_ds6_nbr_cache ∧
      (uip_ds6_init env k s).uip_ds6_defrt_list = s3.uip_ds6_defrt_list ∧
      (uip_ds6_init env k s).uip_ds6_reg_list = s3.uip_ds6_reg_list ∧
      (uip_ds6_init env k s).uip_ds6_routing_table = s3.uip_ds6_routing_table ∧
      (uip_ds6_init env k s).uip_ds6_if.registration_in_progress
        = s3.uip_ds6_if.registration_in_progress := by
    rw [heq]
    refine ⟨?_, ?_, ?_, ?_, ?_⟩
    · show (uip_ds6_maddr_add _ uip_create_linklocal_allnodes_mcast).1.uip_ds6_nbr_cache = _
      rw [hml, hal]
    · show (uip_ds6_maddr_add _ uip_create_linklocal_allnodes_mcast).1.uip_ds6_defrt_list = _
      rw [hml, hal]
    · show (uip_ds6_maddr_add _ uip_create_linklocal_allnodes_mcast).1.uip_ds6_reg_list = _
      rw [hml, hal]
    · show (uip_ds6_maddr_add _ uip_create_linklocal_allnodes_mcast).1.uip_ds6_routing_table = _
      rw [hml, hal]
    · show (uip_ds6_maddr_add _
        uip_create_linklocal_allnodes_mcast).1.uip_ds6_if.registration_in_progress = _
      rw [hml, hal]
  obtain ⟨hn', hd', hg', ht', hr'⟩ := hrest
  have hslot : ∃ e : uip_ds6_addr_t,
      (uip_ds6_init env k s).uip_ds6_if.addr_list[k.UIP_DS6_ADDR_NBU]? = some e ∧
      e.isused = true ∧
      e.ipaddr = uip_ds6_set_addr_iid env
        ( uip_create_linklocal_prefix k.loc_fipaddr) k.uip_lladdr ∧
      e.state = (if uip_is_addr_link_local (uip_ds6_set_addr_iid env
          ( uip_create_linklocal_prefix k.loc_fipaddr) k.uip_lladdr)
        then ADDR_PREFERRED else ADDR_TENTATIVE) ∧
      e.isinfinite = true := by
    rw [haddr, update_slot_replicate_getElem?, if_pos rfl]
    exact ⟨_, rfl, rfl, rfl, rfl, rfl⟩
  obtain ⟨e, he, heu, hip, hst, hinf⟩ := hslot
  refine ⟨⟨k.UIP_DS6_ADDR_NBU, e, he, heu, ?_, ?_, ?_, hinf, ?_⟩,
    ⟨k.UIP_DS6_MADDR_NBU, ?_⟩, rfl, ?_, ?_, ?_, ?_, ?_⟩
  · rw [hip]
    exact hloc.2
  · intro q hq
    rw [hip]
    exact uip_ds6_set_addr_iid_congr env _ q k.uip_lladdr
      ((uip_create_linklocal_prefix_take k.loc_fipaddr).trans hq.symm)
  · rw [hst, if_pos hloc.1]
  · intro j e' hj hu
    rw [haddr, update_slot_replicate_getElem?] at hj
    by_contra hne
    rw [if_neg hne] at hj
    by_cases hlt : j < k.UIP_DS6_ADDR_NBU
    · rw [if_pos hlt] at hj
      cases hj
      cases hu
    · rw [if_neg hlt] at hj
      cases hj
  · unfold uip_ds6_maddr_lookup
    rw [hmaddr]
    exact uip_ds6_list_loop_after_add _ _ _ uip_create_linklocal_allnodes_mcast
      k.UIP_DS6_MADDR_NBU _
      (uip_ds6_list_loop_replicate _ _ default rfl _ _ 128) (fun e => ⟨rfl, rfl⟩)
  · intro e he
    rw [hn', hn] at he
    rw [List.eq_of_mem_replicate he]
    rfl
  · intro e he
    rw [hd', hd] at he
    rw [List.eq_of_mem_replicate he]
    rfl
  · intro e he
    rw [hg', hg] at he
    rw [List.eq_of_mem_replicate he]
    rfl
  · intro e he
    rw [ht', ht] at he
    rw [List.eq_of_mem_replicate he]
    rfl
  · rw [hr', hr]

set_option maxRecDepth 100000 in
/-- A use of C30: with the sizes of `uip-ds6.h`, 48-bit link-layer addresses and the
link-layer address `02:00:00:00:00:01`, the address list after `uip_ds6_init` holds
`fe80::ff:fe00:1` in its last slot and nothing else, and `ff02::1` is found in slot 0
of the multicast list. -/
theorem uip_ds6_init_state_witness :
    (uip_ds6_init sample_env_48 sample_conf empty_state).uip_ds6_if.addr_list
      = [ default, default,
          { isused := true, ipaddr := addr_host_ll, state := ADDR_PREFERRED,
            type := ADDR_AUTOCONF, isinfinite := true, vlifetime := default,
            defrt := none } ] ∧
    uip_ds6_maddr_lookup (uip_ds6_init sample_env_48 sample_conf empty_state) addr_ff02_1
      = some 0 ∧
    (∃ m, uip_ds6_maddr_lookup (uip_ds6_init sample_env_48 sample_conf empty_state)
      uip_create_linklocal_allnodes_mcast = some m) :=
  ⟨by decide, by decide, (uip_ds6_init_state sample_env_48 sample_conf empty_state).2.1⟩


/-! ## Retransmission interval of router solicitations -/

/-- What `rs_rtx_time` computes: the solicitation interval below
`UIP_ND6_MAX_RTR_SOLICITATIONS` attempts, the maximum interval above 10 attempts, and in
between the draw reduced modulo `2 ^ (c - 1)`, times the interval, as a `u16_t`, capped
at the maximum interval. -/
theorem rs_rtx_time_cases (env : Env) (c : Nat) :
    (c < env.UIP_ND6_MAX_RTR_SOLICITATIONS →
      rs_rtx_time env c = env.UIP_ND6_RTR_SOLICITATION_INTERVAL) ∧
    (env.UIP_ND6_MAX_RTR_SOLICITATIONS ≤ c → 10 < c →
      rs_rtx_time env c = env.UIP_ND6_MAX_RTR_SOLICITATION_INTERVAL) ∧
    (env.UIP_ND6_MAX_RTR_SOLICITATIONS ≤ c → c ≤ 10 → 2 ≤ c →
      rs_rtx_time env c = min env.UIP_ND6_MAX_RTR_SOLICITATION_INTERVAL
        ((env.random_rand % 2 ^ (c - 1)) * env.UIP_ND6_RTR_SOLICITATION_INTERVAL % 65536)) := by
  refine ⟨?_, ?_, ?_⟩
  · intro h
    unfold rs_rtx_time
    rw [if_pos h]
  · intro h1 h2
    unfold rs_rtx_time
    rw [if_neg (by omega), if_pos h2]
  · intro h1 h2 h3
    unfold rs_rtx_time beb_next
    rw [if_neg (by omega), if_neg (by omega)]
    have hpow : 2 <<< (c - 1 - 1) = 2 ^ (c - 1) := by
      rw [Nat.shiftLeft_eq, ← Nat.pow_succ']
      congr 1
      omega
    simp only [hpow]
    split
    · rename_i hlt
      rw [Nat.min_eq_right (Nat.le_of_lt hlt)]
    · rename_i hge
      rw [Nat.min_eq_left (Nat.le_of_not_lt hge)]

/-- C35 on the code.  With `UIP_ND6_MAX_RTR_SOLICITATIONS = 3`, a solicitation interval
of 10 and a maximum interval of 60, attempt 3 is in the backoff range.  For the draw 7
the claimed interval is `min 60 ((7 mod (2^3 - 1)) * 10) = 0`, and `rs_rtx_time 3` is
30; for the draw 6 the claimed interval is `min 60 (6 * 10) = 60`, and `rs_rtx_time 3`
is 20: the multiplier is the draw modulo `2 ^ (3 - 1) = 4`, so it ranges over
`[0, 4)`, not over `[0, 7)`. -/
theorem rs_rtx_time_backoff_window :
    sample_env.UIP_ND6_MAX_RTR_SOLICITATIONS = 3 ∧
    sample_env.UIP_ND6_RTR_SOLICITATION_INTERVAL = 10 ∧
    sample_env.UIP_ND6_MAX_RTR_SOLICITATION_INTERVAL = 60 ∧
    sample_env.random_rand = 7 ∧
    min 60 ((7 % (2 ^ 3 - 1)) * 10) = 0 ∧
    rs_rtx_time sample_env 3 = 30 ∧
    min 60 ((6 % (2 ^ 3 - 1)) * 10) = 60 ∧
    rs_rtx_time { sample_env with random_rand := 6 } 3 = 20 ∧
    (∀ r, rs_rtx_time { sample_env with random_rand := r } 3 ≤ 30) := by
  refine ⟨rfl, rfl, rfl, rfl, by decide, by decide, by decide, by decide, ?_⟩
  intro r
  have h := (rs_rtx_time_cases { sample_env with random_rand := r } 3).2.2
    (Nat.le_refl 3) (by decide : 3 ≤ 10) (by decide : 2 ≤ 3)
  rw [h]
  have hm : r % 2 ^ (3 - 1) < 4 := Nat.mod_lt _ (by decide)
  show min 60 ((r % 2 ^ (3 - 1)) * 10 % 65536) ≤ 30
  have h2 : (r % 2 ^ (3 - 1)) * 10 % 65536 ≤ 30 := by
    rw [Nat.mod_eq_of_lt (by omega)]
    omega
  exact Nat.le_trans (Nat.min_le_right _ _) h2


/-! ## The router lifetime kept with a context -/

/-- The context that `uip_ds6_context_add` writes into a free slot. -/
theorem uip_ds6_context_add_slot (env : Env) (k : uip_nd6_6co_conf) (s : uip_ds6_state)
    (opt : uip_nd6_opt_6co) (d : Nat) (c0 : uip_ds6_addr_context_t)
    (hslot : s.uip_ds6_addr_context_table[opt.res1_c_cid &&& k.UIP_ND6_RA_CID]? = some c0)
    (hfree : c0.state = uip_ds6_context_state_t.NOT_IN_USE) :
    ∃ c, (uip_ds6_context_add env k s opt d).1.uip_ds6_addr_context_table[
        opt.res1_c_cid &&& k.UIP_ND6_RA_CID]? = some c ∧
      (c.state = uip_ds6_context_state_t.IN_USE_COMPRESS ∨
        c.state = uip_ds6_context_state_t.IN_USE_UNCOMPRESS_ONLY) ∧
      c.defrt_lifetime = (if d < 0x7FFF then d else 0x7FFF) := by
  have hst2 : ¬ c0.state ≠ uip_ds6_context_state_t.NOT_IN_USE := fun h => h hfree
  refine ⟨{ c0 with
      length := opt.preflen,
      context_id := opt.res1_c_cid &&& k.UIP_ND6_RA_CID,
      prefix_ := opt.prefix_,
      state :=
        if opt.res1_c_cid &&& k.UIP_ND6_RA_FLAG_COMPRESSION ≠ 0 then
          uip_ds6_context_state_t.IN_USE_COMPRESS
        else uip_ds6_context_state_t.IN_USE_UNCOMPRESS_ONLY,
      vlifetime := stimer_set env (k.uip_ntohs opt.lifetime),
      defrt_lifetime := if d < 0x7FFF then d else 0x7FFF }, ?_, ?_, rfl⟩
  · simp only [uip_ds6_context_add, hslot, if_neg hst2, update_slot_getElem?_self,
      Option.map_some']
  · show (if opt.res1_c_cid &&& k.UIP_ND6_RA_FLAG_COMPRESSION ≠ 0 then
        uip_ds6_context_state_t.IN_USE_COMPRESS
      else uip_ds6_context_state_t.IN_USE_UNCOMPRESS_ONLY) = _ ∨ _
    split
    · exact Or.inl rfl
    · exact Or.inr rfl

/-- C36. For every router lifetime `d` passed to `uip_ds6_context_add` (in particular
every 16-bit one) that installs a context, the stored `defrt_lifetime` is
`min d 0x7FFF`; twice that is at most `0xFFFE`, so the product is the same in 16-bit
unsigned arithmetic; and in the tick that finds the valid lifetime of the context
expired, the timer is re-armed for exactly `2 * min d 0x7FFF` seconds. -/
theorem uip_ds6_context_defrt_lifetime_cap (env : Env) (k : uip_nd6_6co_conf)
    (s : uip_ds6_state) (opt : uip_nd6_opt_6co) (d : Nat) (c0 : uip_ds6_addr_context_t)
    (hslot : s.uip_ds6_addr_context_table[opt.res1_c_cid &&& k.UIP_ND6_RA_CID]? = some c0)
    (hfree : c0.state = uip_ds6_context_state_t.NOT_IN_USE) :
    ∃ c, (uip_ds6_context_add env k s opt d).1.uip_ds6_addr_context_table[
        opt.res1_c_cid &&& k.UIP_ND6_RA_CID]? = some c ∧
      c.defrt_lifetime = min d 0x7FFF ∧
      2 * c.defrt_lifetime ≤ 0xFFFE ∧
      (2 * c.defrt_lifetime) % 65536 = 2 * c.defrt_lifetime ∧
      ∀ env2 : Env, stimer_expired env2 c.vlifetime = true →
        ((uip_ds6_periodic env2 (uip_ds6_context_add env k s opt d).1).uip_ds6_addr_context_table[
            opt.res1_c_cid &&& k.UIP_ND6_RA_CID]?).map (fun x => x.vlifetime)
          = some { start := env2.clock_seconds, interval := 2 * min d 0x7FFF } := by
  obtain ⟨c, hc, hst, hdl⟩ := uip_ds6_context_add_slot env k s opt d c0 hslot hfree
  have hmin : c.defrt_lifetime = min d 0x7FFF := by
    rw [hdl]
    split
    · rename_i h
      rw [Nat.min_eq_left (Nat.le_of_lt h)]
    · rename_i h
      rw [Nat.min_eq_right (Nat.le_of_not_lt h)]
  have hle : c.defrt_lifetime ≤ 0x7FFF := by
    rw [hmin]
    exact Nat.min_le_right _ _
  refine ⟨c, hc, hmin, by omega, Nat.mod_eq_of_lt (by omega), ?_⟩
  intro env2 hexp
  have h1 : c.state ≠ uip_ds6_context_state_t.NOT_IN_USE := by
    rcases hst with h | h <;> rw [h] <;> intro hx <;> cases hx
  have h2 : c.state ≠ uip_ds6_context_state_t.EXPIRED := by
    rcases hst with h | h <;> rw [h] <;> intro hx <;> cases hx
  rw [uip_ds6_periodic_context_expiry env2 _ _ c hc h1 h2 hexp, hmin]
  rfl

set_option maxRecDepth 100000 in
/-- A use of C36 on `context_install_example`: the router lifetime 40000 is stored as
`0x7FFF = 32767`, and the tick at second 10, when the valid lifetime of 10 s has expired,
re-arms the timer for 65534 s. -/
theorem uip_ds6_context_defrt_lifetime_cap_witness :
    ∃ c, (uip_ds6_context_add (env_at 0) sample_6co_conf context_install_example sample_6co
        40000).1.uip_ds6_addr_context_table[2]? = some c ∧
      c.defrt_lifetime = 32767 ∧
      2 * c.defrt_lifetime ≤ 0xFFFE ∧
      (2 * c.defrt_lifetime) % 65536 = 2 * c.defrt_lifetime ∧
      ∀ env2 : Env, stimer_expired env2 c.vlifetime = true →
        ((uip_ds6_periodic env2 (uip_ds6_context_add (env_at 0) sample_6co_conf
            context_install_example sample_6co 40000).1).uip_ds6_addr_context_table[2]?).map
            (fun x => x.vlifetime)
          = some { start := env2.clock_seconds, interval := 65534 } :=
  uip_ds6_context_defrt_lifetime_cap (env_at 0) sample_6co_conf context_install_example
    sample_6co 40000 default (by decide) (by decide)


/-! ## The registration in progress -/

set_option maxRecDepth 100000 in
/-- C37 on the code.  In `reg_gc_example` no registration is in progress.  The tick at
second 109 starts the registration of slot 0 (garbage-collectible, lifetime of 20 s
armed at second 90): afterwards `registration_in_progress` refers to slot 0, which is in
use.  No answer arrives; the tick at second 110 finds the lifetime of that registration
expired and removes it, and `registration_in_progress` still refers to slot 0, which is
not in use any more; it still does after the next tick. -/
theorem uip_ds6_periodic_in_progress_dangles :
    reg_gc_example.uip_ds6_if.registration_in_progress = none ∧
    (uip_ds6_periodic (env_at 109) reg_gc_example).uip_ds6_if.registration_in_progress
      = some 0 ∧
    ((uip_ds6_periodic (env_at 109) reg_gc_example).uip_ds6_reg_list[0]?).map
      (fun R => (R.isused, R.state, R.reg_lifetime))
      = some (true, REG_GARBAGE_COLLECTIBLE, { start := 90, interval := 20 }) ∧
    (uip_ds6_periodic (env_at 110)
      (uip_ds6_periodic (env_at 109) reg_gc_example)).uip_ds6_if.registration_in_progress
      = some 0 ∧
    ((uip_ds6_periodic (env_at 110)
      (uip_ds6_periodic (env_at 109) reg_gc_example)).uip_ds6_reg_list[0]?).map
      (fun R => R.isused) = some false ∧
    (uip_ds6_periodic (env_at 111) (uip_ds6_periodic (env_at 110)
      (uip_ds6_periodic (env_at 109) reg_gc_example))).uip_ds6_if.registration_in_progress
      = some 0 ∧
    ((uip_ds6_periodic (env_at 111) (uip_ds6_periodic (env_at 110)
      (uip_ds6_periodic (env_at 109) reg_gc_example))).uip_ds6_reg_list[0]?).map
      (fun R => R.isused) = some false := by
  decide

set_option maxRecDepth 100000 in
/-- C32 on the code.  In `reg_unregister_example` the registration of slot 0 is
`REG_TO_BE_UNREGISTERED` and no registration is in progress.  The tick at second 100
starts it and emits a solicitation with an address registration option of lifetime 0.
No answer arrives; the tick at second 101, when the retransmission timer of one second
has expired, emits the solicitation again, the registration still being
`REG_TO_BE_UNREGISTERED` and in progress, and this time the option carries the lifetime
`UIP_ND6_REGISTRATION_LIFETIME = 60`. -/
theorem uip_ds6_periodic_unregister_retransmission :
    reg_unregister_example.output = [] ∧
    (uip_ds6_periodic (env_at 100) reg_unregister_example).output
      = [Packet.ns (some addr_2001_db8_1_42) (some addr_fe80_a) (some addr_fe80_a) 1 0] ∧
    (uip_ds6_periodic (env_at 100) reg_unregister_example).uip_ds6_if.registration_in_progress
      = some 0 ∧
    ((uip_ds6_periodic (env_at 100) reg_unregister_example).uip_ds6_reg_list[0]?).map
      (fun R => (R.isused, R.state, R.reg_count, R.registration_timer))
      = some (true, REG_TO_BE_UNREGISTERED, 1, { start := 12800, interval := 128 }) ∧
    (env_at 100).UIP_ND6_REGISTRATION_LIFETIME = 60 ∧
    (uip_ds6_periodic (env_at 101) (uip_ds6_periodic (env_at 100) reg_unregister_example)).output
      = [Packet.ns (some addr_2001_db8_1_42) (some addr_fe80_a) (some addr_fe80_a) 1 0,
         Packet.ns (some addr_2001_db8_1_42) (some addr_fe80_a) (some addr_fe80_a) 1 60] ∧
    ((uip_ds6_periodic (env_at 101)
      (uip_ds6_periodic (env_at 100) reg_unregister_example)).uip_ds6_reg_list[0]?).map
      (fun R => (R.isused, R.state, R.reg_count))
      = some (true, REG_TO_BE_UNREGISTERED, 2) := by
  decide


/-! ## Neighbour cache insertion: the four outcomes -/

/-- The four outcomes of `uip_ds6_nbr_add`: a free slot is written; the address is
already present; the cache is full and nothing can be evicted; the cache is full and
the slot `o` of a garbage-collectible entry is evicted. -/
theorem uip_ds6_nbr_add_cases (env : Env) (s : uip_ds6_state) (x : uip_ipaddr_t) :
    (∃ h, uip_ds6_list_loop (fun (e : uip_ds6_nbr_t) => e.isused) (fun e => e.ipaddr)
        s.uip_ds6_nbr_cache x 128 = (FREESPACE, some h))
    ∨ (∃ k e, uip_ds6_list_loop (fun (e : uip_ds6_nbr_t) => e.isused) (fun e => e.ipaddr)
        s.uip_ds6_nbr_cache x 128 = (FOUND, some k) ∧
        s.uip_ds6_nbr_cache[k]? = some e ∧ e.isused = true ∧ e.ipaddr = x)
    ∨ ((∀ e ∈ s.uip_ds6_nbr_cache, e.isused = true) ∧
        (∀ e ∈ s.uip_ds6_nbr_cache, e.ipaddr ≠ x) ∧
        uip_ds6_nbr_add_oldest env s = none)
    ∨ (∃ o old, (∀ e ∈ s.uip_ds6_nbr_cache, e.isused = true) ∧
        (∀ e ∈ s.uip_ds6_nbr_cache, e.ipaddr ≠ x) ∧
        uip_ds6_nbr_add_oldest env s = some o ∧
        s.uip_ds6_nbr_cache[o]? = some old ∧
        uip_ds6_is_nbr_garbage_collectible s old = 1) := by
  rcases uip_ds6_list_loop_cases (fun (e : uip_ds6_nbr_t) => e.isused) (fun e => e.ipaddr)
      s.uip_ds6_nbr_cache x 128 with ⟨k, e, hr, hk, hu, hm, _⟩ | ⟨k, e, hr, _⟩ | ⟨_, hall⟩
  · right; left
    exact ⟨k, e, hr, hk, hu, (uip_ipaddr_prefixcmp_128 _ _).mp hm⟩
  · left
    exact ⟨k, hr⟩
  · have hfull : ∀ e ∈ s.uip_ds6_nbr_cache, e.isused = true := fun e he => (hall e he).1
    have hno : ∀ e ∈ s.uip_ds6_nbr_cache, e.ipaddr ≠ x := by
      intro e he hx
      have := (hall e he).2
      rw [(uip_ipaddr_prefixcmp_128 _ _).mpr hx] at this
      cases this
    right; right
    rcases uip_ds6_nbr_add_oldest_from_spec s s.uip_ds6_nbr_cache 0 none env.clock_time with
      ⟨hr, _⟩ | ⟨k, old, hr, hk, _, _, hg, _⟩
    · left
      exact ⟨hfull, hno, hr⟩
    · right
      refine ⟨k, old, hfull, hno, ?_, hk, ?_⟩
      · unfold uip_ds6_nbr_add_oldest
        rw [hr, Nat.zero_add]
      · rcases uip_ds6_is_nbr_garbage_collectible_zero_or_one s old with h0 | h1
        · exact absurd h0 hg
        · exact h1

/-- The result of `uip_ds6_nbr_add` when the scan reports a free slot. -/
theorem uip_ds6_nbr_add_freespace (fuel : Nat) (env : Env) (s : uip_ds6_state)
    (x : uip_ipaddr_t) (lladdr : Option uip_lladdr_t) (isrouter state h : Nat)
    (hr : uip_ds6_list_loop (fun (e : uip_ds6_nbr_t) => e.isused) (fun e => e.ipaddr)
        s.uip_ds6_nbr_cache x 128 = (FREESPACE, some h)) :
    uip_ds6_nbr_add (fuel + 1) env s x lladdr isrouter state =
      some ({ s with
              uip_ds6_nbr_cache :=
                update_slot s.uip_ds6_nbr_cache h
                  (fun _ => uip_ds6_nbr_add_entry env x lladdr isrouter state) },
            some h) := by
  rw [uip_ds6_nbr_add]
  simp only [hr, if_true]

/-- The result of `uip_ds6_nbr_add` when the address is already in the cache. -/
theorem uip_ds6_nbr_add_found (fuel : Nat) (env : Env) (s : uip_ds6_state)
    (x : uip_ipaddr_t) (lladdr : Option uip_lladdr_t) (isrouter state k : Nat)
    (hr : uip_ds6_list_loop (fun (e : uip_ds6_nbr_t) => e.isused) (fun e => e.ipaddr)
        s.uip_ds6_nbr_cache x 128 = (FOUND, some k)) :
    uip_ds6_nbr_add (fuel + 1) env s x lladdr isrouter state = some (s, none) := by
  rw [uip_ds6_nbr_add]
  simp only [hr]
  rw [if_neg FOUND_ne_FREESPACE, if_neg FOUND_ne_NOSPACE]

/-- The result of `uip_ds6_nbr_add` when the cache is full and nothing can be evicted. -/
theorem uip_ds6_nbr_add_full (fuel : Nat) (env : Env) (s : uip_ds6_state)
    (x : uip_ipaddr_t) (lladdr : Option uip_lladdr_t) (isrouter state : Nat)
    (hfull : ∀ e ∈ s.uip_ds6_nbr_cache, e.isused = true)
    (hno : ∀ e ∈ s.uip_ds6_nbr_cache, e.ipaddr ≠ x)
    (hold : uip_ds6_nbr_add_oldest env s = none) :
    uip_ds6_nbr_add (fuel + 1) env s x lladdr isrouter state = some (s, none) := by
  rw [uip_ds6_nbr_add]
  simp only [uip_ds6_nbr_add_scan_nospace s x hfull hno, hold]
  rw [if_neg (fun h => FREESPACE_ne_NOSPACE h.symm), if_pos trivial]

/-- With a recursion bound of `fuel + 2` the eviction of slot `o` is followed by the
call with bound `fuel + 1` in the state `uip_ds6_nbr_add_evict_state s o`. -/
theorem uip_ds6_nbr_add_recurse (fuel : Nat) (env : Env) (s : uip_ds6_state)
    (x : uip_ipaddr_t) (lladdr : Option uip_lladdr_t) (isrouter state o : Nat)
    (hfull : ∀ e ∈ s.uip_ds6_nbr_cache, e.isused = true)
    (hno : ∀ e ∈ s.uip_ds6_nbr_cache, e.ipaddr ≠ x)
    (hold : uip_ds6_nbr_add_oldest env s = some o) :
    uip_ds6_nbr_add (fuel + 2) env s x lladdr isrouter state
      = uip_ds6_nbr_add (fuel + 1) env (uip_ds6_nbr_add_evict_state s o) x lladdr
          isrouter state := by
  rw [uip_ds6_nbr_add]
  simp only [uip_ds6_nbr_add_scan_nospace s x hfull hno, hold]
  rw [if_neg (fun h => FREESPACE_ne_NOSPACE h.symm), if_pos trivial]
  rfl

/-- The state at the recursive call, written out. -/
theorem uip_ds6_nbr_add_evict_state_eq (s : uip_ds6_state) (o : Nat) (old : uip_ds6_nbr_t)
    (ho : s.uip_ds6_nbr_cache[o]? = some old) :
    uip_ds6_nbr_add_evict_state s o =
      uip_ds6_reg_cleanup_defrt
        (uip_ds6_defrt_rm (uip_ds6_nbr_rm s (some o)) (uip_ds6_defrt_lookup s old.ipaddr))
        (uip_ds6_defrt_lookup s old.ipaddr) := by
  have hld : ((uip_ds6_nbr_rm s (some o)).uip_ds6_nbr_cache[o]?).bind
      (fun e => uip_ds6_defrt_lookup (uip_ds6_nbr_rm s (some o)) e.ipaddr)
      = uip_ds6_defrt_lookup s old.ipaddr := by
    simp only [uip_ds6_nbr_rm, update_slot_getElem?_self, ho, Option.map_some', Option.some_bind]
    exact uip_ds6_defrt_lookup_congr _ _ _ rfl
  unfold uip_ds6_nbr_add_evict_state
  simp only [hld]

/-- The neighbour cache at the recursive call: slot `o` has been freed. -/
theorem uip_ds6_nbr_add_evict_state_nbr_cache (s : uip_ds6_state) (o : Nat)
    (old : uip_ds6_nbr_t) (ho : s.uip_ds6_nbr_cache[o]? = some old) :
    (uip_ds6_nbr_add_evict_state s o).uip_ds6_nbr_cache
      = update_slot s.uip_ds6_nbr_cache o (fun e => { e with isused := false }) := by
  rw [uip_ds6_nbr_add_evict_state_eq s o old ho]
  simp [uip_ds6_nbr_rm]

/-- The registration list at the recursive call: the in-use registrations with the
router of the evicted neighbour are marked unused, nothing else changes. -/
theorem uip_ds6_nbr_add_evict_state_reg_list (s : uip_ds6_state) (o : Nat)
    (old : uip_ds6_nbr_t) (ho : s.uip_ds6_nbr_cache[o]? = some old) (j : Nat) :
    (uip_ds6_nbr_add_evict_state s o).uip_ds6_reg_list[j]?
      = (s.uip_ds6_reg_list[j]?).map
          (fun R => if R.isused && decide (R.defrt = uip_ds6_defrt_lookup s old.ipaddr)
            then { R with isused := false } else R) := by
  rw [uip_ds6_nbr_add_evict_state_eq s o old ho, uip_ds6_reg_cleanup_defrt_reg_list]
  simp

/-- C40. `uip_ds6_nbr_add` terminates and calls itself at most once: with every
recursion bound of at least 2 it returns, and returns what it returns with the bound 2.
When it evicts slot `o` (the cache is full, holds no entry for `x`, and the eviction
search returns `o`), the scan of the recursive call reports slot `o` free; the
recursive call completes with the bound 1, that is, without calling itself again;
it stores the entry for `x` in slot `o` and returns that slot, which is what the outer
call returns. -/
theorem uip_ds6_nbr_add_terminates (env : Env) (s : uip_ds6_state) (x : uip_ipaddr_t)
    (lladdr : Option uip_lladdr_t) (isrouter state : Nat) :
    (∀ fuel, uip_ds6_nbr_add (fuel + 2) env s x lladdr isrouter state
      = uip_ds6_nbr_add 2 env s x lladdr isrouter state) ∧
    (∃ r, uip_ds6_nbr_add 2 env s x lladdr isrouter state = some r) ∧
    (∀ o, (∀ e ∈ s.uip_ds6_nbr_cache, e.isused = true) →
      (∀ e ∈ s.uip_ds6_nbr_cache, e.ipaddr ≠ x) →
      uip_ds6_nbr_add_oldest env s = some o →
      uip_ds6_list_loop (fun (e : uip_ds6_nbr_t) => e.isused) (fun e => e.ipaddr)
        (uip_ds6_nbr_add_evict_state s o).uip_ds6_nbr_cache x 128 = (FREESPACE, some o) ∧
      uip_ds6_nbr_add 1 env (uip_ds6_nbr_add_evict_state s o) x lladdr isrouter state
        = some ({ uip_ds6_nbr_add_evict_state s o with
                  uip_ds6_nbr_cache :=
                    update_slot (uip_ds6_nbr_add_evict_state s o).uip_ds6_nbr_cache o
                      (fun _ => uip_ds6_nbr_add_entry env x lladdr isrouter state) },
                some o) ∧
      uip_ds6_nbr_add 2 env s x lladdr isrouter state
        = uip_ds6_nbr_add 1 env (uip_ds6_nbr_add_evict_state s o) x lladdr isrouter state) := by
  have hevict : ∀ o, (∀ e ∈ s.uip_ds6_nbr_cache, e.isused = true) →
      (∀ e ∈ s.uip_ds6_nbr_cache, e.ipaddr ≠ x) →
      uip_ds6_nbr_add_oldest env s = some o →
      uip_ds6_list_loop (fun (e : uip_ds6_nbr_t) => e.isused) (fun e => e.ipaddr)
        (uip_ds6_nbr_add_evict_state s o).uip_ds6_nbr_cache x 128 = (FREESPACE, some o) := by
    intro o hfull hno hold
    rcases uip_ds6_nbr_add_cases env s x with ⟨h, hr⟩ | ⟨k, e, hr, _⟩ | ⟨_, _, hn⟩ |
      ⟨o2, old, _, _, ho2, hold2, _⟩
    · rw [uip_ds6_nbr_add_scan_nospace s x hfull hno] at hr
      exact absurd (congrArg Prod.fst hr).symm FREESPACE_ne_NOSPACE
    · rw [uip_ds6_nbr_add_scan_nospace s x hfull hno] at hr
      exact absurd (congrArg Prod.fst hr).symm FOUND_ne_NOSPACE
    · rw [hn] at hold
      cases hold
    · have hoo : o2 = o := Option.some.inj (ho2.symm.trans hold)
      subst hoo
      rw [uip_ds6_nbr_add_evict_state_nbr_cache s o2 old hold2]
      exact uip_ds6_nbr_add_scan_after_evict _ x o2 old hold2 hfull hno
  refine ⟨?_, ?_, ?_⟩
  · intro fuel
    rcases uip_ds6_nbr_add_cases env s x with ⟨h, hr⟩ | ⟨k, e, hr, _⟩ | ⟨hfull, hno, hn⟩ |
      ⟨o, old, hfull, hno, ho, _, _⟩
    · rw [uip_ds6_nbr_add_freespace (fuel + 1) env s x lladdr isrouter state h hr,
        uip_ds6_nbr_add_freespace 1 env s x lladdr isrouter state h hr]
    · rw [uip_ds6_nbr_add_found (fuel + 1) env s x lladdr isrouter state k hr,
        uip_ds6_nbr_add_found 1 env s x lladdr isrouter state k hr]
    · rw [uip_ds6_nbr_add_full (fuel + 1) env s x lladdr isrouter state hfull hno hn,
        uip_ds6_nbr_add_full 1 env s x lladdr isrouter state hfull hno hn]
    · rw [uip_ds6_nbr_add_recurse fuel env s x lladdr isrouter state o hfull hno ho,
        uip_ds6_nbr_add_recurse 0 env s x lladdr isrouter state o hfull hno ho,
        uip_ds6_nbr_add_freespace fuel env _ x lladdr isrouter state o (hevict o hfull hno ho),
        uip_ds6_nbr_add_freespace 0 env _ x lladdr isrouter state o (hevict o hfull hno ho)]
  · rcases uip_ds6_nbr_add_cases env s x with ⟨h, hr⟩ | ⟨k, e, hr, _⟩ | ⟨hfull, hno, hn⟩ |
      ⟨o, old, hfull, hno, ho, _, _⟩
    · exact ⟨_, uip_ds6_nbr_add_freespace 1 env s x lladdr isrouter state h hr⟩
    · exact ⟨_, uip_ds6_nbr_add_found 1 env s x lladdr isrouter state k hr⟩
    · exact ⟨_, uip_ds6_nbr_add_full 1 env s x lladdr isrouter state hfull hno hn⟩
    · rw [uip_ds6_nbr_add_recurse 0 env s x lladdr isrouter state o hfull hno ho]
      exact ⟨_, uip_ds6_nbr_add_freespace 0 env _ x lladdr isrouter state o
        (hevict o hfull hno ho)⟩
  · intro o hfull hno hold
    exact ⟨hevict o hfull hno hold,
      uip_ds6_nbr_add_freespace 0 env _ x lladdr isrouter state o (hevict o hfull hno hold),
      uip_ds6_nbr_add_recurse 0 env s x lladdr isrouter state o hfull hno hold⟩

set_option maxRecDepth 100000 in
/-- A use of C40 on `nbr_old_example`, whose cache is full: adding `fe80::b` evicts slot
1, and the recursive call stores the entry there. -/
theorem uip_ds6_nbr_add_terminates_witness :
    (∀ e ∈ nbr_old_example.uip_ds6_nbr_cache, e.isused = true) ∧
    (∀ e ∈ nbr_old_example.uip_ds6_nbr_cache, e.ipaddr ≠ addr_fe80_b) ∧
    uip_ds6_nbr_add_oldest sample_env nbr_old_example = some 1 ∧
    (uip_ds6_list_loop (fun (e : uip_ds6_nbr_t) => e.isused) (fun e => e.ipaddr)
        (uip_ds6_nbr_add_evict_state nbr_old_example 1).uip_ds6_nbr_cache addr_fe80_b 128
        = (FREESPACE, some 1) ∧
      uip_ds6_nbr_add 1 sample_env (uip_ds6_nbr_add_evict_state nbr_old_example 1)
          addr_fe80_b none 1 NBR_STALE
        = some ({ uip_ds6_nbr_add_evict_state nbr_old_example 1 with
                  uip_ds6_nbr_cache :=
                    update_slot (uip_ds6_nbr_add_evict_state nbr_old_example 1).uip_ds6_nbr_cache
                      1 (fun _ => uip_ds6_nbr_add_entry sample_env addr_fe80_b none 1 NBR_STALE) },
                some 1) ∧
      uip_ds6_nbr_add 2 sample_env nbr_old_example addr_fe80_b none 1 NBR_STALE
        = uip_ds6_nbr_add 1 sample_env (uip_ds6_nbr_add_evict_state nbr_old_example 1)
            addr_fe80_b none 1 NBR_STALE) ∧
    (uip_ds6_nbr_add 0 sample_env nbr_old_example addr_fe80_b none 1 NBR_STALE = none ∧
      uip_ds6_nbr_add 1 sample_env nbr_old_example addr_fe80_b none 1 NBR_STALE = none) :=
  ⟨by decide, by decide, by decide,
   (uip_ds6_nbr_add_terminates sample_env nbr_old_example addr_fe80_b none 1 NBR_STALE).2.2 1
     (by decide) (by decide) (by decide),
   by decide⟩

/-- The registration list on return from `uip_ds6_nbr_add`: unchanged unless a slot `o`
was evicted, in which case it is the list at the recursive call. -/
theorem uip_ds6_nbr_add_reg_list (fuel : Nat) (env : Env) (s : uip_ds6_state)
    (x : uip_ipaddr_t) (lladdr : Option uip_lladdr_t) (isrouter state : Nat)
    (r : uip_ds6_state × Option Nat)
    (hadd : uip_ds6_nbr_add (fuel + 2) env s x lladdr isrouter state = some r) :
    r.1.uip_ds6_reg_list = s.uip_ds6_reg_list ∨
    ∃ o old, uip_ds6_nbr_add_oldest env s = some o ∧ s.uip_ds6_nbr_cache[o]? = some old ∧
      uip_ds6_is_nbr_garbage_collectible s old = 1 ∧
      r.1.uip_ds6_reg_list = (uip_ds6_nbr_add_evict_state s o).uip_ds6_reg_list := by
  rcases uip_ds6_nbr_add_cases env s x with ⟨h, hr⟩ | ⟨k, e, hr, _⟩ | ⟨hfull, hno, hn⟩ |
    ⟨o, old, hfull, hno, ho, hold, hg⟩
  · rw [uip_ds6_nbr_add_freespace (fuel + 1) env s x lladdr isrouter state h hr] at hadd
    cases hadd
    exact Or.inl rfl
  · rw [uip_ds6_nbr_add_found (fuel + 1) env s x lladdr isrouter state k hr] at hadd
    cases hadd
    exact Or.inl rfl
  · rw [uip_ds6_nbr_add_full (fuel + 1) env s x lladdr isrouter state hfull hno hn] at hadd
    cases hadd
    exact Or.inl rfl
  · have hscan : uip_ds6_list_loop (fun (e : uip_ds6_nbr_t) => e.isused) (fun e => e.ipaddr)
        (uip_ds6_nbr_add_evict_state s o).uip_ds6_nbr_cache x 128 = (FREESPACE, some o) := by
      rw [uip_ds6_nbr_add_evict_state_nbr_cache s o old hold]
      exact uip_ds6_nbr_add_scan_after_evict _ x o old hold hfull hno
    rw [uip_ds6_nbr_add_recurse fuel env s x lladdr isrouter state o hfull hno ho,
      uip_ds6_nbr_add_freespace fuel env _ x lladdr isrouter state o hscan] at hadd
    cases hadd
    exact Or.inr ⟨o, old, ho, hold, hg, rfl⟩

/-- C38. Eviction never drops an active registration.  In a state where every in-use
registration refers to an in-use default router, whatever `uip_ds6_nbr_add` returns:
every registration that was in use is on return either unchanged or, if its state was
`REG_GARBAGE_COLLECTIBLE`, marked unused and otherwise unchanged; so every in-use
registration in another state is still in use and unchanged.  When the evicted
neighbour is not a default router, no registration is removed at all. -/
theorem uip_ds6_nbr_add_keeps_active_registrations (fuel : Nat) (env : Env)
    (s : uip_ds6_state) (x : uip_ipaddr_t) (lladdr : Option uip_lladdr_t)
    (isrouter state : Nat) (r : uip_ds6_state × Option Nat)
    (hreg : reg_routers_in_use s)
    (hadd : uip_ds6_nbr_add (fuel + 2) env s x lladdr isrouter state = some r) :
    (∀ (j : Nat) (R : uip_ds6_reg_t), s.uip_ds6_reg_list[j]? = some R → R.isused = true →
      (r.1.uip_ds6_reg_list[j]? = some R ∨
        (R.state = REG_GARBAGE_COLLECTIBLE ∧
          r.1.uip_ds6_reg_list[j]? = some { R with isused := false })) ∧
      (R.state ≠ REG_GARBAGE_COLLECTIBLE → r.1.uip_ds6_reg_list[j]? = some R)) ∧
    (∀ o old, uip_ds6_nbr_add_oldest env s = some o → s.uip_ds6_nbr_cache[o]? = some old →
      uip_ds6_defrt_lookup s old.ipaddr = none →
      r.1.uip_ds6_reg_list = s.uip_ds6_reg_list) := by
  have hmain : ∀ (j : Nat) (R : uip_ds6_reg_t), s.uip_ds6_reg_list[j]? = some R →
      R.isused = true →
      (r.1.uip_ds6_reg_list[j]? = some R ∨
        (R.state = REG_GARBAGE_COLLECTIBLE ∧
          r.1.uip_ds6_reg_list[j]? = some { R with isused := false })) := by
    intro j R hj hu
    rcases uip_ds6_nbr_add_reg_list fuel env s x lladdr isrouter state r hadd with
      heq | ⟨o, old, _, hold, hg, heq⟩
    · left
      rw [heq]
      exact hj
    · rw [heq, uip_ds6_nbr_add_evict_state_reg_list s o old hold, hj]
      simp only [Option.map_some']
      by_cases hc : R.defrt = uip_ds6_defrt_lookup s old.ipaddr
      · right
        have hgc := (uip_ds6_is_nbr_garbage_collectible_from_eq_one _ _).mp hg R
          (List.getElem?_mem hj)
        have hst : R.state = REG_GARBAGE_COLLECTIBLE := by
          by_contra hne
          exact hgc ⟨hu, hc, hne⟩
        refine ⟨hst, ?_⟩
        rw [if_pos (by simp [hu, hc])]
      · left
        rw [if_neg (by simp [hc])]
  refine ⟨fun j R hj hu => ⟨hmain j R hj hu, ?_⟩, ?_⟩
  · intro hne
    rcases hmain j R hj hu with h | ⟨hst, _⟩
    · exact h
    · exact absurd hst hne
  · intro o old ho hold hnone
    rcases uip_ds6_nbr_add_reg_list fuel env s x lladdr isrouter state r hadd with
      heq | ⟨o2, old2, ho2, hold2, _, heq⟩
    · exact heq
    · have hoo : o2 = o := Option.some.inj (ho2.symm.trans ho)
      subst hoo
      have hold' : old2 = old := Option.some.inj (hold2.symm.trans hold)
      subst hold'
      rw [heq]
      apply List.ext_getElem?
      intro j
      rw [uip_ds6_nbr_add_evict_state_reg_list s o2 old2 hold2, hnone]
      cases hj : s.uip_ds6_reg_list[j]? with
      | none => rfl
      | some R =>
        simp only [Option.map_some', Option.some.injEq]
        by_cases hc : R.isused = true ∧ R.defrt = none
        · have := hreg R (List.getElem?_mem hj) hc.1
          rw [hc.2] at this
          cases this
        · rw [if_neg]
          intro h
          simp only [Bool.and_eq_true, decide_eq_true_eq] at h
          exact hc h

set_option maxRecDepth 100000 in
/-- A use of C38 on `nbr_old_example`: adding `fe80::b` evicts the neighbour `fe80::c`,
whose router has one garbage-collectible registration (slot 1); that registration is
removed and the registration of slot 0 (`REG_REGISTERED`, with `fe80::a`) is kept. -/
theorem uip_ds6_nbr_add_keeps_active_registrations_witness :
    reg_routers_in_use nbr_old_example ∧
    (nbr_old_example.uip_ds6_reg_list.map (fun R => (R.isused, R.state)))
      = [(true, REG_REGISTERED), (true, REG_GARBAGE_COLLECTIBLE), (false, 0), (false, 0)] ∧
    ((uip_ds6_nbr_add_evict_state nbr_old_example 1).uip_ds6_reg_list.map
      (fun R => (R.isused, R.state)))
      = [(true, REG_REGISTERED), (false, REG_GARBAGE_COLLECTIBLE), (false, 0), (false, 0)] ∧
    (∀ (j : Nat) (R : uip_ds6_reg_t),
      nbr_old_example.uip_ds6_reg_list[j]? = some R → R.isused = true →
      ((uip_ds6_nbr_add_evict_state nbr_old_example 1).uip_ds6_reg_list[j]? = some R ∨
        (R.state = REG_GARBAGE_COLLECTIBLE ∧
          (uip_ds6_nbr_add_evict_state nbr_old_example 1).uip_ds6_reg_list[j]?
            = some { R with isused := false })) ∧
      (R.state ≠ REG_GARBAGE_COLLECTIBLE →
        (uip_ds6_nbr_add_evict_state nbr_old_example 1).uip_ds6_reg_list[j]? = some R)) :=
  ⟨by decide, by decide, by decide,
   (uip_ds6_nbr_add_keeps_active_registrations 0 sample_env nbr_old_example addr_fe80_b none 1
      NBR_STALE
      ({ uip_ds6_nbr_add_evict_state nbr_old_example 1 with
         uip_ds6_nbr_cache :=
           update_slot (uip_ds6_nbr_add_evict_state nbr_old_example 1).uip_ds6_nbr_cache 1
             (fun _ => uip_ds6_nbr_add_entry sample_env addr_fe80_b none 1 NBR_STALE) },
       some 1)
      (by decide) (by decide)).1⟩


/-! ## No duplicate keys -/

/-- Pairwise distinctness of the in-use keys follows from its reading through indices. -/
theorem pairwise_distinct_of_index {α : Type} (isused : α → Bool) (ipaddr : α → uip_ipaddr_t) :
    ∀ (l : List α),
      (∀ (i j : Nat) (X Y : α), l[i]? = some X → l[j]? = some Y →
        isused X = true → isused Y = true → ipaddr X = ipaddr Y → i = j) →
      List.Pairwise (fun X Y => isused X = true → isused Y = true → ipaddr X ≠ ipaddr Y) l := by
  intro l
  induction l with
  | nil => intro _; exact List.Pairwise.nil
  | cons e rest ih =>
    intro h
    rw [List.pairwise_cons]
    constructor
    · intro Y hY hX hYu hXY
      obtain ⟨j, hj⟩ := List.mem_iff_getElem?.mp hY
      have := h 0 (j + 1) e Y List.getElem?_cons_zero (by simpa using hj) hX hYu hXY
      omega
    · apply ih
      intro i j X Y hi hj hX hY hXY
      have := h (i + 1) (j + 1) X Y (by simpa using hi) (by simpa using hj) hX hY hXY
      omega

/-- A table that only shrinks keeps its in-use keys distinct. -/
theorem pairwise_distinct_of_shrinks {α : Type} (isused : α → Bool)
    (ipaddr : α → uip_ipaddr_t) {l l' : List α}
    (hs : table_shrinks isused ipaddr l l')
    (h : List.Pairwise (fun X Y => isused X = true → isused Y = true → ipaddr X ≠ ipaddr Y) l) :
    List.Pairwise (fun X Y => isused X = true → isused Y = true → ipaddr X ≠ ipaddr Y) l' := by
  apply pairwise_distinct_of_index
  intro i j X Y hi hj hX hY hXY
  obtain ⟨X0, hX0, hXu, hXk⟩ := hs.2 i X hi hX
  obtain ⟨Y0, hY0, hYu, hYk⟩ := hs.2 j Y hj hY
  exact pairwise_distinct_index isused ipaddr l h i j X0 Y0 hX0 hY0 hXu hYu
    (hXk.trans (hXY.trans hYk.symm))

/-- Writing an entry with the key `x` into a slot of a table in which no in-use entry
has the key `x` keeps the in-use keys distinct. -/
theorem pairwise_distinct_after_add {α : Type} (isused : α → Bool)
    (ipaddr : α → uip_ipaddr_t) (l : List α) (x : uip_ipaddr_t) (k : Nat) (f : α → α)
    (hf : ∀ e, ipaddr (f e) = x)
    (hno : ∀ e ∈ l, ¬ (isused e = true ∧ ipaddr e = x))
    (h : List.Pairwise (fun X Y => isused X = true → isused Y = true → ipaddr X ≠ ipaddr Y) l) :
    List.Pairwise (fun X Y => isused X = true → isused Y = true → ipaddr X ≠ ipaddr Y)
      (update_slot l k f) := by
  apply pairwise_distinct_of_index
  intro i j X Y hi hj hX hY hXY
  rw [update_slot_getElem?] at hi hj
  by_cases hki : k = i
  · by_cases hkj : k = j
    · omega
    · exfalso
      rw [if_pos hki] at hi
      rw [if_neg hkj] at hj
      cases hl : l[i]? with
      | none => rw [hl] at hi; cases hi
      | some e =>
        rw [hl] at hi
        simp only [Option.map_some', Option.some.injEq] at hi
        rw [← hi, hf] at hXY
        exact hno Y (List.getElem?_mem hj) ⟨hY, hXY.symm⟩
  · rw [if_neg hki] at hi
    by_cases hkj : k = j
    · exfalso
      rw [if_pos hkj] at hj
      cases hl : l[j]? with
      | none => rw [hl] at hj; cases hj
      | some e =>
        rw [hl] at hj
        simp only [Option.map_some', Option.some.injEq] at hj
        rw [← hj, hf] at hXY
        exact hno X (List.getElem?_mem hi) ⟨hX, hXY⟩
    · rw [if_neg hkj] at hj
      exact pairwise_distinct_index isused ipaddr l h i j X Y hi hj hX hY hXY

/-- The scan for an address that some in-use entry holds answers `FOUND`. -/
theorem uip_ds6_list_loop_found_of_mem {α : Type} (isused : α → Bool)
    (ipaddr : α → uip_ipaddr_t) (l : List α) (x : uip_ipaddr_t)
    (h : ∃ e ∈ l, isused e = true ∧ ipaddr e = x) :
    ∃ k, uip_ds6_list_loop isused ipaddr l x 128 = (FOUND, some k) := by
  obtain ⟨e, he, hu, hx⟩ := h
  have hm : uip_ipaddr_prefixcmp (ipaddr e) x 128 = true := (uip_ipaddr_prefixcmp_128 _ _).mpr hx
  rcases uip_ds6_list_loop_cases isused ipaddr l x 128 with
    ⟨k, _, hr, _⟩ | ⟨_, _, _, _, _, _, hno⟩ | ⟨_, hall⟩
  · exact ⟨k, hr⟩
  · exact absurd ⟨hu, hm⟩ (hno e he)
  · have := (hall e he).2
    rw [hm] at this
    cases this

/-- What a `FREESPACE` outcome of the exact-match scan says of the keys. -/
theorem uip_ds6_list_loop_freespace_no_key {α : Type} (isused : α → Bool)
    (ipaddr : α → uip_ipaddr_t) (l : List α) (x : uip_ipaddr_t) (h : Nat)
    (hscan : uip_ds6_list_loop isused ipaddr l x 128 = (FREESPACE, some h)) :
    ∀ e ∈ l, ¬ (isused e = true ∧ ipaddr e = x) := by
  obtain ⟨_, _, _, _, hno⟩ := uip_ds6_list_loop_freespace_inv isused ipaddr l x 128 h hscan
  intro e he hc
  exact hno e he ⟨hc.1, (uip_ipaddr_prefixcmp_128 _ _).mpr hc.2⟩

/-- The neighbour cache on return from `uip_ds6_nbr_add`: unchanged, or the entry for
`x` written into a slot that the scan for `x` reported free in a cache that arose from
the original by freeing at most one slot. -/
theorem uip_ds6_nbr_add_nbr_cache (fuel : Nat) (env : Env) (s : uip_ds6_state)
    (x : uip_ipaddr_t) (lladdr : Option uip_lladdr_t) (isrouter state : Nat)
    (r : uip_ds6_state × Option Nat)
    (hadd : uip_ds6_nbr_add (fuel + 2) env s x lladdr isrouter state = some r) :
    r.1.uip_ds6_nbr_cache = s.uip_ds6_nbr_cache ∨
    ∃ L h, table_shrinks (fun (e : uip_ds6_nbr_t) => e.isused) (fun e => e.ipaddr)
        s.uip_ds6_nbr_cache L ∧
      uip_ds6_list_loop (fun (e : uip_ds6_nbr_t) => e.isused) (fun e => e.ipaddr) L x 128
        = (FREESPACE, some h) ∧
      r.1.uip_ds6_nbr_cache
        = update_slot L h (fun _ => uip_ds6_nbr_add_entry env x lladdr isrouter state) := by
  rcases uip_ds6_nbr_add_cases env s x with ⟨h, hr⟩ | ⟨k, e, hr, _⟩ | ⟨hfull, hno, hn⟩ |
    ⟨o, old, hfull, hno, ho, hold, hg⟩
  · rw [uip_ds6_nbr_add_freespace (fuel + 1) env s x lladdr isrouter state h hr] at hadd
    cases hadd
    exact Or.inr ⟨_, h, table_shrinks_refl _ _ _, hr, rfl⟩
  · rw [uip_ds6_nbr_add_found (fuel + 1) env s x lladdr isrouter state k hr] at hadd
    cases hadd
    exact Or.inl rfl
  · rw [uip_ds6_nbr_add_full (fuel + 1) env s x lladdr isrouter state hfull hno hn] at hadd
    cases hadd
    exact Or.inl rfl
  · have hscan : uip_ds6_list_loop (fun (e : uip_ds6_nbr_t) => e.isused) (fun e => e.ipaddr)
        (uip_ds6_nbr_add_evict_state s o).uip_ds6_nbr_cache x 128 = (FREESPACE, some o) := by
      rw [uip_ds6_nbr_add_evict_state_nbr_cache s o old hold]
      exact uip_ds6_nbr_add_scan_after_evict _ x o old hold hfull hno
    rw [uip_ds6_nbr_add_recurse fuel env s x lladdr isrouter state o hfull hno ho,
      uip_ds6_nbr_add_freespace fuel env _ x lladdr isrouter state o hscan] at hadd
    cases hadd
    refine Or.inr ⟨_, o, ?_, hscan, rfl⟩
    rw [uip_ds6_nbr_add_evict_state_nbr_cache s o old hold]
    exact table_shrinks_update_slot _ _ _ _ _ (fun e hu => by cases hu)

/-- C39. No duplicate keys.  If the in-use entries of the neighbour cache (of the
default-router list, of the list of unicast addresses) have pairwise distinct addresses,
they still have after `uip_ds6_nbr_add` and `uip_ds6_nbr_rm` (after `uip_ds6_defrt_add`
and `uip_ds6_defrt_rm`, after `uip_ds6_addr_add` and `uip_ds6_addr_rm`) with any
arguments; and adding an address that an in-use entry already holds returns null and
leaves the state unchanged. -/
theorem uip_ds6_no_duplicate_keys :
    (∀ (fuel : Nat) (env : Env) (s : uip_ds6_state) (x : uip_ipaddr_t)
        (lladdr : Option uip_lladdr_t) (isrouter state : Nat), nbr_addrs_distinct s →
      ∃ r, uip_ds6_nbr_add (fuel + 2) env s x lladdr isrouter state = some r ∧
        nbr_addrs_distinct r.1) ∧
    (∀ (s : uip_ds6_state) (nbr : Option Nat), nbr_addrs_distinct s →
      nbr_addrs_distinct (uip_ds6_nbr_rm s nbr)) ∧
    (∀ (env : Env) (s : uip_ds6_state) (x : uip_ipaddr_t) (interval : Nat),
      defrt_addrs_distinct s → defrt_addrs_distinct (uip_ds6_defrt_add env s x interval).1) ∧
    (∀ (s : uip_ds6_state) (defrt : Option Nat), defrt_addrs_distinct s →
      defrt_addrs_distinct (uip_ds6_defrt_rm s defrt)) ∧
    (∀ (env : Env) (s : uip_ds6_state) (x : uip_ipaddr_t) (vlifetime type : Nat),
      addr_addrs_distinct s → addr_addrs_distinct (uip_ds6_addr_add env s x vlifetime type).1) ∧
    (∀ (s : uip_ds6_state) (addr : Option Nat), addr_addrs_distinct s →
      addr_addrs_distinct (uip_ds6_addr_rm s addr)) ∧
    (∀ (fuel : Nat) (env : Env) (s : uip_ds6_state) (x : uip_ipaddr_t)
        (lladdr : Option uip_lladdr_t) (isrouter state : Nat),
      (∃ e ∈ s.uip_ds6_nbr_cache, e.isused = true ∧ e.ipaddr = x) →
      uip_ds6_nbr_add (fuel + 1) env s x lladdr isrouter state = some (s, none)) ∧
    (∀ (env : Env) (s : uip_ds6_state) (x : uip_ipaddr_t) (interval : Nat),
      (∃ e ∈ s.uip_ds6_defrt_list, e.isused = true ∧ e.ipaddr = x) →
      uip_ds6_defrt_add env s x interval = (s, none)) ∧
    (∀ (env : Env) (s : uip_ds6_state) (x : uip_ipaddr_t) (vlifetime type : Nat),
      (∃ e ∈ s.uip_ds6_if.addr_list, e.isused = true ∧ e.ipaddr = x) →
      uip_ds6_addr_add env s x vlifetime type = (s, none)) := by
  refine ⟨?_, ?_, ?_, ?_, ?_, ?_, ?_, ?_, ?_⟩
  · intro fuel env s x lladdr isrouter state hd
    cases hadd : uip_ds6_nbr_add (fuel + 2) env s x lladdr isrouter state with
    | none =>
      rcases uip_ds6_nbr_add_cases env s x with ⟨h, hr⟩ | ⟨k, e, hr, _⟩ | ⟨hfull, hno, hn⟩ |
        ⟨o, old, hfull, hno, ho, hold, hg⟩
      · rw [uip_ds6_nbr_add_freespace (fuel + 1) env s x lladdr isrouter state h hr] at hadd
        cases hadd
      · rw [uip_ds6_nbr_add_found (fuel + 1) env s x lladdr isrouter state k hr] at hadd
        cases hadd
      · rw [uip_ds6_nbr_add_full (fuel + 1) env s x lladdr isrouter state hfull hno hn] at hadd
        cases hadd
      · have hscan : uip_ds6_list_loop (fun (e : uip_ds6_nbr_t) => e.isused)
            (fun e => e.ipaddr) (uip_ds6_nbr_add_evict_state s o).uip_ds6_nbr_cache x 128
            = (FREESPACE, some o) := by
          rw [uip_ds6_nbr_add_evict_state_nbr_cache s o old hold]
          exact uip_ds6_nbr_add_scan_after_evict _ x o old hold hfull hno
        rw [uip_ds6_nbr_add_recurse fuel env s x lladdr isrouter state o hfull hno ho,
          uip_ds6_nbr_add_freespace fuel env _ x lladdr isrouter state o hscan] at hadd
        cases hadd
    | some r =>
      refine ⟨r, rfl, ?_⟩
      unfold nbr_addrs_distinct at hd ⊢
      rcases uip_ds6_nbr_add_nbr_cache fuel env s x lladdr isrouter state r hadd with
        heq | ⟨L, h, hs, hscan, heq⟩
      · rw [heq]
        exact hd
      · rw [heq]
        exact pairwise_distinct_after_add _ _ L x h _ (fun _ => rfl)
          (uip_ds6_list_loop_freespace_no_key _ _ L x h hscan)
          (pairwise_distinct_of_shrinks _ _ hs hd)
  · intro s nbr hd
    unfold nbr_addrs_distinct at hd ⊢
    cases nbr with
    | none => exact hd
    | some n =>
      exact pairwise_distinct_of_shrinks _ _
        (table_shrinks_update_slot _ _ _ _ _ (fun e hu => by cases hu)) hd
  · intro env s x interval hd
    unfold defrt_addrs_distinct at hd ⊢
    cases hadd : uip_ds6_defrt_add env s x interval with
    | mk s' h =>
      cases h with
      | none =>
        have hs : s' = s := by
          unfold uip_ds6_defrt_add at hadd
          simp only [] at hadd
          split at hadd
          · split at hadd
            · cases hadd
            · exact (congrArg Prod.fst hadd).symm
          · exact (congrArg Prod.fst hadd).symm
        rw [hs]
        exact hd
      | some h =>
        obtain ⟨hscan, hs⟩ := uip_ds6_defrt_add_some env s s' x interval h hadd
        rw [hs]
        exact pairwise_distinct_after_add _ _ _ x h _ (fun _ => rfl)
          (uip_ds6_list_loop_freespace_no_key _ _ _ x h hscan) hd
  · intro s defrt hd
    unfold defrt_addrs_distinct at hd ⊢
    cases defrt with
    | none => exact hd
    | some n =>
      exact pairwise_distinct_of_shrinks _ _
        (table_shrinks_update_slot _ _ _ _ _ (fun e hu => by cases hu)) hd
  · intro env s x vlifetime type hd
    unfold addr_addrs_distinct at hd ⊢
    cases hadd : uip_ds6_addr_add env s x vlifetime type with
    | mk s' h =>
      cases h with
      | none =>
        have hs : s' = s := by
          unfold uip_ds6_addr_add at hadd
          simp only [] at hadd
          split at hadd
          · split at hadd
            · cases hadd
            · exact (congrArg Prod.fst hadd).symm
          · exact (congrArg Prod.fst hadd).symm
        rw [hs]
        exact hd
      | some h =>
        obtain ⟨hscan, hs⟩ := uip_ds6_addr_add_some env s s' x vlifetime type h hadd
        rw [hs]
        exact pairwise_distinct_after_add _ _ _ x h _ (fun _ => rfl)
          (uip_ds6_list_loop_freespace_no_key _ _ _ x h hscan) hd
  · intro s addr hd
    unfold addr_addrs_distinct at hd ⊢
    cases addr with
    | none => exact hd
    | some n =>
      exact pairwise_distinct_of_shrinks _ _
        (table_shrinks_update_slot _ _ _ _ _ (fun e hu => by cases hu)) hd
  · intro fuel env s x lladdr isrouter state hmem
    obtain ⟨k, hr⟩ := uip_ds6_list_loop_found_of_mem _ _ _ x hmem
    exact uip_ds6_nbr_add_found fuel env s x lladdr isrouter state k hr
  · intro env s x interval hmem
    obtain ⟨k, hr⟩ := uip_ds6_list_loop_found_of_mem _ _ _ x hmem
    simp only [uip_ds6_defrt_add, hr]
    rw [if_neg FOUND_ne_FREESPACE]
  · intro env s x vlifetime type hmem
    obtain ⟨k, hr⟩ := uip_ds6_list_loop_found_of_mem _ _ _ x hmem
    simp only [uip_ds6_addr_add, hr]
    rw [if_neg FOUND_ne_FREESPACE]

set_option maxRecDepth 100000 in
/-- A use of C39 on `tables_example`, which holds the neighbours `fe80::a`, `fe80::c`,
the router `fe80::a` and two unicast addresses. -/
theorem uip_ds6_no_duplicate_keys_witness :
    nbr_addrs_distinct tables_example ∧ defrt_addrs_distinct tables_example ∧
    addr_addrs_distinct tables_example ∧
    (∃ r, uip_ds6_nbr_add 2 sample_env tables_example addr_fe80_b none 1 NBR_STALE = some r ∧
      nbr_addrs_distinct r.1) ∧
    defrt_addrs_distinct (uip_ds6_defrt_add sample_env tables_example addr_fe80_b 1800).1 ∧
    addr_addrs_distinct (uip_ds6_addr_add sample_env tables_example addr_2001_db8_0_1 0 1).1 ∧
    uip_ds6_nbr_add 1 sample_env tables_example addr_fe80_a none 1 NBR_STALE
      = some (tables_example, none) ∧
    uip_ds6_defrt_add sample_env tables_example addr_fe80_a 1800 = (tables_example, none) ∧
    uip_ds6_addr_add sample_env tables_example addr_2001_db8_1_42 0 1
      = (tables_example, none) :=
  ⟨by decide, by decide, by decide,
   uip_ds6_no_duplicate_keys.1 0 sample_env tables_example addr_fe80_b none 1 NBR_STALE
     (by decide),
   uip_ds6_no_duplicate_keys.2.2.1 sample_env tables_example addr_fe80_b 1800 (by decide),
   uip_ds6_no_duplicate_keys.2.2.2.2.1 sample_env tables_example addr_2001_db8_0_1 0 1
     (by decide),
   uip_ds6_no_duplicate_keys.2.2.2.2.2.2.1 0 sample_env tables_example addr_fe80_a none 1
     NBR_STALE (by decide),
   uip_ds6_no_duplicate_keys.2.2.2.2.2.2.2.1 sample_env tables_example addr_fe80_a 1800
     (by decide),
   uip_ds6_no_duplicate_keys.2.2.2.2.2.2.2.2 sample_env tables_example addr_2001_db8_1_42 0 1
     (by decide)⟩


/-! ## Router solicitation -/

/-- The search of `uip_ds6_send_rs` returns the lowest-index in-use router with
`sending_rs` set, and null when there is none. -/
theorem uip_ds6_send_rs_find_spec :
    ∀ (l : List uip_ds6_defrt_t) (i : Nat),
      (uip_ds6_send_rs_find l i = none ∧
        ∀ e ∈ l, ¬ (e.isused = true ∧ e.sending_rs = true))
      ∨ ∃ m e, uip_ds6_send_rs_find l i = some (i + m) ∧ l[m]? = some e ∧
          e.isused = true ∧ e.sending_rs = true ∧
          ∀ (j : Nat) (e' : uip_ds6_defrt_t), j < m → l[j]? = some e' →
            ¬ (e'.isused = true ∧ e'.sending_rs = true) := by
  intro l
  induction l with
  | nil =>
    intro i
    left
    exact ⟨rfl, fun e he => absurd he (List.not_mem_nil e)⟩
  | cons x rest ih =>
    intro i
    by_cases hc : x.isused = true ∧ x.sending_rs = true
    · right
      refine ⟨0, x, ?_, List.getElem?_cons_zero, hc.1, hc.2, ?_⟩
      · simp [uip_ds6_send_rs_find, hc.1, hc.2]
      · intro j e' hj
        exact absurd hj (Nat.not_lt_zero j)
    · have hstep : uip_ds6_send_rs_find (x :: rest) i = uip_ds6_send_rs_find rest (i + 1) := by
        simp only [uip_ds6_send_rs_find]
        rw [if_neg]
        intro h
        simp only [Bool.and_eq_true] at h
        exact hc h
      rw [hstep]
      rcases ih (i + 1) with ⟨hr, hno⟩ | ⟨m, e, hr, hm, hu, hs, hfirst⟩
      · left
        refine ⟨hr, ?_⟩
        intro e he
        rcases List.mem_cons.mp he with rfl | he'
        · exact hc
        · exact hno e he'
      · right
        refine ⟨m + 1, e, by rw [hr]; congr 1; omega, by simpa using hm, hu, hs, ?_⟩
        intro j e' hj hje
        cases j with
        | zero =>
          simp only [List.getElem?_cons_zero, Option.some.injEq] at hje
          subst hje
          exact hc
        | succ j' =>
          simp only [List.getElem?_cons_succ] at hje
          exact hfirst j' e' (by omega) hje

/-- The unicast branch of `uip_ds6_send_rs` for a router that has unicast solicitations
left: one RS to the router, and its count goes up (it stays above 10). -/
theorem uip_ds6_send_rs_unicast_below (env : Env) (s : uip_ds6_state) (d : Nat)
    (e : uip_ds6_defrt_t) (hd : s.uip_ds6_defrt_list[d]? = some e)
    (hlt : e.rscount < env.UIP_ND6_MAX_RTR_SOLICITATIONS) :
    (uip_ds6_send_rs_unicast env s d).output = s.output ++ [Packet.rs (some e.ipaddr)] ∧
    (uip_ds6_send_rs_unicast env s d).uip_ds6_defrt_list[d]?
      = some { e with rscount := if e.rscount > 10 then e.rscount
                                 else (e.rscount + 1) % 256 } := by
  unfold uip_ds6_send_rs_unicast
  simp only [hd, if_pos hlt]
  refine ⟨rfl, ?_⟩
  show (update_slot s.uip_ds6_defrt_list d _)[d]? = _
  rw [update_slot_getElem?_self, hd]
  rfl

/-- The unicast branch of `uip_ds6_send_rs` for a router whose unicast solicitations
are used up: `sending_rs` is cleared, the count is reset and one multicast RS is sent. -/
theorem uip_ds6_send_rs_unicast_exhausted (env : Env) (s : uip_ds6_state) (d : Nat)
    (e : uip_ds6_defrt_t) (hd : s.uip_ds6_defrt_list[d]? = some e)
    (hge : env.UIP_ND6_MAX_RTR_SOLICITATIONS ≤ e.rscount) :
    (uip_ds6_send_rs_unicast env s d).output = s.output ++ [Packet.rs none] ∧
    (uip_ds6_send_rs_unicast env s d).uip_ds6_defrt_list[d]?
      = some { e with sending_rs := false, rscount := 0 } := by
  unfold uip_ds6_send_rs_unicast
  simp only [hd, if_neg (Nat.not_lt.mpr hge)]
  refine ⟨rfl, ?_⟩
  show (update_slot s.uip_ds6_defrt_list d _)[d]? = _
  rw [update_slot_getElem?_self, hd]
  rfl

/-- With the RS timer expired and a router given that is in use, `uip_ds6_send_rs` marks
it as `sending_rs` and takes the unicast branch for it. -/
theorem uip_ds6_send_rs_given (env : Env) (s : uip_ds6_state) (d : Nat) (X : uip_ds6_defrt_t)
    (ht : timer_expired env s.uip_ds6_timer_rs = true)
    (hd : s.uip_ds6_defrt_list[d]? = some X) (hu : X.isused = true) :
    uip_ds6_send_rs env s (some d) =
      uip_ds6_send_rs_unicast env
        { s with
          uip_ds6_defrt_list :=
            update_slot s.uip_ds6_defrt_list d (fun x => { x with sending_rs := true }) } d := by
  unfold uip_ds6_send_rs
  simp only [ht, Bool.not_true, Bool.false_eq_true, if_false, Option.some_bind, hd, hu, if_true]

/-- With the RS timer expired and no in-use router given, `uip_ds6_send_rs` searches for
a router with `sending_rs` set. -/
theorem uip_ds6_send_rs_search (env : Env) (s : uip_ds6_state) (defrt : Option Nat)
    (ht : timer_expired env s.uip_ds6_timer_rs = true)
    (hn : defrt_in_use s defrt = false) :
    uip_ds6_send_rs env s defrt =
      match uip_ds6_send_rs_find s.uip_ds6_defrt_list 0 with
      | some d => uip_ds6_send_rs_unicast env s d
      | none => uip_ds6_send_rs_multicast env s := by
  have hb : defrt.bind (fun d => (s.uip_ds6_defrt_list[d]?).bind
      (fun e => if e.isused then some d else none)) = none := by
    cases defrt with
    | none => rfl
    | some d =>
      simp only [Option.some_bind]
      cases hX : s.uip_ds6_defrt_list[d]? with
      | none => rfl
      | some X =>
        simp only [Option.some_bind]
        have hXu : X.isused = false := by
          cases hu : X.isused with
          | false => rfl
          | true =>
            have := (defrt_in_use_iff s (some d)).mpr ⟨d, X, rfl, hX, hu⟩
            rw [hn] at this
            cases this
        rw [hXu]
        rfl
  unfold uip_ds6_send_rs
  simp only [ht, Bool.not_true, Bool.false_eq_true, if_false, hb]
  all_goals (cases uip_ds6_send_rs_find s.uip_ds6_defrt_list 0 <;> rfl)

set_option maxRecDepth 100000 in
/-- C34 (where the claim fails). With `UIP_ND6_MAX_RTR_SOLICITATIONS = 12`, the RS timer
expired and the router `fe80::a` being solicited with `rscount = 11 < 12`:
`uip_ds6_send_rs(NULL)` emits one RS by unicast to the router, and its `rscount` is
still 11, not 12. -/
theorem uip_ds6_send_rs_count_saturates :
    timer_expired sample_env rs_saturated_example.uip_ds6_timer_rs = true ∧
    (rs_saturated_example.uip_ds6_defrt_list[0]?).map
      (fun Y => (Y.isused, Y.sending_rs, Y.rscount)) = some (true, true, 11) ∧
    (uip_ds6_send_rs { sample_env with UIP_ND6_MAX_RTR_SOLICITATIONS := 12 }
      rs_saturated_example none).output = [Packet.rs (some addr_fe80_a)] ∧
    ((uip_ds6_send_rs { sample_env with UIP_ND6_MAX_RTR_SOLICITATIONS := 12 }
      rs_saturated_example none).uip_ds6_defrt_list[0]?).map (fun Y => Y.rscount)
      = some 11 := by
  decide

/-- C34 (amended). `uip_ds6_send_rs(defrt)`.  While the RS timer has not expired the
state is unchanged (nothing is emitted).  Otherwise let `r` be `defrt` when it is
non-null and in use, else the lowest-index in-use router with `sending_rs` set.  If `r`
exists and `r.rscount < UIP_ND6_MAX_RTR_SOLICITATIONS`, exactly one RS is emitted,
unicast to `r`, and `r.rscount` is one more than before when it was at most 10 and
unchanged when it was above 10; if `r` exists and
`r.rscount ≥ UIP_ND6_MAX_RTR_SOLICITATIONS`, `r.sending_rs` is cleared, `r.rscount` is 0
and exactly one multicast RS is emitted; if there is no such `r`, exactly one multicast
RS is emitted. -/
theorem uip_ds6_send_rs_spec (env : Env) (s : uip_ds6_state) (defrt : Option Nat) :
    (timer_expired env s.uip_ds6_timer_rs = false → uip_ds6_send_rs env s defrt = s) ∧
    (timer_expired env s.uip_ds6_timer_rs = true →
      ∀ (r : Nat) (X : uip_ds6_defrt_t), s.uip_ds6_defrt_list[r]? = some X →
        ((defrt = some r ∧ X.isused = true) ∨
          (defrt_in_use s defrt = false ∧ X.isused = true ∧ X.sending_rs = true ∧
            ∀ (j : Nat) (Y : uip_ds6_defrt_t), j < r → s.uip_ds6_defrt_list[j]? = some Y →
              ¬ (Y.isused = true ∧ Y.sending_rs = true))) →
        (X.rscount < env.UIP_ND6_MAX_RTR_SOLICITATIONS →
          (uip_ds6_send_rs env s defrt).output = s.output ++ [Packet.rs (some X.ipaddr)] ∧
          (X.rscount ≤ 10 →
            ((uip_ds6_send_rs env s defrt).uip_ds6_defrt_list[r]?).map (fun Y => Y.rscount)
              = some (X.rscount + 1)) ∧
          (10 < X.rscount →
            ((uip_ds6_send_rs env s defrt).uip_ds6_defrt_list[r]?).map (fun Y => Y.rscount)
              = some X.rscount)) ∧
        (env.UIP_ND6_MAX_RTR_SOLICITATIONS ≤ X.rscount →
          (uip_ds6_send_rs env s defrt).output = s.output ++ [Packet.rs none] ∧
          ((uip_ds6_send_rs env s defrt).uip_ds6_defrt_list[r]?).map
              (fun Y => (Y.sending_rs, Y.rscount)) = some (false, 0))) ∧
    (timer_expired env s.uip_ds6_timer_rs = true → defrt_in_use s defrt = false →
      (∀ Y ∈ s.uip_ds6_defrt_list, ¬ (Y.isused = true ∧ Y.sending_rs = true)) →
      (uip_ds6_send_rs env s defrt).output = s.output ++ [Packet.rs none]) := by
  refine ⟨uip_ds6_send_rs_not_expired env s defrt, ?_, ?_⟩
  · intro ht r X hr htarget
    have hkey : ∃ (s1 : uip_ds6_state) (X1 : uip_ds6_defrt_t),
        uip_ds6_send_rs env s defrt = uip_ds6_send_rs_unicast env s1 r ∧
        s1.uip_ds6_defrt_list[r]? = some X1 ∧ s1.output = s.output ∧
        X1.rscount = X.rscount ∧ X1.ipaddr = X.ipaddr := by
      rcases htarget with ⟨hd, hu⟩ | ⟨hn, hu, hs, hfirst⟩
      · subst hd
        refine ⟨_, { X with sending_rs := true },
          uip_ds6_send_rs_given env s r X ht hr hu, ?_, rfl, rfl, rfl⟩
        show (update_slot s.uip_ds6_defrt_list r _)[r]? = _
        rw [update_slot_getElem?_self, hr]
        rfl
      · refine ⟨s, X, ?_, hr, rfl, rfl, rfl⟩
        rw [uip_ds6_send_rs_search env s defrt ht hn]
        rcases uip_ds6_send_rs_find_spec s.uip_ds6_defrt_list 0 with
          ⟨_, hno⟩ | ⟨m, e, hf, hm, heu, hes, hmfirst⟩
        · exact absurd ⟨hu, hs⟩ (hno X (List.getElem?_mem hr))
        · have hmr : m = r := by
            rcases Nat.lt_trichotomy m r with hlt | heq | hgt
            · exact absurd ⟨heu, hes⟩ (hfirst m e hlt hm)
            · exact heq
            · exact absurd ⟨hu, hs⟩ (hmfirst r X hgt hr)
          subst hmr
          rw [hf, Nat.zero_add]
    obtain ⟨s1, X1, heq, hX1, ho, hc, ha⟩ := hkey
    constructor
    · intro hlt
      obtain ⟨h1, h2⟩ := uip_ds6_send_rs_unicast_below env s1 r X1 hX1 (by rw [hc]; exact hlt)
      rw [heq, h1, h2, ho, ha]
      refine ⟨rfl, ?_, ?_⟩
      · intro hle
        simp only [Option.map_some', Option.some.injEq]
        rw [hc, if_neg (by omega), Nat.mod_eq_of_lt (by omega)]
      · intro hgt
        simp only [Option.map_some', Option.some.injEq]
        rw [hc, if_pos hgt]
    · intro hge
      obtain ⟨h1, h2⟩ := uip_ds6_send_rs_unicast_exhausted env s1 r X1 hX1
        (by rw [hc]; exact hge)
      rw [heq, h1, h2, ho]
      exact ⟨rfl, rfl⟩
  · intro ht hn hno
    rw [uip_ds6_send_rs_search env s defrt ht hn]
    rcases uip_ds6_send_rs_find_spec s.uip_ds6_defrt_list 0 with
      ⟨hf, _⟩ | ⟨m, e, _, hm, heu, hes, _⟩
    · rw [hf]
      rfl
    · exact absurd ⟨heu, hes⟩ (hno e (List.getElem?_mem hm))

set_option maxRecDepth 100000 in
/-- C34 (amended), on `rs_example` (`UIP_ND6_MAX_RTR_SOLICITATIONS = 3`): with no router
given, the RS goes by unicast to `fe80::a`, the first router with `sending_rs` set, whose
count becomes 2; with the router `fe80::c` given, whose count is 3, the RS is multicast
and the router is reset. -/
theorem uip_ds6_send_rs_spec_witness :
    timer_expired sample_env rs_example.uip_ds6_timer_rs = true ∧
    ((uip_ds6_send_rs sample_env rs_example none).output
        = rs_example.output ++ [Packet.rs (some addr_fe80_a)] ∧
      ((uip_ds6_send_rs sample_env rs_example none).uip_ds6_defrt_list[0]?).map
        (fun Y => Y.rscount) = some (1 + 1)) ∧
    ((uip_ds6_send_rs sample_env rs_example (some 1)).output
        = rs_example.output ++ [Packet.rs none] ∧
      ((uip_ds6_send_rs sample_env rs_example (some 1)).uip_ds6_defrt_list[1]?).map
        (fun Y => (Y.sending_rs, Y.rscount)) = some (false, 0)) :=
  have h1 := ((uip_ds6_send_rs_spec sample_env rs_example none).2.1 (by decide) 0
      { sample_defrt addr_fe80_a 90 1800 0 with sending_rs := true, rscount := 1 } (by decide)
      (Or.inr ⟨by decide, by decide, by decide,
        fun j _ h => absurd h (Nat.not_lt_zero j)⟩)).1 (by decide)
  ⟨by decide, ⟨h1.1, h1.2.1 (by decide)⟩,
   ((uip_ds6_send_rs_spec sample_env rs_example (some 1)).2.1 (by decide) 1
      { sample_defrt addr_fe80_c 90 1800 0 with sending_rs := true, rscount := 3 } (by decide)
      (Or.inl ⟨rfl, by decide⟩)).2 (by decide)⟩


/-! ## What the later phases of the tick leave alone -/

theorem uip_ds6_addr_rm_in_progress (s : uip_ds6_state) (addr : Option Nat) :
    (uip_ds6_addr_rm s addr).uip_ds6_if.registration_in_progress =
      s.uip_ds6_if.registration_in_progress := by
  cases addr <;> rfl

theorem uip_ds6_periodic_addr_regs (env : Env) (v : periodic_vars) (i : Nat) :
    (uip_ds6_periodic_addr env v i).st.uip_ds6_reg_list = v.st.uip_ds6_reg_list ∧
    (uip_ds6_periodic_addr env v i).st.uip_ds6_if.registration_in_progress =
      v.st.uip_ds6_if.registration_in_progress := by
  unfold uip_ds6_periodic_addr
  repeat' split
  all_goals exact ⟨rfl, rfl⟩

theorem uip_ds6_periodic_defrt_regs (env : Env) (v : periodic_vars) (i : Nat) :
    (uip_ds6_periodic_defrt env v i).st.uip_ds6_reg_list = v.st.uip_ds6_reg_list ∧
    (uip_ds6_periodic_defrt env v i).st.uip_ds6_if.registration_in_progress =
      v.st.uip_ds6_if.registration_in_progress := by
  unfold uip_ds6_periodic_defrt
  repeat' split
  all_goals exact ⟨rfl, rfl⟩

theorem uip_ds6_periodic_prefixes_regs (env : Env) (v : periodic_vars) (i : Nat) :
    (uip_ds6_periodic_prefixes env v i).st.uip_ds6_reg_list = v.st.uip_ds6_reg_list ∧
    (uip_ds6_periodic_prefixes env v i).st.uip_ds6_if.registration_in_progress =
      v.st.uip_ds6_if.registration_in_progress := by
  unfold uip_ds6_periodic_prefixes
  repeat' split
  all_goals exact ⟨rfl, rfl⟩

theorem uip_ds6_periodic_context_regs (env : Env) (v : periodic_vars) (i : Nat) :
    (uip_ds6_periodic_context env v i).st.uip_ds6_reg_list = v.st.uip_ds6_reg_list ∧
    (uip_ds6_periodic_context env v i).st.uip_ds6_if.registration_in_progress =
      v.st.uip_ds6_if.registration_in_progress := by
  unfold uip_ds6_periodic_context
  repeat' split
  all_goals exact ⟨rfl, rfl⟩

theorem uip_ds6_periodic_rs_regs (env : Env) (v : periodic_vars) :
    (uip_ds6_periodic_rs env v).st.uip_ds6_reg_list = v.st.uip_ds6_reg_list ∧
    (uip_ds6_periodic_rs env v).st.uip_ds6_if.registration_in_progress =
      v.st.uip_ds6_if.registration_in_progress := by
  unfold uip_ds6_periodic_rs
  split
  · exact ⟨uip_ds6_send_rs_reg_list _ _ _, by rw [uip_ds6_send_rs_netif]⟩
  · exact ⟨rfl, rfl⟩

theorem uip_ds6_periodic_nbr_regs (env : Env) (v : periodic_vars) (i : Nat) :
    (uip_ds6_periodic_nbr env v i).st.uip_ds6_reg_list = v.st.uip_ds6_reg_list ∧
    (uip_ds6_periodic_nbr env v i).st.uip_ds6_if.registration_in_progress =
      v.st.uip_ds6_if.registration_in_progress := by
  unfold uip_ds6_periodic_nbr
  repeat' split
  all_goals refine ⟨?_, ?_⟩
  all_goals first
    | rfl
    | (simp only [uip_nd6_ns_output_reg_list, uip_nd6_ns_output_netif]; done)
    | (simp only [uip_ds6_nbr_rm_reg_list, uip_ds6_nbr_rm_netif]
       split <;> simp only [uip_ds6_defrt_rm_reg_list, uip_ds6_defrt_rm_netif])

/-- A counted loop whose body leaves the registrations and the registration in progress
alone leaves them alone. -/
theorem for_loop_regs (body : periodic_vars → Nat → periodic_vars)
    (hbody : ∀ v i, (body v i).st.uip_ds6_reg_list = v.st.uip_ds6_reg_list ∧
      (body v i).st.uip_ds6_if.registration_in_progress =
        v.st.uip_ds6_if.registration_in_progress)
    (n : Nat) (v : periodic_vars) :
    (for_loop body n v).st.uip_ds6_reg_list = v.st.uip_ds6_reg_list ∧
    (for_loop body n v).st.uip_ds6_if.registration_in_progress =
      v.st.uip_ds6_if.registration_in_progress := by
  induction n with
  | zero => exact ⟨rfl, rfl⟩
  | succ k ih =>
    rw [for_loop_succ]
    exact ⟨(hbody _ _).1.trans ih.1, (hbody _ _).2.trans ih.2⟩

theorem uip_ds6_periodic_defrts_regs (env : Env) (v : periodic_vars) :
    (uip_ds6_periodic_defrts env v).st.uip_ds6_reg_list = v.st.uip_ds6_reg_list ∧
    (uip_ds6_periodic_defrts env v).st.uip_ds6_if.registration_in_progress =
      v.st.uip_ds6_if.registration_in_progress := by
  unfold uip_ds6_periodic_defrts
  split
  · split
    · exact ⟨uip_ds6_send_rs_reg_list _ _ _, by rw [uip_ds6_send_rs_netif]⟩
    · exact ⟨rfl, rfl⟩
  · exact for_loop_regs _ (uip_ds6_periodic_defrt_regs env) _ _

/-- A relation that is reflexive, transitive and respected by the body holds between
two successive values of a counted loop. -/
theorem for_loop_rel_from {σ : Type} (R : σ → σ → Prop) (body : σ → Nat → σ)
    (hrefl : ∀ v, R v v) (htrans : ∀ a b c, R a b → R b c → R a c)
    (hstep : ∀ v i, R v (body v i)) (k m : Nat) (init : σ) :
    R (for_loop body k init) (for_loop body (k + m) init) := by
  induction m with
  | zero => exact hrefl _
  | succ m ih =>
    have e : for_loop body (k + (m + 1)) init = body (for_loop body (k + m) init) (k + m) :=
      rfl
    rw [e]
    exact htrans _ _ _ ih (hstep _ _)

/-- A reflexive and transitive relation that every phase after the loop over the
registrations respects holds between the values before and after these phases. -/
theorem uip_ds6_periodic_rest_rel (env : Env) (R : periodic_vars → periodic_vars → Prop)
    (hrefl : ∀ v, R v v) (htrans : ∀ a b c, R a b → R b c → R a c)
    (haddr : ∀ v i, R v (uip_ds6_periodic_addr env v i))
    (hdefrts : ∀ v, R v (uip_ds6_periodic_defrts env v))
    (hpfx : ∀ v i, R v (uip_ds6_periodic_prefixes env v i))
    (hctx : ∀ v i, R v (uip_ds6_periodic_context env v i))
    (hrs : ∀ v, R v (uip_ds6_periodic_rs env v))
    (hnbr : ∀ v i, R v (uip_ds6_periodic_nbr env v i)) (v : periodic_vars) :
    R v (uip_ds6_periodic_rest env v) := by
  unfold uip_ds6_periodic_rest
  exact htrans _ _ _ (for_loop_rel R _ hrefl htrans haddr _ _)
    (htrans _ _ _ (hdefrts _)
      (htrans _ _ _ (for_loop_rel R _ hrefl htrans hpfx _ _)
        (htrans _ _ _ (for_loop_rel R _ hrefl htrans hctx _ _)
          (htrans _ _ _ (hrs _) (for_loop_rel R _ hrefl htrans hnbr _ _)))))

/-- The same for the phases between the loop over the registrations and the loop over
the neighbours. -/
theorem uip_ds6_periodic_before_nbr_rel (env : Env)
    (R : periodic_vars → periodic_vars → Prop)
    (hrefl : ∀ v, R v v) (htrans : ∀ a b c, R a b → R b c → R a c)
    (hreg : ∀ v i, R v (uip_ds6_periodic_reg env v i))
    (haddr : ∀ v i, R v (uip_ds6_periodic_addr env v i))
    (hdefrts : ∀ v, R v (uip_ds6_periodic_defrts env v))
    (hpfx : ∀ v i, R v (uip_ds6_periodic_prefixes env v i))
    (hctx : ∀ v i, R v (uip_ds6_periodic_context env v i))
    (hrs : ∀ v, R v (uip_ds6_periodic_rs env v)) (s : uip_ds6_state) :
    R { st := s, allow_output := true, min_lifetime := 4294967295, min_defrt := none }
      (uip_ds6_periodic_before_nbr env s) := by
  have h1 : R { st := s, allow_output := true, min_lifetime := 4294967295, min_defrt := none }
      (uip_ds6_periodic_regs env s) := for_loop_rel R _ hrefl htrans hreg _ _
  unfold uip_ds6_periodic_before_nbr
  dsimp only
  generalize uip_ds6_periodic_regs env s = v1 at h1 ⊢
  have h2 := for_loop_rel R _ hrefl htrans haddr v1.st.uip_ds6_if.addr_list.length v1
  generalize for_loop (uip_ds6_periodic_addr env) v1.st.uip_ds6_if.addr_list.length v1 = v2
    at h2 ⊢
  have h3 := hdefrts v2
  generalize uip_ds6_periodic_defrts env v2 = v3 at h3 ⊢
  have h4 := for_loop_rel R _ hrefl htrans hpfx v3.st.uip_ds6_prefix_list.length v3
  generalize for_loop (uip_ds6_periodic_prefixes env) v3.st.uip_ds6_prefix_list.length v3 = v4
    at h4 ⊢
  have h5 := for_loop_rel R _ hrefl htrans hctx v4.st.uip_ds6_addr_context_table.length v4
  generalize for_loop (uip_ds6_periodic_context env) v4.st.uip_ds6_addr_context_table.length v4
    = v5 at h5 ⊢
  exact htrans _ _ _ h1 (htrans _ _ _ h2 (htrans _ _ _ h3 (htrans _ _ _ h4
    (htrans _ _ _ h5 (hrs v5)))))

/-- After the loop over the registrations, nothing in the tick changes a registration
or the registration in progress. -/
theorem uip_ds6_periodic_rest_regs (env : Env) (v : periodic_vars) :
    (uip_ds6_periodic_rest env v).st.uip_ds6_reg_list = v.st.uip_ds6_reg_list ∧
    (uip_ds6_periodic_rest env v).st.uip_ds6_if.registration_in_progress =
      v.st.uip_ds6_if.registration_in_progress :=
  uip_ds6_periodic_rest_rel env
    (fun a b => b.st.uip_ds6_reg_list = a.st.uip_ds6_reg_list ∧
      b.st.uip_ds6_if.registration_in_progress = a.st.uip_ds6_if.registration_in_progress)
    (fun _ => ⟨rfl, rfl⟩) (fun _ _ _ h1 h2 => ⟨h2.1.trans h1.1, h2.2.trans h1.2⟩)
    (uip_ds6_periodic_addr_regs env) (uip_ds6_periodic_defrts_regs env)
    (uip_ds6_periodic_prefixes_regs env) (uip_ds6_periodic_context_regs env)
    (uip_ds6_periodic_rs_regs env) (uip_ds6_periodic_nbr_regs env) v

/-- The registrations and the registration in progress after a tick are those left by
the loop over the registrations. -/
theorem uip_ds6_periodic_regs_final (env : Env) (s : uip_ds6_state) :
    (uip_ds6_periodic env s).uip_ds6_reg_list =
      (uip_ds6_periodic_regs env s).st.uip_ds6_reg_list ∧
    (uip_ds6_periodic env s).uip_ds6_if.registration_in_progress =
      (uip_ds6_periodic_regs env s).st.uip_ds6_if.registration_in_progress := by
  have h := uip_ds6_periodic_rest_regs env (uip_ds6_periodic_regs env s)
  unfold uip_ds6_periodic
  dsimp only
  generalize uip_ds6_periodic_rest env (uip_ds6_periodic_regs env s) = w at h ⊢
  exact h


/-! ## Starting a registration -/

/-- The test of `uip_ds6_periodic` for a registration that needs work, as a
proposition. -/
theorem reg_needs_work_iff (env : Env) (R : uip_ds6_reg_t) :
    (decide (R.state = REG_GARBAGE_COLLECTIBLE)
      || decide (R.state = REG_TO_BE_UNREGISTERED)
      || (decide (R.state = REG_REGISTERED)
          && decide (stimer_remaining env R.reg_lifetime
                      < stimer_elapsed env R.reg_lifetime))) = true ↔
    (R.state = REG_GARBAGE_COLLECTIBLE ∨ R.state = REG_TO_BE_UNREGISTERED ∨
      (R.state = REG_REGISTERED ∧
        stimer_remaining env R.reg_lifetime < stimer_elapsed env R.reg_lifetime)) := by
  simp only [Bool.or_eq_true, Bool.and_eq_true, decide_eq_true_eq, or_assoc]

/-- The body of the loop over the registrations at a slot other than the one it would
start: with no registration in progress, an entry that is unused, expired or needs no
work costs no output and changes neither the interface nor any later slot. -/
theorem uip_ds6_periodic_reg_idle_step (env : Env) (s : uip_ds6_state) (k : Nat)
    (v : periodic_vars)
    (hnone : s.uip_ds6_if.registration_in_progress = none)
    (hk : ∀ R : uip_ds6_reg_t, s.uip_ds6_reg_list[k]? = some R → R.isused = true →
      stimer_expired env R.reg_lifetime = false →
      ¬ (R.state = REG_GARBAGE_COLLECTIBLE ∨ R.state = REG_TO_BE_UNREGISTERED ∨
        (R.state = REG_REGISTERED ∧
          stimer_remaining env R.reg_lifetime < stimer_elapsed env R.reg_lifetime)))
    (h : v.allow_output = true ∧ v.st.uip_ds6_if = s.uip_ds6_if ∧
      ∀ j, k ≤ j → v.st.uip_ds6_reg_list[j]? = s.uip_ds6_reg_list[j]?) :
    (uip_ds6_periodic_reg env v k).allow_output = true ∧
    (uip_ds6_periodic_reg env v k).st.uip_ds6_if = s.uip_ds6_if ∧
    ∀ j, k + 1 ≤ j →
      (uip_ds6_periodic_reg env v k).st.uip_ds6_reg_list[j]? = s.uip_ds6_reg_list[j]? := by
  obtain ⟨ha, hif, hr⟩ := h
  have hr' : ∀ j, k + 1 ≤ j → v.st.uip_ds6_reg_list[j]? = s.uip_ds6_reg_list[j]? :=
    fun j hj => hr j (by omega)
  unfold uip_ds6_periodic_reg
  cases hloc : v.st.uip_ds6_reg_list[k]? with
  | none => exact ⟨ha, hif, hr'⟩
  | some locreg =>
    simp only []
    by_cases hu : locreg.isused = true
    · rw [if_pos hu]
      by_cases he : stimer_expired env locreg.reg_lifetime = true
      · rw [if_pos he]
        refine ⟨ha, ?_, ?_⟩
        · simpa using hif
        · intro j hj
          simp only [uip_ds6_reg_rm_reg_list]
          rw [update_slot_getElem?_ne _ _ (by omega)]
          exact hr' j hj
      · rw [if_neg he, if_pos ha]
        have hsome : ¬ v.st.uip_ds6_if.registration_in_progress.isSome = true := by
          rw [hif, hnone]; simp
        rw [if_neg hsome]
        have hw := hk locreg ((hr k (Nat.le_refl k)).symm.trans hloc) hu
          (by simpa using he)
        rw [if_neg (fun hc => hw ((reg_needs_work_iff env locreg).mp hc))]
        exact ⟨ha, hif, hr'⟩
    · rw [if_neg hu]
      exact ⟨ha, hif, hr'⟩

/-- The loop over the registrations up to the first slot that needs work. -/
theorem uip_ds6_periodic_reg_idle_loop (env : Env) (s : uip_ds6_state) (i : Nat)
    (hnone : s.uip_ds6_if.registration_in_progress = none)
    (hfirst : ∀ (j : Nat) (R : uip_ds6_reg_t), j < i → s.uip_ds6_reg_list[j]? = some R →
      R.isused = true → stimer_expired env R.reg_lifetime = false →
      ¬ (R.state = REG_GARBAGE_COLLECTIBLE ∨ R.state = REG_TO_BE_UNREGISTERED ∨
        (R.state = REG_REGISTERED ∧
          stimer_remaining env R.reg_lifetime < stimer_elapsed env R.reg_lifetime))) :
    ∀ k, k ≤ i →
      (for_loop (uip_ds6_periodic_reg env) k
        { st := s, allow_output := true, min_lifetime := 4294967295,
          min_defrt := none }).allow_output = true ∧
      (for_loop (uip_ds6_periodic_reg env) k
        { st := s, allow_output := true, min_lifetime := 4294967295,
          min_defrt := none }).st.uip_ds6_if = s.uip_ds6_if ∧
      ∀ j, k ≤ j →
        (for_loop (uip_ds6_periodic_reg env) k
          { st := s, allow_output := true, min_lifetime := 4294967295,
            min_defrt := none }).st.uip_ds6_reg_list[j]? = s.uip_ds6_reg_list[j]? := by
  intro k
  induction k with
  | zero => intro _; exact ⟨rfl, rfl, fun _ _ => rfl⟩
  | succ k ih =>
    intro hk
    rw [for_loop_succ]
    exact uip_ds6_periodic_reg_idle_step env s k _ hnone
      (fun R hR => hfirst k R (by omega) hR) (ih (by omega))

/-- The body of the loop over the registrations at the slot it starts: the handle refers
to the slot, the counter is incremented, the retransmit timer is armed and the output
budget is spent. -/
theorem uip_ds6_periodic_reg_start_step (env : Env) (v : periodic_vars) (i : Nat)
    (R : uip_ds6_reg_t)
    (hloc : v.st.uip_ds6_reg_list[i]? = some R) (hu : R.isused = true)
    (he : stimer_expired env R.reg_lifetime = false) (ha : v.allow_output = true)
    (hnone : v.st.uip_ds6_if.registration_in_progress = none)
    (hwork : R.state = REG_GARBAGE_COLLECTIBLE ∨ R.state = REG_TO_BE_UNREGISTERED ∨
      (R.state = REG_REGISTERED ∧
        stimer_remaining env R.reg_lifetime < stimer_elapsed env R.reg_lifetime)) :
    (uip_ds6_periodic_reg env v i).allow_output = false ∧
    (uip_ds6_periodic_reg env v i).st.uip_ds6_if.registration_in_progress = some i ∧
    (uip_ds6_periodic_reg env v i).st.uip_ds6_reg_list[i]? =
      some { R with
             reg_count := (R.reg_count + 1) % 256,
             registration_timer :=
               timer_set env ((v.st.uip_ds6_if.retrans_timer / 1000) * env.CLOCK_SECOND) } := by
  unfold uip_ds6_periodic_reg
  rw [hloc]
  simp only []
  rw [if_pos hu, if_neg (by rw [he]; simp), if_pos ha,
    if_neg (by rw [hnone]; simp), if_pos ((reg_needs_work_iff env R).mpr hwork)]
  refine ⟨rfl, ?_, ?_⟩
  · simp only [uip_nd6_ns_output_netif]
  · simp only [uip_nd6_ns_output_reg_list]
    rw [update_slot_getElem?_self, hloc]
    rfl

/-- The body of the loop over the registrations once the output budget is spent: it
keeps the budget spent and the handle, and changes no slot but its own. -/
theorem uip_ds6_periodic_reg_spent_step (env : Env) (v : periodic_vars) (k i : Nat)
    (hki : k ≠ i) (ha : v.allow_output = false) :
    (uip_ds6_periodic_reg env v k).allow_output = false ∧
    (uip_ds6_periodic_reg env v k).st.uip_ds6_if.registration_in_progress =
      v.st.uip_ds6_if.registration_in_progress ∧
    (uip_ds6_periodic_reg env v k).st.uip_ds6_reg_list[i]? = v.st.uip_ds6_reg_list[i]? := by
  unfold uip_ds6_periodic_reg
  cases hloc : v.st.uip_ds6_reg_list[k]? with
  | none => exact ⟨ha, rfl, rfl⟩
  | some locreg =>
    simp only []
    by_cases hu : locreg.isused = true
    · rw [if_pos hu]
      by_cases he : stimer_expired env locreg.reg_lifetime = true
      · rw [if_pos he]
        refine ⟨ha, ?_, ?_⟩
        · simp only [uip_ds6_reg_rm_netif]
        · simp only [uip_ds6_reg_rm_reg_list]
          rw [update_slot_getElem?_ne _ _ hki]
      · rw [if_neg he, if_neg (by rw [ha]; simp)]
        exact ⟨ha, rfl, rfl⟩
    · rw [if_neg hu]
      exact ⟨ha, rfl, rfl⟩

/-- The loop over the registrations after the slot that spent the budget. -/
theorem uip_ds6_periodic_reg_spent_loop (env : Env) (v0 : periodic_vars) (i : Nat)
    (ha : (for_loop (uip_ds6_periodic_reg env) (i + 1) v0).allow_output = false) :
    ∀ m,
      (for_loop (uip_ds6_periodic_reg env) (i + 1 + m) v0).allow_output = false ∧
      (for_loop (uip_ds6_periodic_reg env) (i + 1 + m) v0).st.uip_ds6_if.registration_in_progress
        = (for_loop (uip_ds6_periodic_reg env) (i + 1) v0).st.uip_ds6_if.registration_in_progress ∧
      (for_loop (uip_ds6_periodic_reg env) (i + 1 + m) v0).st.uip_ds6_reg_list[i]?
        = (for_loop (uip_ds6_periodic_reg env) (i + 1) v0).st.uip_ds6_reg_list[i]? := by
  intro m
  induction m with
  | zero => exact ⟨ha, rfl, rfl⟩
  | succ m ih =>
    have e : for_loop (uip_ds6_periodic_reg env) (i + 1 + (m + 1)) v0
        = uip_ds6_periodic_reg env (for_loop (uip_ds6_periodic_reg env) (i + 1 + m) v0)
            (i + 1 + m) := rfl
    rw [e]
    obtain ⟨h1, h2, h3⟩ := uip_ds6_periodic_reg_spent_step env _ (i + 1 + m) i (by omega) ih.1
    exact ⟨h1, h2.trans ih.2.1, h3.trans ih.2.2⟩

/-- The start of a registration, seen after the loop over the registrations. -/
theorem uip_ds6_periodic_regs_start (env : Env) (s : uip_ds6_state) (i : Nat)
    (R : uip_ds6_reg_t)
    (hnone : s.uip_ds6_if.registration_in_progress = none)
    (hR : s.uip_ds6_reg_list[i]? = some R) (hu : R.isused = true)
    (he : stimer_expired env R.reg_lifetime = false)
    (hwork : R.state = REG_GARBAGE_COLLECTIBLE ∨ R.state = REG_TO_BE_UNREGISTERED ∨
      (R.state = REG_REGISTERED ∧
        stimer_remaining env R.reg_lifetime < stimer_elapsed env R.reg_lifetime))
    (hfirst : ∀ (j : Nat) (R' : uip_ds6_reg_t), j < i → s.uip_ds6_reg_list[j]? = some R' →
      R'.isused = true → stimer_expired env R'.reg_lifetime = false →
      ¬ (R'.state = REG_GARBAGE_COLLECTIBLE ∨ R'.state = REG_TO_BE_UNREGISTERED ∨
        (R'.state = REG_REGISTERED ∧
          stimer_remaining env R'.reg_lifetime < stimer_elapsed env R'.reg_lifetime))) :
    (uip_ds6_periodic_regs env s).st.uip_ds6_if.registration_in_progress = some i ∧
    (uip_ds6_periodic_regs env s).st.uip_ds6_reg_list[i]? =
      some { R with
             reg_count := (R.reg_count + 1) % 256,
             registration_timer :=
               timer_set env ((s.uip_ds6_if.retrans_timer / 1000) * env.CLOCK_SECOND) } := by
  obtain ⟨ha, hif, hr⟩ := uip_ds6_periodic_reg_idle_loop env s i hnone hfirst i (Nat.le_refl i)
  have hstep := uip_ds6_periodic_reg_start_step env _ i R ((hr i (Nat.le_refl i)).trans hR) hu
    he ha (by rw [hif]; exact hnone) hwork
  rw [hif] at hstep
  have hlt : i < s.uip_ds6_reg_list.length := by
    rcases Nat.lt_or_ge i s.uip_ds6_reg_list.length with h | h
    · exact h
    · rw [List.getElem?_eq_none h] at hR; cases hR
  have hq := uip_ds6_periodic_reg_spent_loop env
    { st := s, allow_output := true, min_lifetime := 4294967295, min_defrt := none } i
    (by rw [for_loop_succ]; exact hstep.1) (s.uip_ds6_reg_list.length - (i + 1))
  have hn : i + 1 + (s.uip_ds6_reg_list.length - (i + 1)) = s.uip_ds6_reg_list.length := by
    omega
  rw [hn, for_loop_succ] at hq
  have hregs : uip_ds6_periodic_regs env s = for_loop (uip_ds6_periodic_reg env)
      s.uip_ds6_reg_list.length
      { st := s, allow_output := true, min_lifetime := 4294967295, min_defrt := none } := rfl
  rw [hregs]
  exact ⟨hq.2.1.trans hstep.2.1, hq.2.2.trans hstep.2.2⟩

/-- C31 (where the claim fails). A registration in state `REG_REGISTERED` whose
remaining lifetime (50 s) is below the elapsed one (100 s), with `reg_count = 1` left
from its first campaign and no registration in progress: after the tick the handle
refers to it and `reg_count` is 2, not 1. -/
theorem uip_ds6_periodic_start_increments :
    reg_renew_example.uip_ds6_if.registration_in_progress = none ∧
    (reg_renew_example.uip_ds6_reg_list[0]?).map (fun R => R.reg_count) = some 1 ∧
    (uip_ds6_periodic (env_at 100) reg_renew_example).uip_ds6_if.registration_in_progress
      = some 0 ∧
    ((uip_ds6_periodic (env_at 100) reg_renew_example).uip_ds6_reg_list[0]?).map
      (fun R => R.reg_count) = some 2 := by
  decide

/-- C31 (amended). If at the start of a tick no registration is in progress and `R`
(slot `i`) is the first in-use registration whose lifetime has not expired and that
needs work, then after `uip_ds6_periodic` the handle `registration_in_progress` refers
to `R`, and `R` is as before except that `reg_count` is one more than before the tick
(modulo 256) and the retransmit timer is armed to `retrans_timer`; hence `reg_count = 1`
when it was 0 before the tick, the value `uip_ds6_reg_add` gives it. -/
theorem uip_ds6_periodic_starts_registration (env : Env) (s : uip_ds6_state) (i : Nat)
    (R : uip_ds6_reg_t)
    (hnone : s.uip_ds6_if.registration_in_progress = none)
    (hR : s.uip_ds6_reg_list[i]? = some R) (hu : R.isused = true)
    (he : stimer_expired env R.reg_lifetime = false)
    (hwork : R.state = REG_GARBAGE_COLLECTIBLE ∨ R.state = REG_TO_BE_UNREGISTERED ∨
      (R.state = REG_REGISTERED ∧
        stimer_remaining env R.reg_lifetime < stimer_elapsed env R.reg_lifetime))
    (hfirst : ∀ (j : Nat) (R' : uip_ds6_reg_t), j < i → s.uip_ds6_reg_list[j]? = some R' →
      R'.isused = true → stimer_expired env R'.reg_lifetime = false →
      ¬ (R'.state = REG_GARBAGE_COLLECTIBLE ∨ R'.state = REG_TO_BE_UNREGISTERED ∨
        (R'.state = REG_REGISTERED ∧
          stimer_remaining env R'.reg_lifetime < stimer_elapsed env R'.reg_lifetime))) :
    (uip_ds6_periodic env s).uip_ds6_if.registration_in_progress = some i ∧
    (uip_ds6_periodic env s).uip_ds6_reg_list[i]? =
      some { R with
             reg_count := (R.reg_count + 1) % 256,
             registration_timer :=
               timer_set env ((s.uip_ds6_if.retrans_timer / 1000) * env.CLOCK_SECOND) } ∧
    (R.reg_count = 0 →
      ((uip_ds6_periodic env s).uip_ds6_reg_list[i]?).map (fun R' => R'.reg_count)
        = some 1) := by
  have hfin := uip_ds6_periodic_regs_final env s
  have hst := uip_ds6_periodic_regs_start env s i R hnone hR hu he hwork hfirst
  refine ⟨hfin.2.trans hst.1, ?_, ?_⟩
  · rw [hfin.1]; exact hst.2
  · intro h0
    rw [hfin.1, hst.2, h0]
    rfl

set_option maxRecDepth 100000 in
/-- C31 (amended), on a sample: a registration in state `REG_TO_BE_UNREGISTERED` with
`reg_count = 0` and no registration in progress: after the tick the handle refers to
it and `reg_count` is 1. -/
theorem uip_ds6_periodic_starts_registration_witness :
    reg_unregister_example.uip_ds6_if.registration_in_progress = none ∧
    (uip_ds6_periodic sample_env reg_unregister_example).uip_ds6_if.registration_in_progress
      = some 0 ∧
    ((uip_ds6_periodic sample_env reg_unregister_example).uip_ds6_reg_list[0]?).map
      (fun R' => R'.reg_count) = some 1 :=
  have h := uip_ds6_periodic_starts_registration sample_env reg_unregister_example 0
    (sample_reg 1 0 REG_TO_BE_UNREGISTERED 90 600 0 0 0) (by decide) (by decide) (by decide)
    (by decide) (Or.inr (Or.inl (by decide))) (fun j _ hj => absurd hj (Nat.not_lt_zero j))
  ⟨by decide, h.1, h.2.2 (by decide)⟩


/-! ## The default routers only lose entries during a tick -/

theorem uip_ds6_periodic_reg_nud_defrt_shrinks (env : Env) (s : uip_ds6_state) (i : Nat)
    (locreg : uip_ds6_reg_t) :
    table_shrinks (fun (X : uip_ds6_defrt_t) => X.isused) (fun X => X.ipaddr)
      s.uip_ds6_defrt_list (uip_ds6_periodic_reg_nud env s i locreg).uip_ds6_defrt_list := by
  unfold uip_ds6_periodic_reg_nud
  dsimp only
  exact table_shrinks_trans _ _ (shrinks_reg_rm s i).2.2.2.1
    (table_shrinks_trans _ _ (shrinks_nbr_rm _ _).2.2.2.1
      (table_shrinks_trans _ _ (shrinks_defrt_rm _ _).2.2.2.1
        (table_shrinks_trans _ _ (shrinks_reg_cleanup_defrt _ _).2.2.2.1
          (uip_ds6_send_rs_defrt_shrinks env _ _))))

theorem uip_ds6_periodic_reg_defrt_shrinks (env : Env) (v : periodic_vars) (i : Nat) :
    table_shrinks (fun (X : uip_ds6_defrt_t) => X.isused) (fun X => X.ipaddr)
      v.st.uip_ds6_defrt_list (uip_ds6_periodic_reg env v i).st.uip_ds6_defrt_list := by
  unfold uip_ds6_periodic_reg
  repeat' split
  all_goals first
    | exact table_shrinks_refl _ _ _
    | exact (shrinks_reg_rm _ _).2.2.2.1
    | exact uip_ds6_periodic_reg_nud_defrt_shrinks env _ _ _

theorem uip_ds6_periodic_addr_defrt_shrinks (env : Env) (v : periodic_vars) (i : Nat) :
    table_shrinks (fun (X : uip_ds6_defrt_t) => X.isused) (fun X => X.ipaddr)
      v.st.uip_ds6_defrt_list (uip_ds6_periodic_addr env v i).st.uip_ds6_defrt_list := by
  unfold uip_ds6_periodic_addr
  repeat' split
  all_goals exact table_shrinks_refl _ _ _

theorem uip_ds6_periodic_defrt_defrt_shrinks (env : Env) (v : periodic_vars) (i : Nat) :
    table_shrinks (fun (X : uip_ds6_defrt_t) => X.isused) (fun X => X.ipaddr)
      v.st.uip_ds6_defrt_list (uip_ds6_periodic_defrt env v i).st.uip_ds6_defrt_list := by
  unfold uip_ds6_periodic_defrt
  repeat' split
  all_goals first
    | exact table_shrinks_refl _ _ _
    | exact (shrinks_defrt_rm _ _).2.2.2.1

theorem uip_ds6_periodic_defrts_defrt_shrinks (env : Env) (v : periodic_vars) :
    table_shrinks (fun (X : uip_ds6_defrt_t) => X.isused) (fun X => X.ipaddr)
      v.st.uip_ds6_defrt_list (uip_ds6_periodic_defrts env v).st.uip_ds6_defrt_list := by
  unfold uip_ds6_periodic_defrts
  split
  · split
    · exact uip_ds6_send_rs_defrt_shrinks env _ _
    · exact table_shrinks_refl _ _ _
  · exact for_loop_rel
      (fun (a b : periodic_vars) =>
        table_shrinks (fun (X : uip_ds6_defrt_t) => X.isused) (fun X => X.ipaddr)
          a.st.uip_ds6_defrt_list b.st.uip_ds6_defrt_list) _
      (fun _ => table_shrinks_refl _ _ _) (fun _ _ _ h1 h2 => table_shrinks_trans _ _ h1 h2)
      (uip_ds6_periodic_defrt_defrt_shrinks env) _ _

theorem uip_ds6_periodic_prefixes_defrt_shrinks (env : Env) (v : periodic_vars) (i : Nat) :
    table_shrinks (fun (X : uip_ds6_defrt_t) => X.isused) (fun X => X.ipaddr)
      v.st.uip_ds6_defrt_list (uip_ds6_periodic_prefixes env v i).st.uip_ds6_defrt_list := by
  unfold uip_ds6_periodic_prefixes
  repeat' split
  all_goals exact table_shrinks_refl _ _ _

theorem uip_ds6_periodic_context_defrt_shrinks (env : Env) (v : periodic_vars) (i : Nat) :
    table_shrinks (fun (X : uip_ds6_defrt_t) => X.isused) (fun X => X.ipaddr)
      v.st.uip_ds6_defrt_list (uip_ds6_periodic_context env v i).st.uip_ds6_defrt_list := by
  unfold uip_ds6_periodic_context
  repeat' split
  all_goals exact table_shrinks_refl _ _ _

theorem uip_ds6_periodic_rs_defrt_shrinks (env : Env) (v : periodic_vars) :
    table_shrinks (fun (X : uip_ds6_defrt_t) => X.isused) (fun X => X.ipaddr)
      v.st.uip_ds6_defrt_list (uip_ds6_periodic_rs env v).st.uip_ds6_defrt_list := by
  unfold uip_ds6_periodic_rs
  split
  · exact uip_ds6_send_rs_defrt_shrinks env _ _
  · exact table_shrinks_refl _ _ _

theorem uip_ds6_periodic_nbr_defrt_shrinks (env : Env) (v : periodic_vars) (i : Nat) :
    table_shrinks (fun (X : uip_ds6_defrt_t) => X.isused) (fun X => X.ipaddr)
      v.st.uip_ds6_defrt_list (uip_ds6_periodic_nbr env v i).st.uip_ds6_defrt_list := by
  unfold uip_ds6_periodic_nbr
  repeat' split
  all_goals first
    | exact table_shrinks_refl _ _ _
    | (apply table_shrinks_of_eq; simp only [uip_nd6_ns_output_defrt_list]; done)
    | (refine table_shrinks_trans _ _ ?_ (shrinks_nbr_rm _ _).2.2.2.1
       split
       · exact (shrinks_defrt_rm _ _).2.2.2.1
       · exact table_shrinks_refl _ _ _)

/-- When the loop over the neighbours begins, the default routers in use are among those
in use at the start of the tick, with their addresses. -/
theorem uip_ds6_periodic_before_nbr_defrt_shrinks (env : Env) (s : uip_ds6_state) :
    table_shrinks (fun (X : uip_ds6_defrt_t) => X.isused) (fun X => X.ipaddr)
      s.uip_ds6_defrt_list (uip_ds6_periodic_before_nbr env s).st.uip_ds6_defrt_list :=
  uip_ds6_periodic_before_nbr_rel env
    (fun (a b : periodic_vars) =>
      table_shrinks (fun (X : uip_ds6_defrt_t) => X.isused) (fun X => X.ipaddr)
        a.st.uip_ds6_defrt_list b.st.uip_ds6_defrt_list)
    (fun _ => table_shrinks_refl _ _ _) (fun _ _ _ h1 h2 => table_shrinks_trans _ _ h1 h2)
    (uip_ds6_periodic_reg_defrt_shrinks env) (uip_ds6_periodic_addr_defrt_shrinks env)
    (uip_ds6_periodic_defrts_defrt_shrinks env) (uip_ds6_periodic_prefixes_defrt_shrinks env)
    (uip_ds6_periodic_context_defrt_shrinks env) (uip_ds6_periodic_rs_defrt_shrinks env) s

/-- The loop over the neighbours only removes default routers. -/
theorem uip_ds6_periodic_nbr_loop_defrt_shrinks (env : Env) (v : periodic_vars) (n : Nat) :
    table_shrinks (fun (X : uip_ds6_defrt_t) => X.isused) (fun X => X.ipaddr)
      v.st.uip_ds6_defrt_list
      (for_loop (uip_ds6_periodic_nbr env) n v).st.uip_ds6_defrt_list :=
  for_loop_rel
    (fun (a b : periodic_vars) =>
      table_shrinks (fun (X : uip_ds6_defrt_t) => X.isused) (fun X => X.ipaddr)
        a.st.uip_ds6_defrt_list b.st.uip_ds6_defrt_list) _
    (fun _ => table_shrinks_refl _ _ _) (fun _ _ _ h1 h2 => table_shrinks_trans _ _ h1 h2)
    (uip_ds6_periodic_nbr_defrt_shrinks env) n v

/-- A table that only lost entries has no in-use entry with a key that had none. -/
theorem table_shrinks_no_key {α κ : Type} (used : α → Bool) (key : α → κ) {l l' : List α}
    (h : table_shrinks used key l l') (a : κ)
    (hno : ∀ e ∈ l, used e = true → key e ≠ a) :
    ∀ e ∈ l', used e = true → key e ≠ a := by
  intro e he hu hk
  obtain ⟨j, hj⟩ := List.mem_iff_getElem?.mp he
  obtain ⟨e0, he0, hu0, hk0⟩ := h.2 j e hj hu
  exact hno e0 (List.mem_iff_getElem?.mpr ⟨j, he0⟩) hu0 (hk0.trans hk)

/-! ## The loop over the neighbours -/

theorem uip_ds6_periodic_nbr_length (env : Env) (v : periodic_vars) (k : Nat) :
    (uip_ds6_periodic_nbr env v k).st.uip_ds6_nbr_cache.length =
      v.st.uip_ds6_nbr_cache.length := by
  unfold uip_ds6_periodic_nbr
  repeat' split
  all_goals first
    | rfl
    | (simp only [update_slot_length, uip_nd6_ns_output_nbr_cache]; done)
    | (simp only [uip_ds6_nbr_rm, update_slot_length]
       split <;> simp only [uip_ds6_defrt_rm_nbr_cache])

theorem uip_ds6_periodic_nbr_loop_length (env : Env) (v : periodic_vars) (n : Nat) :
    (for_loop (uip_ds6_periodic_nbr env) n v).st.uip_ds6_nbr_cache.length =
      v.st.uip_ds6_nbr_cache.length := by
  induction n with
  | zero => rfl
  | succ k ih => rw [for_loop_succ, uip_ds6_periodic_nbr_length, ih]

/-- The body of the loop over the neighbours changes no slot of the cache but its own. -/
theorem uip_ds6_periodic_nbr_other (env : Env) (v : periodic_vars) (k i : Nat)
    (hki : k ≠ i) :
    (uip_ds6_periodic_nbr env v k).st.uip_ds6_nbr_cache[i]? = v.st.uip_ds6_nbr_cache[i]? := by
  unfold uip_ds6_periodic_nbr
  repeat' split
  all_goals first
    | rfl
    | (simp only [uip_nd6_ns_output_nbr_cache, update_slot_getElem?_ne _ _ hki]; done)
    | (simp only [uip_ds6_nbr_rm, update_slot_getElem?_ne _ _ hki]
       split <;> simp only [uip_ds6_defrt_rm_nbr_cache])

/-- The slots the loop over the neighbours has passed are not touched again. -/
theorem uip_ds6_periodic_nbr_loop_passed (env : Env) (v0 : periodic_vars) (i : Nat) :
    ∀ m, (for_loop (uip_ds6_periodic_nbr env) (i + 1 + m) v0).st.uip_ds6_nbr_cache[i]? =
      (for_loop (uip_ds6_periodic_nbr env) (i + 1) v0).st.uip_ds6_nbr_cache[i]? := by
  intro m
  induction m with
  | zero => rfl
  | succ m ih =>
    have e : for_loop (uip_ds6_periodic_nbr env) (i + 1 + (m + 1)) v0
        = uip_ds6_periodic_nbr env (for_loop (uip_ds6_periodic_nbr env) (i + 1 + m) v0)
            (i + 1 + m) := rfl
    rw [e, uip_ds6_periodic_nbr_other env _ (i + 1 + m) i (by omega)]
    exact ih

theorem uip_ds6_periodic_at_nbr_succ (env : Env) (s : uip_ds6_state) (i : Nat) :
    uip_ds6_periodic_at_nbr env s (i + 1) =
      uip_ds6_periodic_nbr env (uip_ds6_periodic_at_nbr env s i) i := by
  unfold uip_ds6_periodic_at_nbr
  exact for_loop_succ _ _ _

theorem uip_ds6_periodic_at_nbr_length (env : Env) (s : uip_ds6_state) (i : Nat) :
    (uip_ds6_periodic_at_nbr env s i).st.uip_ds6_nbr_cache.length =
      (uip_ds6_periodic_before_nbr env s).st.uip_ds6_nbr_cache.length := by
  unfold uip_ds6_periodic_at_nbr
  exact uip_ds6_periodic_nbr_loop_length env _ i

/-- The phases after the loop over the registrations end with the loop over the
neighbours. -/
theorem uip_ds6_periodic_rest_eq_at_nbr (env : Env) (s : uip_ds6_state) :
    uip_ds6_periodic_rest env (uip_ds6_periodic_regs env s) =
      uip_ds6_periodic_at_nbr env s
        (uip_ds6_periodic_before_nbr env s).st.uip_ds6_nbr_cache.length := by
  unfold uip_ds6_periodic_rest uip_ds6_periodic_at_nbr uip_ds6_periodic_before_nbr
  dsimp only

/-- The neighbour cache and the default routers after a tick are those the loop over
the neighbours leaves. -/
theorem uip_ds6_periodic_tables_at_nbr (env : Env) (s : uip_ds6_state) :
    (uip_ds6_periodic env s).uip_ds6_nbr_cache =
      (uip_ds6_periodic_at_nbr env s
        (uip_ds6_periodic_before_nbr env s).st.uip_ds6_nbr_cache.length).st.uip_ds6_nbr_cache ∧
    (uip_ds6_periodic env s).uip_ds6_defrt_list =
      (uip_ds6_periodic_at_nbr env s
        (uip_ds6_periodic_before_nbr env s).st.uip_ds6_nbr_cache.length).st.uip_ds6_defrt_list := by
  rw [← uip_ds6_periodic_rest_eq_at_nbr]
  unfold uip_ds6_periodic
  dsimp only
  generalize uip_ds6_periodic_rest env (uip_ds6_periodic_regs env s) = w
  exact ⟨rfl, rfl⟩

/-- Slot `i` of the cache after a tick is what the body of the loop left in it. -/
theorem uip_ds6_periodic_nbr_slot (env : Env) (s : uip_ds6_state) (i : Nat)
    (hi : i < (uip_ds6_periodic_at_nbr env s i).st.uip_ds6_nbr_cache.length) :
    (uip_ds6_periodic env s).uip_ds6_nbr_cache[i]? =
      (uip_ds6_periodic_at_nbr env s (i + 1)).st.uip_ds6_nbr_cache[i]? := by
  rw [uip_ds6_periodic_at_nbr_length] at hi
  have hq := uip_ds6_periodic_nbr_loop_passed env (uip_ds6_periodic_before_nbr env s) i
    ((uip_ds6_periodic_before_nbr env s).st.uip_ds6_nbr_cache.length - (i + 1))
  have hn : i + 1 + ((uip_ds6_periodic_before_nbr env s).st.uip_ds6_nbr_cache.length - (i + 1))
      = (uip_ds6_periodic_before_nbr env s).st.uip_ds6_nbr_cache.length := by omega
  rw [hn] at hq
  rw [(uip_ds6_periodic_tables_at_nbr env s).1]
  unfold uip_ds6_periodic_at_nbr
  exact hq

/-- The default routers in use after a tick are among those in use after the body of
the loop over the neighbours has handled slot `i`. -/
theorem uip_ds6_periodic_defrt_after_slot (env : Env) (s : uip_ds6_state) (i : Nat)
    (hi : i < (uip_ds6_periodic_at_nbr env s i).st.uip_ds6_nbr_cache.length) :
    table_shrinks (fun (X : uip_ds6_defrt_t) => X.isused) (fun X => X.ipaddr)
      (uip_ds6_periodic_at_nbr env s (i + 1)).st.uip_ds6_defrt_list
      (uip_ds6_periodic env s).uip_ds6_defrt_list := by
  rw [uip_ds6_periodic_at_nbr_length] at hi
  have hq := for_loop_rel_from
    (fun (a b : periodic_vars) =>
      table_shrinks (fun (X : uip_ds6_defrt_t) => X.isused) (fun X => X.ipaddr)
        a.st.uip_ds6_defrt_list b.st.uip_ds6_defrt_list) (uip_ds6_periodic_nbr env)
    (fun _ => table_shrinks_refl _ _ _) (fun _ _ _ h1 h2 => table_shrinks_trans _ _ h1 h2)
    (uip_ds6_periodic_nbr_defrt_shrinks env) (i + 1)
    ((uip_ds6_periodic_before_nbr env s).st.uip_ds6_nbr_cache.length - (i + 1))
    (uip_ds6_periodic_before_nbr env s)
  have hn : i + 1 + ((uip_ds6_periodic_before_nbr env s).st.uip_ds6_nbr_cache.length - (i + 1))
      = (uip_ds6_periodic_before_nbr env s).st.uip_ds6_nbr_cache.length := by omega
  rw [hn] at hq
  rw [(uip_ds6_periodic_tables_at_nbr env s).2]
  unfold uip_ds6_periodic_at_nbr
  exact hq

/-- When the loop over the neighbours reaches slot `i`, the default routers in use are
among those in use at the start of the tick. -/
theorem uip_ds6_periodic_at_nbr_defrt_shrinks (env : Env) (s : uip_ds6_state) (i : Nat) :
    table_shrinks (fun (X : uip_ds6_defrt_t) => X.isused) (fun X => X.ipaddr)
      s.uip_ds6_defrt_list (uip_ds6_periodic_at_nbr env s i).st.uip_ds6_defrt_list := by
  unfold uip_ds6_periodic_at_nbr
  exact table_shrinks_trans _ _ (uip_ds6_periodic_before_nbr_defrt_shrinks env s)
    (uip_ds6_periodic_nbr_loop_defrt_shrinks env _ i)

/-- The body of the loop over the neighbours at an entry in state `NBR_PROBE` whose
solicitations are exhausted, with the output budget unused: the router the look-up
returns and the neighbour are removed. -/
theorem uip_ds6_periodic_nbr_probe_end (env : Env) (v : periodic_vars) (i : Nat)
    (N : uip_ds6_nbr_t)
    (hloc : v.st.uip_ds6_nbr_cache[i]? = some N) (hu : N.isused = true)
    (hp : N.state = NBR_PROBE) (hc : env.UIP_ND6_MAX_UNICAST_SOLICIT ≤ N.nscount)
    (ha : v.allow_output = true) :
    uip_ds6_periodic_nbr env v i =
      { v with
        st := uip_ds6_nbr_rm
          (if (uip_ds6_defrt_lookup v.st N.ipaddr).isSome then
            uip_ds6_defrt_rm v.st (uip_ds6_defrt_lookup v.st N.ipaddr) else v.st) (some i) } := by
  unfold uip_ds6_periodic_nbr
  rw [hloc]
  simp only []
  rw [if_pos hu, if_neg (by rw [hp]; decide), if_neg (by rw [hp]; decide), if_pos hp,
    if_pos ha, if_pos hc]

/-- The body of the loop over the neighbours at an entry in state `NBR_PROBE` when the
output budget is spent: nothing happens. -/
theorem uip_ds6_periodic_nbr_probe_spent (env : Env) (v : periodic_vars) (i : Nat)
    (N : uip_ds6_nbr_t)
    (hloc : v.st.uip_ds6_nbr_cache[i]? = some N) (hu : N.isused = true)
    (hp : N.state = NBR_PROBE) (ha : v.allow_output = false) :
    uip_ds6_periodic_nbr env v i = v := by
  unfold uip_ds6_periodic_nbr
  rw [hloc]
  simp only []
  rw [if_pos hu, if_neg (by rw [hp]; decide), if_neg (by rw [hp]; decide), if_pos hp,
    if_neg (by rw [ha]; simp)]

/-- Removing the router the look-up of `a` returns, if any, from a list whose in-use
routers have distinct addresses leaves no in-use router with that address. -/
theorem uip_ds6_defrt_rm_lookup_none_left (s : uip_ds6_state) (a : uip_ipaddr_t)
    (hdist : defrt_addrs_distinct s) :
    ∀ X ∈ (if (uip_ds6_defrt_lookup s a).isSome then
        uip_ds6_defrt_rm s (uip_ds6_defrt_lookup s a) else s).uip_ds6_defrt_list,
      X.isused = true → X.ipaddr ≠ a := by
  intro X hX hu ha
  cases hl : uip_ds6_defrt_lookup s a with
  | none =>
    rw [hl] at hX
    exact uip_ds6_defrt_lookup_none s a hl X hX ⟨hu, ha⟩
  | some d =>
    rw [hl] at hX
    obtain ⟨e, he, heu, hea, _⟩ := uip_ds6_defrt_lookup_some s a d hl
    obtain ⟨j, hj⟩ := List.mem_iff_getElem?.mp hX
    simp only [Option.isSome_some, if_true, uip_ds6_defrt_rm] at hj
    rw [update_slot_getElem?] at hj
    by_cases hdj : d = j
    · subst hdj
      rw [if_pos rfl, he] at hj
      simp only [Option.map_some', Option.some.injEq] at hj
      rw [← hj] at hu
      cases hu
    · rw [if_neg hdj] at hj
      exact hdj (pairwise_distinct_index (fun (e : uip_ds6_defrt_t) => e.isused)
        (fun e => e.ipaddr) _ hdist d j e X he hj heu hu (hea.trans ha.symm))

set_option maxRecDepth 100000 in
/-- C33 (where the claim fails). Two in-use default routers have the address `fe80::a`
and the neighbour `fe80::a` is in state `NBR_PROBE` with `nscount = 3 =
UIP_ND6_MAX_UNICAST_SOLICIT`. The driver reaches the neighbour with the output budget
unused; after the tick the neighbour and router 0 are not in use, and router 1, with
the neighbour's address, still is. -/
theorem uip_ds6_periodic_probe_duplicate_router_survives :
    (uip_ds6_periodic_at_nbr sample_env probe_dup_router_example 0).allow_output = true ∧
    ((uip_ds6_periodic_at_nbr sample_env probe_dup_router_example 0).st.uip_ds6_nbr_cache[0]?).map
      (fun N => (N.isused, N.ipaddr, N.state, N.nscount))
      = some (true, addr_fe80_a, NBR_PROBE, 3) ∧
    ((uip_ds6_periodic sample_env probe_dup_router_example).uip_ds6_nbr_cache[0]?).map
      (fun N => N.isused) = some false ∧
    ((uip_ds6_periodic sample_env probe_dup_router_example).uip_ds6_defrt_list[0]?).map
      (fun X => X.isused) = some false ∧
    ((uip_ds6_periodic sample_env probe_dup_router_example).uip_ds6_defrt_list[1]?).map
      (fun X => (X.isused, X.ipaddr)) = some (true, addr_fe80_a) := by
  decide

/-- C33 (amended). Let `N` be the entry the loop of `uip_ds6_periodic` over the
neighbours finds in slot `i`, in use, in state `NBR_PROBE` and with
`nscount >= UIP_ND6_MAX_UNICAST_SOLICIT`. If the output budget of the tick is unused
when the slot is reached, then after the tick `N` is not in use, the step emits no
packet and leaves the budget unused, and, provided the in-use default routers had
pairwise distinct addresses at the start of the tick, no in-use default router has
the address of `N`. If the budget is spent when the slot is reached, the step does
nothing and slot `i` still holds `N` after the tick. -/
theorem uip_ds6_periodic_nbr_probe_failure (env : Env) (s : uip_ds6_state) (i : Nat)
    (N : uip_ds6_nbr_t)
    (hN : (uip_ds6_periodic_at_nbr env s i).st.uip_ds6_nbr_cache[i]? = some N)
    (hu : N.isused = true) (hp : N.state = NBR_PROBE)
    (hc : env.UIP_ND6_MAX_UNICAST_SOLICIT ≤ N.nscount) :
    ((uip_ds6_periodic_at_nbr env s i).allow_output = true →
      (uip_ds6_periodic env s).uip_ds6_nbr_cache[i]? = some { N with isused := false } ∧
      (uip_ds6_periodic_at_nbr env s (i + 1)).st.output =
        (uip_ds6_periodic_at_nbr env s i).st.output ∧
      (uip_ds6_periodic_at_nbr env s (i + 1)).allow_output = true ∧
      (defrt_addrs_distinct s →
        ∀ X ∈ (uip_ds6_periodic env s).uip_ds6_defrt_list,
          X.isused = true → X.ipaddr ≠ N.ipaddr)) ∧
    ((uip_ds6_periodic_at_nbr env s i).allow_output = false →
      uip_ds6_periodic_at_nbr env s (i + 1) = uip_ds6_periodic_at_nbr env s i ∧
      (uip_ds6_periodic env s).uip_ds6_nbr_cache[i]? = some N) := by
  have hi : i < (uip_ds6_periodic_at_nbr env s i).st.uip_ds6_nbr_cache.length := by
    rcases Nat.lt_or_ge i (uip_ds6_periodic_at_nbr env s i).st.uip_ds6_nbr_cache.length
      with h | h
    · exact h
    · rw [List.getElem?_eq_none h] at hN; cases hN
  have hslot := uip_ds6_periodic_nbr_slot env s i hi
  have hafter := uip_ds6_periodic_defrt_after_slot env s i hi
  have hbefore := uip_ds6_periodic_at_nbr_defrt_shrinks env s i
  rw [uip_ds6_periodic_at_nbr_succ] at hslot hafter ⊢
  generalize uip_ds6_periodic_at_nbr env s i = v at hN hi hslot hafter hbefore ⊢
  constructor
  · intro ha
    have hstep := uip_ds6_periodic_nbr_probe_end env v i N hN hu hp hc ha
    rw [hstep] at hslot hafter ⊢
    have hcache : (if (uip_ds6_defrt_lookup v.st N.ipaddr).isSome then
        uip_ds6_defrt_rm v.st (uip_ds6_defrt_lookup v.st N.ipaddr)
        else v.st).uip_ds6_nbr_cache = v.st.uip_ds6_nbr_cache := by
      split
      · exact uip_ds6_defrt_rm_nbr_cache _ _
      · rfl
    have hout : (if (uip_ds6_defrt_lookup v.st N.ipaddr).isSome then
        uip_ds6_defrt_rm v.st (uip_ds6_defrt_lookup v.st N.ipaddr)
        else v.st).output = v.st.output := by
      split
      · exact uip_ds6_defrt_rm_output _ _
      · rfl
    refine ⟨?_, ?_, ha, ?_⟩
    · rw [hslot]
      show (update_slot _ i _)[i]? = _
      rw [update_slot_getElem?_self, hcache, hN]
      rfl
    · show (uip_ds6_nbr_rm _ (some i)).output = _
      rw [uip_ds6_nbr_rm_output, hout]
    · intro hdist
      have hdist' : defrt_addrs_distinct v.st :=
        pairwise_distinct_of_shrinks (fun (X : uip_ds6_defrt_t) => X.isused)
          (fun X => X.ipaddr) hbefore hdist
      refine table_shrinks_no_key _ _ hafter N.ipaddr ?_
      show ∀ X ∈ (uip_ds6_nbr_rm _ (some i)).uip_ds6_defrt_list, _
      rw [uip_ds6_nbr_rm_defrt_list]
      exact uip_ds6_defrt_rm_lookup_none_left v.st N.ipaddr hdist'
  · intro ha
    have hstep := uip_ds6_periodic_nbr_probe_spent env v i N hN hu hp ha
    rw [hstep] at hslot ⊢
    exact ⟨rfl, hslot.trans hN⟩

set_option maxRecDepth 100000 in
/-- C33 (amended), on a sample: the neighbour `fe80::a` is in state `NBR_PROBE` with
`nscount = 3`, the routers are `fe80::a` and `fe80::b`, and the driver reaches the
neighbour with the output budget unused. After the tick the neighbour is not in use,
no in-use router has its address, and nothing was sent. -/
theorem uip_ds6_periodic_nbr_probe_failure_witness :
    (uip_ds6_periodic_at_nbr sample_env probe_router_example 0).allow_output = true ∧
    defrt_addrs_distinct probe_router_example ∧
    (uip_ds6_periodic sample_env probe_router_example).uip_ds6_nbr_cache[0]? =
      some { sample_nbr addr_fe80_a 100 NBR_PROBE with nscount := 3, isused := false } ∧
    (∀ X ∈ (uip_ds6_periodic sample_env probe_router_example).uip_ds6_defrt_list,
      X.isused = true → X.ipaddr ≠ addr_fe80_a) ∧
    (uip_ds6_periodic sample_env probe_router_example).output = [] :=
  have h := (uip_ds6_periodic_nbr_probe_failure sample_env probe_router_example 0
    { sample_nbr addr_fe80_a 100 NBR_PROBE with nscount := 3 } (by decide) (by decide)
    (by decide) (by decide)).1 (by decide)
  ⟨by decide, by decide, h.1, h.2.2.2 (by decide), by decide⟩

end Ds6
